import Mathlib

/-!
# Partial-assembly vector-divergence kernels and the TMOP energy kernel (MFEM)

A shallow embedding of `fem/integ/bilininteg_vecdiv_pa.cpp` and of `fem/tmop/tmop_pa_w2.cpp`.

* Scalars (`real_t`) are elements of an arbitrary commutative ring `R`
  ("exact arithmetic"), of a field where the code divides.
* A `Vector` / `Array<real_t>` is a flat buffer `Nat → R`; a `Reshape` view is
  the flat-index computation of `DeviceTensor`.
* A stack array such as `real_t grad[max_Q1D][max_Q1D][VDIM]` is a flat buffer
  as well, addressed through the row-major C layout; its content at the point
  of declaration is indeterminate and is therefore a parameter (`junk`).
* `for (int i = 0; i < n; ++i)` and `mfem::forall(n, ...)` (host execution)
  are `forLoop n`.
-/

set_option linter.unusedSectionVars false

namespace Mfem

universe u

/-- A flat buffer of scalars. -/
abbrev Buf (R : Type u) := Nat → R

/-- The assignment `a[i] = v`. -/
def Buf.set {R : Type u} (a : Buf R) (i : Nat) (v : R) : Buf R :=
  fun j => if j = i then v else a j

/-- The update `a[i] += v`. -/
def Buf.add {R : Type u} [Add R] (a : Buf R) (i : Nat) (v : R) : Buf R :=
  a.set i (a i + v)

/-- The loop `for (int i = 0; i < n; ++i) s = body i s`. -/
def forLoop {σ : Type u} : Nat → (Nat → σ → σ) → σ → σ
  | 0, _, s => s
  | n + 1, body, s => body n (forLoop n body s)

/-- Flat index of `Reshape(p, n1, _)(i1, i2)`: the first index runs fastest. -/
def idx2 (n1 i1 i2 : Nat) : Nat := i1 + n1 * i2

/-- Flat index of `Reshape(p, n1, n2, _)(i1, i2, i3)`. -/
def idx3 (n1 n2 i1 i2 i3 : Nat) : Nat := idx2 n1 i1 (idx2 n2 i2 i3)

/-- Flat index of `Reshape(p, n1, n2, n3, _)(i1, i2, i3, i4)`. -/
def idx4 (n1 n2 n3 i1 i2 i3 i4 : Nat) : Nat := idx2 n1 i1 (idx3 n2 n3 i2 i3 i4)

/-- Flat index of `Reshape(p, n1, n2, n3, n4, _)(i1, i2, i3, i4, i5)`. -/
def idx5 (n1 n2 n3 n4 i1 i2 i3 i4 i5 : Nat) : Nat :=
  idx2 n1 i1 (idx4 n2 n3 n4 i2 i3 i4 i5)

/-- Offset of `a[i][j]` in a C array `real_t a[_][M]`. -/
def carr2 (M i j : Nat) : Nat := idx2 M j i

/-- Offset of `a[i][j][k]` in a C array `real_t a[_][M][K]`. -/
def carr3 (M K i j k : Nat) : Nat := idx3 K M k j i

/-- Offset of `a[i][j][k][l]` in a C array `real_t a[_][M][K][L]`. -/
def carr4 (M K L i j k l : Nat) : Nat := idx4 L K M l k j i

/-- The step `f` stores `g j` in every cell `j` with `W j` and leaves the other cells alone. -/
def Writes {R : Type u} (f : Buf R → Buf R) (W : Nat → Prop) (g : Buf R) : Prop :=
  ∀ a j, (W j → f a j = g j) ∧ (¬ W j → f a j = a j)

/-- `Writes` for steps whose stored values are read from the very buffer they write: for every
buffer `a` with `P a`, the step keeps `P`, stores `g j` in every cell `j` with `W j` and leaves
the other cells alone. -/
def WritesOn {R : Type u} (P : Buf R → Prop) (f : Buf R → Buf R) (W : Nat → Prop)
    (g : Buf R) : Prop :=
  ∀ a, P a → P (f a) ∧ ∀ j, (W j → f a j = g j) ∧ (¬ W j → f a j = a j)

/-- The content of the cells of a family of views `view3 N p M K`, given as a function of the
cell: the flat index is decoded into the plane `p` and the position `(i, j, k)`. -/
def cell3 {R : Type u} (N M K : Nat) (val : Nat → Nat → Nat → Nat → R) : Buf R := fun J =>
  val (J / N) (J % N / K / M) (J % N / K % M) (J % N % K)

/-- The content of the cells of a family of views `view2 N p M`, as a function of the cell. -/
def cell2 {R : Type u} (N M : Nat) (val : Nat → Nat → Nat → R) : Buf R := fun J =>
  val (J / N) (J % N / M) (J % N % M)

section Setup

variable {R : Type u} [CommRing R]

/-- `PADivergenceSetup2D` (lines 20-47). `w`, `j` are read, `op` is written. -/
def PADivergenceSetup2D (Q1D NE : Nat) (w j : Buf R) (COEFF : R) (op : Buf R) : Buf R :=
  let NQ := Q1D * Q1D
  let W := w
  let J := fun q r c e => j (idx4 NQ 2 2 q r c e)
  forLoop NE (fun e y =>
    forLoop NQ (fun q y =>
      let J11 := J q 0 0 e
      let J12 := J q 0 1 e
      let J21 := J q 1 0 e
      let J22 := J q 1 1 e
      let y := y.set (idx4 NQ 2 2 q 0 0 e) (W q * COEFF * J22)
      let y := y.set (idx4 NQ 2 2 q 0 1 e) (W q * COEFF * -J12)
      let y := y.set (idx4 NQ 2 2 q 1 0 e) (W q * COEFF * -J21)
      let y := y.set (idx4 NQ 2 2 q 1 1 e) (W q * COEFF * J11)
      y) y) op

/-- `PADivergenceSetup3D` (lines 50-97). -/
def PADivergenceSetup3D (Q1D NE : Nat) (w j : Buf R) (COEFF : R) (op : Buf R) : Buf R :=
  let NQ := Q1D * Q1D * Q1D
  let W := w
  let J := fun q r c e => j (idx4 NQ 3 3 q r c e)
  forLoop NE (fun e y =>
    forLoop NQ (fun q y =>
      let J11 := J q 0 0 e
      let J21 := J q 1 0 e
      let J31 := J q 2 0 e
      let J12 := J q 0 1 e
      let J22 := J q 1 1 e
      let J32 := J q 2 1 e
      let J13 := J q 0 2 e
      let J23 := J q 1 2 e
      let J33 := J q 2 2 e
      let cw := W q * COEFF
      let A11 := (J22 * J33) - (J23 * J32)
      let A12 := (J32 * J13) - (J12 * J33)
      let A13 := (J12 * J23) - (J22 * J13)
      let A21 := (J31 * J23) - (J21 * J33)
      let A22 := (J11 * J33) - (J13 * J31)
      let A23 := (J21 * J13) - (J11 * J23)
      let A31 := (J21 * J32) - (J31 * J22)
      let A32 := (J31 * J12) - (J11 * J32)
      let A33 := (J11 * J22) - (J12 * J21)
      let y := y.set (idx4 NQ 3 3 q 0 0 e) (cw * A11)
      let y := y.set (idx4 NQ 3 3 q 0 1 e) (cw * A12)
      let y := y.set (idx4 NQ 3 3 q 0 2 e) (cw * A13)
      let y := y.set (idx4 NQ 3 3 q 1 0 e) (cw * A21)
      let y := y.set (idx4 NQ 3 3 q 1 1 e) (cw * A22)
      let y := y.set (idx4 NQ 3 3 q 1 2 e) (cw * A23)
      let y := y.set (idx4 NQ 3 3 q 2 0 e) (cw * A31)
      let y := y.set (idx4 NQ 3 3 q 2 1 e) (cw * A32)
      let y := y.set (idx4 NQ 3 3 q 2 2 e) (cw * A33)
      y) y) op

/-- The value `PADivergenceSetup2D` leaves in flat cell `i` of the operator tensor, as a
function of the cell: `i` is decoded into `(q, r, c, e)` and the entry is selected by `(r, c)`. -/
def setupCell2D (NQ : Nat) (w j : Buf R) (COEFF : R) : Buf R := fun i =>
  let q := i % NQ
  let r := i / NQ % 2
  let c := i / NQ / 2 % 2
  let e := i / NQ / 2 / 2
  let J := fun r c => j (idx4 NQ 2 2 q r c e)
  if r = 0 then (if c = 0 then w q * COEFF * J 1 1 else w q * COEFF * -J 0 1)
  else (if c = 0 then w q * COEFF * -J 1 0 else w q * COEFF * J 0 0)

/-- The value `PADivergenceSetup3D` leaves in flat cell `i` of the operator tensor. -/
def setupCell3D (NQ : Nat) (w j : Buf R) (COEFF : R) : Buf R := fun i =>
  let q := i % NQ
  let r := i / NQ % 3
  let c := i / NQ / 3 % 3
  let e := i / NQ / 3 / 3
  let J := fun r c => j (idx4 NQ 3 3 q r c e)
  let cw := w q * COEFF
  if r = 0 then
    (if c = 0 then cw * ((J 1 1 * J 2 2) - (J 1 2 * J 2 1))
     else if c = 1 then cw * ((J 2 1 * J 0 2) - (J 0 1 * J 2 2))
     else cw * ((J 0 1 * J 1 2) - (J 1 1 * J 0 2)))
  else if r = 1 then
    (if c = 0 then cw * ((J 2 0 * J 1 2) - (J 1 0 * J 2 2))
     else if c = 1 then cw * ((J 0 0 * J 2 2) - (J 0 2 * J 2 0))
     else cw * ((J 1 0 * J 0 2) - (J 0 0 * J 1 2)))
  else
    (if c = 0 then cw * ((J 1 0 * J 2 1) - (J 2 0 * J 1 1))
     else if c = 1 then cw * ((J 2 0 * J 0 1) - (J 0 0 * J 2 1))
     else cw * ((J 0 0 * J 1 1) - (J 0 1 * J 1 0)))

/-- The cells of the operator tensor that belong to point `q` of element `e`. -/
def blockCells (NQ d q e : Nat) (i : Nat) : Prop :=
  ∃ r, r < d ∧ ∃ c, c < d ∧ i = idx4 NQ d d q r c e

end Setup

/-! ## Apply kernels: common vocabulary -/

/-- Modelled from the spec: the "device-specific maximum tile-size limits" `MAX_D1D`, `MAX_Q1D`
of `DofQuadLimits` (compile time) and `DeviceDofQuadLimits::Get()` (run time), declared in
`general/forall.hpp`, which is not part of the sources at hand. -/
structure DofQuadLimits where
  /-- Largest number of degrees of freedom per direction. -/
  MAX_D1D : Nat
  /-- Largest number of quadrature points per direction. -/
  MAX_Q1D : Nat
  deriving DecidableEq, Repr

/-- The run-time limits `dev` do not exceed the compile-time limits `lim` that size the stack
arrays. -/
def DofQuadLimits.le (dev lim : DofQuadLimits) : Prop :=
  dev.MAX_D1D ≤ lim.MAX_D1D ∧ dev.MAX_Q1D ≤ lim.MAX_Q1D

/-- How a call ends: it returns, or `MFEM_VERIFY` / `MFEM_ABORT` stops the program; both carry
the content of the output vector at that moment, the abort also its message. -/
inductive Outcome (α : Type u) where
  | ok (y : α) : Outcome α
  | fatal (msg : String) (y : α) : Outcome α

/-- The output vector at the end of a call. -/
def Outcome.out {α : Type u} : Outcome α → α
  | .ok y => y
  | .fatal _ y => y

/-- Whether the call ended in a fatal error. -/
def Outcome.failed {α : Type u} : Outcome α → Bool
  | .ok _ => false
  | .fatal _ _ => true

/-- The template idiom `T ? T : t`. -/
def pick (T t : Nat) : Nat := if T ≠ 0 then T else t

/-- The view `Reshape(p, n1, n2)`, read at `(i1, i2)`. -/
def Reshape2 {R : Type u} (p : Buf R) (n1 _n2 : Nat) (i1 i2 : Nat) : R := p (idx2 n1 i1 i2)

/-- The view `Reshape(p, n1, n2, n3)`, read at `(i1, i2, i3)`. -/
def Reshape3 {R : Type u} (p : Buf R) (n1 n2 _n3 : Nat) (i1 i2 i3 : Nat) : R :=
  p (idx3 n1 n2 i1 i2 i3)

/-- The view `Reshape(p, n1, n2, n3, n4)`, read at `(i1, i2, i3, i4)`. -/
def Reshape4 {R : Type u} (p : Buf R) (n1 n2 n3 _n4 : Nat) (i1 i2 i3 i4 : Nat) : R :=
  p (idx4 n1 n2 n3 i1 i2 i3 i4)

/-- The view `Reshape(p, n1, n2, n3, n4, n5)`, read at `(i1, i2, i3, i4, i5)`. -/
def Reshape5 {R : Type u} (p : Buf R) (n1 n2 n3 n4 _n5 : Nat) (i1 i2 i3 i4 i5 : Nat) : R :=
  p (idx5 n1 n2 n3 n4 i1 i2 i3 i4 i5)

/-- The step `f` adds `δ j` to every cell `j`. -/
def Adds {R : Type u} [Add R] (f : Buf R → Buf R) (δ : Buf R) : Prop :=
  ∀ a j, f a j = a j + δ j

/-- The inner product of the first `n` entries of two vectors. -/
def dot {R : Type u} [CommRing R] (n : Nat) (a b : Buf R) : R :=
  ∑ i ∈ Finset.range n, a i * b i

/-- The sum-factorised 2D contraction of the nodal values `u` with the 1D tables `Mx` (along
x) and `My` (along y), evaluated at the quadrature point `(qx, qy)`. -/
def interp2D {R : Type u} [CommRing R] (D1D : Nat) (u : Nat → Nat → R)
    (Mx My : Nat → Nat → R) (qx qy : Nat) : R :=
  ∑ dy ∈ Finset.range D1D, (∑ dx ∈ Finset.range D1D, u dx dy * Mx qx dx) * My qy dy

/-- The sum-factorised 3D contraction of the nodal values `u` with the 1D tables `Mx`, `My`,
`Mz`, evaluated at the quadrature point `(qx, qy, qz)`. -/
def interp3D {R : Type u} [CommRing R] (D1D : Nat) (u : Nat → Nat → Nat → R)
    (Mx My Mz : Nat → Nat → R) (qx qy qz : Nat) : R :=
  ∑ dz ∈ Finset.range D1D, (∑ dy ∈ Finset.range D1D,
    (∑ dx ∈ Finset.range D1D, u dx dy dz * Mx qx dx) * My qy dy) * Mz qz dz

/-- The divergence value of the 2D forward kernel at the quadrature point `(qx, qy)` of element
`e`, in closed form. -/
def div2D {R : Type u} [CommRing R] (TR_D1D Q1D NE : Nat) (b g op_ x_ : Buf R)
    (e qy qx : Nat) : R :=
  let B := Reshape2 b Q1D TR_D1D
  let G := Reshape2 g Q1D TR_D1D
  let op := Reshape4 op_ (Q1D * Q1D) 2 2 NE
  let x := Reshape4 x_ TR_D1D TR_D1D 2 NE
  ∑ c ∈ Finset.range 2,
    (interp2D TR_D1D (fun dx dy => x dx dy c e) G B qx qy * op (qx + qy * Q1D) 0 c e +
      interp2D TR_D1D (fun dx dy => x dx dy c e) B G qx qy * op (qx + qy * Q1D) 1 c e)

/-- The divergence value of the 3D forward kernel at the quadrature point `(qx, qy, qz)` of
element `e`, in closed form. -/
def div3D {R : Type u} [CommRing R] (TR_D1D Q1D NE : Nat) (b g op_ x_ : Buf R)
    (e qz qy qx : Nat) : R :=
  let B := Reshape2 b Q1D TR_D1D
  let G := Reshape2 g Q1D TR_D1D
  let op := Reshape4 op_ (Q1D * Q1D * Q1D) 3 3 NE
  let x := Reshape5 x_ TR_D1D TR_D1D TR_D1D 3 NE
  ∑ c ∈ Finset.range 3,
    (interp3D TR_D1D (fun dx dy dz => x dx dy dz c e) G B B qx qy qz *
        op (qx + (qy + qz * Q1D) * Q1D) 0 c e +
      interp3D TR_D1D (fun dx dy dz => x dx dy dz c e) B G B qx qy qz *
        op (qx + (qy + qz * Q1D) * Q1D) 1 c e +
      interp3D TR_D1D (fun dx dy dz => x dx dy dz c e) B B G qx qy qz *
        op (qx + (qy + qz * Q1D) * Q1D) 2 c e)

section Apply2D

variable {R : Type u} [CommRing R]

/-- `PADivergenceApply2D`, lines 214-228: the array `gradX` of component `c`, row `dy`,
element `e`. -/
def PADivergenceApply2D_gradX (junk : Buf R) (TR_D1D Q1D NE : Nat) (b g x_ : Buf R)
    (c dy e : Nat) : Buf R :=
  let B := Reshape2 b Q1D TR_D1D
  let G := Reshape2 g Q1D TR_D1D
  let x := Reshape4 x_ TR_D1D TR_D1D 2 NE
  let VDIM := 2
  let gradX : Buf R := junk
  let gradX := forLoop Q1D (fun qx gradX =>
    let gradX := gradX.set (carr2 VDIM qx 0) 0
    let gradX := gradX.set (carr2 VDIM qx 1) 0
    gradX) gradX
  forLoop TR_D1D (fun dx gradX =>
    let s := x dx dy c e
    forLoop Q1D (fun qx gradX =>
      let gradX := gradX.add (carr2 VDIM qx 0) (s * G qx dx)
      let gradX := gradX.add (carr2 VDIM qx 1) (s * B qx dx)
      gradX) gradX) gradX

/-- `PADivergenceApply2D`, lines 204-239: the array `grad` after the gradient of component `c`
has been interpolated; `grad` on entry is what the previous component left. -/
def PADivergenceApply2D_grad (max_Q1D : Nat) (junk : Buf R) (TR_D1D Q1D NE : Nat)
    (b g x_ : Buf R) (c e : Nat) (grad : Buf R) : Buf R :=
  let B := Reshape2 b Q1D TR_D1D
  let G := Reshape2 g Q1D TR_D1D
  let VDIM := 2
  let grad := forLoop Q1D (fun qy grad =>
    forLoop Q1D (fun qx grad =>
      let grad := grad.set (carr3 max_Q1D VDIM qy qx 0) 0
      let grad := grad.set (carr3 max_Q1D VDIM qy qx 1) 0
      grad) grad) grad
  forLoop TR_D1D (fun dy grad =>
    let gradX := PADivergenceApply2D_gradX junk TR_D1D Q1D NE b g x_ c dy e
    forLoop Q1D (fun qy grad =>
      let wy := B qy dy
      let wDy := G qy dy
      forLoop Q1D (fun qx grad =>
        let grad := grad.add (carr3 max_Q1D VDIM qy qx 0) (gradX (carr2 VDIM qx 0) * wy)
        let grad := grad.add (carr3 max_Q1D VDIM qy qx 1) (gradX (carr2 VDIM qx 1) * wDy)
        grad) grad) grad) grad

/-- `PADivergenceApply2D`, lines 192-252: the arrays `(grad, div)` of element `e` after the
loop over the components. -/
def PADivergenceApply2D_quad (max_Q1D : Nat) (junk : Buf R) (TR_D1D Q1D NE : Nat)
    (b g op_ x_ : Buf R) (e : Nat) : Buf R × Buf R :=
  let op := Reshape4 op_ (Q1D * Q1D) 2 2 NE
  let VDIM := 2
  let grad : Buf R := junk
  let div : Buf R := junk
  let div := forLoop Q1D (fun qy div =>
    forLoop Q1D (fun qx div => div.set (carr2 max_Q1D qy qx) 0) div) div
  forLoop VDIM (fun c s =>
    let grad := PADivergenceApply2D_grad max_Q1D junk TR_D1D Q1D NE b g x_ c e s.1
    let div := forLoop Q1D (fun qy div =>
      forLoop Q1D (fun qx div =>
        let q := qx + qy * Q1D
        let gradX := grad (carr3 max_Q1D VDIM qy qx 0)
        let gradY := grad (carr3 max_Q1D VDIM qy qx 1)
        div.add (carr2 max_Q1D qy qx) (gradX * op q 0 c e + gradY * op q 1 c e)) div) s.2
    (grad, div)) (grad, div)

/-- `PADivergenceApply2D`, lines 256-264: the array `opX` of row `qy`. -/
def PADivergenceApply2D_opX (max_Q1D : Nat) (junk : Buf R) (TE_D1D Q1D : Nat) (bt div : Buf R)
    (qy : Nat) : Buf R :=
  let Bt := Reshape2 bt TE_D1D Q1D
  let opX : Buf R := junk
  forLoop TE_D1D (fun dx opX =>
    let opX := opX.set dx 0
    forLoop Q1D (fun qx opX => opX.add dx (Bt dx qx * div (carr2 max_Q1D qy qx))) opX) opX

/-- `PADivergenceApply2D`, lines 184-273: the body of the `forall` loop, for element `e`. -/
def PADivergenceApply2D_elem (max_Q1D : Nat) (junk : Buf R) (TR_D1D TE_D1D Q1D NE : Nat)
    (b g bt op_ x_ : Buf R) (e : Nat) (y_ : Buf R) : Buf R :=
  let Bt := Reshape2 bt TE_D1D Q1D
  let div := (PADivergenceApply2D_quad max_Q1D junk TR_D1D Q1D NE b g op_ x_ e).2
  forLoop Q1D (fun qy y_ =>
    let opX := PADivergenceApply2D_opX max_Q1D junk TE_D1D Q1D bt div qy
    forLoop TE_D1D (fun dy y_ =>
      forLoop TE_D1D (fun dx y_ =>
        y_.add (idx3 TE_D1D TE_D1D dx dy e) (Bt dy qy * opX dx)) y_) y_) y_

/-- `PADivergenceApply2D` (lines 158-275). `dev` is `DeviceDofQuadLimits::Get()`, `lim` is
`DofQuadLimits`, `junk` the indeterminate initial content of the stack arrays. -/
def PADivergenceApply2D (dev lim : DofQuadLimits) (T_TR_D1D T_TE_D1D T_Q1D : Nat)
    (junk : Buf R) (NE : Nat) (b g bt op_ x_ y_ : Buf R) (tr_d1d te_d1d q1d : Nat) :
    Outcome (Buf R) :=
  let TR_D1D := pick T_TR_D1D tr_d1d
  let TE_D1D := pick T_TE_D1D te_d1d
  let Q1D := pick T_Q1D q1d
  if ¬ TR_D1D ≤ dev.MAX_D1D then Outcome.fatal "" y_ else
  if ¬ TE_D1D ≤ dev.MAX_D1D then Outcome.fatal "" y_ else
  if ¬ Q1D ≤ dev.MAX_Q1D then Outcome.fatal "" y_ else
  let max_Q1D := pick T_Q1D lim.MAX_Q1D
  Outcome.ok (forLoop NE (fun e y_ =>
    PADivergenceApply2D_elem max_Q1D junk TR_D1D TE_D1D Q1D NE b g bt op_ x_ e y_) y_)

end Apply2D

section ApplyTranspose2D

variable {R : Type u} [CommRing R]

/-- `PADivergenceApplyTranspose2D`, lines 341-353: the array `quadTestX` of row `dy`. -/
def PADivergenceApplyTranspose2D_quadTestX (junk : Buf R) (TE_D1D Q1D NE : Nat) (b x_ : Buf R)
    (dy e : Nat) : Buf R :=
  let B := Reshape2 b Q1D TE_D1D
  let x := Reshape3 x_ TE_D1D TE_D1D NE
  let quadTestX : Buf R := junk
  let quadTestX := forLoop Q1D (fun qx quadTestX => quadTestX.set qx 0) quadTestX
  forLoop TE_D1D (fun dx quadTestX =>
    let s := x dx dy e
    forLoop Q1D (fun qx quadTestX => quadTestX.add qx (s * B qx dx)) quadTestX) quadTestX

/-- `PADivergenceApplyTranspose2D`, lines 330-362: the array `quadTest`, the test function
interpolated at the quadrature points of element `e`. -/
def PADivergenceApplyTranspose2D_quadTest (max_Q1D : Nat) (junk : Buf R) (TE_D1D Q1D NE : Nat)
    (b x_ : Buf R) (e : Nat) : Buf R :=
  let B := Reshape2 b Q1D TE_D1D
  let quadTest : Buf R := junk
  let quadTest := forLoop Q1D (fun qy quadTest =>
    forLoop Q1D (fun qx quadTest => quadTest.set (carr2 max_Q1D qy qx) 0) quadTest) quadTest
  forLoop TE_D1D (fun dy quadTest =>
    let quadTestX := PADivergenceApplyTranspose2D_quadTestX junk TE_D1D Q1D NE b x_ dy e
    forLoop Q1D (fun qy quadTest =>
      let wy := B qy dy
      forLoop Q1D (fun qx quadTest =>
        quadTest.add (carr2 max_Q1D qy qx) (quadTestX qx * wy)) quadTest) quadTest) quadTest

/-- `PADivergenceApplyTranspose2D`, lines 366-374: the array `grad` of component `c`. -/
def PADivergenceApplyTranspose2D_grad (max_Q1D : Nat) (Q1D NE : Nat) (op_ quadTest : Buf R)
    (c e : Nat) (grad : Buf R) : Buf R :=
  let op := Reshape4 op_ (Q1D * Q1D) 2 2 NE
  let VDIM := 2
  forLoop Q1D (fun qy grad =>
    forLoop Q1D (fun qx grad =>
      let q := qx + qy * Q1D
      let grad := grad.set (carr3 max_Q1D VDIM qy qx 0)
        (quadTest (carr2 max_Q1D qy qx) * op q 0 c e)
      let grad := grad.set (carr3 max_Q1D VDIM qy qx 1)
        (quadTest (carr2 max_Q1D qy qx) * op q 1 c e)
      grad) grad) grad

/-- `PADivergenceApplyTranspose2D`, lines 378-395: the array `gradX` of row `qy`. -/
def PADivergenceApplyTranspose2D_gradX (max_Q1D : Nat) (junk : Buf R) (TR_D1D Q1D : Nat)
    (bt gt grad : Buf R) (qy : Nat) : Buf R :=
  let Bt := Reshape2 bt TR_D1D Q1D
  let Gt := Reshape2 gt TR_D1D Q1D
  let VDIM := 2
  let gradX : Buf R := junk
  let gradX := forLoop TR_D1D (fun dx gradX =>
    let gradX := gradX.set (carr2 VDIM dx 0) 0
    let gradX := gradX.set (carr2 VDIM dx 1) 0
    gradX) gradX
  forLoop Q1D (fun qx gradX =>
    let gX := grad (carr3 max_Q1D VDIM qy qx 0)
    let gY := grad (carr3 max_Q1D VDIM qy qx 1)
    forLoop TR_D1D (fun dx gradX =>
      let wx := Bt dx qx
      let wDx := Gt dx qx
      let gradX := gradX.add (carr2 VDIM dx 0) (gX * wDx)
      let gradX := gradX.add (carr2 VDIM dx 1) (gY * wx)
      gradX) gradX) gradX

/-- `PADivergenceApplyTranspose2D`, lines 364-406: one pass of the loop over the components,
on the state `(grad, y)`. -/
def PADivergenceApplyTranspose2D_comp (max_Q1D : Nat) (junk : Buf R) (TR_D1D Q1D NE : Nat)
    (bt gt op_ quadTest : Buf R) (e c : Nat) (s : Buf R × Buf R) : Buf R × Buf R :=
  let Bt := Reshape2 bt TR_D1D Q1D
  let Gt := Reshape2 gt TR_D1D Q1D
  let VDIM := 2
  let grad := PADivergenceApplyTranspose2D_grad max_Q1D Q1D NE op_ quadTest c e s.1
  let y_ := forLoop Q1D (fun qy y_ =>
    let gradX := PADivergenceApplyTranspose2D_gradX max_Q1D junk TR_D1D Q1D bt gt grad qy
    forLoop TR_D1D (fun dy y_ =>
      let wy := Bt dy qy
      let wDy := Gt dy qy
      forLoop TR_D1D (fun dx y_ =>
        y_.add (idx4 TR_D1D TR_D1D 2 dx dy c e)
          ((gradX (carr2 VDIM dx 0) * wy) + (gradX (carr2 VDIM dx 1) * wDy))) y_) y_) s.2
  (grad, y_)

/-- `PADivergenceApplyTranspose2D`, lines 322-407: the body of the `forall` loop. -/
def PADivergenceApplyTranspose2D_elem (max_Q1D : Nat) (junk : Buf R)
    (TR_D1D TE_D1D Q1D NE : Nat) (bt gt b op_ x_ : Buf R) (e : Nat) (y_ : Buf R) : Buf R :=
  let VDIM := 2
  let quadTest := PADivergenceApplyTranspose2D_quadTest max_Q1D junk TE_D1D Q1D NE b x_ e
  let grad : Buf R := junk
  (forLoop VDIM (fun c s =>
    PADivergenceApplyTranspose2D_comp max_Q1D junk TR_D1D Q1D NE bt gt op_ quadTest e c s)
    (grad, y_)).2

/-- `PADivergenceApplyTranspose2D` (lines 296-409). -/
def PADivergenceApplyTranspose2D (dev lim : DofQuadLimits) (T_TR_D1D T_TE_D1D T_Q1D : Nat)
    (junk : Buf R) (NE : Nat) (bt gt b op_ x_ y_ : Buf R) (tr_d1d te_d1d q1d : Nat) :
    Outcome (Buf R) :=
  let TR_D1D := pick T_TR_D1D tr_d1d
  let TE_D1D := pick T_TE_D1D te_d1d
  let Q1D := pick T_Q1D q1d
  if ¬ TR_D1D ≤ dev.MAX_D1D then Outcome.fatal "" y_ else
  if ¬ TE_D1D ≤ dev.MAX_D1D then Outcome.fatal "" y_ else
  if ¬ Q1D ≤ dev.MAX_Q1D then Outcome.fatal "" y_ else
  let max_Q1D := pick T_Q1D lim.MAX_Q1D
  Outcome.ok (forLoop NE (fun e y_ =>
    PADivergenceApplyTranspose2D_elem max_Q1D junk TR_D1D TE_D1D Q1D NE bt gt b op_ x_ e y_) y_)

end ApplyTranspose2D

/-- The value the 2D forward kernel adds to `y(dx, dy, e)`, in closed form. -/
def PADivergenceApply2D_inc {R : Type u} [CommRing R] (TR_D1D TE_D1D Q1D NE : Nat)
    (b g bt op_ x_ : Buf R) (e dy dx : Nat) : R :=
  ∑ qy ∈ Finset.range Q1D, Reshape2 bt TE_D1D Q1D dy qy *
    ∑ qx ∈ Finset.range Q1D, Reshape2 bt TE_D1D Q1D dx qx *
      div2D TR_D1D Q1D NE b g op_ x_ e qy qx

/-- The value the 2D transpose kernel adds to `y(dx, dy, c, e)`, in closed form. -/
def PADivergenceApplyTranspose2D_inc {R : Type u} [CommRing R] (TR_D1D TE_D1D Q1D NE : Nat)
    (bt gt b op_ x_ : Buf R) (e c dy dx : Nat) : R :=
  let Bt := Reshape2 bt TR_D1D Q1D
  let Gt := Reshape2 gt TR_D1D Q1D
  let B := Reshape2 b Q1D TE_D1D
  let op := Reshape4 op_ (Q1D * Q1D) 2 2 NE
  let x := Reshape3 x_ TE_D1D TE_D1D NE
  ∑ qy ∈ Finset.range Q1D,
    ((∑ qx ∈ Finset.range Q1D,
        (interp2D TE_D1D (fun dx dy => x dx dy e) B B qx qy * op (qx + qy * Q1D) 0 c e) *
          Gt dx qx) * Bt dy qy +
      (∑ qx ∈ Finset.range Q1D,
        (interp2D TE_D1D (fun dx dy => x dx dy e) B B qx qy * op (qx + qy * Q1D) 1 c e) *
          Bt dx qx) * Gt dy qy)

/-- What one pass of the component loop of the 2D transpose kernel adds to cell `j` of `y`,
given the content `grad` of the gradient array on entry. -/
def PADivergenceApplyTranspose2D_delta {R : Type u} [CommRing R] (max_Q1D : Nat) (junk : Buf R)
    (TR_D1D Q1D NE : Nat) (bt gt op_ quadTest : Buf R) (e c : Nat) (grad : Buf R) (j : Nat) :
    R :=
  ∑ qy ∈ Finset.range Q1D, ∑ dy ∈ Finset.range TR_D1D, ∑ dx ∈ Finset.range TR_D1D,
    if j = idx4 TR_D1D TR_D1D 2 dx dy c e then
      (PADivergenceApplyTranspose2D_gradX max_Q1D junk TR_D1D Q1D bt gt
          (PADivergenceApplyTranspose2D_grad max_Q1D Q1D NE op_ quadTest c e grad) qy
          (carr2 2 dx 0) * Reshape2 bt TR_D1D Q1D dy qy) +
        (PADivergenceApplyTranspose2D_gradX max_Q1D junk TR_D1D Q1D bt gt
          (PADivergenceApplyTranspose2D_grad max_Q1D Q1D NE op_ quadTest c e grad) qy
          (carr2 2 dx 1) * Reshape2 gt TR_D1D Q1D dy qy)
    else 0

section Apply3D

variable {R : Type u} [CommRing R]

/-- `PADivergenceApply3D`, lines 487-503: the array `gradX` of component `c`, row `(dy, dz)`. -/
def PADivergenceApply3D_gradX (junk : Buf R) (TR_D1D Q1D NE : Nat) (b g x_ : Buf R)
    (c dy dz e : Nat) : Buf R :=
  let B := Reshape2 b Q1D TR_D1D
  let G := Reshape2 g Q1D TR_D1D
  let x := Reshape5 x_ TR_D1D TR_D1D TR_D1D 3 NE
  let VDIM := 3
  let gradX : Buf R := junk
  let gradX := forLoop Q1D (fun qx gradX =>
    let gradX := gradX.set (carr2 VDIM qx 0) 0
    let gradX := gradX.set (carr2 VDIM qx 1) 0
    let gradX := gradX.set (carr2 VDIM qx 2) 0
    gradX) gradX
  forLoop TR_D1D (fun dx gradX =>
    let s := x dx dy dz c e
    forLoop Q1D (fun qx gradX =>
      let gradX := gradX.add (carr2 VDIM qx 0) (s * G qx dx)
      let gradX := gradX.add (carr2 VDIM qx 1) (s * B qx dx)
      let gradX := gradX.add (carr2 VDIM qx 2) (s * B qx dx)
      gradX) gradX) gradX

/-- `PADivergenceApply3D`, lines 475-515: the array `gradXY` of component `c`, plane `dz`. -/
def PADivergenceApply3D_gradXY (max_Q1D : Nat) (junk : Buf R) (TR_D1D Q1D NE : Nat)
    (b g x_ : Buf R) (c dz e : Nat) : Buf R :=
  let B := Reshape2 b Q1D TR_D1D
  let G := Reshape2 g Q1D TR_D1D
  let VDIM := 3
  let gradXY : Buf R := junk
  let gradXY := forLoop Q1D (fun qy gradXY =>
    forLoop Q1D (fun qx gradXY =>
      let gradXY := gradXY.set (carr3 max_Q1D VDIM qy qx 0) 0
      let gradXY := gradXY.set (carr3 max_Q1D VDIM qy qx 1) 0
      let gradXY := gradXY.set (carr3 max_Q1D VDIM qy qx 2) 0
      gradXY) gradXY) gradXY
  forLoop TR_D1D (fun dy gradXY =>
    let gradX := PADivergenceApply3D_gradX junk TR_D1D Q1D NE b g x_ c dy dz e
    forLoop Q1D (fun qy gradXY =>
      let wy := B qy dy
      let wDy := G qy dy
      forLoop Q1D (fun qx gradXY =>
        let gradXY := gradXY.add (carr3 max_Q1D VDIM qy qx 0) (gradX (carr2 VDIM qx 0) * wy)
        let gradXY := gradXY.add (carr3 max_Q1D VDIM qy qx 1) (gradX (carr2 VDIM qx 1) * wDy)
        let gradXY := gradXY.add (carr3 max_Q1D VDIM qy qx 2) (gradX (carr2 VDIM qx 2) * wy)
        gradXY) gradXY) gradXY) gradXY

/-- `PADivergenceApply3D`, lines 461-530: the array `grad` after the gradient of component `c`
has been interpolated; `grad` on entry is what the previous component left. -/
def PADivergenceApply3D_grad (max_Q1D : Nat) (junk : Buf R) (TR_D1D Q1D NE : Nat)
    (b g x_ : Buf R) (c e : Nat) (grad : Buf R) : Buf R :=
  let B := Reshape2 b Q1D TR_D1D
  let G := Reshape2 g Q1D TR_D1D
  let VDIM := 3
  let grad := forLoop Q1D (fun qz grad =>
    forLoop Q1D (fun qy grad =>
      forLoop Q1D (fun qx grad =>
        let grad := grad.set (carr4 max_Q1D max_Q1D VDIM qz qy qx 0) 0
        let grad := grad.set (carr4 max_Q1D max_Q1D VDIM qz qy qx 1) 0
        let grad := grad.set (carr4 max_Q1D max_Q1D VDIM qz qy qx 2) 0
        grad) grad) grad) grad
  forLoop TR_D1D (fun dz grad =>
    let gradXY := PADivergenceApply3D_gradXY max_Q1D junk TR_D1D Q1D NE b g x_ c dz e
    forLoop Q1D (fun qz grad =>
      let wz := B qz dz
      let wDz := G qz dz
      forLoop Q1D (fun qy grad =>
        forLoop Q1D (fun qx grad =>
          let grad := grad.add (carr4 max_Q1D max_Q1D VDIM qz qy qx 0)
            (gradXY (carr3 max_Q1D VDIM qy qx 0) * wz)
          let grad := grad.add (carr4 max_Q1D max_Q1D VDIM qz qy qx 1)
            (gradXY (carr3 max_Q1D VDIM qy qx 1) * wz)
          let grad := grad.add (carr4 max_Q1D max_Q1D VDIM qz qy qx 2)
            (gradXY (carr3 max_Q1D VDIM qy qx 2) * wDz)
          grad) grad) grad) grad) grad

/-- `PADivergenceApply3D`, lines 446-548: the arrays `(grad, div)` of element `e` after the
loop over the components. -/
def PADivergenceApply3D_quad (max_Q1D : Nat) (junk : Buf R) (TR_D1D Q1D NE : Nat)
    (b g op_ x_ : Buf R) (e : Nat) : Buf R × Buf R :=
  let op := Reshape4 op_ (Q1D * Q1D * Q1D) 3 3 NE
  let VDIM := 3
  let grad : Buf R := junk
  let div : Buf R := junk
  let div := forLoop Q1D (fun qz div =>
    forLoop Q1D (fun qy div =>
      forLoop Q1D (fun qx div => div.set (carr3 max_Q1D max_Q1D qz qy qx) 0) div) div) div
  forLoop VDIM (fun c s =>
    let grad := PADivergenceApply3D_grad max_Q1D junk TR_D1D Q1D NE b g x_ c e s.1
    let div := forLoop Q1D (fun qz div =>
      forLoop Q1D (fun qy div =>
        forLoop Q1D (fun qx div =>
          let q := qx + (qy + qz * Q1D) * Q1D
          let gradX := grad (carr4 max_Q1D max_Q1D VDIM qz qy qx 0)
          let gradY := grad (carr4 max_Q1D max_Q1D VDIM qz qy qx 1)
          let gradZ := grad (carr4 max_Q1D max_Q1D VDIM qz qy qx 2)
          div.add (carr3 max_Q1D max_Q1D qz qy qx)
            (gradX * op q 0 c e + gradY * op q 1 c e + gradZ * op q 2 c e)) div) div) s.2
    (grad, div)) (grad, div)

/-- `PADivergenceApply3D`, lines 562-570: the array `opX` of row `(qy, qz)`. -/
def PADivergenceApply3D_opX (max_Q1D : Nat) (junk : Buf R) (TE_D1D Q1D : Nat) (bt div : Buf R)
    (qz qy : Nat) : Buf R :=
  let Bt := Reshape2 bt TE_D1D Q1D
  let opX : Buf R := junk
  forLoop TE_D1D (fun dx opX =>
    let opX := opX.set dx 0
    forLoop Q1D (fun qx opX =>
      opX.add dx (Bt dx qx * div (carr3 max_Q1D max_Q1D qz qy qx))) opX) opX

/-- `PADivergenceApply3D`, lines 552-578: the array `opXY` of plane `qz`. -/
def PADivergenceApply3D_opXY (max_Q1D max_TE_D1D : Nat) (junk : Buf R) (TE_D1D Q1D : Nat)
    (bt div : Buf R) (qz : Nat) : Buf R :=
  let Bt := Reshape2 bt TE_D1D Q1D
  let opXY : Buf R := junk
  let opXY := forLoop TE_D1D (fun dy opXY =>
    forLoop TE_D1D (fun dx opXY => opXY.set (carr2 max_TE_D1D dy dx) 0) opXY) opXY
  forLoop Q1D (fun qy opXY =>
    let opX := PADivergenceApply3D_opX max_Q1D junk TE_D1D Q1D bt div qz qy
    forLoop TE_D1D (fun dy opXY =>
      forLoop TE_D1D (fun dx opXY =>
        opXY.add (carr2 max_TE_D1D dy dx) (Bt dy qy * opX dx)) opXY) opXY) opXY

/-- `PADivergenceApply3D`, lines 438-590: the body of the `forall` loop, for element `e`. -/
def PADivergenceApply3D_elem (max_Q1D max_TE_D1D : Nat) (junk : Buf R)
    (TR_D1D TE_D1D Q1D NE : Nat) (b g bt op_ x_ : Buf R) (e : Nat) (y_ : Buf R) : Buf R :=
  let Bt := Reshape2 bt TE_D1D Q1D
  let div := (PADivergenceApply3D_quad max_Q1D junk TR_D1D Q1D NE b g op_ x_ e).2
  forLoop Q1D (fun qz y_ =>
    let opXY := PADivergenceApply3D_opXY max_Q1D max_TE_D1D junk TE_D1D Q1D bt div qz
    forLoop TE_D1D (fun dz y_ =>
      forLoop TE_D1D (fun dy y_ =>
        forLoop TE_D1D (fun dx y_ =>
          y_.add (idx4 TE_D1D TE_D1D TE_D1D dx dy dz e)
            (Bt dz qz * opXY (carr2 max_TE_D1D dy dx))) y_) y_) y_) y_

/-- `PADivergenceApply3D` (lines 412-592). -/
def PADivergenceApply3D (dev lim : DofQuadLimits) (T_TR_D1D T_TE_D1D T_Q1D : Nat)
    (junk : Buf R) (NE : Nat) (b g bt op_ x_ y_ : Buf R) (tr_d1d te_d1d q1d : Nat) :
    Outcome (Buf R) :=
  let TR_D1D := pick T_TR_D1D tr_d1d
  let TE_D1D := pick T_TE_D1D te_d1d
  let Q1D := pick T_Q1D q1d
  if ¬ TR_D1D ≤ dev.MAX_D1D then Outcome.fatal "" y_ else
  if ¬ TE_D1D ≤ dev.MAX_D1D then Outcome.fatal "" y_ else
  if ¬ Q1D ≤ dev.MAX_Q1D then Outcome.fatal "" y_ else
  let max_TE_D1D := pick T_TE_D1D lim.MAX_D1D
  let max_Q1D := pick T_Q1D lim.MAX_Q1D
  Outcome.ok (forLoop NE (fun e y_ =>
    PADivergenceApply3D_elem max_Q1D max_TE_D1D junk TR_D1D TE_D1D Q1D NE b g bt op_ x_ e y_)
    y_)

/-- The value the 3D forward kernel adds to `y(dx, dy, dz, e)`, in closed form. -/
def PADivergenceApply3D_inc (TR_D1D TE_D1D Q1D NE : Nat)
    (b g bt op_ x_ : Buf R) (e dz dy dx : Nat) : R :=
  ∑ qz ∈ Finset.range Q1D, Reshape2 bt TE_D1D Q1D dz qz *
    ∑ qy ∈ Finset.range Q1D, Reshape2 bt TE_D1D Q1D dy qy *
      ∑ qx ∈ Finset.range Q1D, Reshape2 bt TE_D1D Q1D dx qx *
        div3D TR_D1D Q1D NE b g op_ x_ e qz qy qx

end Apply3D

section ApplyTranspose3D

variable {R : Type u} [CommRing R]

/-- `PADivergenceApplyTranspose3D`, lines 653-665: the array `quadTestX` of row `(dy, dz)`. -/
def PADivergenceApplyTranspose3D_quadTestX (junk : Buf R) (TE_D1D Q1D NE : Nat) (b x_ : Buf R)
    (dy dz e : Nat) : Buf R :=
  let B := Reshape2 b Q1D TE_D1D
  let x := Reshape4 x_ TE_D1D TE_D1D TE_D1D NE
  let quadTestX : Buf R := junk
  let quadTestX := forLoop Q1D (fun qx quadTestX => quadTestX.set qx 0) quadTestX
  forLoop TE_D1D (fun dx quadTestX =>
    let s := x dx dy dz e
    forLoop Q1D (fun qx quadTestX => quadTestX.add qx (s * B qx dx)) quadTestX) quadTestX

/-- `PADivergenceApplyTranspose3D`, lines 643-674: the array `quadTestXY` of plane `dz`. -/
def PADivergenceApplyTranspose3D_quadTestXY (max_Q1D : Nat) (junk : Buf R)
    (TE_D1D Q1D NE : Nat) (b x_ : Buf R) (dz e : Nat) : Buf R :=
  let B := Reshape2 b Q1D TE_D1D
  let quadTestXY : Buf R := junk
  let quadTestXY := forLoop Q1D (fun qy quadTestXY =>
    forLoop Q1D (fun qx quadTestXY => quadTestXY.set (carr2 max_Q1D qy qx) 0) quadTestXY)
    quadTestXY
  forLoop TE_D1D (fun dy quadTestXY =>
    let quadTestX := PADivergenceApplyTranspose3D_quadTestX junk TE_D1D Q1D NE b x_ dy dz e
    forLoop Q1D (fun qy quadTestXY =>
      let wy := B qy dy
      forLoop Q1D (fun qx quadTestXY =>
        quadTestXY.add (carr2 max_Q1D qy qx) (quadTestX qx * wy)) quadTestXY) quadTestXY)
    quadTestXY

/-- `PADivergenceApplyTranspose3D`, lines 629-686: the array `quadTest`, the test function
interpolated at the quadrature points of element `e`. -/
def PADivergenceApplyTranspose3D_quadTest (max_Q1D : Nat) (junk : Buf R) (TE_D1D Q1D NE : Nat)
    (b x_ : Buf R) (e : Nat) : Buf R :=
  let B := Reshape2 b Q1D TE_D1D
  let quadTest : Buf R := junk
  let quadTest := forLoop Q1D (fun qz quadTest =>
    forLoop Q1D (fun qy quadTest =>
      forLoop Q1D (fun qx quadTest =>
        quadTest.set (carr3 max_Q1D max_Q1D qz qy qx) 0) quadTest) quadTest) quadTest
  forLoop TE_D1D (fun dz quadTest =>
    let quadTestXY := PADivergenceApplyTranspose3D_quadTestXY max_Q1D junk TE_D1D Q1D NE b x_ dz e
    forLoop Q1D (fun qz quadTest =>
      let wz := B qz dz
      forLoop Q1D (fun qy quadTest =>
        forLoop Q1D (fun qx quadTest =>
          quadTest.add (carr3 max_Q1D max_Q1D qz qy qx)
            (quadTestXY (carr2 max_Q1D qy qx) * wz)) quadTest) quadTest) quadTest) quadTest

/-- `PADivergenceApplyTranspose3D`, lines 690-702: the array `grad` of component `c`. -/
def PADivergenceApplyTranspose3D_grad (max_Q1D : Nat) (Q1D NE : Nat) (op_ quadTest : Buf R)
    (c e : Nat) (grad : Buf R) : Buf R :=
  let op := Reshape4 op_ (Q1D * Q1D * Q1D) 3 3 NE
  let VDIM := 3
  forLoop Q1D (fun qz grad =>
    forLoop Q1D (fun qy grad =>
      forLoop Q1D (fun qx grad =>
        let q := qx + (qy + qz * Q1D) * Q1D
        let grad := grad.set (carr4 max_Q1D max_Q1D VDIM qz qy qx 0)
          (quadTest (carr3 max_Q1D max_Q1D qz qy qx) * op q 0 c e)
        let grad := grad.set (carr4 max_Q1D max_Q1D VDIM qz qy qx 1)
          (quadTest (carr3 max_Q1D max_Q1D qz qy qx) * op q 1 c e)
        let grad := grad.set (carr4 max_Q1D max_Q1D VDIM qz qy qx 2)
          (quadTest (carr3 max_Q1D max_Q1D qz qy qx) * op q 2 c e)
        grad) grad) grad) grad

/-- `PADivergenceApplyTranspose3D`, lines 718-738: the array `gradX` of row `(qy, qz)`. -/
def PADivergenceApplyTranspose3D_gradX (max_Q1D : Nat) (junk : Buf R) (TR_D1D Q1D : Nat)
    (bt gt grad : Buf R) (qz qy : Nat) : Buf R :=
  let Bt := Reshape2 bt TR_D1D Q1D
  let Gt := Reshape2 gt TR_D1D Q1D
  let VDIM := 3
  let gradX : Buf R := junk
  let gradX := forLoop TR_D1D (fun dx gradX =>
    let gradX := gradX.set (carr2 VDIM dx 0) 0
    let gradX := gradX.set (carr2 VDIM dx 1) 0
    let gradX := gradX.set (carr2 VDIM dx 2) 0
    gradX) gradX
  forLoop Q1D (fun qx gradX =>
    let gX := grad (carr4 max_Q1D max_Q1D VDIM qz qy qx 0)
    let gY := grad (carr4 max_Q1D max_Q1D VDIM qz qy qx 1)
    let gZ := grad (carr4 max_Q1D max_Q1D VDIM qz qy qx 2)
    forLoop TR_D1D (fun dx gradX =>
      let wx := Bt dx qx
      let wDx := Gt dx qx
      let gradX := gradX.add (carr2 VDIM dx 0) (gX * wDx)
      let gradX := gradX.add (carr2 VDIM dx 1) (gY * wx)
      let gradX := gradX.add (carr2 VDIM dx 2) (gZ * wx)
      gradX) gradX) gradX

/-- `PADivergenceApplyTranspose3D`, lines 706-750: the array `gradXY` of plane `qz`. -/
def PADivergenceApplyTranspose3D_gradXY (max_Q1D max_TR_D1D : Nat) (junk : Buf R)
    (TR_D1D Q1D : Nat) (bt gt grad : Buf R) (qz : Nat) : Buf R :=
  let Bt := Reshape2 bt TR_D1D Q1D
  let Gt := Reshape2 gt TR_D1D Q1D
  let VDIM := 3
  let gradXY : Buf R := junk
  let gradXY := forLoop TR_D1D (fun dy gradXY =>
    forLoop TR_D1D (fun dx gradXY =>
      let gradXY := gradXY.set (carr3 max_TR_D1D VDIM dy dx 0) 0
      let gradXY := gradXY.set (carr3 max_TR_D1D VDIM dy dx 1) 0
      let gradXY := gradXY.set (carr3 max_TR_D1D VDIM dy dx 2) 0
      gradXY) gradXY) gradXY
  forLoop Q1D (fun qy gradXY =>
    let gradX := PADivergenceApplyTranspose3D_gradX max_Q1D junk TR_D1D Q1D bt gt grad qz qy
    forLoop TR_D1D (fun dy gradXY =>
      let wy := Bt dy qy
      let wDy := Gt dy qy
      forLoop TR_D1D (fun dx gradXY =>
        let gradXY := gradXY.add (carr3 max_TR_D1D VDIM dy dx 0) (gradX (carr2 VDIM dx 0) * wy)
        let gradXY := gradXY.add (carr3 max_TR_D1D VDIM dy dx 1) (gradX (carr2 VDIM dx 1) * wDy)
        let gradXY := gradXY.add (carr3 max_TR_D1D VDIM dy dx 2) (gradX (carr2 VDIM dx 2) * wy)
        gradXY) gradXY) gradXY) gradXY

/-- `PADivergenceApplyTranspose3D`, lines 688-767: one pass of the loop over the components,
on the state `(grad, y)`. -/
def PADivergenceApplyTranspose3D_comp (max_Q1D max_TR_D1D : Nat) (junk : Buf R)
    (TR_D1D Q1D NE : Nat) (bt gt op_ quadTest : Buf R) (e c : Nat) (s : Buf R × Buf R) :
    Buf R × Buf R :=
  let Bt := Reshape2 bt TR_D1D Q1D
  let Gt := Reshape2 gt TR_D1D Q1D
  let VDIM := 3
  let grad := PADivergenceApplyTranspose3D_grad max_Q1D Q1D NE op_ quadTest c e s.1
  let y_ := forLoop Q1D (fun qz y_ =>
    let gradXY := PADivergenceApplyTranspose3D_gradXY max_Q1D max_TR_D1D junk TR_D1D Q1D bt gt
      grad qz
    forLoop TR_D1D (fun dz y_ =>
      let wz := Bt dz qz
      let wDz := Gt dz qz
      forLoop TR_D1D (fun dy y_ =>
        forLoop TR_D1D (fun dx y_ =>
          y_.add (idx5 TR_D1D TR_D1D TR_D1D 3 dx dy dz c e)
            ((gradXY (carr3 max_TR_D1D VDIM dy dx 0) * wz) +
              (gradXY (carr3 max_TR_D1D VDIM dy dx 1) * wz) +
              (gradXY (carr3 max_TR_D1D VDIM dy dx 2) * wDz))) y_) y_) y_) s.2
  (grad, y_)

/-- `PADivergenceApplyTranspose3D`, lines 621-768: the body of the `forall` loop. -/
def PADivergenceApplyTranspose3D_elem (max_Q1D max_TR_D1D : Nat) (junk : Buf R)
    (TR_D1D TE_D1D Q1D NE : Nat) (bt gt b op_ x_ : Buf R) (e : Nat) (y_ : Buf R) : Buf R :=
  let VDIM := 3
  let quadTest := PADivergenceApplyTranspose3D_quadTest max_Q1D junk TE_D1D Q1D NE b x_ e
  let grad : Buf R := junk
  (forLoop VDIM (fun c s =>
    PADivergenceApplyTranspose3D_comp max_Q1D max_TR_D1D junk TR_D1D Q1D NE bt gt op_ quadTest
      e c s) (grad, y_)).2

/-- `PADivergenceApplyTranspose3D` (lines 595-770). -/
def PADivergenceApplyTranspose3D (dev lim : DofQuadLimits) (T_TR_D1D T_TE_D1D T_Q1D : Nat)
    (junk : Buf R) (NE : Nat) (bt gt b op_ x_ y_ : Buf R) (tr_d1d te_d1d q1d : Nat) :
    Outcome (Buf R) :=
  let TR_D1D := pick T_TR_D1D tr_d1d
  let TE_D1D := pick T_TE_D1D te_d1d
  let Q1D := pick T_Q1D q1d
  if ¬ TR_D1D ≤ dev.MAX_D1D then Outcome.fatal "" y_ else
  if ¬ TE_D1D ≤ dev.MAX_D1D then Outcome.fatal "" y_ else
  if ¬ Q1D ≤ dev.MAX_Q1D then Outcome.fatal "" y_ else
  let max_TR_D1D := pick T_TR_D1D lim.MAX_D1D
  let max_Q1D := pick T_Q1D lim.MAX_Q1D
  Outcome.ok (forLoop NE (fun e y_ =>
    PADivergenceApplyTranspose3D_elem max_Q1D max_TR_D1D junk TR_D1D TE_D1D Q1D NE bt gt b op_
      x_ e y_) y_)

/-- The value the 3D transpose kernel adds to `y(dx, dy, dz, c, e)`, in closed form. -/
def PADivergenceApplyTranspose3D_inc (TR_D1D TE_D1D Q1D NE : Nat)
    (bt gt b op_ x_ : Buf R) (e c dz dy dx : Nat) : R :=
  let Bt := Reshape2 bt TR_D1D Q1D
  let Gt := Reshape2 gt TR_D1D Q1D
  let B := Reshape2 b Q1D TE_D1D
  let op := Reshape4 op_ (Q1D * Q1D * Q1D) 3 3 NE
  let x := Reshape4 x_ TE_D1D TE_D1D TE_D1D NE
  let Y := fun qx qy qz => interp3D TE_D1D (fun dx dy dz => x dx dy dz e) B B B qx qy qz
  ∑ qz ∈ Finset.range Q1D,
    ((∑ qy ∈ Finset.range Q1D, (∑ qx ∈ Finset.range Q1D,
        (Y qx qy qz * op (qx + (qy + qz * Q1D) * Q1D) 0 c e) * Gt dx qx) * Bt dy qy) * Bt dz qz +
      (∑ qy ∈ Finset.range Q1D, (∑ qx ∈ Finset.range Q1D,
        (Y qx qy qz * op (qx + (qy + qz * Q1D) * Q1D) 1 c e) * Bt dx qx) * Gt dy qy) * Bt dz qz +
      (∑ qy ∈ Finset.range Q1D, (∑ qx ∈ Finset.range Q1D,
        (Y qx qy qz * op (qx + (qy + qz * Q1D) * Q1D) 2 c e) * Bt dx qx) * Bt dy qy) * Gt dz qz)

/-- What one pass of the component loop of the 3D transpose kernel adds to cell `j` of `y`,
given the content `grad` of the gradient array on entry. -/
def PADivergenceApplyTranspose3D_delta (max_Q1D max_TR_D1D : Nat) (junk : Buf R)
    (TR_D1D Q1D NE : Nat) (bt gt op_ quadTest : Buf R) (e c : Nat) (grad : Buf R) (j : Nat) :
    R :=
  ∑ qz ∈ Finset.range Q1D, ∑ dz ∈ Finset.range TR_D1D, ∑ dy ∈ Finset.range TR_D1D,
    ∑ dx ∈ Finset.range TR_D1D,
      if j = idx5 TR_D1D TR_D1D TR_D1D 3 dx dy dz c e then
        (PADivergenceApplyTranspose3D_gradXY max_Q1D max_TR_D1D junk TR_D1D Q1D bt gt
            (PADivergenceApplyTranspose3D_grad max_Q1D Q1D NE op_ quadTest c e grad) qz
            (carr3 max_TR_D1D 3 dy dx 0) * Reshape2 bt TR_D1D Q1D dz qz) +
          (PADivergenceApplyTranspose3D_gradXY max_Q1D max_TR_D1D junk TR_D1D Q1D bt gt
            (PADivergenceApplyTranspose3D_grad max_Q1D Q1D NE op_ quadTest c e grad) qz
            (carr3 max_TR_D1D 3 dy dx 1) * Reshape2 bt TR_D1D Q1D dz qz) +
          (PADivergenceApplyTranspose3D_gradXY max_Q1D max_TR_D1D junk TR_D1D Q1D bt gt
            (PADivergenceApplyTranspose3D_grad max_Q1D Q1D NE op_ quadTest c e grad) qz
            (carr3 max_TR_D1D 3 dy dx 2) * Reshape2 gt TR_D1D Q1D dz qz)
      else 0

end ApplyTranspose3D

section Smem3D

variable {R : Type u} [CommRing R]

/-- Offset of `v[i][j]` where `v` is the row `a + p` of `real_t a[_][N]`, cast to
`real_t (*)[M]`. -/
def view2 (N p M i j : Nat) : Nat := carr2 N p (carr2 M i j)

/-- Offset of `v[i][j][k]` where `v` is the row `a + p` of `real_t a[_][N]`, cast to
`real_t (*)[M][K]`. -/
def view3 (N p M K i j k : Nat) : Nat := carr2 N p (carr3 M K i j k)

/-- `SmemPADivergenceApply3D`, lines 831-841: `B` and `G` are staged into `sBG`. -/
def SmemPADivergenceApply3D_loadBG (MQ1 MD1 D1DR Q1D : Nat) (b_ g_ : Buf R) (sBG : Buf R) :
    Buf R :=
  let b := Reshape2 b_ Q1D D1DR
  let g := Reshape2 g_ Q1D D1DR
  let tidz := 0
  if tidz = 0 then
    forLoop D1DR (fun d sBG =>
      forLoop Q1D (fun q sBG =>
        let sBG := sBG.set (view2 (MQ1 * MD1) 0 MD1 q d) (b q d)
        let sBG := sBG.set (view2 (MQ1 * MD1) 1 MD1 q d) (g q d)
        sBG) sBG) sBG
  else sBG

/-- `SmemPADivergenceApply3D`, lines 843-852: `div` is cleared. -/
def SmemPADivergenceApply3D_zeroDiv (MQ1 Q1D : Nat) (div : Buf R) : Buf R :=
  forLoop Q1D (fun qz div =>
    forLoop Q1D (fun qy div =>
      forLoop Q1D (fun qx div => div.set (carr3 MQ1 MQ1 qz qy qx) 0) div) div) div

/-- `SmemPADivergenceApply3D`, lines 857-868: `QQQ0`, `QQQ1`, `QQQ2` (in `sm0`) are cleared. -/
def SmemPADivergenceApply3D_zeroQQQ (MDQ MQ1 Q1D : Nat) (sm0 : Buf R) : Buf R :=
  forLoop Q1D (fun qz sm0 =>
    forLoop Q1D (fun qy sm0 =>
      forLoop Q1D (fun qx sm0 =>
        let sm0 := sm0.set (view3 (MDQ * MDQ * MDQ) 0 MQ1 MQ1 qz qy qx) 0
        let sm0 := sm0.set (view3 (MDQ * MDQ * MDQ) 1 MQ1 MQ1 qz qy qx) 0
        let sm0 := sm0.set (view3 (MDQ * MDQ * MDQ) 2 MQ1 MQ1 qz qy qx) 0
        sm0) sm0) sm0) sm0

/-- `SmemPADivergenceApply3D`, lines 870-879: component `c` of `x` is staged into `X`
(in `sm0`). -/
def SmemPADivergenceApply3D_loadX (MDQ MD1 D1DR NE : Nat) (x_ : Buf R) (c e : Nat)
    (sm0 : Buf R) : Buf R :=
  let x := Reshape5 x_ D1DR D1DR D1DR 3 NE
  forLoop D1DR (fun dz sm0 =>
    forLoop D1DR (fun dy sm0 =>
      forLoop D1DR (fun dx sm0 =>
        sm0.set (view3 (MDQ * MDQ * MDQ) 2 MD1 MD1 dz dy dx) (x dx dy dz c e)) sm0) sm0) sm0

/-- `SmemPADivergenceApply3D`, lines 881-899: `DDQ0`, `DDQ1` (in `sm0`) from `X` (in `sm0`). -/
def SmemPADivergenceApply3D_stageX (MDQ MQ1 MD1 D1DR Q1D : Nat) (sBG : Buf R) (sm0 : Buf R) :
    Buf R :=
  forLoop D1DR (fun dz sm0 =>
    forLoop D1DR (fun dy sm0 =>
      forLoop Q1D (fun qx sm0 =>
        let uv := forLoop D1DR (fun dx (s : R × R) =>
          let coord := sm0 (view3 (MDQ * MDQ * MDQ) 2 MD1 MD1 dz dy dx)
          (s.1 + coord * sBG (view2 (MQ1 * MD1) 0 MD1 qx dx),
            s.2 + coord * sBG (view2 (MQ1 * MD1) 1 MD1 qx dx))) (0, 0)
        let sm0 := sm0.set (view3 (MDQ * MDQ * MDQ) 0 MD1 MQ1 dz dy qx) uv.1
        let sm0 := sm0.set (view3 (MDQ * MDQ * MDQ) 1 MD1 MQ1 dz dy qx) uv.2
        sm0) sm0) sm0) sm0

/-- `SmemPADivergenceApply3D`, lines 901-921: `DQQ0`, `DQQ1`, `DQQ2` (in `sm1`) from `DDQ0`,
`DDQ1` (in `sm0`). -/
def SmemPADivergenceApply3D_stageY (MDQ MQ1 MD1 D1DR Q1D : Nat) (sBG sm0 : Buf R)
    (sm1 : Buf R) : Buf R :=
  forLoop D1DR (fun dz sm1 =>
    forLoop Q1D (fun qy sm1 =>
      forLoop Q1D (fun qx sm1 =>
        let uvw := forLoop D1DR (fun dy (s : R × R × R) =>
          (s.1 + sm0 (view3 (MDQ * MDQ * MDQ) 1 MD1 MQ1 dz dy qx) *
              sBG (view2 (MQ1 * MD1) 0 MD1 qy dy),
            s.2.1 + sm0 (view3 (MDQ * MDQ * MDQ) 0 MD1 MQ1 dz dy qx) *
              sBG (view2 (MQ1 * MD1) 1 MD1 qy dy),
            s.2.2 + sm0 (view3 (MDQ * MDQ * MDQ) 0 MD1 MQ1 dz dy qx) *
              sBG (view2 (MQ1 * MD1) 0 MD1 qy dy))) (0, 0, 0)
        let sm1 := sm1.set (view3 (MDQ * MDQ * MDQ) 0 MQ1 MQ1 dz qy qx) uvw.1
        let sm1 := sm1.set (view3 (MDQ * MDQ * MDQ) 1 MQ1 MQ1 dz qy qx) uvw.2.1
        let sm1 := sm1.set (view3 (MDQ * MDQ * MDQ) 2 MQ1 MQ1 dz qy qx) uvw.2.2
        sm1) sm1) sm1) sm1

/-- `SmemPADivergenceApply3D`, lines 923-943: `QQQ0`, `QQQ1`, `QQQ2` (in `sm0`) from `DQQ0`,
`DQQ1`, `DQQ2` (in `sm1`). -/
def SmemPADivergenceApply3D_stageZ (MDQ MQ1 MD1 D1DR Q1D : Nat) (sBG sm1 : Buf R)
    (sm0 : Buf R) : Buf R :=
  forLoop Q1D (fun qz sm0 =>
    forLoop Q1D (fun qy sm0 =>
      forLoop Q1D (fun qx sm0 =>
        let uvw := forLoop D1DR (fun dz (s : R × R × R) =>
          (s.1 + sm1 (view3 (MDQ * MDQ * MDQ) 0 MQ1 MQ1 dz qy qx) *
              sBG (view2 (MQ1 * MD1) 0 MD1 qz dz),
            s.2.1 + sm1 (view3 (MDQ * MDQ * MDQ) 1 MQ1 MQ1 dz qy qx) *
              sBG (view2 (MQ1 * MD1) 0 MD1 qz dz),
            s.2.2 + sm1 (view3 (MDQ * MDQ * MDQ) 2 MQ1 MQ1 dz qy qx) *
              sBG (view2 (MQ1 * MD1) 1 MD1 qz dz))) (0, 0, 0)
        let sm0 := sm0.set (view3 (MDQ * MDQ * MDQ) 0 MQ1 MQ1 qz qy qx) uvw.1
        let sm0 := sm0.set (view3 (MDQ * MDQ * MDQ) 1 MQ1 MQ1 qz qy qx) uvw.2.1
        let sm0 := sm0.set (view3 (MDQ * MDQ * MDQ) 2 MQ1 MQ1 qz qy qx) uvw.2.2
        sm0) sm0) sm0) sm0

/-- `SmemPADivergenceApply3D`, lines 945-958: the contribution of component `c` is added to
`div`. -/
def SmemPADivergenceApply3D_divAcc (MDQ MQ1 Q1D NE : Nat) (q_ sm0 : Buf R) (c e : Nat)
    (div : Buf R) : Buf R :=
  let Q := Reshape4 q_ (Q1D * Q1D * Q1D) 3 3 NE
  forLoop Q1D (fun qz div =>
    forLoop Q1D (fun qy div =>
      forLoop Q1D (fun qx div =>
        let q := qx + (qy + qz * Q1D) * Q1D
        let gX := sm0 (view3 (MDQ * MDQ * MDQ) 0 MQ1 MQ1 qz qy qx)
        let gY := sm0 (view3 (MDQ * MDQ * MDQ) 1 MQ1 MQ1 qz qy qx)
        let gZ := sm0 (view3 (MDQ * MDQ * MDQ) 2 MQ1 MQ1 qz qy qx)
        div.add (carr3 MQ1 MQ1 qz qy qx) (gX * Q q 0 c e + gY * Q q 1 c e + gZ * Q q 2 c e))
        div) div) div

/-- `SmemPADivergenceApply3D`, lines 855-960: one pass of the loop over the components, on the
state `(sm0, sm1, div)`; every `MFEM_SYNC_THREAD` separates two of the steps. -/
def SmemPADivergenceApply3D_comp (MDQ MQ1 MD1 D1DR Q1D NE : Nat) (sBG q_ x_ : Buf R)
    (e c : Nat) (s : Buf R × Buf R × Buf R) : Buf R × Buf R × Buf R :=
  let sm0 := SmemPADivergenceApply3D_zeroQQQ MDQ MQ1 Q1D s.1
  let sm0 := SmemPADivergenceApply3D_loadX MDQ MD1 D1DR NE x_ c e sm0
  let sm0 := SmemPADivergenceApply3D_stageX MDQ MQ1 MD1 D1DR Q1D sBG sm0
  let sm1 := SmemPADivergenceApply3D_stageY MDQ MQ1 MD1 D1DR Q1D sBG sm0 s.2.1
  let sm0 := SmemPADivergenceApply3D_stageZ MDQ MQ1 MD1 D1DR Q1D sBG sm1 sm0
  let div := SmemPADivergenceApply3D_divAcc MDQ MQ1 Q1D NE q_ sm0 c e s.2.2
  (sm0, sm1, div)

/-- `SmemPADivergenceApply3D`, lines 962-971: `Bt` is staged into `sBG`, over `B`. -/
def SmemPADivergenceApply3D_loadBt (MQ1 MD1 D1DE Q1D : Nat) (bt_ : Buf R) (sBG : Buf R) :
    Buf R :=
  let bt := Reshape2 bt_ D1DE Q1D
  let tidz := 0
  if tidz = 0 then
    forLoop D1DE (fun d sBG =>
      forLoop Q1D (fun q sBG => sBG.set (view2 (MQ1 * MD1) 0 MQ1 d q) (bt d q)) sBG) sBG
  else sBG

/-- `SmemPADivergenceApply3D`, lines 974-988: `QQD0` (in `sm1`) from `div`. -/
def SmemPADivergenceApply3D_stageQQD (MDQ MQ1 MD1 D1DE Q1D : Nat) (sBG div : Buf R)
    (sm1 : Buf R) : Buf R :=
  forLoop Q1D (fun qz sm1 =>
    forLoop Q1D (fun qy sm1 =>
      forLoop D1DE (fun dx sm1 =>
        let u := forLoop Q1D (fun qx (u : R) =>
          u + div (carr3 MQ1 MQ1 qz qy qx) * sBG (view2 (MQ1 * MD1) 0 MQ1 dx qx)) 0
        sm1.set (view3 (MDQ * MDQ * MDQ) 0 MQ1 MD1 qz qy dx) u) sm1) sm1) sm1

/-- `SmemPADivergenceApply3D`, lines 990-1004: `QDD0` (in `sm0`) from `QQD0` (in `sm1`). -/
def SmemPADivergenceApply3D_stageQDD (MDQ MQ1 MD1 D1DE Q1D : Nat) (sBG sm1 : Buf R)
    (sm0 : Buf R) : Buf R :=
  forLoop Q1D (fun qz sm0 =>
    forLoop D1DE (fun dy sm0 =>
      forLoop D1DE (fun dx sm0 =>
        let u := forLoop Q1D (fun qy (u : R) =>
          u + sm1 (view3 (MDQ * MDQ * MDQ) 0 MQ1 MD1 qz qy dx) *
            sBG (view2 (MQ1 * MD1) 0 MQ1 dy qy)) 0
        sm0.set (view3 (MDQ * MDQ * MDQ) 0 MD1 MD1 qz dy dx) u) sm0) sm0) sm0

/-- `SmemPADivergenceApply3D`, lines 1006-1020: the result is added to `y`. -/
def SmemPADivergenceApply3D_yAcc (MDQ MQ1 MD1 D1DE Q1D : Nat) (sBG sm0 : Buf R) (e : Nat)
    (y_ : Buf R) : Buf R :=
  forLoop D1DE (fun dz y_ =>
    forLoop D1DE (fun dy y_ =>
      forLoop D1DE (fun dx y_ =>
        let u := forLoop Q1D (fun qz (u : R) =>
          u + sm0 (view3 (MDQ * MDQ * MDQ) 0 MD1 MD1 qz dy dx) *
            sBG (view2 (MQ1 * MD1) 0 MQ1 dz qz)) 0
        y_.add (idx4 D1DE D1DE D1DE dx dy dz e) u) y_) y_) y_

/-- `SmemPADivergenceApply3D`, lines 801-1021: the body of the `forall_3D` loop for element
`e`, its thread loops run one after the other between the barriers. `MQ1`, `MD1R`, `MD1E` are
the compile-time extents; the shared arrays `sBG`, `sm0`, `sm1`, `div` start from `junk`. -/
def SmemPADivergenceApply3D_elem (MQ1 MD1R MD1E : Nat) (junk : Buf R) (D1DR D1DE Q1D NE : Nat)
    (b_ g_ bt_ q_ x_ : Buf R) (e : Nat) (y_ : Buf R) : Buf R :=
  let VDIM := 3
  let MD1 := if MD1E > MD1R then MD1E else MD1R
  let MDQ := if MQ1 > MD1 then MQ1 else MD1
  let sBG : Buf R := junk
  let sm0 : Buf R := junk
  let sm1 : Buf R := junk
  let div : Buf R := junk
  let sBG := SmemPADivergenceApply3D_loadBG MQ1 MD1 D1DR Q1D b_ g_ sBG
  let div := SmemPADivergenceApply3D_zeroDiv MQ1 Q1D div
  let s := forLoop VDIM (fun c s =>
    SmemPADivergenceApply3D_comp MDQ MQ1 MD1 D1DR Q1D NE sBG q_ x_ e c s) (sm0, sm1, div)
  let sBG := SmemPADivergenceApply3D_loadBt MQ1 MD1 D1DE Q1D bt_ sBG
  let sm1 := SmemPADivergenceApply3D_stageQQD MDQ MQ1 MD1 D1DE Q1D sBG s.2.2 s.2.1
  let sm0 := SmemPADivergenceApply3D_stageQDD MDQ MQ1 MD1 D1DE Q1D sBG sm1 s.1
  SmemPADivergenceApply3D_yAcc MDQ MQ1 MD1 D1DE Q1D sBG sm0 e y_

/-- `SmemPADivergenceApply3D` (lines 773-1022). -/
def SmemPADivergenceApply3D (dev lim : DofQuadLimits) (T_TR_D1D T_TE_D1D T_Q1D : Nat)
    (junk : Buf R) (NE : Nat) (b_ g_ bt_ q_ x_ y_ : Buf R) (tr_d1d te_d1d q1d : Nat) :
    Outcome (Buf R) :=
  let TR_D1D := pick T_TR_D1D tr_d1d
  let TE_D1D := pick T_TE_D1D te_d1d
  let Q1D := pick T_Q1D q1d
  if ¬ TR_D1D ≤ dev.MAX_D1D then Outcome.fatal "" y_ else
  if ¬ TE_D1D ≤ dev.MAX_D1D then Outcome.fatal "" y_ else
  if ¬ Q1D ≤ dev.MAX_Q1D then Outcome.fatal "" y_ else
  let MQ1 := pick T_Q1D lim.MAX_Q1D
  let MD1R := pick T_TR_D1D lim.MAX_D1D
  let MD1E := pick T_TE_D1D lim.MAX_D1D
  Outcome.ok (forLoop NE (fun e y_ =>
    SmemPADivergenceApply3D_elem MQ1 MD1R MD1E junk TR_D1D TE_D1D Q1D NE b_ g_ bt_ q_ x_ e y_)
    y_)

end Smem3D

section Specs

variable {R : Type u} [CommRing R]

/-- The output of the 2D forward kernel in closed form: `y(dx, dy, e)` is increased by
`PADivergenceApply2D_inc` for `e < NE`, `dx, dy < TE_D1D`; no other cell changes. -/
def PADivergenceApply2D_spec (TR_D1D TE_D1D Q1D NE : Nat) (b g bt op_ x_ y_ : Buf R) : Buf R :=
  fun j => y_ j + ∑ e ∈ Finset.range NE, ∑ dy ∈ Finset.range TE_D1D,
    ∑ dx ∈ Finset.range TE_D1D,
      if j = idx3 TE_D1D TE_D1D dx dy e then
        PADivergenceApply2D_inc TR_D1D TE_D1D Q1D NE b g bt op_ x_ e dy dx
      else 0

/-- The output of the 2D transpose kernel in closed form. -/
def PADivergenceApplyTranspose2D_spec (TR_D1D TE_D1D Q1D NE : Nat) (bt gt b op_ x_ y_ : Buf R) :
    Buf R :=
  fun j => y_ j + ∑ e ∈ Finset.range NE, ∑ c ∈ Finset.range 2, ∑ dy ∈ Finset.range TR_D1D,
    ∑ dx ∈ Finset.range TR_D1D,
      if j = idx4 TR_D1D TR_D1D 2 dx dy c e then
        PADivergenceApplyTranspose2D_inc TR_D1D TE_D1D Q1D NE bt gt b op_ x_ e c dy dx
      else 0

/-- The output of the 3D forward kernel (plain or tiled) in closed form. -/
def PADivergenceApply3D_spec (TR_D1D TE_D1D Q1D NE : Nat) (b g bt op_ x_ y_ : Buf R) : Buf R :=
  fun j => y_ j + ∑ e ∈ Finset.range NE, ∑ dz ∈ Finset.range TE_D1D,
    ∑ dy ∈ Finset.range TE_D1D, ∑ dx ∈ Finset.range TE_D1D,
      if j = idx4 TE_D1D TE_D1D TE_D1D dx dy dz e then
        PADivergenceApply3D_inc TR_D1D TE_D1D Q1D NE b g bt op_ x_ e dz dy dx
      else 0

/-- The output of the 3D transpose kernel in closed form. -/
def PADivergenceApplyTranspose3D_spec (TR_D1D TE_D1D Q1D NE : Nat) (bt gt b op_ x_ y_ : Buf R) :
    Buf R :=
  fun j => y_ j + ∑ e ∈ Finset.range NE, ∑ c ∈ Finset.range 3, ∑ dz ∈ Finset.range TR_D1D,
    ∑ dy ∈ Finset.range TR_D1D, ∑ dx ∈ Finset.range TR_D1D,
      if j = idx5 TR_D1D TR_D1D TR_D1D 3 dx dy dz c e then
        PADivergenceApplyTranspose3D_inc TR_D1D TE_D1D Q1D NE bt gt b op_ x_ e c dz dy dx
      else 0

end Specs

/-! ## The dispatch functions

`MFEM_ABORT`, `MFEM_VERIFY` and `MFEM_ASSERT` are macros of `general/error.hpp`, which is not
part of the sources at hand. `MFEM_ABORT(msg)` stops the program with `msg`; `MFEM_VERIFY(c, msg)`
does so when `c` is false; `MFEM_ASSERT(c, msg)` is `MFEM_VERIFY(c, msg)` when the library is
compiled with `MFEM_DEBUG` and expands to nothing otherwise. Whether `MFEM_DEBUG` is defined is
the parameter `MFEM_DEBUG : Bool` of the functions that use `MFEM_ASSERT`. -/

section Dispatch

variable {R : Type u} [CommRing R]

/-- `PADivergenceSetup` (lines 99-118). The three `if` statements follow one another; only the
first one leaves the function, through `MFEM_ABORT`. -/
def PADivergenceSetup (dim : Int) (_TR_D1D _TE_D1D Q1D NE : Nat) (W J : Buf R) (COEFF : R)
    (op : Buf R) : Outcome (Buf R) :=
  if dim = 1 then Outcome.fatal "dim==1 not supported in PADivergenceSetup" op else
  let op := if dim = 2 then PADivergenceSetup2D Q1D NE W J COEFF op else op
  let op := if dim = 3 then PADivergenceSetup3D Q1D NE W J COEFF op else op
  Outcome.ok op

/-- `PADivergenceApply` (lines 1024-1060). The kernels are instantiated with the default
template arguments `0, 0, 0`; `junk` is the indeterminate initial content of their stack
arrays. -/
def PADivergenceApply (dev lim : DofQuadLimits) (junk : Buf R) (dim : Int)
    (TR_D1D TE_D1D Q1D NE : Nat) (B G Bt op x y : Buf R) (transpose : Bool) :
    Outcome (Buf R) :=
  if dim = 2 then
    if transpose then
      PADivergenceApplyTranspose2D dev lim 0 0 0 junk NE B G Bt op x y TR_D1D TE_D1D Q1D
    else
      PADivergenceApply2D dev lim 0 0 0 junk NE B G Bt op x y TR_D1D TE_D1D Q1D
  else if dim = 3 then
    if transpose then
      PADivergenceApplyTranspose3D dev lim 0 0 0 junk NE B G Bt op x y TR_D1D TE_D1D Q1D
    else
      PADivergenceApply3D dev lim 0 0 0 junk NE B G Bt op x y TR_D1D TE_D1D Q1D
  else Outcome.fatal "Unknown kernel." y

end Dispatch

/-! ## The TMOP energy kernel (`fem/tmop/tmop_pa_w2.cpp`)

Scalars are elements of a field. A 2x2 matrix passed as `const real_t *` is a buffer of four
scalars; `&J(0,0,qx,qy,e)` is the buffer that starts at that entry of `j_`. -/

section Tmop

variable {R : Type u} [Field R]

/-- The helpers that `tmop_pa_w2.cpp` calls and that are defined in `linalg/kernels.hpp`,
`linalg/dinvariants.hpp` and `fem/tmop/tmop_pa.hpp`; these headers are not part of the sources at
hand, so the helpers are parameters. A helper that fills an array returns the new content of the
array; its last buffer argument is the content of the array before the call. -/
structure TmopKernels (R : Type u) where
  /-- The call `kernels::internal::LoadX<MD1,NBZ>(e,D1D,X,XY)`. -/
  LoadX : (MD1 NBZ e D1D : Nat) → (X XY : Buf R) → Buf R
  /-- The call `kernels::internal::LoadBG<MD1,MQ1>(D1D,Q1D,b,g,BG)`. -/
  LoadBG : (MD1 MQ1 D1D Q1D : Nat) → (b g BG : Buf R) → Buf R
  /-- The call `kernels::internal::GradX<MD1,MQ1,NBZ>(D1D,Q1D,BG,XY,DQ)`. -/
  GradX : (MD1 MQ1 NBZ D1D Q1D : Nat) → (BG XY DQ : Buf R) → Buf R
  /-- The call `kernels::internal::GradY<MD1,MQ1,NBZ>(D1D,Q1D,BG,DQ,QQ)`. -/
  GradY : (MD1 MQ1 NBZ D1D Q1D : Nat) → (BG DQ QQ : Buf R) → Buf R
  /-- The call `kernels::internal::PullGrad<MQ1,NBZ>(Q1D,qx,qy,QQ,Jpr)`. -/
  PullGrad : (MQ1 NBZ Q1D qx qy : Nat) → (QQ Jpr : Buf R) → Buf R
  /-- The call `kernels::CalcInverse<2>(data, inv_data)`. -/
  CalcInverse2 : (data inv_data : Buf R) → Buf R
  /-- The call `kernels::Mult(Aheight, Awidth, Bwidth, A, B, AB)`, the data pointers in the
  order in which the call passes them. -/
  Mult : (Aheight Awidth Bwidth : Nat) → (A B AB : Buf R) → Buf R
  /-- The value `kernels::Det<2>(data)`. -/
  Det2 : (data : Buf R) → R
  /-- The value `InvariantsEvaluator2D(Args().J(Jpt)).Get_I1()`. -/
  Get_I1 : (Jpt : Buf R) → R
  /-- The value `InvariantsEvaluator2D(Args().J(Jpt)).Get_I1b()`. -/
  Get_I1b : (Jpt : Buf R) → R
  /-- The value `InvariantsEvaluator2D(Args().J(Jpt)).Get_I2()`. -/
  Get_I2 : (Jpt : Buf R) → R
  /-- The value `InvariantsEvaluator2D(Args().J(Jpt)).Get_I2b()`. -/
  Get_I2b : (Jpt : Buf R) → R

/-- `EvalW_001` (lines 24-29). -/
def EvalW_001 (K : TmopKernels R) (Jpt : Buf R) : R :=
  K.Get_I1 Jpt

/-- `EvalW_002` (lines 31-36). -/
def EvalW_002 (K : TmopKernels R) (Jpt : Buf R) : R :=
  0.5 * K.Get_I1b Jpt - 1.0

/-- `EvalW_007` (lines 38-43). -/
def EvalW_007 (K : TmopKernels R) (Jpt : Buf R) : R :=
  K.Get_I1 Jpt * (1.0 + 1.0 / K.Get_I2 Jpt) - 4.0

/-- `EvalW_056` (lines 45-52): `mu_56 = 0.5*(I2b + 1/I2b) - 1`. -/
def EvalW_056 (K : TmopKernels R) (Jpt : Buf R) : R :=
  let I2b := K.Get_I2b Jpt
  0.5 * (I2b + 1.0 / I2b) - 1.0

/-- `EvalW_077` (lines 54-60). -/
def EvalW_077 (K : TmopKernels R) (Jpt : Buf R) : R :=
  let I2b := K.Get_I2b Jpt
  0.5 * (I2b * I2b + 1.0 / (I2b * I2b) - 2.0)

/-- `EvalW_080` (lines 62-66). -/
def EvalW_080 (K : TmopKernels R) (Jpt w : Buf R) : R :=
  w 0 * EvalW_002 K Jpt + w 1 * EvalW_077 K Jpt

/-- `EvalW_094` (lines 68-72). -/
def EvalW_094 (K : TmopKernels R) (Jpt w : Buf R) : R :=
  w 0 * EvalW_002 K Jpt + w 1 * EvalW_056 K Jpt

/-- What `EnergyPA_2D` writes: the vectors `energy`, `l_energy` and the scalars `metric_energy`,
`lim_energy`. -/
structure EnergyPA_2D_State (R : Type u) where
  /-- The vector `energy`. -/
  energy : Buf R
  /-- The vector `l_energy`. -/
  l_energy : Buf R
  /-- The scalar `metric_energy`. -/
  metric_energy : R
  /-- The scalar `lim_energy`. -/
  lim_energy : R

/-- `EnergyPA_2D`, lines 130-139: the shared array `QQ` of element `e` after `LoadX`, `LoadBG`,
`GradX` and `GradY`. -/
def EnergyPA_2D_QQ (K : TmopKernels R) (MD1 MQ1 : Nat) (junk : Buf R) (D1D Q1D : Nat)
    (b_ g_ x_ : Buf R) (e : Nat) : Buf R :=
  let NBZ := 1
  let BG : Buf R := junk
  let XY : Buf R := junk
  let DQ : Buf R := junk
  let QQ : Buf R := junk
  let XY := K.LoadX MD1 NBZ e D1D x_ XY
  let BG := K.LoadBG MD1 MQ1 D1D Q1D b_ g_ BG
  let DQ := K.GradX MD1 MQ1 NBZ D1D Q1D BG XY DQ
  K.GradY MD1 MQ1 NBZ D1D Q1D BG DQ QQ

/-- `EnergyPA_2D`, line 145: the matrix `Jtr = &J(0,0,qx,qy,e)`. -/
def EnergyPA_2D_Jtr (Q1D : Nat) (j_ : Buf R) (e qy qx : Nat) : Buf R :=
  fun k => j_ (idx5 2 2 Q1D Q1D 0 0 qx qy e + k)

/-- `EnergyPA_2D`, line 146: the coefficient `m_coef`. -/
def EnergyPA_2D_m_coef (const_m0 : Bool) (Q1D NE : Nat) (mc_ : Buf R) (e qy qx : Nat) : R :=
  if const_m0 then Reshape3 mc_ 1 1 1 0 0 0 else Reshape3 mc_ Q1D Q1D NE qx qy e

/-- `EnergyPA_2D`, lines 143-175: the body of the loop over `qx`; the state is the pair of the
vectors `(energy, l_energy)`. -/
def EnergyPA_2D_point (K : TmopKernels R) (MQ1 : Nat) (junk : Buf R) (metric_normal : R)
    (use_detA const_m0 : Bool) (mc_ metric_data : Buf R) (mid : Int) (NE Q1D : Nat)
    (j_ w_ QQ : Buf R) (e qy qx : Nat) (s : Buf R × Buf R) : Buf R × Buf R :=
  let NBZ := 1
  let W := Reshape2 w_ Q1D Q1D
  let Jtr := EnergyPA_2D_Jtr Q1D j_ e qy qx
  let m_coef := EnergyPA_2D_m_coef const_m0 Q1D NE mc_ e qy qx
  let Jrt := K.CalcInverse2 Jtr junk
  let Jpr := K.PullGrad MQ1 NBZ Q1D qx qy QQ junk
  let Jpt := K.Mult 2 2 2 Jpr Jrt junk
  let det := K.Det2 (if use_detA then Jpr else Jtr)
  let weight := metric_normal * m_coef * W qx qy * det
  let EvalW :=
    if mid = 1 then EvalW_001 K Jpt else
    if mid = 2 then EvalW_002 K Jpt else
    if mid = 7 then EvalW_007 K Jpt else
    if mid = 56 then EvalW_056 K Jpt else
    if mid = 77 then EvalW_077 K Jpt else
    if mid = 80 then EvalW_080 K Jpt metric_data else
    if mid = 94 then EvalW_094 K Jpt metric_data else 0.0
  let E := s.1.set (idx3 Q1D Q1D qx qy e) (weight * EvalW)
  let L := s.2.set (idx3 Q1D Q1D qx qy e) weight
  (E, L)

/-- `EnergyPA_2D`, lines 122-177: the body of `forall_2D_batch` for element `e`. -/
def EnergyPA_2D_elem (K : TmopKernels R) (T_D1D T_Q1D T_MAX : Nat) (junk : Buf R)
    (metric_normal : R) (use_detA const_m0 : Bool) (mc_ metric_data : Buf R) (mid : Int)
    (NE : Nat) (j_ w_ b_ g_ x_ : Buf R) (d1d q1d : Nat) (e : Nat) (s : Buf R × Buf R) :
    Buf R × Buf R :=
  let MQ1 := pick T_Q1D T_MAX
  let MD1 := pick T_D1D T_MAX
  let D1D := pick T_D1D d1d
  let Q1D := pick T_Q1D q1d
  let QQ := EnergyPA_2D_QQ K MD1 MQ1 junk D1D Q1D b_ g_ x_ e
  forLoop Q1D (fun qy s =>
    forLoop Q1D (fun qx s =>
      EnergyPA_2D_point K MQ1 junk metric_normal use_detA const_m0 mc_ metric_data mid NE Q1D
        j_ w_ QQ e qy qx s) s) s

/-- `EnergyPA_2D` (lines 74-180), instantiated at the template arguments `T_D1D`, `T_Q1D`,
`T_MAX`. `mc_Size`, `energy_Size`, `l_energy_Size` are the sizes of the vectors `mc_`, `energy`,
`l_energy`; `junk` is the indeterminate initial content of the local and shared arrays;
`energy * ones` is the inner product of the two vectors. -/
def EnergyPA_2D (K : TmopKernels R) (T_D1D T_Q1D T_MAX : Nat) (junk : Buf R)
    (metric_normal : R) (use_detA : Bool) (mc_ : Buf R) (mc_Size : Nat) (metric_param : Buf R)
    (mid : Int) (NE : Nat) (j_ w_ b_ g_ x_ ones energy l_energy : Buf R)
    (energy_Size l_energy_Size : Nat) (metric_energy lim_energy : R) (d1d q1d : Nat) :
    Outcome (EnergyPA_2D_State R) :=
  let s0 : EnergyPA_2D_State R := ⟨energy, l_energy, metric_energy, lim_energy⟩
  if ¬ (mid = 1 ∨ mid = 2 ∨ mid = 7 ∨ mid = 56 ∨ mid = 77 ∨ mid = 80 ∨ mid = 94) then
    Outcome.fatal "2D metric not yet implemented!" s0 else
  let const_m0 := decide (mc_Size = 1)
  let D1D := pick T_D1D d1d
  let Q1D := pick T_Q1D q1d
  if ¬ (T_D1D > 0 ∨ D1D ≤ T_MAX) then Outcome.fatal "D1D > T_MAX!" s0 else
  if ¬ (T_Q1D > 0 ∨ Q1D ≤ T_MAX) then Outcome.fatal "Q1D > T_MAX!" s0 else
  let metric_data := metric_param
  let EL := forLoop NE (fun e s =>
    EnergyPA_2D_elem K T_D1D T_Q1D T_MAX junk metric_normal use_detA const_m0 mc_ metric_data
      mid NE j_ w_ b_ g_ x_ d1d q1d e s) (energy, l_energy)
  let metric_energy := dot energy_Size EL.1 ones
  let lim_energy := dot l_energy_Size EL.2 ones
  Outcome.ok ⟨EL.1, EL.2, metric_energy, lim_energy⟩

/-- The 2x2 matrix held by a buffer of four scalars, `data[i + 2*j]` the entry `(i, j)`. -/
def mat2 (data : Buf R) : Matrix (Fin 2) (Fin 2) R := fun i j => data (i.val + 2 * j.val)

/-- The helpers compute what their names say: `CalcInverse<2>` the inverse, `Mult(2,2,2,A,B,AB)`
the product `A * B`, `Det<2>` the determinant, and the invariants are
`I1 = sum of the squared entries`, `I2b = det`, `I1b = I1 / I2b`, `I2 = I2b^2`. -/
structure TmopKernels.Exact (K : TmopKernels R) : Prop where
  /-- `CalcInverse<2>` computes the inverse. -/
  calcInverse : ∀ A o, mat2 (K.CalcInverse2 A o) = (mat2 A)⁻¹
  /-- `Mult` computes the product. -/
  mult : ∀ A B o, mat2 (K.Mult 2 2 2 A B o) = mat2 A * mat2 B
  /-- `Det<2>` computes the determinant. -/
  det : ∀ A, K.Det2 A = (mat2 A).det
  /-- `I1` is the sum of the squared entries. -/
  get_I1 : ∀ J, K.Get_I1 J = J 0 * J 0 + J 1 * J 1 + J 2 * J 2 + J 3 * J 3
  /-- `I2b` is the determinant. -/
  get_I2b : ∀ J, K.Get_I2b J = (mat2 J).det
  /-- `I1b` is `I1 / I2b`. -/
  get_I1b : ∀ J, K.Get_I1b J = K.Get_I1 J / K.Get_I2b J
  /-- `I2` is `I2b^2`. -/
  get_I2 : ∀ J, K.Get_I2 J = K.Get_I2b J * K.Get_I2b J

/-- Modelled from the spec: `kernels::CalcInverse<2>` of `linalg/kernels.hpp`, the inverse of a
2x2 matrix (the adjugate divided by the determinant). -/
def kernels_CalcInverse2 (data inv_data : Buf R) : Buf R :=
  let t := 1 / (data 0 * data 3 - data 1 * data 2)
  (((inv_data.set 0 (data 3 * t)).set 1 (-data 1 * t)).set 2 (-data 2 * t)).set 3 (data 0 * t)

/-- Modelled from the spec: `kernels::Mult` of `linalg/kernels.hpp`, the product `A * B` of an
`Aheight x Awidth` and an `Awidth x Bwidth` matrix, all stored column by column ("Jpt = Jpr.Jrt"
in the comment of line 156). -/
def kernels_Mult (Aheight Awidth Bwidth : Nat) (A B AB : Buf R) : Buf R :=
  fun n => if n < Aheight * Bwidth then
    ∑ k ∈ Finset.range Awidth, A (n % Aheight + k * Aheight) * B (k + n / Aheight * Awidth)
  else AB n

/-- Modelled from the spec: `kernels::Det<2>` of `linalg/kernels.hpp`, the determinant of a 2x2
matrix. -/
def kernels_Det2 (data : Buf R) : R :=
  data 0 * data 3 - data 1 * data 2

/-- Modelled from the spec: the helpers of `fem/tmop/tmop_pa.hpp`, `linalg/kernels.hpp` and
`linalg/dinvariants.hpp`. `LoadX` to `PullGrad` compute the "shape-function gradient
contraction against nodal coordinates" `Jpr(i, j) = d X_i / d xi_j` by sum factorisation (the
scratch arrays are `XY[c][dy][dx]`, `BG[t][d][q]`, `DQ[2c+t][dy][qx]`, `QQ[2c+t][qy][qx]`),
`CalcInverse<2>`, `Mult` and `Det<2>` are the 2x2 matrix operations, and the invariants are
`I1 = sum of the squared entries`, `I2b = det`, `I1b = I1 / I2b`, `I2 = I2b^2`. -/
def tmopKernels : TmopKernels R where
  LoadX := fun MD1 _ e D1D X XY n =>
    if n < 2 * (MD1 * MD1) then
      Reshape4 X D1D D1D 2 0 (n % MD1) (n / MD1 % MD1) (n / (MD1 * MD1)) e
    else XY n
  LoadBG := fun MD1 MQ1 _ Q1D b g BG n =>
    if n < MQ1 * MD1 then Reshape2 b Q1D 0 (n % MQ1) (n / MQ1)
    else if n < 2 * (MQ1 * MD1) then Reshape2 g Q1D 0 (n % MQ1) (n / MQ1 - MD1)
    else BG n
  GradX := fun MD1 MQ1 _ D1D _ BG XY DQ n =>
    if n < 4 * (MQ1 * MD1) then
      ∑ dx ∈ Finset.range D1D,
        XY (dx + MD1 * (n / MQ1 % MD1) + MD1 * MD1 * (n / (MQ1 * MD1) / 2)) *
          BG (n % MQ1 + MQ1 * dx + MQ1 * MD1 * (n / (MQ1 * MD1) % 2))
    else DQ n
  GradY := fun MD1 MQ1 _ D1D _ BG DQ QQ n =>
    if n < 4 * (MQ1 * MQ1) then
      ∑ dy ∈ Finset.range D1D,
        DQ (n % MQ1 + MQ1 * dy + MQ1 * MD1 * (2 * (n / (MQ1 * MQ1) / 2) +
            (1 - n / (MQ1 * MQ1) % 2))) *
          BG (n / MQ1 % MQ1 + MQ1 * dy + MQ1 * MD1 * (n / (MQ1 * MQ1) % 2))
    else QQ n
  PullGrad := fun MQ1 _ _ qx qy QQ Jpr =>
    (((Jpr.set 0 (QQ (qx + MQ1 * qy))).set 1 (QQ (qx + MQ1 * qy + MQ1 * MQ1 * 2))).set 2
      (QQ (qx + MQ1 * qy + MQ1 * MQ1 * 1))).set 3 (QQ (qx + MQ1 * qy + MQ1 * MQ1 * 3))
  CalcInverse2 := kernels_CalcInverse2
  Mult := kernels_Mult
  Det2 := kernels_Det2
  Get_I1 := fun J => J 0 * J 0 + J 1 * J 1 + J 2 * J 2 + J 3 * J 3
  Get_I1b := fun J => (J 0 * J 0 + J 1 * J 1 + J 2 * J 2 + J 3 * J 3) / (J 0 * J 3 - J 1 * J 2)
  Get_I2 := fun J => (J 0 * J 3 - J 1 * J 2) * (J 0 * J 3 - J 1 * J 2)
  Get_I2b := fun J => J 0 * J 3 - J 1 * J 2

end Tmop

section TmopForms

variable {R : Type u} [Field R]

/-- `EnergyPA_2D`, line 154: the matrix `Jpr` at the point `(qx, qy)` of element `e`. -/
def EnergyPA_2D_Jpr (K : TmopKernels R) (T_D1D T_Q1D T_MAX : Nat) (junk b_ g_ x_ : Buf R)
    (d1d q1d : Nat) (e qy qx : Nat) : Buf R :=
  K.PullGrad (pick T_Q1D T_MAX) 1 (pick T_Q1D q1d) qx qy
    (EnergyPA_2D_QQ K (pick T_D1D T_MAX) (pick T_Q1D T_MAX) junk (pick T_D1D d1d)
      (pick T_Q1D q1d) b_ g_ x_ e) junk

/-- `EnergyPA_2D`, lines 149-158: the matrix `Jpt` at the point `(qx, qy)` of element `e`. -/
def EnergyPA_2D_Jpt (K : TmopKernels R) (T_D1D T_Q1D T_MAX : Nat) (junk j_ b_ g_ x_ : Buf R)
    (d1d q1d : Nat) (e qy qx : Nat) : Buf R :=
  K.Mult 2 2 2 (EnergyPA_2D_Jpr K T_D1D T_Q1D T_MAX junk b_ g_ x_ d1d q1d e qy qx)
    (K.CalcInverse2 (EnergyPA_2D_Jtr (pick T_Q1D q1d) j_ e qy qx) junk) junk

/-- `EnergyPA_2D`, lines 160-161: the value `weight` at the point `(qx, qy)` of element `e`. -/
def EnergyPA_2D_weight (K : TmopKernels R) (T_D1D T_Q1D T_MAX : Nat) (junk : Buf R)
    (metric_normal : R) (use_detA const_m0 : Bool) (mc_ : Buf R) (NE : Nat)
    (j_ w_ b_ g_ x_ : Buf R) (d1d q1d : Nat) (e qy qx : Nat) : R :=
  metric_normal * EnergyPA_2D_m_coef const_m0 (pick T_Q1D q1d) NE mc_ e qy qx *
    Reshape2 w_ (pick T_Q1D q1d) (pick T_Q1D q1d) qx qy *
    K.Det2 (if use_detA then EnergyPA_2D_Jpr K T_D1D T_Q1D T_MAX junk b_ g_ x_ d1d q1d e qy qx
      else EnergyPA_2D_Jtr (pick T_Q1D q1d) j_ e qy qx)

/-- `EnergyPA_2D`, lines 164-171: the value `EvalW` selected by `mid`. -/
def EnergyPA_2D_EvalW (K : TmopKernels R) (mid : Int) (metric_data Jpt : Buf R) : R :=
  if mid = 1 then EvalW_001 K Jpt else
  if mid = 2 then EvalW_002 K Jpt else
  if mid = 7 then EvalW_007 K Jpt else
  if mid = 56 then EvalW_056 K Jpt else
  if mid = 77 then EvalW_077 K Jpt else
  if mid = 80 then EvalW_080 K Jpt metric_data else
  if mid = 94 then EvalW_094 K Jpt metric_data else 0.0

end TmopForms

section SetupForms

variable {R : Type u}

/-- The `d x d` block `(r, c) ↦ p(q, r, c, e)` of a view `Reshape(p, NQ, d, d, NE)`: the
Jacobian `J(q,.,.,e)` read by the Setup kernels, or the operator block `op(q,.,.,e)`. -/
def blockAt (d NQ : Nat) (p : Buf R) (q e : Nat) : Matrix (Fin d) (Fin d) R :=
  fun r c => p (idx4 NQ d d q r.val c.val e)

end SetupForms

/-! ## `VectorDivergenceIntegrator::AssemblePA` -/

section Assemble

variable {R : Type u} [CommRing R]

/-- Modelled from the spec: the coefficient `Q` of the integrator ("constant only in this
scope; non-constant coefficients are a fatal unsupported-configuration error"). The class
`Coefficient` and its subclasses are declared in `fem/coefficient.hpp`, which is not part of the
sources at hand; all the code asks is whether `dynamic_cast<ConstantCoefficient*>(Q)` succeeds
and, if so, the member `constant`. -/
inductive Coefficient (R : Type u) where
  /-- A `ConstantCoefficient` with the value `constant`. -/
  | ConstantCoefficient (constant : R) : Coefficient R
  /-- A coefficient of any other class. -/
  | other : Coefficient R

/-- What `AssemblePA` reads from the finite element spaces, the mesh and the integration rule,
classes that are not part of the sources at hand. -/
structure AssemblePA_Env (R : Type u) where
  /-- Whether `trial_fes.GetOrdering() == Ordering::byNODES`. -/
  ordering_byNODES : Bool
  /-- The value `trial_fe.GetDim()`. -/
  dims : Nat
  /-- The value `ir->GetNPoints()`. -/
  nq : Nat
  /-- The value `mesh->Dimension()`. -/
  dim : Int
  /-- The value `trial_fes.GetNE()`. -/
  ne : Nat
  /-- The member `ndof` of the trial `DofToQuad` maps. -/
  trial_ndof : Nat
  /-- The member `nqpt` of the trial `DofToQuad` maps. -/
  trial_nqpt : Nat
  /-- The member `ndof` of the test `DofToQuad` maps. -/
  test_ndof : Nat
  /-- The member `nqpt` of the test `DofToQuad` maps. -/
  test_nqpt : Nat
  /-- The array `ir->GetWeights()`. -/
  weights : Buf R
  /-- The vector `geom->J` of the Jacobians. -/
  J : Buf R

/-- The members of `VectorDivergenceIntegrator` that `AssemblePA` writes. -/
structure VectorDivergenceIntegrator (R : Type u) where
  /-- The member `nq`. -/
  nq : Nat
  /-- The member `dim`. -/
  dim : Int
  /-- The member `ne`. -/
  ne : Nat
  /-- The member `trial_dofs1D`. -/
  trial_dofs1D : Nat
  /-- The member `quad1D`. -/
  quad1D : Nat
  /-- The member `test_dofs1D`. -/
  test_dofs1D : Nat
  /-- The size of the vector `pa_data`. -/
  pa_data_Size : Nat
  /-- The content of the vector `pa_data`. -/
  pa_data : Buf R

/-- `VectorDivergenceIntegrator::AssemblePA` (lines 120-156). `Q` is the member `Q` (a null
pointer is `none`), `resized` is the content of `pa_data` after `SetSize`, which is
indeterminate. The two `MFEM_ASSERT`s are checked only with `MFEM_DEBUG`. The local `coeff` is
`none` when `MFEM_VERIFY(cQ != NULL, ...)` fails. -/
def VectorDivergenceIntegrator_AssemblePA (MFEM_DEBUG : Bool) (env : AssemblePA_Env R)
    (Q : Option (Coefficient R)) (resized : Buf R) (self : VectorDivergenceIntegrator R) :
    Outcome (VectorDivergenceIntegrator R) :=
  if MFEM_DEBUG = true ∧ ¬ env.ordering_byNODES = true then
    Outcome.fatal "PA Only supports Ordering::byNODES!" self else
  let dims := env.dims
  let dimsToStore := dims * dims
  let nq := env.nq
  let dim := env.dim
  let ne := env.ne
  let trial_dofs1D := env.trial_ndof
  let quad1D := env.trial_nqpt
  let test_dofs1D := env.test_ndof
  if MFEM_DEBUG = true ∧ ¬ quad1D = env.test_nqpt then
    Outcome.fatal
      "PA requires test and trial space to have same number of quadrature points!"
      ⟨nq, dim, ne, trial_dofs1D, quad1D, test_dofs1D, self.pa_data_Size, self.pa_data⟩ else
  let pa_data_Size := nq * dimsToStore * ne
  let pa_data := resized
  let coeff : R := 1
  let coeff : Option R :=
    match Q with
    | none => some coeff
    | some (Coefficient.ConstantCoefficient constant) => some constant
    | some Coefficient.other => none
  match coeff with
  | none =>
    Outcome.fatal "only ConstantCoefficient is supported!"
      ⟨nq, dim, ne, trial_dofs1D, quad1D, test_dofs1D, pa_data_Size, pa_data⟩
  | some coeff =>
    match PADivergenceSetup dim trial_dofs1D test_dofs1D quad1D ne env.weights env.J coeff
      pa_data with
    | Outcome.ok pa_data =>
      Outcome.ok ⟨nq, dim, ne, trial_dofs1D, quad1D, test_dofs1D, pa_data_Size, pa_data⟩
    | Outcome.fatal msg pa_data =>
      Outcome.fatal msg ⟨nq, dim, ne, trial_dofs1D, quad1D, test_dofs1D, pa_data_Size, pa_data⟩

end Assemble

/-! ## Index monitors of the apply kernels

Each monitor below walks the loop nest of one kernel and, at every place where the kernel
subscripts a stack array or a view, reports whether the subscripts are inside the extents and
the flattened offset is inside the buffer. -/

/-- A subscripted access, given as the list of pairs (subscript, extent): every subscript is
below its extent. -/
def inBounds (a : List (Nat × Nat)) : Bool := a.all (fun p => decide (p.1 < p.2))

/-- A flattened access at offset `off` into a buffer of `size` entries. -/
def inBuffer (size off : Nat) : Bool := decide (off < size)

/-- The loop `for (int i = 0; i < n; ++i)` whose body reports whether its accesses are in
bounds. -/
def forAllLoop (n : Nat) (body : Nat → Bool) : Bool := (List.range n).all body

/-- An access `(i1, i2)` to the view `Reshape(p, n1, n2)` of a buffer of `size` entries. -/
def Reshape2_safe (size n1 n2 i1 i2 : Nat) : Bool :=
  inBounds [(i1, n1), (i2, n2)] && inBuffer size (idx2 n1 i1 i2)

/-- An access `(i1, i2, i3)` to the view `Reshape(p, n1, n2, n3)` of a buffer of `size`
entries. -/
def Reshape3_safe (size n1 n2 n3 i1 i2 i3 : Nat) : Bool :=
  inBounds [(i1, n1), (i2, n2), (i3, n3)] && inBuffer size (idx3 n1 n2 i1 i2 i3)

/-- An access `(i1, i2, i3, i4)` to the view `Reshape(p, n1, n2, n3, n4)` of a buffer of `size`
entries. -/
def Reshape4_safe (size n1 n2 n3 n4 i1 i2 i3 i4 : Nat) : Bool :=
  inBounds [(i1, n1), (i2, n2), (i3, n3), (i4, n4)] &&
    inBuffer size (idx4 n1 n2 n3 i1 i2 i3 i4)

/-- An access `(i1, i2, i3, i4, i5)` to the view `Reshape(p, n1, n2, n3, n4, n5)` of a buffer
of `size` entries. -/
def Reshape5_safe (size n1 n2 n3 n4 n5 i1 i2 i3 i4 i5 : Nat) : Bool :=
  inBounds [(i1, n1), (i2, n2), (i3, n3), (i4, n4), (i5, n5)] &&
    inBuffer size (idx5 n1 n2 n3 n4 i1 i2 i3 i4 i5)

/-- `PADivergenceApply2D`, lines 184-273: the accesses of the `forall` loop. `b_Size`, ...,
`y_Size` are the sizes of the buffers behind the views. -/
def PADivergenceApply2D_safe (lim : DofQuadLimits) (T_TR_D1D T_TE_D1D T_Q1D : Nat) (NE : Nat)
    (b_Size g_Size bt_Size op_Size x_Size y_Size : Nat) (tr_d1d te_d1d q1d : Nat) : Bool :=
  let TR_D1D := pick T_TR_D1D tr_d1d
  let TE_D1D := pick T_TE_D1D te_d1d
  let Q1D := pick T_Q1D q1d
  let B := Reshape2_safe b_Size Q1D TR_D1D
  let G := Reshape2_safe g_Size Q1D TR_D1D
  let Bt := Reshape2_safe bt_Size TE_D1D Q1D
  let op := Reshape4_safe op_Size (Q1D * Q1D) 2 2 NE
  let x := Reshape4_safe x_Size TR_D1D TR_D1D 2 NE
  let y := Reshape3_safe y_Size TE_D1D TE_D1D NE
  let VDIM := 2
  let max_TE_D1D := pick T_TE_D1D lim.MAX_D1D
  let max_Q1D := pick T_Q1D lim.MAX_Q1D
  let grad := fun i j k => inBounds [(i, max_Q1D), (j, max_Q1D), (k, VDIM)]
  let div := fun i j => inBounds [(i, max_Q1D), (j, max_Q1D)]
  forAllLoop NE fun e =>
    (forAllLoop Q1D fun qy => forAllLoop Q1D fun qx => div qy qx) &&
    (forAllLoop VDIM fun c =>
      (forAllLoop Q1D fun qy => forAllLoop Q1D fun qx => grad qy qx 0 && grad qy qx 1) &&
      (forAllLoop TR_D1D fun dy =>
        let gradX := fun i k => inBounds [(i, max_Q1D), (k, VDIM)]
        (forAllLoop Q1D fun qx => gradX qx 0 && gradX qx 1) &&
        (forAllLoop TR_D1D fun dx =>
          x dx dy c e &&
          forAllLoop Q1D fun qx =>
            gradX qx 0 && G qx dx && gradX qx 1 && B qx dx) &&
        (forAllLoop Q1D fun qy =>
          B qy dy && G qy dy &&
          forAllLoop Q1D fun qx =>
            grad qy qx 0 && gradX qx 0 && grad qy qx 1 && gradX qx 1)) &&
      (forAllLoop Q1D fun qy => forAllLoop Q1D fun qx =>
        let q := qx + qy * Q1D
        grad qy qx 0 && grad qy qx 1 && div qy qx && op q 0 c e && op q 1 c e)) &&
    (forAllLoop Q1D fun qy =>
      let opX := fun i => inBounds [(i, max_TE_D1D)]
      (forAllLoop TE_D1D fun dx =>
        opX dx && forAllLoop Q1D fun qx => opX dx && Bt dx qx && div qy qx) &&
      (forAllLoop TE_D1D fun dy => forAllLoop TE_D1D fun dx =>
        y dx dy e && Bt dy qy && opX dx))

/-- `PADivergenceApplyTranspose2D`, lines 322-407: the accesses of the `forall` loop. -/
def PADivergenceApplyTranspose2D_safe (lim : DofQuadLimits) (T_TR_D1D T_TE_D1D T_Q1D : Nat)
    (NE : Nat) (bt_Size gt_Size b_Size op_Size x_Size y_Size : Nat)
    (tr_d1d te_d1d q1d : Nat) : Bool :=
  let TR_D1D := pick T_TR_D1D tr_d1d
  let TE_D1D := pick T_TE_D1D te_d1d
  let Q1D := pick T_Q1D q1d
  let Bt := Reshape2_safe bt_Size TR_D1D Q1D
  let Gt := Reshape2_safe gt_Size TR_D1D Q1D
  let B := Reshape2_safe b_Size Q1D TE_D1D
  let op := Reshape4_safe op_Size (Q1D * Q1D) 2 2 NE
  let x := Reshape3_safe x_Size TE_D1D TE_D1D NE
  let y := Reshape4_safe y_Size TR_D1D TR_D1D 2 NE
  let VDIM := 2
  let max_TR_D1D := pick T_TR_D1D lim.MAX_D1D
  let max_Q1D := pick T_Q1D lim.MAX_Q1D
  let quadTest := fun i j => inBounds [(i, max_Q1D), (j, max_Q1D)]
  let grad := fun i j k => inBounds [(i, max_Q1D), (j, max_Q1D), (k, VDIM)]
  forAllLoop NE fun e =>
    (forAllLoop Q1D fun qy => forAllLoop Q1D fun qx => quadTest qy qx) &&
    (forAllLoop TE_D1D fun dy =>
      let quadTestX := fun i => inBounds [(i, max_Q1D)]
      (forAllLoop Q1D fun qx => quadTestX qx) &&
      (forAllLoop TE_D1D fun dx =>
        x dx dy e &&
        forAllLoop Q1D fun qx => quadTestX qx && B qx dx) &&
      (forAllLoop Q1D fun qy =>
        B qy dy &&
        forAllLoop Q1D fun qx => quadTest qy qx && quadTestX qx)) &&
    (forAllLoop VDIM fun c =>
      (forAllLoop Q1D fun qy => forAllLoop Q1D fun qx =>
        let q := qx + qy * Q1D
        grad qy qx 0 && quadTest qy qx && op q 0 c e &&
        grad qy qx 1 && quadTest qy qx && op q 1 c e) &&
      (forAllLoop Q1D fun qy =>
        let gradX := fun i k => inBounds [(i, max_TR_D1D), (k, VDIM)]
        (forAllLoop TR_D1D fun dx => gradX dx 0 && gradX dx 1) &&
        (forAllLoop Q1D fun qx =>
          grad qy qx 0 && grad qy qx 1 &&
          forAllLoop TR_D1D fun dx =>
            Bt dx qx && Gt dx qx && gradX dx 0 && gradX dx 1) &&
        (forAllLoop TR_D1D fun dy =>
          Bt dy qy && Gt dy qy &&
          forAllLoop TR_D1D fun dx =>
            y dx dy c e && gradX dx 0 && gradX dx 1)))

/-- `PADivergenceApply3D`, lines 436-590: the accesses of the `forall` loop. -/
def PADivergenceApply3D_safe (lim : DofQuadLimits) (T_TR_D1D T_TE_D1D T_Q1D : Nat) (NE : Nat)
    (b_Size g_Size bt_Size op_Size x_Size y_Size : Nat) (tr_d1d te_d1d q1d : Nat) : Bool :=
  let TR_D1D := pick T_TR_D1D tr_d1d
  let TE_D1D := pick T_TE_D1D te_d1d
  let Q1D := pick T_Q1D q1d
  let B := Reshape2_safe b_Size Q1D TR_D1D
  let G := Reshape2_safe g_Size Q1D TR_D1D
  let Bt := Reshape2_safe bt_Size TE_D1D Q1D
  let op := Reshape4_safe op_Size (Q1D * Q1D * Q1D) 3 3 NE
  let x := Reshape5_safe x_Size TR_D1D TR_D1D TR_D1D 3 NE
  let y := Reshape4_safe y_Size TE_D1D TE_D1D TE_D1D NE
  let VDIM := 3
  let max_TE_D1D := pick T_TE_D1D lim.MAX_D1D
  let max_Q1D := pick T_Q1D lim.MAX_Q1D
  let grad := fun i j k l => inBounds [(i, max_Q1D), (j, max_Q1D), (k, max_Q1D), (l, VDIM)]
  let div := fun i j k => inBounds [(i, max_Q1D), (j, max_Q1D), (k, max_Q1D)]
  forAllLoop NE fun e =>
    (forAllLoop Q1D fun qz => forAllLoop Q1D fun qy => forAllLoop Q1D fun qx =>
      div qz qy qx) &&
    (forAllLoop VDIM fun c =>
      (forAllLoop Q1D fun qz => forAllLoop Q1D fun qy => forAllLoop Q1D fun qx =>
        grad qz qy qx 0 && grad qz qy qx 1 && grad qz qy qx 2) &&
      (forAllLoop TR_D1D fun dz =>
        let gradXY := fun i j k => inBounds [(i, max_Q1D), (j, max_Q1D), (k, VDIM)]
        (forAllLoop Q1D fun qy => forAllLoop Q1D fun qx =>
          gradXY qy qx 0 && gradXY qy qx 1 && gradXY qy qx 2) &&
        (forAllLoop TR_D1D fun dy =>
          let gradX := fun i k => inBounds [(i, max_Q1D), (k, VDIM)]
          (forAllLoop Q1D fun qx => gradX qx 0 && gradX qx 1 && gradX qx 2) &&
          (forAllLoop TR_D1D fun dx =>
            x dx dy dz c e &&
            forAllLoop Q1D fun qx =>
              gradX qx 0 && G qx dx && gradX qx 1 && B qx dx && gradX qx 2 && B qx dx) &&
          (forAllLoop Q1D fun qy =>
            B qy dy && G qy dy &&
            forAllLoop Q1D fun qx =>
              gradXY qy qx 0 && gradX qx 0 && gradXY qy qx 1 && gradX qx 1 &&
                gradXY qy qx 2 && gradX qx 2)) &&
        (forAllLoop Q1D fun qz =>
          B qz dz && G qz dz &&
          forAllLoop Q1D fun qy => forAllLoop Q1D fun qx =>
            grad qz qy qx 0 && gradXY qy qx 0 && grad qz qy qx 1 && gradXY qy qx 1 &&
              grad qz qy qx 2 && gradXY qy qx 2)) &&
      (forAllLoop Q1D fun qz => forAllLoop Q1D fun qy => forAllLoop Q1D fun qx =>
        let q := qx + (qy + qz * Q1D) * Q1D
        grad qz qy qx 0 && grad qz qy qx 1 && grad qz qy qx 2 && div qz qy qx &&
          op q 0 c e && op q 1 c e && op q 2 c e)) &&
    (forAllLoop Q1D fun qz =>
      let opXY := fun i j => inBounds [(i, max_TE_D1D), (j, max_TE_D1D)]
      (forAllLoop TE_D1D fun dy => forAllLoop TE_D1D fun dx => opXY dy dx) &&
      (forAllLoop Q1D fun qy =>
        let opX := fun i => inBounds [(i, max_TE_D1D)]
        (forAllLoop TE_D1D fun dx =>
          opX dx && forAllLoop Q1D fun qx => opX dx && Bt dx qx && div qz qy qx) &&
        (forAllLoop TE_D1D fun dy => forAllLoop TE_D1D fun dx =>
          opXY dy dx && Bt dy qy && opX dx)) &&
      (forAllLoop TE_D1D fun dz => forAllLoop TE_D1D fun dy => forAllLoop TE_D1D fun dx =>
        y dx dy dz e && Bt dz qz && opXY dy dx))

/-- `PADivergenceApplyTranspose3D`, lines 619-768: the accesses of the `forall` loop. -/
def PADivergenceApplyTranspose3D_safe (lim : DofQuadLimits) (T_TR_D1D T_TE_D1D T_Q1D : Nat)
    (NE : Nat) (bt_Size gt_Size b_Size op_Size x_Size y_Size : Nat)
    (tr_d1d te_d1d q1d : Nat) : Bool :=
  let TR_D1D := pick T_TR_D1D tr_d1d
  let TE_D1D := pick T_TE_D1D te_d1d
  let Q1D := pick T_Q1D q1d
  let Bt := Reshape2_safe bt_Size TR_D1D Q1D
  let Gt := Reshape2_safe gt_Size TR_D1D Q1D
  let B := Reshape2_safe b_Size Q1D TE_D1D
  let op := Reshape4_safe op_Size (Q1D * Q1D * Q1D) 3 3 NE
  let x := Reshape4_safe x_Size TE_D1D TE_D1D TE_D1D NE
  let y := Reshape5_safe y_Size TR_D1D TR_D1D TR_D1D 3 NE
  let VDIM := 3
  let max_TR_D1D := pick T_TR_D1D lim.MAX_D1D
  let max_Q1D := pick T_Q1D lim.MAX_Q1D
  let quadTest := fun i j k => inBounds [(i, max_Q1D), (j, max_Q1D), (k, max_Q1D)]
  let grad := fun i j k l => inBounds [(i, max_Q1D), (j, max_Q1D), (k, max_Q1D), (l, VDIM)]
  forAllLoop NE fun e =>
    (forAllLoop Q1D fun qz => forAllLoop Q1D fun qy => forAllLoop Q1D fun qx =>
      quadTest qz qy qx) &&
    (forAllLoop TE_D1D fun dz =>
      let quadTestXY := fun i j => inBounds [(i, max_Q1D), (j, max_Q1D)]
      (forAllLoop Q1D fun qy => forAllLoop Q1D fun qx => quadTestXY qy qx) &&
      (forAllLoop TE_D1D fun dy =>
        let quadTestX := fun i => inBounds [(i, max_Q1D)]
        (forAllLoop Q1D fun qx => quadTestX qx) &&
        (forAllLoop TE_D1D fun dx =>
          x dx dy dz e &&
          forAllLoop Q1D fun qx => quadTestX qx && B qx dx) &&
        (forAllLoop Q1D fun qy =>
          B qy dy &&
          forAllLoop Q1D fun qx => quadTestXY qy qx && quadTestX qx)) &&
      (forAllLoop Q1D fun qz =>
        B qz dz &&
        forAllLoop Q1D fun qy => forAllLoop Q1D fun qx =>
          quadTest qz qy qx && quadTestXY qy qx)) &&
    (forAllLoop VDIM fun c =>
      (forAllLoop Q1D fun qz => forAllLoop Q1D fun qy => forAllLoop Q1D fun qx =>
        let q := qx + (qy + qz * Q1D) * Q1D
        grad qz qy qx 0 && quadTest qz qy qx && op q 0 c e &&
        grad qz qy qx 1 && quadTest qz qy qx && op q 1 c e &&
        grad qz qy qx 2 && quadTest qz qy qx && op q 2 c e) &&
      (forAllLoop Q1D fun qz =>
        let gradXY := fun i j k => inBounds [(i, max_TR_D1D), (j, max_TR_D1D), (k, VDIM)]
        (forAllLoop TR_D1D fun dy => forAllLoop TR_D1D fun dx =>
          gradXY dy dx 0 && gradXY dy dx 1 && gradXY dy dx 2) &&
        (forAllLoop Q1D fun qy =>
          let gradX := fun i k => inBounds [(i, max_TR_D1D), (k, VDIM)]
          (forAllLoop TR_D1D fun dx => gradX dx 0 && gradX dx 1 && gradX dx 2) &&
          (forAllLoop Q1D fun qx =>
            grad qz qy qx 0 && grad qz qy qx 1 && grad qz qy qx 2 &&
            forAllLoop TR_D1D fun dx =>
              Bt dx qx && Gt dx qx && gradX dx 0 && gradX dx 1 && gradX dx 2) &&
          (forAllLoop TR_D1D fun dy =>
            Bt dy qy && Gt dy qy &&
            forAllLoop TR_D1D fun dx =>
              gradXY dy dx 0 && gradX dx 0 && gradXY dy dx 1 && gradX dx 1 &&
                gradXY dy dx 2 && gradX dx 2)) &&
        (forAllLoop TR_D1D fun dz =>
          Bt dz qz && Gt dz qz &&
          forAllLoop TR_D1D fun dy => forAllLoop TR_D1D fun dx =>
            y dx dy dz c e && gradXY dy dx 0 && gradXY dy dx 1 && gradXY dy dx 2)))

/-! ## The dispatch key of the energy kernel (`fem/tmop/tmop_pa_w2.cpp`) -/

/-- The value of the C++ type `int` (32 bits, two's complement) whose bit pattern is `p`, taken
modulo `2^32`. -/
def int32 (p : Nat) : Int :=
  if p % 2 ^ 32 < 2 ^ 31 then ((p % 2 ^ 32 : Nat) : Int)
  else ((p % 2 ^ 32 : Nat) : Int) - 2 ^ 32

/-- The key `const int id = (D1D << 4 ) | Q1D` of `TMOP_Integrator::GetLocalStateEnergyPA_2D`
(line 189), `TMOP_Integrator::GetLocalNormalizationEnergiesPA_2D` (line 219) and
`TMOP_Combo_QualityMetric::GetLocalEnergyPA_2D` (line 255), for `int`s `D1D`, `Q1D` that are not
negative. The shift is done on 32 bits, the bits of `D1D * 2^4` from bit 32 on are lost; `|` is
the bitwise or of the two bit patterns. -/
def GetLocalStateEnergyPA_2D_id (D1D Q1D : Nat) : Int :=
  int32 ((D1D <<< 4) % 2 ^ 32 ||| Q1D)

/-- The expression `(D1D << 4) | Q1D` on integers without a width. -/
def shiftOrKey (D1D Q1D : Nat) : Nat := D1D <<< 4 ||| Q1D

/-! ## `Element::TypeFromGeometry` (`mesh/element.cpp`) -/

/-- The enumeration `Geometry::Type`, declared in `fem/geom.hpp`, which is not part of the
sources at hand: the eight enumerators that the `switch` of `Element::TypeFromGeometry` names
(the case labels of one `switch` are distinct values), and `other` for every other value of the
type. -/
inductive Geometry_Type where
  /-- The enumerator `Geometry::POINT`. -/
  | POINT : Geometry_Type
  /-- The enumerator `Geometry::SEGMENT`. -/
  | SEGMENT : Geometry_Type
  /-- The enumerator `Geometry::TRIANGLE`. -/
  | TRIANGLE : Geometry_Type
  /-- The enumerator `Geometry::SQUARE`. -/
  | SQUARE : Geometry_Type
  /-- The enumerator `Geometry::TETRAHEDRON`. -/
  | TETRAHEDRON : Geometry_Type
  /-- The enumerator `Geometry::CUBE`. -/
  | CUBE : Geometry_Type
  /-- The enumerator `Geometry::PRISM`. -/
  | PRISM : Geometry_Type
  /-- The enumerator `Geometry::PYRAMID`. -/
  | PYRAMID : Geometry_Type
  /-- Any value of the type that is none of the eight enumerators above. -/
  | other : Geometry_Type
  deriving DecidableEq, Repr

/-- The enumeration `Element::Type`, declared in `mesh/element.hpp`, which is not part of the
sources at hand: the eight enumerators that `Element::TypeFromGeometry` returns, taken to be
eight different values. -/
inductive Element_Type where
  /-- The enumerator `Element::POINT`. -/
  | POINT : Element_Type
  /-- The enumerator `Element::SEGMENT`. -/
  | SEGMENT : Element_Type
  /-- The enumerator `Element::TRIANGLE`. -/
  | TRIANGLE : Element_Type
  /-- The enumerator `Element::QUADRILATERAL`. -/
  | QUADRILATERAL : Element_Type
  /-- The enumerator `Element::TETRAHEDRON`. -/
  | TETRAHEDRON : Element_Type
  /-- The enumerator `Element::HEXAHEDRON`. -/
  | HEXAHEDRON : Element_Type
  /-- The enumerator `Element::WEDGE`. -/
  | WEDGE : Element_Type
  /-- The enumerator `Element::PYRAMID`. -/
  | PYRAMID : Element_Type
  deriving DecidableEq, Repr

/-- `Element::TypeFromGeometry` (lines 17-31): the `default` branch is
`MFEM_ABORT("Unknown geometry type.")`, which stops the program without a return value. -/
def Element_TypeFromGeometry (geom : Geometry_Type) : Except String Element_Type :=
  match geom with
  | Geometry_Type.POINT => Except.ok Element_Type.POINT
  | Geometry_Type.SEGMENT => Except.ok Element_Type.SEGMENT
  | Geometry_Type.TRIANGLE => Except.ok Element_Type.TRIANGLE
  | Geometry_Type.SQUARE => Except.ok Element_Type.QUADRILATERAL
  | Geometry_Type.TETRAHEDRON => Except.ok Element_Type.TETRAHEDRON
  | Geometry_Type.CUBE => Except.ok Element_Type.HEXAHEDRON
  | Geometry_Type.PRISM => Except.ok Element_Type.WEDGE
  | Geometry_Type.PYRAMID => Except.ok Element_Type.PYRAMID
  | Geometry_Type.other => Except.error "Unknown geometry type."

/-! ## Index arithmetic -/

theorem idx2_mod {n1 i1 : Nat} (i2 : Nat) (h : i1 < n1) : idx2 n1 i1 i2 % n1 = i1 := by
  unfold idx2
  rw [Nat.add_mul_mod_self_left]
  exact Nat.mod_eq_of_lt h

theorem idx2_div {n1 i1 : Nat} (i2 : Nat) (h : i1 < n1) : idx2 n1 i1 i2 / n1 = i2 := by
  unfold idx2
  rw [Nat.add_mul_div_left _ _ (Nat.lt_of_le_of_lt (Nat.zero_le _) h), Nat.div_eq_of_lt h,
    Nat.zero_add]

theorem idx2_inj {n1 i1 i2 k1 k2 : Nat} (h1 : i1 < n1) (h2 : k1 < n1) :
    idx2 n1 i1 i2 = idx2 n1 k1 k2 ↔ i1 = k1 ∧ i2 = k2 := by
  constructor
  · intro h
    have hm := congrArg (· % n1) h
    have hd := congrArg (· / n1) h
    simp only [idx2_mod _ h1, idx2_mod _ h2, idx2_div _ h1, idx2_div _ h2] at hm hd
    exact ⟨hm, hd⟩
  · rintro ⟨rfl, rfl⟩
    rfl

theorem idx2_lt {n1 n2 i1 i2 : Nat} (h1 : i1 < n1) (h2 : i2 < n2) :
    idx2 n1 i1 i2 < n1 * n2 := by
  unfold idx2
  calc i1 + n1 * i2 < n1 + n1 * i2 := by omega
    _ = n1 * (i2 + 1) := by ring
    _ ≤ n1 * n2 := Nat.mul_le_mul_left _ h2

theorem idx4_decode {n1 n2 n3 i1 i2 i3 : Nat} (i4 : Nat) (h1 : i1 < n1) (h2 : i2 < n2)
    (h3 : i3 < n3) :
    idx4 n1 n2 n3 i1 i2 i3 i4 % n1 = i1 ∧ idx4 n1 n2 n3 i1 i2 i3 i4 / n1 % n2 = i2 ∧
      idx4 n1 n2 n3 i1 i2 i3 i4 / n1 / n2 % n3 = i3 ∧
      idx4 n1 n2 n3 i1 i2 i3 i4 / n1 / n2 / n3 = i4 := by
  simp only [idx4, idx3, idx2_mod _ h1, idx2_div _ h1, idx2_mod _ h2, idx2_div _ h2,
    idx2_mod _ h3, idx2_div _ h3, and_self]

/-! ## Loops -/

section Loops

variable {R : Type u}

theorem forLoop_zero {σ : Type u} (body : Nat → σ → σ) (s : σ) : forLoop 0 body s = s := rfl

theorem forLoop_succ {σ : Type u} (n : Nat) (body : Nat → σ → σ) (s : σ) :
    forLoop (n + 1) body s = body n (forLoop n body s) := rfl

theorem forLoop_congr {σ : Type u} {n : Nat} {body body2 : Nat → σ → σ} (s : σ)
    (h : ∀ i, i < n → ∀ t, body i t = body2 i t) : forLoop n body s = forLoop n body2 s := by
  induction n with
  | zero => rfl
  | succ n ih =>
    rw [forLoop_succ, forLoop_succ, ih (fun i hi => h i (Nat.lt_succ_of_lt hi)),
      h n (Nat.lt_succ_self n)]

theorem writes_set {g : Buf R} {i : Nat} {v : R} (h : v = g i) :
    Writes (fun a => a.set i v) (fun j => j = i) g := by
  intro a j
  constructor
  · intro hj
    subst hj
    simp [Buf.set, h]
  · intro hj
    simp only [Buf.set, if_neg hj]

theorem writes_comp {f h : Buf R → Buf R} {W1 W2 : Nat → Prop} {g : Buf R}
    (hf : Writes f W1 g) (hh : Writes h W2 g) :
    Writes (fun a => h (f a)) (fun j => W1 j ∨ W2 j) g := by
  intro a j
  by_cases h2 : W2 j
  · exact ⟨fun _ => (hh (f a) j).1 h2, fun hn => absurd (Or.inr h2) hn⟩
  · constructor
    · intro hj
      exact ((hh (f a) j).2 h2).trans ((hf a j).1 (hj.resolve_right h2))
    · intro hj
      exact ((hh (f a) j).2 h2).trans ((hf a j).2 (fun h1 => hj (Or.inl h1)))

theorem writes_forLoop {n : Nat} {body : Nat → Buf R → Buf R} {W : Nat → Nat → Prop}
    {g : Buf R} (hb : ∀ i, i < n → Writes (body i) (W i) g) :
    Writes (forLoop n body) (fun j => ∃ i, i < n ∧ W i j) g := by
  induction n with
  | zero =>
    intro a j
    exact ⟨fun ⟨i, hi, _⟩ => absurd hi (Nat.not_lt_zero i), fun _ => rfl⟩
  | succ n ih =>
    have ih2 := ih (fun i hi => hb i (Nat.lt_succ_of_lt hi))
    have hc := writes_comp ih2 (hb n (Nat.lt_succ_self n))
    intro a j
    have hcj := hc a j
    constructor
    · rintro ⟨i, hi, hw⟩
      apply hcj.1
      rcases Nat.lt_succ_iff_lt_or_eq.mp hi with h | h
      · exact Or.inl ⟨i, h, hw⟩
      · exact Or.inr (h ▸ hw)
    · intro hn
      apply hcj.2
      rintro (⟨i, hi, hw⟩ | hw)
      · exact hn ⟨i, Nat.lt_succ_of_lt hi, hw⟩
      · exact hn ⟨n, Nat.lt_succ_self n, hw⟩

end Loops

/-! ## Additive steps and finite sums -/

section Sums

variable {R : Type u} [CommRing R]

theorem adds_add (i : Nat) (v : R) :
    Adds (fun a : Buf R => a.add i v) (fun j => if j = i then v else 0) := by
  intro a j
  by_cases h : j = i
  · subst h
    simp [Buf.add, Buf.set]
  · simp [Buf.add, Buf.set, h]

theorem adds_comp {f h : Buf R → Buf R} {d1 d2 : Buf R} (hf : Adds f d1) (hh : Adds h d2) :
    Adds (fun a => h (f a)) (fun j => d1 j + d2 j) := by
  intro a j
  show h (f a) j = _
  rw [hh (f a) j, hf a j, add_assoc]

theorem adds_forLoop {n : Nat} {body : Nat → Buf R → Buf R} {d : Nat → Buf R}
    (hb : ∀ i, i < n → Adds (body i) (d i)) :
    Adds (forLoop n body) (fun j => ∑ i ∈ Finset.range n, d i j) := by
  induction n with
  | zero =>
    intro a j
    simp [forLoop]
  | succ n ih =>
    intro a j
    rw [forLoop_succ, hb n (Nat.lt_succ_self n), ih (fun i hi => hb i (Nat.lt_succ_of_lt hi))]
    beta_reduce
    rw [Finset.sum_range_succ, add_assoc]

theorem forLoop_adds_apply {n : Nat} {body : Nat → Buf R → Buf R} {d : Nat → Buf R}
    (hb : ∀ i, i < n → Adds (body i) (d i)) (a : Buf R) (j : Nat) :
    forLoop n body a j = a j + ∑ i ∈ Finset.range n, d i j :=
  adds_forLoop hb a j

theorem sum_ite_of_iff {n i0 : Nat} (h0 : i0 < n) (P : Nat → Prop) [DecidablePred P]
    (v : Nat → R) (hP : ∀ i, i < n → (P i ↔ i0 = i)) :
    (∑ i ∈ Finset.range n, if P i then v i else 0) = v i0 := by
  rw [Finset.sum_congr rfl (g := fun i => if i0 = i then v i else 0)]
  · rw [Finset.sum_ite_eq, if_pos (Finset.mem_range.mpr h0)]
  · intro i hi
    simp only [hP i (Finset.mem_range.mp hi)]

theorem sum_ite_of_not {n : Nat} (P : Nat → Prop) [DecidablePred P]
    (v : Nat → R) (hP : ∀ i, i < n → ¬ P i) :
    (∑ i ∈ Finset.range n, if P i then v i else 0) = 0 := by
  apply Finset.sum_eq_zero
  intro i hi
  rw [if_neg (hP i (Finset.mem_range.mp hi))]

theorem writes_set_zero (i : Nat) :
    Writes (fun a : Buf R => a.set i 0) (fun j => j = i) (fun _ => 0) :=
  writes_set rfl

theorem writes_zero_apply {f : Buf R → Buf R} {W : Nat → Prop} (h : Writes f W (fun _ => 0))
    (a : Buf R) {j : Nat} (hj : W j) : f a j = 0 := (h a j).1 hj

theorem sum_sum_ite_of_iff {n m i0 k0 : Nat} (h0 : i0 < n) (hk0 : k0 < m)
    (P : Nat → Nat → Prop) [∀ i k, Decidable (P i k)] (v : Nat → Nat → R)
    (hP : ∀ i, i < n → ∀ k, k < m → (P i k ↔ i0 = i ∧ k0 = k)) :
    (∑ i ∈ Finset.range n, ∑ k ∈ Finset.range m, if P i k then v i k else 0) = v i0 k0 := by
  rw [Finset.sum_congr rfl (g := fun i => if i0 = i then v i k0 else 0)]
  · rw [Finset.sum_ite_eq, if_pos (Finset.mem_range.mpr h0)]
  · intro i hi
    have hi2 := Finset.mem_range.mp hi
    by_cases h : i0 = i
    · rw [if_pos h]
      exact sum_ite_of_iff hk0 _ _ (fun k hk => by simp [hP i hi2 k hk, h])
    · rw [if_neg h]
      exact sum_ite_of_not _ _ (fun k hk => by simp [hP i hi2 k hk, h])

theorem sum_sum_ite_of_not {n m : Nat} (P : Nat → Nat → Prop) [∀ i k, Decidable (P i k)]
    (v : Nat → Nat → R) (hP : ∀ i, i < n → ∀ k, k < m → ¬ P i k) :
    (∑ i ∈ Finset.range n, ∑ k ∈ Finset.range m, if P i k then v i k else 0) = 0 := by
  apply Finset.sum_eq_zero
  intro i hi
  exact sum_ite_of_not _ _ (hP i (Finset.mem_range.mp hi))

theorem carr2_inj {M i j i2 j2 : Nat} (h1 : j < M) (h2 : j2 < M) :
    carr2 M i j = carr2 M i2 j2 ↔ i = i2 ∧ j = j2 := by
  unfold carr2
  rw [idx2_inj h1 h2]
  exact and_comm

theorem carr3_inj {M K i j k i2 j2 k2 : Nat} (h1 : j < M) (h2 : j2 < M) (h3 : k < K)
    (h4 : k2 < K) : carr3 M K i j k = carr3 M K i2 j2 k2 ↔ i = i2 ∧ j = j2 ∧ k = k2 := by
  unfold carr3 idx3
  rw [idx2_inj h3 h4, idx2_inj h1 h2]
  tauto

theorem idx3_inj {n1 n2 i1 i2 i3 k1 k2 k3 : Nat} (h1 : i1 < n1) (h2 : k1 < n1) (h3 : i2 < n2)
    (h4 : k2 < n2) :
    idx3 n1 n2 i1 i2 i3 = idx3 n1 n2 k1 k2 k3 ↔ i1 = k1 ∧ i2 = k2 ∧ i3 = k3 := by
  unfold idx3
  rw [idx2_inj h1 h2, idx2_inj h3 h4]

theorem sum_range_idx2 (n1 n2 : Nat) (f : Nat → R) :
    (∑ i ∈ Finset.range (n1 * n2), f i) =
      ∑ i2 ∈ Finset.range n2, ∑ i1 ∈ Finset.range n1, f (idx2 n1 i1 i2) := by
  induction n2 with
  | zero => simp
  | succ n ih =>
    rw [Nat.mul_succ, Finset.sum_range_add, ih, Finset.sum_range_succ]
    congr 1
    apply Finset.sum_congr rfl
    intro i _
    rw [idx2, Nat.add_comm]

theorem sum_range_idx3 (n1 n2 n3 : Nat) (f : Nat → R) :
    (∑ i ∈ Finset.range (n1 * n2 * n3), f i) =
      ∑ i3 ∈ Finset.range n3, ∑ i2 ∈ Finset.range n2, ∑ i1 ∈ Finset.range n1,
        f (idx3 n1 n2 i1 i2 i3) := by
  rw [Nat.mul_assoc, sum_range_idx2 n1 (n2 * n3), sum_range_idx2 n2 n3]
  rfl

theorem sum_range_idx4 (n1 n2 n3 n4 : Nat) (f : Nat → R) :
    (∑ i ∈ Finset.range (n1 * n2 * n3 * n4), f i) =
      ∑ i4 ∈ Finset.range n4, ∑ i3 ∈ Finset.range n3, ∑ i2 ∈ Finset.range n2,
        ∑ i1 ∈ Finset.range n1, f (idx4 n1 n2 n3 i1 i2 i3 i4) := by
  rw [Nat.mul_assoc, Nat.mul_assoc, sum_range_idx2 n1 (n2 * (n3 * n4)), ← Nat.mul_assoc,
    sum_range_idx3 n2 n3 n4]
  rfl

theorem sum_range_idx5 (n1 n2 n3 n4 n5 : Nat) (f : Nat → R) :
    (∑ i ∈ Finset.range (n1 * n2 * n3 * n4 * n5), f i) =
      ∑ i5 ∈ Finset.range n5, ∑ i4 ∈ Finset.range n4, ∑ i3 ∈ Finset.range n3,
        ∑ i2 ∈ Finset.range n2, ∑ i1 ∈ Finset.range n1,
          f (idx5 n1 n2 n3 n4 i1 i2 i3 i4 i5) := by
  rw [Nat.mul_assoc, Nat.mul_assoc, Nat.mul_assoc, sum_range_idx2 n1 (n2 * (n3 * (n4 * n5))),
    ← Nat.mul_assoc, ← Nat.mul_assoc, sum_range_idx4 n2 n3 n4 n5]
  rfl

theorem sum_comm3 {s t w : Finset Nat} (f : Nat → Nat → Nat → R) :
    (∑ a ∈ s, ∑ b ∈ t, ∑ c ∈ w, f a b c) = ∑ c ∈ w, ∑ a ∈ s, ∑ b ∈ t, f a b c := by
  rw [Finset.sum_congr rfl (fun a _ => Finset.sum_comm), Finset.sum_comm]

theorem sum_comm4 {s t w z : Finset Nat} (f : Nat → Nat → Nat → Nat → R) :
    (∑ a ∈ s, ∑ b ∈ t, ∑ c ∈ w, ∑ d ∈ z, f a b c d) =
      ∑ d ∈ z, ∑ a ∈ s, ∑ b ∈ t, ∑ c ∈ w, f a b c d := by
  rw [Finset.sum_congr rfl (fun a _ => sum_comm3 (f a)), Finset.sum_comm]

/-- Duality of the sum-factorised 2D contraction: contracting `w` back to the nodes and
pairing with `u` is pairing `w` with the interpolation of `u`. -/
theorem interp2D_dual (D1D Q1D : Nat) (u w : Nat → Nat → R) (Mx My : Nat → Nat → R) :
    (∑ dy ∈ Finset.range D1D, ∑ dx ∈ Finset.range D1D,
        u dx dy * ∑ qy ∈ Finset.range Q1D,
          (∑ qx ∈ Finset.range Q1D, w qx qy * Mx qx dx) * My qy dy) =
      ∑ qy ∈ Finset.range Q1D, ∑ qx ∈ Finset.range Q1D,
        w qx qy * interp2D D1D u Mx My qx qy := by
  simp only [interp2D, Finset.mul_sum, Finset.sum_mul]
  rw [sum_comm3]
  apply Finset.sum_congr rfl
  intro qy _
  rw [sum_comm3]
  apply Finset.sum_congr rfl
  intro qx _
  apply Finset.sum_congr rfl
  intro dy _
  apply Finset.sum_congr rfl
  intro dx _
  ring

/-- Duality of the sum-factorised 3D contraction. -/
theorem interp3D_dual (D1D Q1D : Nat) (u w : Nat → Nat → Nat → R) (Mx My Mz : Nat → Nat → R) :
    (∑ dz ∈ Finset.range D1D, ∑ dy ∈ Finset.range D1D, ∑ dx ∈ Finset.range D1D,
        u dx dy dz * ∑ qz ∈ Finset.range Q1D, (∑ qy ∈ Finset.range Q1D,
          (∑ qx ∈ Finset.range Q1D, w qx qy qz * Mx qx dx) * My qy dy) * Mz qz dz) =
      ∑ qz ∈ Finset.range Q1D, ∑ qy ∈ Finset.range Q1D, ∑ qx ∈ Finset.range Q1D,
        w qx qy qz * interp3D D1D u Mx My Mz qx qy qz := by
  simp only [interp3D, Finset.mul_sum, Finset.sum_mul]
  rw [sum_comm4]
  apply Finset.sum_congr rfl
  intro qz _
  rw [sum_comm4]
  apply Finset.sum_congr rfl
  intro qy _
  rw [sum_comm4]
  apply Finset.sum_congr rfl
  intro qx _
  apply Finset.sum_congr rfl
  intro dz _
  apply Finset.sum_congr rfl
  intro dy _
  apply Finset.sum_congr rfl
  intro dx _
  ring

end Sums

/-! ## The forward 2D kernel -/

section Apply2DProofs

variable {R : Type u} [CommRing R]

theorem PADivergenceApply2D_gradX_eq (junk : Buf R) (TR_D1D Q1D NE : Nat) (b g x_ : Buf R)
    (c dy e : Nat) {qx : Nat} (hqx : qx < Q1D) :
    PADivergenceApply2D_gradX junk TR_D1D Q1D NE b g x_ c dy e (carr2 2 qx 0) =
      ∑ dx ∈ Finset.range TR_D1D,
        Reshape4 x_ TR_D1D TR_D1D 2 NE dx dy c e * Reshape2 g Q1D TR_D1D qx dx ∧
    PADivergenceApply2D_gradX junk TR_D1D Q1D NE b g x_ c dy e (carr2 2 qx 1) =
      ∑ dx ∈ Finset.range TR_D1D,
        Reshape4 x_ TR_D1D TR_D1D 2 NE dx dy c e * Reshape2 b Q1D TR_D1D qx dx := by
  have hz : Writes (forLoop Q1D (fun qx (gradX : Buf R) =>
      (gradX.set (carr2 2 qx 0) 0).set (carr2 2 qx 1) 0)) _ (fun _ => 0) :=
    writes_forLoop (fun qx _ => writes_comp (writes_set_zero _) (writes_set_zero _))
  constructor
  · refine (forLoop_adds_apply (fun dx _ => adds_forLoop (fun qx _ =>
      adds_comp (adds_add _ _) (adds_add _ _))) _ _).trans ?_
    rw [writes_zero_apply hz junk ⟨qx, hqx, Or.inl rfl⟩, zero_add]
    apply Finset.sum_congr rfl
    intro dx _
    rw [Finset.sum_add_distrib, sum_ite_of_iff hqx, sum_ite_of_not, add_zero]
    · intro i _
      simp [carr2, idx2_inj]
    · intro i _
      simp [carr2, idx2_inj]
  · refine (forLoop_adds_apply (fun dx _ => adds_forLoop (fun qx _ =>
      adds_comp (adds_add _ _) (adds_add _ _))) _ _).trans ?_
    rw [writes_zero_apply hz junk ⟨qx, hqx, Or.inr rfl⟩, zero_add]
    apply Finset.sum_congr rfl
    intro dx _
    rw [Finset.sum_add_distrib, sum_ite_of_not, sum_ite_of_iff hqx, zero_add]
    · intro i _
      simp [carr2, idx2_inj]
    · intro i _
      simp [carr2, idx2_inj]

theorem PADivergenceApply2D_grad_eq (max_Q1D : Nat) (junk : Buf R) (TR_D1D Q1D NE : Nat)
    (b g x_ : Buf R) (c e : Nat) (grad : Buf R) (hQ : Q1D ≤ max_Q1D) {qy qx : Nat}
    (hqy : qy < Q1D) (hqx : qx < Q1D) :
    PADivergenceApply2D_grad max_Q1D junk TR_D1D Q1D NE b g x_ c e grad
        (carr3 max_Q1D 2 qy qx 0) =
      interp2D TR_D1D (fun dx dy => Reshape4 x_ TR_D1D TR_D1D 2 NE dx dy c e)
        (Reshape2 g Q1D TR_D1D) (Reshape2 b Q1D TR_D1D) qx qy ∧
    PADivergenceApply2D_grad max_Q1D junk TR_D1D Q1D NE b g x_ c e grad
        (carr3 max_Q1D 2 qy qx 1) =
      interp2D TR_D1D (fun dx dy => Reshape4 x_ TR_D1D TR_D1D 2 NE dx dy c e)
        (Reshape2 b Q1D TR_D1D) (Reshape2 g Q1D TR_D1D) qx qy := by
  have hz : Writes (forLoop Q1D (fun qy (grad : Buf R) => forLoop Q1D (fun qx grad =>
      (grad.set (carr3 max_Q1D 2 qy qx 0) 0).set (carr3 max_Q1D 2 qy qx 1) 0) grad)) _
      (fun _ => 0) :=
    writes_forLoop (fun qy _ => writes_forLoop (fun qx _ =>
      writes_comp (writes_set_zero _) (writes_set_zero _)))
  have hlt : ∀ i, i < Q1D → i < max_Q1D := fun i hi => Nat.lt_of_lt_of_le hi hQ
  constructor
  · refine (forLoop_adds_apply (fun dy _ => adds_forLoop (fun qy _ => adds_forLoop (fun qx _ =>
      adds_comp (adds_add _ _) (adds_add _ _)))) _ _).trans ?_
    rw [writes_zero_apply hz grad ⟨qy, hqy, qx, hqx, Or.inl rfl⟩, zero_add]
    unfold interp2D
    apply Finset.sum_congr rfl
    intro dy _
    simp only [Finset.sum_add_distrib]
    rw [sum_sum_ite_of_iff hqy hqx, sum_sum_ite_of_not, add_zero,
      (PADivergenceApply2D_gradX_eq junk TR_D1D Q1D NE b g x_ c dy e hqx).1]
    · intro i _ k hk
      simp [carr3_inj (hlt qx hqx) (hlt k hk)]
    · intro i _ k hk
      simp [carr3_inj (hlt qx hqx) (hlt k hk)]
  · refine (forLoop_adds_apply (fun dy _ => adds_forLoop (fun qy _ => adds_forLoop (fun qx _ =>
      adds_comp (adds_add _ _) (adds_add _ _)))) _ _).trans ?_
    rw [writes_zero_apply hz grad ⟨qy, hqy, qx, hqx, Or.inr rfl⟩, zero_add]
    unfold interp2D
    apply Finset.sum_congr rfl
    intro dy _
    simp only [Finset.sum_add_distrib]
    rw [sum_sum_ite_of_not, sum_sum_ite_of_iff hqy hqx, zero_add,
      (PADivergenceApply2D_gradX_eq junk TR_D1D Q1D NE b g x_ c dy e hqx).2]
    · intro i _ k hk
      simp [carr3_inj (hlt qx hqx) (hlt k hk)]
    · intro i _ k hk
      simp [carr3_inj (hlt qx hqx) (hlt k hk)]

theorem forLoop_snd_adds_at {n : Nat} {body : Nat → Buf R × Buf R → Buf R × Buf R} (j : Nat)
    (d : Nat → R) (hb : ∀ i, i < n → ∀ s, (body i s).2 j = s.2 j + d i) (s : Buf R × Buf R) :
    (forLoop n body s).2 j = s.2 j + ∑ i ∈ Finset.range n, d i := by
  induction n with
  | zero => simp [forLoop]
  | succ n ih =>
    rw [forLoop_succ, hb n (Nat.lt_succ_self n), ih (fun i hi => hb i (Nat.lt_succ_of_lt hi)),
      Finset.sum_range_succ, add_assoc]

theorem PADivergenceApply2D_quad_eq (max_Q1D : Nat) (junk : Buf R) (TR_D1D Q1D NE : Nat)
    (b g op_ x_ : Buf R) (e : Nat) (hQ : Q1D ≤ max_Q1D) {qy qx : Nat}
    (hqy : qy < Q1D) (hqx : qx < Q1D) :
    (PADivergenceApply2D_quad max_Q1D junk TR_D1D Q1D NE b g op_ x_ e).2 (carr2 max_Q1D qy qx) =
      div2D TR_D1D Q1D NE b g op_ x_ e qy qx := by
  have hz : Writes (forLoop Q1D (fun qy (div : Buf R) => forLoop Q1D (fun qx div =>
      div.set (carr2 max_Q1D qy qx) 0) div)) _ (fun _ => 0) :=
    writes_forLoop (fun qy _ => writes_forLoop (fun qx _ => writes_set_zero _))
  have hlt : ∀ i, i < Q1D → i < max_Q1D := fun i hi => Nat.lt_of_lt_of_le hi hQ
  refine (forLoop_snd_adds_at (carr2 max_Q1D qy qx) (fun c => interp2D TR_D1D (fun dx dy => Reshape4 x_ TR_D1D TR_D1D 2 NE dx dy c e)
        (Reshape2 g Q1D TR_D1D) (Reshape2 b Q1D TR_D1D) qx qy *
          Reshape4 op_ (Q1D * Q1D) 2 2 NE (qx + qy * Q1D) 0 c e +
      interp2D TR_D1D (fun dx dy => Reshape4 x_ TR_D1D TR_D1D 2 NE dx dy c e)
        (Reshape2 b Q1D TR_D1D) (Reshape2 g Q1D TR_D1D) qx qy *
          Reshape4 op_ (Q1D * Q1D) 2 2 NE (qx + qy * Q1D) 1 c e) ?_ _).trans ?_
  · intro c _ s
    refine (forLoop_adds_apply (fun qy _ => adds_forLoop (fun qx _ => adds_add _ _)) _ _).trans ?_
    congr 1
    rw [sum_sum_ite_of_iff hqy hqx]
    · rw [(PADivergenceApply2D_grad_eq max_Q1D junk TR_D1D Q1D NE b g x_ c e s.1 hQ hqy hqx).1,
        (PADivergenceApply2D_grad_eq max_Q1D junk TR_D1D Q1D NE b g x_ c e s.1 hQ hqy hqx).2]
    · intro i _ k hk
      exact carr2_inj (hlt qx hqx) (hlt k hk)
  · rw [show ((junk, forLoop Q1D (fun qy (div : Buf R) => forLoop Q1D (fun qx div =>
      div.set (carr2 max_Q1D qy qx) 0) div) junk) : Buf R × Buf R).2 (carr2 max_Q1D qy qx) = 0
      from writes_zero_apply hz junk ⟨qy, hqy, qx, hqx, rfl⟩, zero_add]
    rfl

theorem PADivergenceApply2D_opX_eq (max_Q1D : Nat) (junk : Buf R) (TE_D1D Q1D : Nat)
    (bt div : Buf R) (qy : Nat) {dx : Nat} (hdx : dx < TE_D1D) :
    PADivergenceApply2D_opX max_Q1D junk TE_D1D Q1D bt div qy dx =
      ∑ qx ∈ Finset.range Q1D, Reshape2 bt TE_D1D Q1D dx qx * div (carr2 max_Q1D qy qx) := by
  have hw : Writes (forLoop TE_D1D (fun dx (opX : Buf R) => forLoop Q1D (fun qx opX =>
      opX.add dx (Reshape2 bt TE_D1D Q1D dx qx * div (carr2 max_Q1D qy qx))) (opX.set dx 0)))
      (fun j => ∃ i, i < TE_D1D ∧ j = i)
      (fun j => ∑ qx ∈ Finset.range Q1D,
        Reshape2 bt TE_D1D Q1D j qx * div (carr2 max_Q1D qy qx)) := by
    apply writes_forLoop
    intro i _ a j
    have h := forLoop_adds_apply (n := Q1D) (fun qx _ => adds_add i
      (Reshape2 bt TE_D1D Q1D i qx * div (carr2 max_Q1D qy qx))) (a.set i 0) j
    constructor
    · intro hj
      subst hj
      refine h.trans ?_
      simp [Buf.set]
    · intro hj
      refine h.trans ?_
      simp [Buf.set, hj]
  exact (hw junk dx).1 ⟨dx, hdx, rfl⟩

theorem PADivergenceApply2D_elem_adds (max_Q1D : Nat) (junk : Buf R)
    (TR_D1D TE_D1D Q1D NE : Nat) (b g bt op_ x_ : Buf R) (e : Nat) :
    Adds (PADivergenceApply2D_elem max_Q1D junk TR_D1D TE_D1D Q1D NE b g bt op_ x_ e)
      (fun j => ∑ qy ∈ Finset.range Q1D, ∑ dy ∈ Finset.range TE_D1D,
        ∑ dx ∈ Finset.range TE_D1D,
          if j = idx3 TE_D1D TE_D1D dx dy e then
            Reshape2 bt TE_D1D Q1D dy qy * PADivergenceApply2D_opX max_Q1D junk TE_D1D Q1D bt
              (PADivergenceApply2D_quad max_Q1D junk TR_D1D Q1D NE b g op_ x_ e).2 qy dx
          else 0) :=
  adds_forLoop (fun _ _ => adds_forLoop (fun _ _ => adds_forLoop (fun _ _ => adds_add _ _)))

/-- The increment of `y(dx, dy, e)` by the 2D forward kernel, in closed form. -/
theorem PADivergenceApply2D_elem_delta (max_Q1D : Nat) (junk : Buf R)
    (TR_D1D TE_D1D Q1D NE : Nat) (b g bt op_ x_ : Buf R) (hQ : Q1D ≤ max_Q1D) (e : Nat)
    {e0 dy0 dx0 : Nat} (hdy : dy0 < TE_D1D) (hdx : dx0 < TE_D1D) :
    (∑ qy ∈ Finset.range Q1D, ∑ dy ∈ Finset.range TE_D1D, ∑ dx ∈ Finset.range TE_D1D,
        if idx3 TE_D1D TE_D1D dx0 dy0 e0 = idx3 TE_D1D TE_D1D dx dy e then
          Reshape2 bt TE_D1D Q1D dy qy * PADivergenceApply2D_opX max_Q1D junk TE_D1D Q1D bt
            (PADivergenceApply2D_quad max_Q1D junk TR_D1D Q1D NE b g op_ x_ e).2 qy dx
        else 0) =
      if e0 = e then
        ∑ qy ∈ Finset.range Q1D, Reshape2 bt TE_D1D Q1D dy0 qy *
          ∑ qx ∈ Finset.range Q1D, Reshape2 bt TE_D1D Q1D dx0 qx *
            div2D TR_D1D Q1D NE b g op_ x_ e qy qx
      else 0 := by
  by_cases he : e0 = e
  · rw [if_pos he]
    apply Finset.sum_congr rfl
    intro qy hqy
    rw [sum_sum_ite_of_iff hdy hdx, PADivergenceApply2D_opX_eq _ _ _ _ _ _ _ hdx]
    · congr 1
      apply Finset.sum_congr rfl
      intro qx hqx
      rw [PADivergenceApply2D_quad_eq _ _ _ _ _ _ _ _ _ _ hQ (Finset.mem_range.mp hqy)
        (Finset.mem_range.mp hqx)]
    · intro i hi k hk
      rw [idx3_inj hdx hk hdy hi]
      simp [he]
      tauto
  · rw [if_neg he]
    apply Finset.sum_eq_zero
    intro qy _
    apply sum_sum_ite_of_not
    intro i hi k hk
    rw [idx3_inj hdx hk hdy hi]
    tauto

/-- The closed form of the 2D forward kernel: the value it adds to `y(dx, dy, e)`. -/
theorem PADivergenceApply2D_core_cell (max_Q1D : Nat) (junk : Buf R)
    (TR_D1D TE_D1D Q1D NE : Nat) (b g bt op_ x_ y_ : Buf R) (hQ : Q1D ≤ max_Q1D)
    {e dy dx : Nat} (he : e < NE) (hdy : dy < TE_D1D) (hdx : dx < TE_D1D) :
    forLoop NE (fun e y_ =>
        PADivergenceApply2D_elem max_Q1D junk TR_D1D TE_D1D Q1D NE b g bt op_ x_ e y_) y_
        (idx3 TE_D1D TE_D1D dx dy e) =
      y_ (idx3 TE_D1D TE_D1D dx dy e) +
        ∑ qy ∈ Finset.range Q1D, Reshape2 bt TE_D1D Q1D dy qy *
          ∑ qx ∈ Finset.range Q1D, Reshape2 bt TE_D1D Q1D dx qx *
            div2D TR_D1D Q1D NE b g op_ x_ e qy qx := by
  rw [forLoop_adds_apply (fun e _ =>
    PADivergenceApply2D_elem_adds max_Q1D junk TR_D1D TE_D1D Q1D NE b g bt op_ x_ e)]
  congr 1
  rw [Finset.sum_congr rfl (fun i _ =>
    PADivergenceApply2D_elem_delta max_Q1D junk TR_D1D TE_D1D Q1D NE b g bt op_ x_ hQ i hdy hdx),
    Finset.sum_ite_eq, if_pos (Finset.mem_range.mpr he)]

theorem PADivergenceApply2D_ok (dev lim : DofQuadLimits) (T_TR_D1D T_TE_D1D T_Q1D : Nat)
    (junk : Buf R) (NE : Nat) (b g bt op_ x_ y_ : Buf R) (tr_d1d te_d1d q1d : Nat)
    (h1 : pick T_TR_D1D tr_d1d ≤ dev.MAX_D1D) (h2 : pick T_TE_D1D te_d1d ≤ dev.MAX_D1D)
    (h3 : pick T_Q1D q1d ≤ dev.MAX_Q1D) :
    PADivergenceApply2D dev lim T_TR_D1D T_TE_D1D T_Q1D junk NE b g bt op_ x_ y_
        tr_d1d te_d1d q1d =
      Outcome.ok (forLoop NE (fun e y_ =>
        PADivergenceApply2D_elem (pick T_Q1D lim.MAX_Q1D) junk (pick T_TR_D1D tr_d1d)
          (pick T_TE_D1D te_d1d) (pick T_Q1D q1d) NE b g bt op_ x_ e y_) y_) := by
  simp [PADivergenceApply2D, h1, h2, h3]

theorem PADivergenceApply2D_fatal (dev lim : DofQuadLimits) (T_TR_D1D T_TE_D1D T_Q1D : Nat)
    (junk : Buf R) (NE : Nat) (b g bt op_ x_ y_ : Buf R) (tr_d1d te_d1d q1d : Nat)
    (h : ¬ (pick T_TR_D1D tr_d1d ≤ dev.MAX_D1D ∧ pick T_TE_D1D te_d1d ≤ dev.MAX_D1D ∧
      pick T_Q1D q1d ≤ dev.MAX_Q1D)) :
    PADivergenceApply2D dev lim T_TR_D1D T_TE_D1D T_Q1D junk NE b g bt op_ x_ y_
        tr_d1d te_d1d q1d = Outcome.fatal "" y_ := by
  unfold PADivergenceApply2D
  by_cases h1 : pick T_TR_D1D tr_d1d ≤ dev.MAX_D1D
  · by_cases h2 : pick T_TE_D1D te_d1d ≤ dev.MAX_D1D
    · by_cases h3 : pick T_Q1D q1d ≤ dev.MAX_Q1D
      · exact absurd ⟨h1, h2, h3⟩ h
      · simp [h1, h2, h3]
    · simp [h1, h2]
  · simp [h1]

theorem pick_le_pick {T t m : Nat} (h : pick T t ≤ m) (hm : m ≤ M) : pick T t ≤ pick T M := by
  unfold pick at *
  split_ifs at * <;> omega

end Apply2DProofs

/-! ## The transpose 2D kernel -/

section ApplyTranspose2DProofs

variable {R : Type u} [CommRing R]

theorem forLoop_pair_adds {n : Nat} {body : Nat → Buf R × Buf R → Buf R × Buf R}
    (G : Nat → Buf R → Buf R) (D : Nat → Buf R → Buf R)
    (h1 : ∀ i, i < n → ∀ s, (body i s).1 = G i s.1)
    (h2 : ∀ i, i < n → ∀ s j, (body i s).2 j = s.2 j + D i s.1 j) (s : Buf R × Buf R) :
    (forLoop n body s).1 = forLoop n G s.1 ∧
      ∀ j, (forLoop n body s).2 j =
        s.2 j + ∑ i ∈ Finset.range n, D i (forLoop i G s.1) j := by
  induction n with
  | zero => simp [forLoop]
  | succ n ih =>
    obtain ⟨ih1, ih2⟩ := ih (fun i hi => h1 i (Nat.lt_succ_of_lt hi))
      (fun i hi => h2 i (Nat.lt_succ_of_lt hi))
    constructor
    · rw [forLoop_succ, h1 n (Nat.lt_succ_self n), ih1, forLoop_succ]
    · intro j
      rw [forLoop_succ, h2 n (Nat.lt_succ_self n), ih2, ih1, Finset.sum_range_succ, add_assoc]

theorem carr3_decode {M K j k : Nat} (i : Nat) (hj : j < M) (hk : k < K) :
    carr3 M K i j k % K = k ∧ carr3 M K i j k / K % M = j ∧ carr3 M K i j k / K / M = i := by
  simp only [carr3, idx3, idx2_mod _ hk, idx2_div _ hk, idx2_mod _ hj, idx2_div _ hj, and_self]

theorem PADivergenceApplyTranspose2D_quadTestX_eq (junk : Buf R) (TE_D1D Q1D NE : Nat)
    (b x_ : Buf R) (dy e : Nat) {qx : Nat} (hqx : qx < Q1D) :
    PADivergenceApplyTranspose2D_quadTestX junk TE_D1D Q1D NE b x_ dy e qx =
      ∑ dx ∈ Finset.range TE_D1D,
        Reshape3 x_ TE_D1D TE_D1D NE dx dy e * Reshape2 b Q1D TE_D1D qx dx := by
  have hz : Writes (forLoop Q1D (fun qx (a : Buf R) => a.set qx 0)) _ (fun _ => 0) :=
    writes_forLoop (fun qx _ => writes_set_zero _)
  refine (forLoop_adds_apply (fun dx _ => adds_forLoop (fun qx _ => adds_add _ _)) _ _).trans ?_
  rw [writes_zero_apply hz junk ⟨qx, hqx, rfl⟩, zero_add]
  apply Finset.sum_congr rfl
  intro dx _
  exact sum_ite_of_iff hqx _ _ (fun i _ => Iff.rfl)

theorem PADivergenceApplyTranspose2D_quadTest_eq (max_Q1D : Nat) (junk : Buf R)
    (TE_D1D Q1D NE : Nat) (b x_ : Buf R) (e : Nat) (hQ : Q1D ≤ max_Q1D) {qy qx : Nat}
    (hqy : qy < Q1D) (hqx : qx < Q1D) :
    PADivergenceApplyTranspose2D_quadTest max_Q1D junk TE_D1D Q1D NE b x_ e
        (carr2 max_Q1D qy qx) =
      interp2D TE_D1D (fun dx dy => Reshape3 x_ TE_D1D TE_D1D NE dx dy e)
        (Reshape2 b Q1D TE_D1D) (Reshape2 b Q1D TE_D1D) qx qy := by
  have hz : Writes (forLoop Q1D (fun qy (a : Buf R) => forLoop Q1D (fun qx a =>
      a.set (carr2 max_Q1D qy qx) 0) a)) _ (fun _ => 0) :=
    writes_forLoop (fun qy _ => writes_forLoop (fun qx _ => writes_set_zero _))
  have hlt : ∀ i, i < Q1D → i < max_Q1D := fun i hi => Nat.lt_of_lt_of_le hi hQ
  refine (forLoop_adds_apply (fun dy _ => adds_forLoop (fun qy _ => adds_forLoop (fun qx _ =>
    adds_add _ _))) _ _).trans ?_
  rw [writes_zero_apply hz junk ⟨qy, hqy, qx, hqx, rfl⟩, zero_add]
  unfold interp2D
  apply Finset.sum_congr rfl
  intro dy _
  rw [sum_sum_ite_of_iff hqy hqx, PADivergenceApplyTranspose2D_quadTestX_eq _ _ _ _ _ _ _ _ hqx]
  intro i _ k hk
  exact carr2_inj (hlt qx hqx) (hlt k hk)

theorem PADivergenceApplyTranspose2D_grad_eq (max_Q1D : Nat) (Q1D NE : Nat)
    (op_ quadTest : Buf R) (c e : Nat) (grad : Buf R) (hQ : Q1D ≤ max_Q1D) {qy qx : Nat}
    (hqy : qy < Q1D) (hqx : qx < Q1D) :
    PADivergenceApplyTranspose2D_grad max_Q1D Q1D NE op_ quadTest c e grad
        (carr3 max_Q1D 2 qy qx 0) =
      quadTest (carr2 max_Q1D qy qx) * Reshape4 op_ (Q1D * Q1D) 2 2 NE (qx + qy * Q1D) 0 c e ∧
    PADivergenceApplyTranspose2D_grad max_Q1D Q1D NE op_ quadTest c e grad
        (carr3 max_Q1D 2 qy qx 1) =
      quadTest (carr2 max_Q1D qy qx) * Reshape4 op_ (Q1D * Q1D) 2 2 NE (qx + qy * Q1D) 1 c e := by
  have hlt : ∀ i, i < Q1D → i < max_Q1D := fun i hi => Nat.lt_of_lt_of_le hi hQ
  have hw : Writes (PADivergenceApplyTranspose2D_grad max_Q1D Q1D NE op_ quadTest c e)
      (fun j => ∃ qy, qy < Q1D ∧ ∃ qx, qx < Q1D ∧
        (j = carr3 max_Q1D 2 qy qx 0 ∨ j = carr3 max_Q1D 2 qy qx 1))
      (fun j => quadTest (carr2 max_Q1D (j / 2 / max_Q1D) (j / 2 % max_Q1D)) *
        Reshape4 op_ (Q1D * Q1D) 2 2 NE (j / 2 % max_Q1D + j / 2 / max_Q1D * Q1D) (j % 2) c e) := by
    apply writes_forLoop
    intro qy _
    apply writes_forLoop
    intro qx hqx
    have d0 := carr3_decode qy (hlt qx hqx) (by decide : 0 < 2)
    have d1 := carr3_decode qy (hlt qx hqx) (by decide : 1 < 2)
    refine writes_comp (writes_set ?_) (writes_set ?_)
    · simp only [d0]
    · simp only [d1]
  have d0 := carr3_decode qy (hlt qx hqx) (by decide : 0 < 2)
  have d1 := carr3_decode qy (hlt qx hqx) (by decide : 1 < 2)
  constructor
  · rw [(hw grad _).1 ⟨qy, hqy, qx, hqx, Or.inl rfl⟩]
    simp only [d0]
  · rw [(hw grad _).1 ⟨qy, hqy, qx, hqx, Or.inr rfl⟩]
    simp only [d1]

theorem PADivergenceApplyTranspose2D_gradX_eq (max_Q1D : Nat) (junk : Buf R)
    (TR_D1D Q1D : Nat) (bt gt grad : Buf R) (qy : Nat) {dx : Nat} (hdx : dx < TR_D1D) :
    PADivergenceApplyTranspose2D_gradX max_Q1D junk TR_D1D Q1D bt gt grad qy (carr2 2 dx 0) =
      ∑ qx ∈ Finset.range Q1D,
        grad (carr3 max_Q1D 2 qy qx 0) * Reshape2 gt TR_D1D Q1D dx qx ∧
    PADivergenceApplyTranspose2D_gradX max_Q1D junk TR_D1D Q1D bt gt grad qy (carr2 2 dx 1) =
      ∑ qx ∈ Finset.range Q1D,
        grad (carr3 max_Q1D 2 qy qx 1) * Reshape2 bt TR_D1D Q1D dx qx := by
  have hz : Writes (forLoop TR_D1D (fun dx (gradX : Buf R) =>
      (gradX.set (carr2 2 dx 0) 0).set (carr2 2 dx 1) 0)) _ (fun _ => 0) :=
    writes_forLoop (fun dx _ => writes_comp (writes_set_zero _) (writes_set_zero _))
  constructor
  · refine (forLoop_adds_apply (fun qx _ => adds_forLoop (fun dx _ =>
      adds_comp (adds_add _ _) (adds_add _ _))) _ _).trans ?_
    rw [writes_zero_apply hz junk ⟨dx, hdx, Or.inl rfl⟩, zero_add]
    apply Finset.sum_congr rfl
    intro qx _
    rw [Finset.sum_add_distrib, sum_ite_of_iff hdx, sum_ite_of_not, add_zero]
    · intro i _
      simp [carr2, idx2_inj]
    · intro i _
      simp [carr2, idx2_inj]
  · refine (forLoop_adds_apply (fun qx _ => adds_forLoop (fun dx _ =>
      adds_comp (adds_add _ _) (adds_add _ _))) _ _).trans ?_
    rw [writes_zero_apply hz junk ⟨dx, hdx, Or.inr rfl⟩, zero_add]
    apply Finset.sum_congr rfl
    intro qx _
    rw [Finset.sum_add_distrib, sum_ite_of_not, sum_ite_of_iff hdx, zero_add]
    · intro i _
      simp [carr2, idx2_inj]
    · intro i _
      simp [carr2, idx2_inj]

theorem idx4_inj {n1 n2 n3 i1 i2 i3 i4 k1 k2 k3 k4 : Nat} (h1 : i1 < n1) (h2 : k1 < n1)
    (h3 : i2 < n2) (h4 : k2 < n2) (h5 : i3 < n3) (h6 : k3 < n3) :
    idx4 n1 n2 n3 i1 i2 i3 i4 = idx4 n1 n2 n3 k1 k2 k3 k4 ↔
      i1 = k1 ∧ i2 = k2 ∧ i3 = k3 ∧ i4 = k4 := by
  unfold idx4
  rw [idx2_inj h1 h2, idx3_inj h3 h4 h5 h6]

theorem PADivergenceApplyTranspose2D_comp_snd (max_Q1D : Nat) (junk : Buf R)
    (TR_D1D Q1D NE : Nat) (bt gt op_ quadTest : Buf R) (e c : Nat) (s : Buf R × Buf R)
    (j : Nat) :
    (PADivergenceApplyTranspose2D_comp max_Q1D junk TR_D1D Q1D NE bt gt op_ quadTest e c s).2 j =
      s.2 j + PADivergenceApplyTranspose2D_delta max_Q1D junk TR_D1D Q1D NE bt gt op_ quadTest
        e c s.1 j :=
  forLoop_adds_apply (fun _ _ => adds_forLoop (fun _ _ => adds_forLoop (fun _ _ =>
    adds_add _ _))) _ _

theorem PADivergenceApplyTranspose2D_elem_adds (max_Q1D : Nat) (junk : Buf R)
    (TR_D1D TE_D1D Q1D NE : Nat) (bt gt b op_ x_ : Buf R) (e : Nat) :
    Adds (PADivergenceApplyTranspose2D_elem max_Q1D junk TR_D1D TE_D1D Q1D NE bt gt b op_ x_ e)
      (fun j => ∑ c ∈ Finset.range 2,
        PADivergenceApplyTranspose2D_delta max_Q1D junk TR_D1D Q1D NE bt gt op_
          (PADivergenceApplyTranspose2D_quadTest max_Q1D junk TE_D1D Q1D NE b x_ e) e c
          (forLoop c (fun c grad => PADivergenceApplyTranspose2D_grad max_Q1D Q1D NE op_
            (PADivergenceApplyTranspose2D_quadTest max_Q1D junk TE_D1D Q1D NE b x_ e) c e grad)
            junk) j) := by
  intro y j
  exact (forLoop_pair_adds _ _ (fun c _ s => rfl)
    (fun c _ s j => PADivergenceApplyTranspose2D_comp_snd max_Q1D junk TR_D1D Q1D NE bt gt op_
      (PADivergenceApplyTranspose2D_quadTest max_Q1D junk TE_D1D Q1D NE b x_ e) e c s j)
    (junk, y)).2 j

theorem PADivergenceApplyTranspose2D_delta_cell (max_Q1D : Nat) (junk : Buf R)
    (TR_D1D TE_D1D Q1D NE : Nat) (bt gt b op_ x_ : Buf R) (hQ : Q1D ≤ max_Q1D) (e c : Nat)
    (grad : Buf R) {e0 c0 dy0 dx0 : Nat} (hc0 : c0 < 2) (hc : c < 2) (hdy : dy0 < TR_D1D)
    (hdx : dx0 < TR_D1D) :
    PADivergenceApplyTranspose2D_delta max_Q1D junk TR_D1D Q1D NE bt gt op_
        (PADivergenceApplyTranspose2D_quadTest max_Q1D junk TE_D1D Q1D NE b x_ e) e c grad
        (idx4 TR_D1D TR_D1D 2 dx0 dy0 c0 e0) =
      if c0 = c ∧ e0 = e then
        PADivergenceApplyTranspose2D_inc TR_D1D TE_D1D Q1D NE bt gt b op_ x_ e c dy0 dx0
      else 0 := by
  unfold PADivergenceApplyTranspose2D_delta
  by_cases he : c0 = c ∧ e0 = e
  · rw [if_pos he]
    unfold PADivergenceApplyTranspose2D_inc
    apply Finset.sum_congr rfl
    intro qy hqy
    rw [sum_sum_ite_of_iff hdy hdx,
      (PADivergenceApplyTranspose2D_gradX_eq _ _ _ _ _ _ _ _ hdx).1,
      (PADivergenceApplyTranspose2D_gradX_eq _ _ _ _ _ _ _ _ hdx).2]
    · congr 2
      · apply Finset.sum_congr rfl
        intro qx hqx
        rw [(PADivergenceApplyTranspose2D_grad_eq _ _ _ _ _ _ _ _ hQ (Finset.mem_range.mp hqy)
          (Finset.mem_range.mp hqx)).1, PADivergenceApplyTranspose2D_quadTest_eq _ _ _ _ _ _ _ _
          hQ (Finset.mem_range.mp hqy) (Finset.mem_range.mp hqx)]
      · apply Finset.sum_congr rfl
        intro qx hqx
        rw [(PADivergenceApplyTranspose2D_grad_eq _ _ _ _ _ _ _ _ hQ (Finset.mem_range.mp hqy)
          (Finset.mem_range.mp hqx)).2, PADivergenceApplyTranspose2D_quadTest_eq _ _ _ _ _ _ _ _
          hQ (Finset.mem_range.mp hqy) (Finset.mem_range.mp hqx)]
    · intro i hi k hk
      rw [idx4_inj hdx hk hdy hi hc0 hc]
      simp [he.1, he.2]
      tauto
  · rw [if_neg he]
    apply Finset.sum_eq_zero
    intro qy _
    apply sum_sum_ite_of_not
    intro i hi k hk
    rw [idx4_inj hdx hk hdy hi hc0 hc]
    tauto

/-- The closed form of the 2D transpose kernel: the value it adds to `y(dx, dy, c, e)`. -/
theorem PADivergenceApplyTranspose2D_core_cell (max_Q1D : Nat) (junk : Buf R)
    (TR_D1D TE_D1D Q1D NE : Nat) (bt gt b op_ x_ y_ : Buf R) (hQ : Q1D ≤ max_Q1D)
    {e c dy dx : Nat} (he : e < NE) (hc : c < 2) (hdy : dy < TR_D1D) (hdx : dx < TR_D1D) :
    forLoop NE (fun e y_ =>
        PADivergenceApplyTranspose2D_elem max_Q1D junk TR_D1D TE_D1D Q1D NE bt gt b op_ x_ e y_)
        y_ (idx4 TR_D1D TR_D1D 2 dx dy c e) =
      y_ (idx4 TR_D1D TR_D1D 2 dx dy c e) +
        PADivergenceApplyTranspose2D_inc TR_D1D TE_D1D Q1D NE bt gt b op_ x_ e c dy dx := by
  rw [forLoop_adds_apply (fun e _ =>
    PADivergenceApplyTranspose2D_elem_adds max_Q1D junk TR_D1D TE_D1D Q1D NE bt gt b op_ x_ e)]
  congr 1
  rw [Finset.sum_congr rfl (g := fun i => if e = i then
    PADivergenceApplyTranspose2D_inc TR_D1D TE_D1D Q1D NE bt gt b op_ x_ i c dy dx else 0)]
  · rw [Finset.sum_ite_eq, if_pos (Finset.mem_range.mpr he)]
  · intro i _
    rw [Finset.sum_congr rfl (g := fun k => if c = k ∧ e = i then
      PADivergenceApplyTranspose2D_inc TR_D1D TE_D1D Q1D NE bt gt b op_ x_ i k dy dx else 0)]
    · by_cases hi : e = i
      · simp only [hi, and_true, if_true]
        rw [Finset.sum_ite_eq, if_pos (Finset.mem_range.mpr hc)]
      · simp [hi]
    · intro k hk
      exact PADivergenceApplyTranspose2D_delta_cell max_Q1D junk TR_D1D TE_D1D Q1D NE bt gt b
        op_ x_ hQ i k _ hc (Finset.mem_range.mp hk) hdy hdx

end ApplyTranspose2DProofs

/-! ## Adjointness of the 2D kernels -/

section Adjoint2D

variable {R : Type u} [CommRing R]

/-- Adjointness of the closed forms of the 2D kernels, element by element. -/
theorem adjoint2D_elem (TR_D1D TE_D1D Q1D NE : Nat) (b g bt btT gtT bT op_ x_ y_ : Buf R)
    (hB : ∀ d q, d < TR_D1D → q < Q1D → Reshape2 btT TR_D1D Q1D d q = Reshape2 b Q1D TR_D1D q d)
    (hG : ∀ d q, d < TR_D1D → q < Q1D → Reshape2 gtT TR_D1D Q1D d q = Reshape2 g Q1D TR_D1D q d)
    (hT : ∀ d q, d < TE_D1D → q < Q1D → Reshape2 bT Q1D TE_D1D q d = Reshape2 bt TE_D1D Q1D d q)
    (e : Nat) :
    (∑ c ∈ Finset.range 2, ∑ dy ∈ Finset.range TR_D1D, ∑ dx ∈ Finset.range TR_D1D,
        PADivergenceApplyTranspose2D_inc TR_D1D TE_D1D Q1D NE btT gtT bT op_ y_ e c dy dx *
          Reshape4 x_ TR_D1D TR_D1D 2 NE dx dy c e) =
      ∑ dy ∈ Finset.range TE_D1D, ∑ dx ∈ Finset.range TE_D1D,
        Reshape3 y_ TE_D1D TE_D1D NE dx dy e *
          PADivergenceApply2D_inc TR_D1D TE_D1D Q1D NE b g bt op_ x_ e dy dx := by
  -- the right-hand side, brought to the quadrature points
  have hR : (∑ dy ∈ Finset.range TE_D1D, ∑ dx ∈ Finset.range TE_D1D,
        Reshape3 y_ TE_D1D TE_D1D NE dx dy e *
          PADivergenceApply2D_inc TR_D1D TE_D1D Q1D NE b g bt op_ x_ e dy dx) =
      ∑ qy ∈ Finset.range Q1D, ∑ qx ∈ Finset.range Q1D,
        div2D TR_D1D Q1D NE b g op_ x_ e qy qx *
          interp2D TE_D1D (fun dx dy => Reshape3 y_ TE_D1D TE_D1D NE dx dy e)
            (Reshape2 bT Q1D TE_D1D) (Reshape2 bT Q1D TE_D1D) qx qy := by
    rw [← interp2D_dual TE_D1D Q1D (fun dx dy => Reshape3 y_ TE_D1D TE_D1D NE dx dy e)
      (fun qx qy => div2D TR_D1D Q1D NE b g op_ x_ e qy qx)]
    apply Finset.sum_congr rfl
    intro dy hdy
    apply Finset.sum_congr rfl
    intro dx hdx
    congr 1
    unfold PADivergenceApply2D_inc
    apply Finset.sum_congr rfl
    intro qy hqy
    rw [hT dy qy (Finset.mem_range.mp hdy) (Finset.mem_range.mp hqy), mul_comm]
    congr 1
    apply Finset.sum_congr rfl
    intro qx hqx
    rw [hT dx qx (Finset.mem_range.mp hdx) (Finset.mem_range.mp hqx), mul_comm]
  -- the left-hand side, component by component
  have hL : ∀ c, (∑ dy ∈ Finset.range TR_D1D, ∑ dx ∈ Finset.range TR_D1D,
        PADivergenceApplyTranspose2D_inc TR_D1D TE_D1D Q1D NE btT gtT bT op_ y_ e c dy dx *
          Reshape4 x_ TR_D1D TR_D1D 2 NE dx dy c e) =
      ∑ qy ∈ Finset.range Q1D, ∑ qx ∈ Finset.range Q1D,
        interp2D TE_D1D (fun dx dy => Reshape3 y_ TE_D1D TE_D1D NE dx dy e)
            (Reshape2 bT Q1D TE_D1D) (Reshape2 bT Q1D TE_D1D) qx qy *
          (interp2D TR_D1D (fun dx dy => Reshape4 x_ TR_D1D TR_D1D 2 NE dx dy c e)
              (Reshape2 g Q1D TR_D1D) (Reshape2 b Q1D TR_D1D) qx qy *
            Reshape4 op_ (Q1D * Q1D) 2 2 NE (qx + qy * Q1D) 0 c e +
          interp2D TR_D1D (fun dx dy => Reshape4 x_ TR_D1D TR_D1D 2 NE dx dy c e)
              (Reshape2 b Q1D TR_D1D) (Reshape2 g Q1D TR_D1D) qx qy *
            Reshape4 op_ (Q1D * Q1D) 2 2 NE (qx + qy * Q1D) 1 c e) := by
    intro c
    have h0 := interp2D_dual TR_D1D Q1D
      (fun dx dy => Reshape4 x_ TR_D1D TR_D1D 2 NE dx dy c e)
      (fun qx qy => interp2D TE_D1D (fun dx dy => Reshape3 y_ TE_D1D TE_D1D NE dx dy e)
            (Reshape2 bT Q1D TE_D1D) (Reshape2 bT Q1D TE_D1D) qx qy *
          Reshape4 op_ (Q1D * Q1D) 2 2 NE (qx + qy * Q1D) 0 c e)
      (Reshape2 g Q1D TR_D1D) (Reshape2 b Q1D TR_D1D)
    have h1 := interp2D_dual TR_D1D Q1D
      (fun dx dy => Reshape4 x_ TR_D1D TR_D1D 2 NE dx dy c e)
      (fun qx qy => interp2D TE_D1D (fun dx dy => Reshape3 y_ TE_D1D TE_D1D NE dx dy e)
            (Reshape2 bT Q1D TE_D1D) (Reshape2 bT Q1D TE_D1D) qx qy *
          Reshape4 op_ (Q1D * Q1D) 2 2 NE (qx + qy * Q1D) 1 c e)
      (Reshape2 b Q1D TR_D1D) (Reshape2 g Q1D TR_D1D)
    have e1 : ∀ dy, dy ∈ Finset.range TR_D1D → ∀ dx, dx ∈ Finset.range TR_D1D →
        PADivergenceApplyTranspose2D_inc TR_D1D TE_D1D Q1D NE btT gtT bT op_ y_ e c dy dx *
          Reshape4 x_ TR_D1D TR_D1D 2 NE dx dy c e =
        Reshape4 x_ TR_D1D TR_D1D 2 NE dx dy c e * (∑ qy ∈ Finset.range Q1D,
          (∑ qx ∈ Finset.range Q1D,
            (interp2D TE_D1D (fun dx dy => Reshape3 y_ TE_D1D TE_D1D NE dx dy e)
                (Reshape2 bT Q1D TE_D1D) (Reshape2 bT Q1D TE_D1D) qx qy *
              Reshape4 op_ (Q1D * Q1D) 2 2 NE (qx + qy * Q1D) 0 c e) *
            Reshape2 g Q1D TR_D1D qx dx) * Reshape2 b Q1D TR_D1D qy dy) +
        Reshape4 x_ TR_D1D TR_D1D 2 NE dx dy c e * (∑ qy ∈ Finset.range Q1D,
          (∑ qx ∈ Finset.range Q1D,
            (interp2D TE_D1D (fun dx dy => Reshape3 y_ TE_D1D TE_D1D NE dx dy e)
                (Reshape2 bT Q1D TE_D1D) (Reshape2 bT Q1D TE_D1D) qx qy *
              Reshape4 op_ (Q1D * Q1D) 2 2 NE (qx + qy * Q1D) 1 c e) *
            Reshape2 b Q1D TR_D1D qx dx) * Reshape2 g Q1D TR_D1D qy dy) := by
      intro dy hdy dx hdx
      have hdy2 := Finset.mem_range.mp hdy
      have hdx2 := Finset.mem_range.mp hdx
      unfold PADivergenceApplyTranspose2D_inc
      rw [mul_comm, ← mul_add, ← Finset.sum_add_distrib]
      congr 1
      apply Finset.sum_congr rfl
      intro qy hqy
      rw [hB dy qy hdy2 (Finset.mem_range.mp hqy), hG dy qy hdy2 (Finset.mem_range.mp hqy)]
      congr 2
      · apply Finset.sum_congr rfl
        intro qx hqx
        rw [hG dx qx hdx2 (Finset.mem_range.mp hqx)]
      · apply Finset.sum_congr rfl
        intro qx hqx
        rw [hB dx qx hdx2 (Finset.mem_range.mp hqx)]
    rw [Finset.sum_congr rfl (fun dy hdy => Finset.sum_congr rfl (e1 dy hdy))]
    simp only [Finset.sum_add_distrib]
    rw [h0, h1, ← Finset.sum_add_distrib]
    apply Finset.sum_congr rfl
    intro qy _
    rw [← Finset.sum_add_distrib]
    apply Finset.sum_congr rfl
    intro qx _
    ring
  rw [hR, Finset.sum_congr rfl (fun c _ => hL c), Finset.sum_comm]
  apply Finset.sum_congr rfl
  intro qy _
  rw [Finset.sum_comm]
  apply Finset.sum_congr rfl
  intro qx _
  rw [← Finset.mul_sum, mul_comm]
  rfl

theorem PADivergenceApplyTranspose2D_ok (dev lim : DofQuadLimits) (T_TR_D1D T_TE_D1D T_Q1D : Nat)
    (junk : Buf R) (NE : Nat) (bt gt b op_ x_ y_ : Buf R) (tr_d1d te_d1d q1d : Nat)
    (h1 : pick T_TR_D1D tr_d1d ≤ dev.MAX_D1D) (h2 : pick T_TE_D1D te_d1d ≤ dev.MAX_D1D)
    (h3 : pick T_Q1D q1d ≤ dev.MAX_Q1D) :
    PADivergenceApplyTranspose2D dev lim T_TR_D1D T_TE_D1D T_Q1D junk NE bt gt b op_ x_ y_
        tr_d1d te_d1d q1d =
      Outcome.ok (forLoop NE (fun e y_ =>
        PADivergenceApplyTranspose2D_elem (pick T_Q1D lim.MAX_Q1D) junk (pick T_TR_D1D tr_d1d)
          (pick T_TE_D1D te_d1d) (pick T_Q1D q1d) NE bt gt b op_ x_ e y_) y_) := by
  simp [PADivergenceApplyTranspose2D, h1, h2, h3]

theorem PADivergenceApplyTranspose2D_fatal (dev lim : DofQuadLimits)
    (T_TR_D1D T_TE_D1D T_Q1D : Nat)
    (junk : Buf R) (NE : Nat) (bt gt b op_ x_ y_ : Buf R) (tr_d1d te_d1d q1d : Nat)
    (h : ¬ (pick T_TR_D1D tr_d1d ≤ dev.MAX_D1D ∧ pick T_TE_D1D te_d1d ≤ dev.MAX_D1D ∧
      pick T_Q1D q1d ≤ dev.MAX_Q1D)) :
    PADivergenceApplyTranspose2D dev lim T_TR_D1D T_TE_D1D T_Q1D junk NE bt gt b op_ x_ y_
        tr_d1d te_d1d q1d = Outcome.fatal "" y_ := by
  unfold PADivergenceApplyTranspose2D
  by_cases h1 : pick T_TR_D1D tr_d1d ≤ dev.MAX_D1D
  · by_cases h2 : pick T_TE_D1D te_d1d ≤ dev.MAX_D1D
    · by_cases h3 : pick T_Q1D q1d ≤ dev.MAX_Q1D
      · exact absurd ⟨h1, h2, h3⟩ h
      · simp [h1, h2, h3]
    · simp [h1, h2]
  · simp [h1]

theorem PADivergenceApply2D_adjoint_core (dev lim : DofQuadLimits) (T_TR_D1D T_TE_D1D T_Q1D : Nat)
    (junk junk2 : Buf R) (NE : Nat) (b g bt btT gtT bT op_ x_ y_ : Buf R)
    (tr_d1d te_d1d q1d : Nat)
    (h1 : pick T_TR_D1D tr_d1d ≤ dev.MAX_D1D) (h2 : pick T_TE_D1D te_d1d ≤ dev.MAX_D1D)
    (h3 : pick T_Q1D q1d ≤ dev.MAX_Q1D) (hlim : dev.le lim)
    (hB : ∀ d q, d < pick T_TR_D1D tr_d1d → q < pick T_Q1D q1d →
      Reshape2 btT (pick T_TR_D1D tr_d1d) (pick T_Q1D q1d) d q =
        Reshape2 b (pick T_Q1D q1d) (pick T_TR_D1D tr_d1d) q d)
    (hG : ∀ d q, d < pick T_TR_D1D tr_d1d → q < pick T_Q1D q1d →
      Reshape2 gtT (pick T_TR_D1D tr_d1d) (pick T_Q1D q1d) d q =
        Reshape2 g (pick T_Q1D q1d) (pick T_TR_D1D tr_d1d) q d)
    (hT : ∀ d q, d < pick T_TE_D1D te_d1d → q < pick T_Q1D q1d →
      Reshape2 bT (pick T_Q1D q1d) (pick T_TE_D1D te_d1d) q d =
        Reshape2 bt (pick T_TE_D1D te_d1d) (pick T_Q1D q1d) d q) :
    dot (pick T_TR_D1D tr_d1d * pick T_TR_D1D tr_d1d * 2 * NE)
        (PADivergenceApplyTranspose2D dev lim T_TR_D1D T_TE_D1D T_Q1D junk NE btT gtT bT op_ y_
          (fun _ => 0) tr_d1d te_d1d q1d).out x_ =
      dot (pick T_TE_D1D te_d1d * pick T_TE_D1D te_d1d * NE) y_
        (PADivergenceApply2D dev lim T_TR_D1D T_TE_D1D T_Q1D junk2 NE b g bt op_ x_
          (fun _ => 0) tr_d1d te_d1d q1d).out := by
  have hQ : pick T_Q1D q1d ≤ pick T_Q1D lim.MAX_Q1D := pick_le_pick h3 hlim.2
  rw [PADivergenceApplyTranspose2D_ok dev lim T_TR_D1D T_TE_D1D T_Q1D junk NE btT gtT bT op_ y_
      _ tr_d1d te_d1d q1d h1 h2 h3,
    PADivergenceApply2D_ok dev lim T_TR_D1D T_TE_D1D T_Q1D junk2 NE b g bt op_ x_
      _ tr_d1d te_d1d q1d h1 h2 h3]
  simp only [Outcome.out, dot]
  rw [sum_range_idx4, sum_range_idx3]
  apply Finset.sum_congr rfl
  intro e he
  have he2 := Finset.mem_range.mp he
  refine Eq.trans ?_ ((adjoint2D_elem (pick T_TR_D1D tr_d1d) (pick T_TE_D1D te_d1d)
    (pick T_Q1D q1d) NE b g bt btT gtT bT op_ x_ y_ hB hG hT e).trans ?_)
  · apply Finset.sum_congr rfl
    intro c hc
    apply Finset.sum_congr rfl
    intro dy hdy
    apply Finset.sum_congr rfl
    intro dx hdx
    rw [PADivergenceApplyTranspose2D_core_cell _ _ _ _ _ _ _ _ _ _ _ _ hQ he2
      (Finset.mem_range.mp hc) (Finset.mem_range.mp hdy) (Finset.mem_range.mp hdx), zero_add]
    rfl
  · apply Finset.sum_congr rfl
    intro dy hdy
    apply Finset.sum_congr rfl
    intro dx hdx
    rw [PADivergenceApply2D_core_cell _ _ _ _ _ _ _ _ _ _ _ _ hQ he2
      (Finset.mem_range.mp hdy) (Finset.mem_range.mp hdx), zero_add]
    rfl

end Adjoint2D

/-! ## The forward 3D kernel -/

section Apply3DProofs

variable {R : Type u} [CommRing R]

theorem sum3_ite_of_iff {n m l a0 b0 c0 : Nat} (ha : a0 < n) (hb : b0 < m) (hc : c0 < l)
    (P : Nat → Nat → Nat → Prop) [∀ a b c, Decidable (P a b c)] (v : Nat → Nat → Nat → R)
    (hP : ∀ a, a < n → ∀ b, b < m → ∀ c, c < l → (P a b c ↔ a0 = a ∧ b0 = b ∧ c0 = c)) :
    (∑ a ∈ Finset.range n, ∑ b ∈ Finset.range m, ∑ c ∈ Finset.range l,
      if P a b c then v a b c else 0) = v a0 b0 c0 := by
  rw [Finset.sum_congr rfl (g := fun a => if a0 = a then v a b0 c0 else 0)]
  · rw [Finset.sum_ite_eq, if_pos (Finset.mem_range.mpr ha)]
  · intro a ha2
    have ha3 := Finset.mem_range.mp ha2
    by_cases h : a0 = a
    · rw [if_pos h]
      exact sum_sum_ite_of_iff hb hc _ _ (fun b hb2 c hc2 => by simp [hP a ha3 b hb2 c hc2, h])
    · rw [if_neg h]
      exact sum_sum_ite_of_not _ _ (fun b hb2 c hc2 => by simp [hP a ha3 b hb2 c hc2, h])

theorem sum3_ite_of_not {n m l : Nat}
    (P : Nat → Nat → Nat → Prop) [∀ a b c, Decidable (P a b c)] (v : Nat → Nat → Nat → R)
    (hP : ∀ a, a < n → ∀ b, b < m → ∀ c, c < l → ¬ P a b c) :
    (∑ a ∈ Finset.range n, ∑ b ∈ Finset.range m, ∑ c ∈ Finset.range l,
      if P a b c then v a b c else 0) = 0 := by
  apply Finset.sum_eq_zero
  intro a ha
  exact sum_sum_ite_of_not _ _ (hP a (Finset.mem_range.mp ha))

theorem carr4_inj {M K L i j k l i2 j2 k2 l2 : Nat} (h1 : j < M) (h2 : j2 < M) (h3 : k < K)
    (h4 : k2 < K) (h5 : l < L) (h6 : l2 < L) :
    carr4 M K L i j k l = carr4 M K L i2 j2 k2 l2 ↔ i = i2 ∧ j = j2 ∧ k = k2 ∧ l = l2 := by
  unfold carr4
  rw [idx4_inj h5 h6 h3 h4 h1 h2]
  tauto

theorem PADivergenceApply3D_gradX_eq (junk : Buf R) (TR_D1D Q1D NE : Nat) (b g x_ : Buf R)
    (c dy dz e : Nat) {qx : Nat} (hqx : qx < Q1D) :
    PADivergenceApply3D_gradX junk TR_D1D Q1D NE b g x_ c dy dz e (carr2 3 qx 0) =
      ∑ dx ∈ Finset.range TR_D1D,
        Reshape5 x_ TR_D1D TR_D1D TR_D1D 3 NE dx dy dz c e * Reshape2 g Q1D TR_D1D qx dx ∧
    PADivergenceApply3D_gradX junk TR_D1D Q1D NE b g x_ c dy dz e (carr2 3 qx 1) =
      ∑ dx ∈ Finset.range TR_D1D,
        Reshape5 x_ TR_D1D TR_D1D TR_D1D 3 NE dx dy dz c e * Reshape2 b Q1D TR_D1D qx dx ∧
    PADivergenceApply3D_gradX junk TR_D1D Q1D NE b g x_ c dy dz e (carr2 3 qx 2) =
      ∑ dx ∈ Finset.range TR_D1D,
        Reshape5 x_ TR_D1D TR_D1D TR_D1D 3 NE dx dy dz c e * Reshape2 b Q1D TR_D1D qx dx := by
  have hz : Writes (forLoop Q1D (fun qx (gradX : Buf R) =>
      ((gradX.set (carr2 3 qx 0) 0).set (carr2 3 qx 1) 0).set (carr2 3 qx 2) 0)) _
      (fun _ => 0) :=
    writes_forLoop (fun qx _ => writes_comp (writes_comp (writes_set_zero _)
      (writes_set_zero _)) (writes_set_zero _))
  refine ⟨?_, ?_, ?_⟩
  · refine (forLoop_adds_apply (fun dx _ => adds_forLoop (fun qx _ =>
      adds_comp (adds_comp (adds_add _ _) (adds_add _ _)) (adds_add _ _))) _ _).trans ?_
    rw [writes_zero_apply hz junk ⟨qx, hqx, Or.inl (Or.inl rfl)⟩, zero_add]
    apply Finset.sum_congr rfl
    intro dx _
    simp only [Finset.sum_add_distrib]
    rw [sum_ite_of_iff hqx, sum_ite_of_not, sum_ite_of_not, add_zero, add_zero]
    all_goals
      intro i _
      simp [carr2, idx2_inj]
  · refine (forLoop_adds_apply (fun dx _ => adds_forLoop (fun qx _ =>
      adds_comp (adds_comp (adds_add _ _) (adds_add _ _)) (adds_add _ _))) _ _).trans ?_
    rw [writes_zero_apply hz junk ⟨qx, hqx, Or.inl (Or.inr rfl)⟩, zero_add]
    apply Finset.sum_congr rfl
    intro dx _
    simp only [Finset.sum_add_distrib]
    rw [sum_ite_of_not, sum_ite_of_iff hqx, sum_ite_of_not, zero_add, add_zero]
    all_goals
      intro i _
      simp [carr2, idx2_inj]
  · refine (forLoop_adds_apply (fun dx _ => adds_forLoop (fun qx _ =>
      adds_comp (adds_comp (adds_add _ _) (adds_add _ _)) (adds_add _ _))) _ _).trans ?_
    rw [writes_zero_apply hz junk ⟨qx, hqx, Or.inr rfl⟩, zero_add]
    apply Finset.sum_congr rfl
    intro dx _
    simp only [Finset.sum_add_distrib]
    rw [sum_ite_of_not, sum_ite_of_not, sum_ite_of_iff hqx, zero_add, zero_add]
    all_goals
      intro i _
      simp [carr2, idx2_inj]

theorem PADivergenceApply3D_gradXY_eq (max_Q1D : Nat) (junk : Buf R) (TR_D1D Q1D NE : Nat)
    (b g x_ : Buf R) (c dz e : Nat) (hQ : Q1D ≤ max_Q1D) {qy qx : Nat}
    (hqy : qy < Q1D) (hqx : qx < Q1D) :
    PADivergenceApply3D_gradXY max_Q1D junk TR_D1D Q1D NE b g x_ c dz e
        (carr3 max_Q1D 3 qy qx 0) =
      ∑ dy ∈ Finset.range TR_D1D, (∑ dx ∈ Finset.range TR_D1D,
        Reshape5 x_ TR_D1D TR_D1D TR_D1D 3 NE dx dy dz c e * Reshape2 g Q1D TR_D1D qx dx) *
          Reshape2 b Q1D TR_D1D qy dy ∧
    PADivergenceApply3D_gradXY max_Q1D junk TR_D1D Q1D NE b g x_ c dz e
        (carr3 max_Q1D 3 qy qx 1) =
      ∑ dy ∈ Finset.range TR_D1D, (∑ dx ∈ Finset.range TR_D1D,
        Reshape5 x_ TR_D1D TR_D1D TR_D1D 3 NE dx dy dz c e * Reshape2 b Q1D TR_D1D qx dx) *
          Reshape2 g Q1D TR_D1D qy dy ∧
    PADivergenceApply3D_gradXY max_Q1D junk TR_D1D Q1D NE b g x_ c dz e
        (carr3 max_Q1D 3 qy qx 2) =
      ∑ dy ∈ Finset.range TR_D1D, (∑ dx ∈ Finset.range TR_D1D,
        Reshape5 x_ TR_D1D TR_D1D TR_D1D 3 NE dx dy dz c e * Reshape2 b Q1D TR_D1D qx dx) *
          Reshape2 b Q1D TR_D1D qy dy := by
  have hz : Writes (forLoop Q1D (fun qy (a : Buf R) => forLoop Q1D (fun qx a =>
      ((a.set (carr3 max_Q1D 3 qy qx 0) 0).set (carr3 max_Q1D 3 qy qx 1) 0).set
        (carr3 max_Q1D 3 qy qx 2) 0) a)) _ (fun _ => 0) :=
    writes_forLoop (fun qy _ => writes_forLoop (fun qx _ =>
      writes_comp (writes_comp (writes_set_zero _) (writes_set_zero _)) (writes_set_zero _)))
  have hlt : ∀ i, i < Q1D → i < max_Q1D := fun i hi => Nat.lt_of_lt_of_le hi hQ
  refine ⟨?_, ?_, ?_⟩
  · refine (forLoop_adds_apply (fun dy _ => adds_forLoop (fun qy _ => adds_forLoop (fun qx _ =>
      adds_comp (adds_comp (adds_add _ _) (adds_add _ _)) (adds_add _ _)))) _ _).trans ?_
    rw [writes_zero_apply hz junk ⟨qy, hqy, qx, hqx, Or.inl (Or.inl rfl)⟩, zero_add]
    apply Finset.sum_congr rfl
    intro dy _
    simp only [Finset.sum_add_distrib]
    rw [sum_sum_ite_of_iff hqy hqx, sum_sum_ite_of_not, sum_sum_ite_of_not, add_zero, add_zero,
      (PADivergenceApply3D_gradX_eq junk TR_D1D Q1D NE b g x_ c dy dz e hqx).1]
    all_goals
      intro i _ k hk
      simp [carr3_inj (hlt qx hqx) (hlt k hk)]
  · refine (forLoop_adds_apply (fun dy _ => adds_forLoop (fun qy _ => adds_forLoop (fun qx _ =>
      adds_comp (adds_comp (adds_add _ _) (adds_add _ _)) (adds_add _ _)))) _ _).trans ?_
    rw [writes_zero_apply hz junk ⟨qy, hqy, qx, hqx, Or.inl (Or.inr rfl)⟩, zero_add]
    apply Finset.sum_congr rfl
    intro dy _
    simp only [Finset.sum_add_distrib]
    rw [sum_sum_ite_of_not, sum_sum_ite_of_iff hqy hqx, sum_sum_ite_of_not, zero_add, add_zero,
      (PADivergenceApply3D_gradX_eq junk TR_D1D Q1D NE b g x_ c dy dz e hqx).2.1]
    all_goals
      intro i _ k hk
      simp [carr3_inj (hlt qx hqx) (hlt k hk)]
  · refine (forLoop_adds_apply (fun dy _ => adds_forLoop (fun qy _ => adds_forLoop (fun qx _ =>
      adds_comp (adds_comp (adds_add _ _) (adds_add _ _)) (adds_add _ _)))) _ _).trans ?_
    rw [writes_zero_apply hz junk ⟨qy, hqy, qx, hqx, Or.inr rfl⟩, zero_add]
    apply Finset.sum_congr rfl
    intro dy _
    simp only [Finset.sum_add_distrib]
    rw [sum_sum_ite_of_not, sum_sum_ite_of_not, sum_sum_ite_of_iff hqy hqx, zero_add, zero_add,
      (PADivergenceApply3D_gradX_eq junk TR_D1D Q1D NE b g x_ c dy dz e hqx).2.2]
    all_goals
      intro i _ k hk
      simp [carr3_inj (hlt qx hqx) (hlt k hk)]

theorem PADivergenceApply3D_grad_eq (max_Q1D : Nat) (junk : Buf R) (TR_D1D Q1D NE : Nat)
    (b g x_ : Buf R) (c e : Nat) (grad : Buf R) (hQ : Q1D ≤ max_Q1D) {qz qy qx : Nat}
    (hqz : qz < Q1D) (hqy : qy < Q1D) (hqx : qx < Q1D) :
    PADivergenceApply3D_grad max_Q1D junk TR_D1D Q1D NE b g x_ c e grad
        (carr4 max_Q1D max_Q1D 3 qz qy qx 0) =
      interp3D TR_D1D (fun dx dy dz => Reshape5 x_ TR_D1D TR_D1D TR_D1D 3 NE dx dy dz c e)
        (Reshape2 g Q1D TR_D1D) (Reshape2 b Q1D TR_D1D) (Reshape2 b Q1D TR_D1D) qx qy qz ∧
    PADivergenceApply3D_grad max_Q1D junk TR_D1D Q1D NE b g x_ c e grad
        (carr4 max_Q1D max_Q1D 3 qz qy qx 1) =
      interp3D TR_D1D (fun dx dy dz => Reshape5 x_ TR_D1D TR_D1D TR_D1D 3 NE dx dy dz c e)
        (Reshape2 b Q1D TR_D1D) (Reshape2 g Q1D TR_D1D) (Reshape2 b Q1D TR_D1D) qx qy qz ∧
    PADivergenceApply3D_grad max_Q1D junk TR_D1D Q1D NE b g x_ c e grad
        (carr4 max_Q1D max_Q1D 3 qz qy qx 2) =
      interp3D TR_D1D (fun dx dy dz => Reshape5 x_ TR_D1D TR_D1D TR_D1D 3 NE dx dy dz c e)
        (Reshape2 b Q1D TR_D1D) (Reshape2 b Q1D TR_D1D) (Reshape2 g Q1D TR_D1D) qx qy qz := by
  have hz : Writes (forLoop Q1D (fun qz (a : Buf R) => forLoop Q1D (fun qy a =>
      forLoop Q1D (fun qx a =>
        ((a.set (carr4 max_Q1D max_Q1D 3 qz qy qx 0) 0).set
          (carr4 max_Q1D max_Q1D 3 qz qy qx 1) 0).set
          (carr4 max_Q1D max_Q1D 3 qz qy qx 2) 0) a) a)) _ (fun _ => 0) :=
    writes_forLoop (fun qz _ => writes_forLoop (fun qy _ => writes_forLoop (fun qx _ =>
      writes_comp (writes_comp (writes_set_zero _) (writes_set_zero _)) (writes_set_zero _))))
  have hlt : ∀ i, i < Q1D → i < max_Q1D := fun i hi => Nat.lt_of_lt_of_le hi hQ
  refine ⟨?_, ?_, ?_⟩
  · refine (forLoop_adds_apply (fun dz _ => adds_forLoop (fun qz _ => adds_forLoop (fun qy _ =>
      adds_forLoop (fun qx _ =>
        adds_comp (adds_comp (adds_add _ _) (adds_add _ _)) (adds_add _ _))))) _ _).trans ?_
    rw [writes_zero_apply hz grad ⟨qz, hqz, qy, hqy, qx, hqx, Or.inl (Or.inl rfl)⟩, zero_add]
    unfold interp3D
    apply Finset.sum_congr rfl
    intro dz _
    simp only [Finset.sum_add_distrib]
    rw [sum3_ite_of_iff hqz hqy hqx, sum3_ite_of_not, sum3_ite_of_not, add_zero, add_zero,
      (PADivergenceApply3D_gradXY_eq max_Q1D junk TR_D1D Q1D NE b g x_ c dz e hQ hqy hqx).1]
    all_goals
      intro i _ k hk l hl
      simp [carr4_inj (hlt qy hqy) (hlt k hk) (hlt qx hqx) (hlt l hl)]
  · refine (forLoop_adds_apply (fun dz _ => adds_forLoop (fun qz _ => adds_forLoop (fun qy _ =>
      adds_forLoop (fun qx _ =>
        adds_comp (adds_comp (adds_add _ _) (adds_add _ _)) (adds_add _ _))))) _ _).trans ?_
    rw [writes_zero_apply hz grad ⟨qz, hqz, qy, hqy, qx, hqx, Or.inl (Or.inr rfl)⟩, zero_add]
    unfold interp3D
    apply Finset.sum_congr rfl
    intro dz _
    simp only [Finset.sum_add_distrib]
    rw [sum3_ite_of_not, sum3_ite_of_iff hqz hqy hqx, sum3_ite_of_not, zero_add, add_zero,
      (PADivergenceApply3D_gradXY_eq max_Q1D junk TR_D1D Q1D NE b g x_ c dz e hQ hqy hqx).2.1]
    all_goals
      intro i _ k hk l hl
      simp [carr4_inj (hlt qy hqy) (hlt k hk) (hlt qx hqx) (hlt l hl)]
  · refine (forLoop_adds_apply (fun dz _ => adds_forLoop (fun qz _ => adds_forLoop (fun qy _ =>
      adds_forLoop (fun qx _ =>
        adds_comp (adds_comp (adds_add _ _) (adds_add _ _)) (adds_add _ _))))) _ _).trans ?_
    rw [writes_zero_apply hz grad ⟨qz, hqz, qy, hqy, qx, hqx, Or.inr rfl⟩, zero_add]
    unfold interp3D
    apply Finset.sum_congr rfl
    intro dz _
    simp only [Finset.sum_add_distrib]
    rw [sum3_ite_of_not, sum3_ite_of_not, sum3_ite_of_iff hqz hqy hqx, zero_add, zero_add,
      (PADivergenceApply3D_gradXY_eq max_Q1D junk TR_D1D Q1D NE b g x_ c dz e hQ hqy hqx).2.2]
    all_goals
      intro i _ k hk l hl
      simp [carr4_inj (hlt qy hqy) (hlt k hk) (hlt qx hqx) (hlt l hl)]

theorem PADivergenceApply3D_quad_eq (max_Q1D : Nat) (junk : Buf R) (TR_D1D Q1D NE : Nat)
    (b g op_ x_ : Buf R) (e : Nat) (hQ : Q1D ≤ max_Q1D) {qz qy qx : Nat}
    (hqz : qz < Q1D) (hqy : qy < Q1D) (hqx : qx < Q1D) :
    (PADivergenceApply3D_quad max_Q1D junk TR_D1D Q1D NE b g op_ x_ e).2
        (carr3 max_Q1D max_Q1D qz qy qx) =
      div3D TR_D1D Q1D NE b g op_ x_ e qz qy qx := by
  have hz : Writes (forLoop Q1D (fun qz (div : Buf R) => forLoop Q1D (fun qy div =>
      forLoop Q1D (fun qx div => div.set (carr3 max_Q1D max_Q1D qz qy qx) 0) div) div)) _
      (fun _ => 0) :=
    writes_forLoop (fun qz _ => writes_forLoop (fun qy _ => writes_forLoop (fun qx _ =>
      writes_set_zero _)))
  have hlt : ∀ i, i < Q1D → i < max_Q1D := fun i hi => Nat.lt_of_lt_of_le hi hQ
  refine (forLoop_snd_adds_at (carr3 max_Q1D max_Q1D qz qy qx) (fun c =>
      interp3D TR_D1D (fun dx dy dz => Reshape5 x_ TR_D1D TR_D1D TR_D1D 3 NE dx dy dz c e)
          (Reshape2 g Q1D TR_D1D) (Reshape2 b Q1D TR_D1D) (Reshape2 b Q1D TR_D1D) qx qy qz *
        Reshape4 op_ (Q1D * Q1D * Q1D) 3 3 NE (qx + (qy + qz * Q1D) * Q1D) 0 c e +
      interp3D TR_D1D (fun dx dy dz => Reshape5 x_ TR_D1D TR_D1D TR_D1D 3 NE dx dy dz c e)
          (Reshape2 b Q1D TR_D1D) (Reshape2 g Q1D TR_D1D) (Reshape2 b Q1D TR_D1D) qx qy qz *
        Reshape4 op_ (Q1D * Q1D * Q1D) 3 3 NE (qx + (qy + qz * Q1D) * Q1D) 1 c e +
      interp3D TR_D1D (fun dx dy dz => Reshape5 x_ TR_D1D TR_D1D TR_D1D 3 NE dx dy dz c e)
          (Reshape2 b Q1D TR_D1D) (Reshape2 b Q1D TR_D1D) (Reshape2 g Q1D TR_D1D) qx qy qz *
        Reshape4 op_ (Q1D * Q1D * Q1D) 3 3 NE (qx + (qy + qz * Q1D) * Q1D) 2 c e) ?_ _).trans ?_
  · intro c _ s
    refine (forLoop_adds_apply (fun qz _ => adds_forLoop (fun qy _ => adds_forLoop (fun qx _ =>
      adds_add _ _))) _ _).trans ?_
    congr 1
    rw [sum3_ite_of_iff hqz hqy hqx]
    · rw [(PADivergenceApply3D_grad_eq max_Q1D junk TR_D1D Q1D NE b g x_ c e s.1 hQ hqz hqy
          hqx).1,
        (PADivergenceApply3D_grad_eq max_Q1D junk TR_D1D Q1D NE b g x_ c e s.1 hQ hqz hqy
          hqx).2.1,
        (PADivergenceApply3D_grad_eq max_Q1D junk TR_D1D Q1D NE b g x_ c e s.1 hQ hqz hqy
          hqx).2.2]
    · intro i _ k hk l hl
      exact carr3_inj (hlt qy hqy) (hlt k hk) (hlt qx hqx) (hlt l hl)
  · rw [show ((junk, forLoop Q1D (fun qz (div : Buf R) => forLoop Q1D (fun qy div =>
      forLoop Q1D (fun qx div => div.set (carr3 max_Q1D max_Q1D qz qy qx) 0) div) div) junk) :
        Buf R × Buf R).2 (carr3 max_Q1D max_Q1D qz qy qx) = 0
      from writes_zero_apply hz junk ⟨qz, hqz, qy, hqy, qx, hqx, rfl⟩, zero_add]
    rfl

theorem PADivergenceApply3D_opX_eq (max_Q1D : Nat) (junk : Buf R) (TE_D1D Q1D : Nat)
    (bt div : Buf R) (qz qy : Nat) {dx : Nat} (hdx : dx < TE_D1D) :
    PADivergenceApply3D_opX max_Q1D junk TE_D1D Q1D bt div qz qy dx =
      ∑ qx ∈ Finset.range Q1D,
        Reshape2 bt TE_D1D Q1D dx qx * div (carr3 max_Q1D max_Q1D qz qy qx) := by
  have hw : Writes (forLoop TE_D1D (fun dx (opX : Buf R) => forLoop Q1D (fun qx opX =>
      opX.add dx (Reshape2 bt TE_D1D Q1D dx qx * div (carr3 max_Q1D max_Q1D qz qy qx)))
        (opX.set dx 0)))
      (fun j => ∃ i, i < TE_D1D ∧ j = i)
      (fun j => ∑ qx ∈ Finset.range Q1D,
        Reshape2 bt TE_D1D Q1D j qx * div (carr3 max_Q1D max_Q1D qz qy qx)) := by
    apply writes_forLoop
    intro i _ a j
    have h := forLoop_adds_apply (n := Q1D) (fun qx _ => adds_add i
      (Reshape2 bt TE_D1D Q1D i qx * div (carr3 max_Q1D max_Q1D qz qy qx))) (a.set i 0) j
    constructor
    · intro hj
      subst hj
      refine h.trans ?_
      simp [Buf.set]
    · intro hj
      refine h.trans ?_
      simp [Buf.set, hj]
  exact (hw junk dx).1 ⟨dx, hdx, rfl⟩

theorem PADivergenceApply3D_opXY_eq (max_Q1D max_TE_D1D : Nat) (junk : Buf R)
    (TE_D1D Q1D : Nat) (bt div : Buf R) (qz : Nat) (hD : TE_D1D ≤ max_TE_D1D) {dy dx : Nat}
    (hdy : dy < TE_D1D) (hdx : dx < TE_D1D) :
    PADivergenceApply3D_opXY max_Q1D max_TE_D1D junk TE_D1D Q1D bt div qz
        (carr2 max_TE_D1D dy dx) =
      ∑ qy ∈ Finset.range Q1D, Reshape2 bt TE_D1D Q1D dy qy *
        ∑ qx ∈ Finset.range Q1D,
          Reshape2 bt TE_D1D Q1D dx qx * div (carr3 max_Q1D max_Q1D qz qy qx) := by
  have hz : Writes (forLoop TE_D1D (fun dy (a : Buf R) => forLoop TE_D1D (fun dx a =>
      a.set (carr2 max_TE_D1D dy dx) 0) a)) _ (fun _ => 0) :=
    writes_forLoop (fun dy _ => writes_forLoop (fun dx _ => writes_set_zero _))
  have hlt : ∀ i, i < TE_D1D → i < max_TE_D1D := fun i hi => Nat.lt_of_lt_of_le hi hD
  refine (forLoop_adds_apply (fun qy _ => adds_forLoop (fun dy _ => adds_forLoop (fun dx _ =>
    adds_add _ _))) _ _).trans ?_
  rw [writes_zero_apply hz junk ⟨dy, hdy, dx, hdx, rfl⟩, zero_add]
  apply Finset.sum_congr rfl
  intro qy _
  rw [sum_sum_ite_of_iff hdy hdx, PADivergenceApply3D_opX_eq _ _ _ _ _ _ _ _ hdx]
  intro i _ k hk
  exact carr2_inj (hlt dx hdx) (hlt k hk)

theorem PADivergenceApply3D_elem_adds (max_Q1D max_TE_D1D : Nat) (junk : Buf R)
    (TR_D1D TE_D1D Q1D NE : Nat) (b g bt op_ x_ : Buf R) (e : Nat) :
    Adds (PADivergenceApply3D_elem max_Q1D max_TE_D1D junk TR_D1D TE_D1D Q1D NE b g bt op_ x_ e)
      (fun j => ∑ qz ∈ Finset.range Q1D, ∑ dz ∈ Finset.range TE_D1D,
        ∑ dy ∈ Finset.range TE_D1D, ∑ dx ∈ Finset.range TE_D1D,
          if j = idx4 TE_D1D TE_D1D TE_D1D dx dy dz e then
            Reshape2 bt TE_D1D Q1D dz qz *
              PADivergenceApply3D_opXY max_Q1D max_TE_D1D junk TE_D1D Q1D bt
                (PADivergenceApply3D_quad max_Q1D junk TR_D1D Q1D NE b g op_ x_ e).2 qz
                (carr2 max_TE_D1D dy dx)
          else 0) :=
  adds_forLoop (fun _ _ => adds_forLoop (fun _ _ => adds_forLoop (fun _ _ =>
    adds_forLoop (fun _ _ => adds_add _ _))))

theorem PADivergenceApply3D_elem_delta (max_Q1D max_TE_D1D : Nat) (junk : Buf R)
    (TR_D1D TE_D1D Q1D NE : Nat) (b g bt op_ x_ : Buf R) (hQ : Q1D ≤ max_Q1D)
    (hD : TE_D1D ≤ max_TE_D1D) (e : Nat)
    {e0 dz0 dy0 dx0 : Nat} (hdz : dz0 < TE_D1D) (hdy : dy0 < TE_D1D) (hdx : dx0 < TE_D1D) :
    (∑ qz ∈ Finset.range Q1D, ∑ dz ∈ Finset.range TE_D1D,
        ∑ dy ∈ Finset.range TE_D1D, ∑ dx ∈ Finset.range TE_D1D,
          if idx4 TE_D1D TE_D1D TE_D1D dx0 dy0 dz0 e0 = idx4 TE_D1D TE_D1D TE_D1D dx dy dz e then
            Reshape2 bt TE_D1D Q1D dz qz *
              PADivergenceApply3D_opXY max_Q1D max_TE_D1D junk TE_D1D Q1D bt
                (PADivergenceApply3D_quad max_Q1D junk TR_D1D Q1D NE b g op_ x_ e).2 qz
                (carr2 max_TE_D1D dy dx)
          else 0) =
      if e0 = e then PADivergenceApply3D_inc TR_D1D TE_D1D Q1D NE b g bt op_ x_ e dz0 dy0 dx0
      else 0 := by
  by_cases he : e0 = e
  · rw [if_pos he]
    unfold PADivergenceApply3D_inc
    apply Finset.sum_congr rfl
    intro qz hqz
    rw [sum3_ite_of_iff hdz hdy hdx, PADivergenceApply3D_opXY_eq _ _ _ _ _ _ _ _ hD hdy hdx]
    · congr 1
      apply Finset.sum_congr rfl
      intro qy hqy
      congr 1
      apply Finset.sum_congr rfl
      intro qx hqx
      rw [PADivergenceApply3D_quad_eq _ _ _ _ _ _ _ _ _ _ hQ (Finset.mem_range.mp hqz)
        (Finset.mem_range.mp hqy) (Finset.mem_range.mp hqx)]
    · intro i hi k hk l hl
      rw [idx4_inj hdx hl hdy hk hdz hi]
      simp [he]
      tauto
  · rw [if_neg he]
    apply Finset.sum_eq_zero
    intro qz _
    apply sum3_ite_of_not
    intro i hi k hk l hl
    rw [idx4_inj hdx hl hdy hk hdz hi]
    tauto

/-- The closed form of the 3D forward kernel: the value it adds to `y(dx, dy, dz, e)`. -/
theorem PADivergenceApply3D_core_cell (max_Q1D max_TE_D1D : Nat) (junk : Buf R)
    (TR_D1D TE_D1D Q1D NE : Nat) (b g bt op_ x_ y_ : Buf R) (hQ : Q1D ≤ max_Q1D)
    (hD : TE_D1D ≤ max_TE_D1D)
    {e dz dy dx : Nat} (he : e < NE) (hdz : dz < TE_D1D) (hdy : dy < TE_D1D)
    (hdx : dx < TE_D1D) :
    forLoop NE (fun e y_ =>
        PADivergenceApply3D_elem max_Q1D max_TE_D1D junk TR_D1D TE_D1D Q1D NE b g bt op_ x_ e y_)
        y_ (idx4 TE_D1D TE_D1D TE_D1D dx dy dz e) =
      y_ (idx4 TE_D1D TE_D1D TE_D1D dx dy dz e) +
        PADivergenceApply3D_inc TR_D1D TE_D1D Q1D NE b g bt op_ x_ e dz dy dx := by
  rw [forLoop_adds_apply (fun e _ =>
    PADivergenceApply3D_elem_adds max_Q1D max_TE_D1D junk TR_D1D TE_D1D Q1D NE b g bt op_ x_ e)]
  congr 1
  rw [Finset.sum_congr rfl (fun i _ =>
    PADivergenceApply3D_elem_delta max_Q1D max_TE_D1D junk TR_D1D TE_D1D Q1D NE b g bt op_ x_
      hQ hD i hdz hdy hdx),
    Finset.sum_ite_eq, if_pos (Finset.mem_range.mpr he)]

theorem PADivergenceApply3D_ok (dev lim : DofQuadLimits) (T_TR_D1D T_TE_D1D T_Q1D : Nat)
    (junk : Buf R) (NE : Nat) (b g bt op_ x_ y_ : Buf R) (tr_d1d te_d1d q1d : Nat)
    (h1 : pick T_TR_D1D tr_d1d ≤ dev.MAX_D1D) (h2 : pick T_TE_D1D te_d1d ≤ dev.MAX_D1D)
    (h3 : pick T_Q1D q1d ≤ dev.MAX_Q1D) :
    PADivergenceApply3D dev lim T_TR_D1D T_TE_D1D T_Q1D junk NE b g bt op_ x_ y_
        tr_d1d te_d1d q1d =
      Outcome.ok (forLoop NE (fun e y_ =>
        PADivergenceApply3D_elem (pick T_Q1D lim.MAX_Q1D) (pick T_TE_D1D lim.MAX_D1D) junk
          (pick T_TR_D1D tr_d1d) (pick T_TE_D1D te_d1d) (pick T_Q1D q1d) NE b g bt op_ x_ e y_)
        y_) := by
  simp [PADivergenceApply3D, h1, h2, h3]

theorem PADivergenceApply3D_fatal (dev lim : DofQuadLimits) (T_TR_D1D T_TE_D1D T_Q1D : Nat)
    (junk : Buf R) (NE : Nat) (b g bt op_ x_ y_ : Buf R) (tr_d1d te_d1d q1d : Nat)
    (h : ¬ (pick T_TR_D1D tr_d1d ≤ dev.MAX_D1D ∧ pick T_TE_D1D te_d1d ≤ dev.MAX_D1D ∧
      pick T_Q1D q1d ≤ dev.MAX_Q1D)) :
    PADivergenceApply3D dev lim T_TR_D1D T_TE_D1D T_Q1D junk NE b g bt op_ x_ y_
        tr_d1d te_d1d q1d = Outcome.fatal "" y_ := by
  unfold PADivergenceApply3D
  by_cases h1 : pick T_TR_D1D tr_d1d ≤ dev.MAX_D1D
  · by_cases h2 : pick T_TE_D1D te_d1d ≤ dev.MAX_D1D
    · by_cases h3 : pick T_Q1D q1d ≤ dev.MAX_Q1D
      · exact absurd ⟨h1, h2, h3⟩ h
      · simp [h1, h2, h3]
    · simp [h1, h2]
  · simp [h1]

end Apply3DProofs

/-! ## The transpose 3D kernel -/

section ApplyTranspose3DProofs

variable {R : Type u} [CommRing R]

theorem carr4_decode {M K L j k l : Nat} (i : Nat) (hj : j < M) (hk : k < K) (hl : l < L) :
    carr4 M K L i j k l % L = l ∧ carr4 M K L i j k l / L % K = k ∧
      carr4 M K L i j k l / L / K % M = j ∧ carr4 M K L i j k l / L / K / M = i := by
  unfold carr4
  exact idx4_decode i hl hk hj

theorem idx5_inj {n1 n2 n3 n4 i1 i2 i3 i4 i5 k1 k2 k3 k4 k5 : Nat} (h1 : i1 < n1)
    (h2 : k1 < n1) (h3 : i2 < n2) (h4 : k2 < n2) (h5 : i3 < n3) (h6 : k3 < n3) (h7 : i4 < n4)
    (h8 : k4 < n4) :
    idx5 n1 n2 n3 n4 i1 i2 i3 i4 i5 = idx5 n1 n2 n3 n4 k1 k2 k3 k4 k5 ↔
      i1 = k1 ∧ i2 = k2 ∧ i3 = k3 ∧ i4 = k4 ∧ i5 = k5 := by
  unfold idx5
  rw [idx2_inj h1 h2, idx4_inj h3 h4 h5 h6 h7 h8]

theorem PADivergenceApplyTranspose3D_quadTestX_eq (junk : Buf R) (TE_D1D Q1D NE : Nat)
    (b x_ : Buf R) (dy dz e : Nat) {qx : Nat} (hqx : qx < Q1D) :
    PADivergenceApplyTranspose3D_quadTestX junk TE_D1D Q1D NE b x_ dy dz e qx =
      ∑ dx ∈ Finset.range TE_D1D,
        Reshape4 x_ TE_D1D TE_D1D TE_D1D NE dx dy dz e * Reshape2 b Q1D TE_D1D qx dx := by
  have hz : Writes (forLoop Q1D (fun qx (a : Buf R) => a.set qx 0)) _ (fun _ => 0) :=
    writes_forLoop (fun qx _ => writes_set_zero _)
  refine (forLoop_adds_apply (fun dx _ => adds_forLoop (fun qx _ => adds_add _ _)) _ _).trans ?_
  rw [writes_zero_apply hz junk ⟨qx, hqx, rfl⟩, zero_add]
  apply Finset.sum_congr rfl
  intro dx _
  exact sum_ite_of_iff hqx _ _ (fun i _ => Iff.rfl)

theorem PADivergenceApplyTranspose3D_quadTestXY_eq (max_Q1D : Nat) (junk : Buf R)
    (TE_D1D Q1D NE : Nat) (b x_ : Buf R) (dz e : Nat) (hQ : Q1D ≤ max_Q1D) {qy qx : Nat}
    (hqy : qy < Q1D) (hqx : qx < Q1D) :
    PADivergenceApplyTranspose3D_quadTestXY max_Q1D junk TE_D1D Q1D NE b x_ dz e
        (carr2 max_Q1D qy qx) =
      ∑ dy ∈ Finset.range TE_D1D, (∑ dx ∈ Finset.range TE_D1D,
        Reshape4 x_ TE_D1D TE_D1D TE_D1D NE dx dy dz e * Reshape2 b Q1D TE_D1D qx dx) *
          Reshape2 b Q1D TE_D1D qy dy := by
  have hz : Writes (forLoop Q1D (fun qy (a : Buf R) => forLoop Q1D (fun qx a =>
      a.set (carr2 max_Q1D qy qx) 0) a)) _ (fun _ => 0) :=
    writes_forLoop (fun qy _ => writes_forLoop (fun qx _ => writes_set_zero _))
  have hlt : ∀ i, i < Q1D → i < max_Q1D := fun i hi => Nat.lt_of_lt_of_le hi hQ
  refine (forLoop_adds_apply (fun dy _ => adds_forLoop (fun qy _ => adds_forLoop (fun qx _ =>
    adds_add _ _))) _ _).trans ?_
  rw [writes_zero_apply hz junk ⟨qy, hqy, qx, hqx, rfl⟩, zero_add]
  apply Finset.sum_congr rfl
  intro dy _
  rw [sum_sum_ite_of_iff hqy hqx, PADivergenceApplyTranspose3D_quadTestX_eq _ _ _ _ _ _ _ _ _ hqx]
  intro i _ k hk
  exact carr2_inj (hlt qx hqx) (hlt k hk)

theorem PADivergenceApplyTranspose3D_quadTest_eq (max_Q1D : Nat) (junk : Buf R)
    (TE_D1D Q1D NE : Nat) (b x_ : Buf R) (e : Nat) (hQ : Q1D ≤ max_Q1D) {qz qy qx : Nat}
    (hqz : qz < Q1D) (hqy : qy < Q1D) (hqx : qx < Q1D) :
    PADivergenceApplyTranspose3D_quadTest max_Q1D junk TE_D1D Q1D NE b x_ e
        (carr3 max_Q1D max_Q1D qz qy qx) =
      interp3D TE_D1D (fun dx dy dz => Reshape4 x_ TE_D1D TE_D1D TE_D1D NE dx dy dz e)
        (Reshape2 b Q1D TE_D1D) (Reshape2 b Q1D TE_D1D) (Reshape2 b Q1D TE_D1D) qx qy qz := by
  have hz : Writes (forLoop Q1D (fun qz (a : Buf R) => forLoop Q1D (fun qy a =>
      forLoop Q1D (fun qx a => a.set (carr3 max_Q1D max_Q1D qz qy qx) 0) a) a)) _
      (fun _ => 0) :=
    writes_forLoop (fun qz _ => writes_forLoop (fun qy _ => writes_forLoop (fun qx _ =>
      writes_set_zero _)))
  have hlt : ∀ i, i < Q1D → i < max_Q1D := fun i hi => Nat.lt_of_lt_of_le hi hQ
  refine (forLoop_adds_apply (fun dz _ => adds_forLoop (fun qz _ => adds_forLoop (fun qy _ =>
    adds_forLoop (fun qx _ => adds_add _ _)))) _ _).trans ?_
  rw [writes_zero_apply hz junk ⟨qz, hqz, qy, hqy, qx, hqx, rfl⟩, zero_add]
  unfold interp3D
  apply Finset.sum_congr rfl
  intro dz _
  rw [sum3_ite_of_iff hqz hqy hqx,
    PADivergenceApplyTranspose3D_quadTestXY_eq _ _ _ _ _ _ _ _ _ hQ hqy hqx]
  intro i _ k hk l hl
  exact carr3_inj (hlt qy hqy) (hlt k hk) (hlt qx hqx) (hlt l hl)

theorem PADivergenceApplyTranspose3D_grad_eq (max_Q1D : Nat) (Q1D NE : Nat)
    (op_ quadTest : Buf R) (c e : Nat) (grad : Buf R) (hQ : Q1D ≤ max_Q1D) {qz qy qx k : Nat}
    (hqz : qz < Q1D) (hqy : qy < Q1D) (hqx : qx < Q1D) (hk : k < 3) :
    PADivergenceApplyTranspose3D_grad max_Q1D Q1D NE op_ quadTest c e grad
        (carr4 max_Q1D max_Q1D 3 qz qy qx k) =
      quadTest (carr3 max_Q1D max_Q1D qz qy qx) *
        Reshape4 op_ (Q1D * Q1D * Q1D) 3 3 NE (qx + (qy + qz * Q1D) * Q1D) k c e := by
  have hlt : ∀ i, i < Q1D → i < max_Q1D := fun i hi => Nat.lt_of_lt_of_le hi hQ
  have hw : Writes (PADivergenceApplyTranspose3D_grad max_Q1D Q1D NE op_ quadTest c e)
      (fun j => ∃ qz, qz < Q1D ∧ ∃ qy, qy < Q1D ∧ ∃ qx, qx < Q1D ∧
        ((j = carr4 max_Q1D max_Q1D 3 qz qy qx 0 ∨ j = carr4 max_Q1D max_Q1D 3 qz qy qx 1) ∨
          j = carr4 max_Q1D max_Q1D 3 qz qy qx 2))
      (fun j => quadTest (carr3 max_Q1D max_Q1D (j / 3 / max_Q1D / max_Q1D)
          (j / 3 / max_Q1D % max_Q1D) (j / 3 % max_Q1D)) *
        Reshape4 op_ (Q1D * Q1D * Q1D) 3 3 NE
          (j / 3 % max_Q1D + (j / 3 / max_Q1D % max_Q1D + j / 3 / max_Q1D / max_Q1D * Q1D) * Q1D)
          (j % 3) c e) := by
    apply writes_forLoop
    intro qz _
    apply writes_forLoop
    intro qy hqy
    apply writes_forLoop
    intro qx hqx
    have d0 := carr4_decode qz (hlt qy hqy) (hlt qx hqx) (by decide : 0 < 3)
    have d1 := carr4_decode qz (hlt qy hqy) (hlt qx hqx) (by decide : 1 < 3)
    have d2 := carr4_decode qz (hlt qy hqy) (hlt qx hqx) (by decide : 2 < 3)
    refine writes_comp (writes_comp (writes_set ?_) (writes_set ?_)) (writes_set ?_)
    · simp only [d0]
    · simp only [d1]
    · simp only [d2]
  have d := carr4_decode qz (hlt qy hqy) (hlt qx hqx) hk
  rw [(hw grad _).1 ⟨qz, hqz, qy, hqy, qx, hqx, by interval_cases k <;> simp⟩]
  simp only [d]

theorem PADivergenceApplyTranspose3D_gradX_eq (max_Q1D : Nat) (junk : Buf R)
    (TR_D1D Q1D : Nat) (bt gt grad : Buf R) (qz qy : Nat) {dx : Nat} (hdx : dx < TR_D1D) :
    PADivergenceApplyTranspose3D_gradX max_Q1D junk TR_D1D Q1D bt gt grad qz qy (carr2 3 dx 0) =
      ∑ qx ∈ Finset.range Q1D,
        grad (carr4 max_Q1D max_Q1D 3 qz qy qx 0) * Reshape2 gt TR_D1D Q1D dx qx ∧
    PADivergenceApplyTranspose3D_gradX max_Q1D junk TR_D1D Q1D bt gt grad qz qy (carr2 3 dx 1) =
      ∑ qx ∈ Finset.range Q1D,
        grad (carr4 max_Q1D max_Q1D 3 qz qy qx 1) * Reshape2 bt TR_D1D Q1D dx qx ∧
    PADivergenceApplyTranspose3D_gradX max_Q1D junk TR_D1D Q1D bt gt grad qz qy (carr2 3 dx 2) =
      ∑ qx ∈ Finset.range Q1D,
        grad (carr4 max_Q1D max_Q1D 3 qz qy qx 2) * Reshape2 bt TR_D1D Q1D dx qx := by
  have hz : Writes (forLoop TR_D1D (fun dx (gradX : Buf R) =>
      ((gradX.set (carr2 3 dx 0) 0).set (carr2 3 dx 1) 0).set (carr2 3 dx 2) 0)) _
      (fun _ => 0) :=
    writes_forLoop (fun dx _ => writes_comp (writes_comp (writes_set_zero _)
      (writes_set_zero _)) (writes_set_zero _))
  refine ⟨?_, ?_, ?_⟩
  · refine (forLoop_adds_apply (fun qx _ => adds_forLoop (fun dx _ =>
      adds_comp (adds_comp (adds_add _ _) (adds_add _ _)) (adds_add _ _))) _ _).trans ?_
    rw [writes_zero_apply hz junk ⟨dx, hdx, Or.inl (Or.inl rfl)⟩, zero_add]
    apply Finset.sum_congr rfl
    intro qx _
    simp only [Finset.sum_add_distrib]
    rw [sum_ite_of_iff hdx, sum_ite_of_not, sum_ite_of_not, add_zero, add_zero]
    all_goals
      intro i _
      simp [carr2, idx2_inj]
  · refine (forLoop_adds_apply (fun qx _ => adds_forLoop (fun dx _ =>
      adds_comp (adds_comp (adds_add _ _) (adds_add _ _)) (adds_add _ _))) _ _).trans ?_
    rw [writes_zero_apply hz junk ⟨dx, hdx, Or.inl (Or.inr rfl)⟩, zero_add]
    apply Finset.sum_congr rfl
    intro qx _
    simp only [Finset.sum_add_distrib]
    rw [sum_ite_of_not, sum_ite_of_iff hdx, sum_ite_of_not, zero_add, add_zero]
    all_goals
      intro i _
      simp [carr2, idx2_inj]
  · refine (forLoop_adds_apply (fun qx _ => adds_forLoop (fun dx _ =>
      adds_comp (adds_comp (adds_add _ _) (adds_add _ _)) (adds_add _ _))) _ _).trans ?_
    rw [writes_zero_apply hz junk ⟨dx, hdx, Or.inr rfl⟩, zero_add]
    apply Finset.sum_congr rfl
    intro qx _
    simp only [Finset.sum_add_distrib]
    rw [sum_ite_of_not, sum_ite_of_not, sum_ite_of_iff hdx, zero_add, zero_add]
    all_goals
      intro i _
      simp [carr2, idx2_inj]

theorem PADivergenceApplyTranspose3D_gradXY_eq (max_Q1D max_TR_D1D : Nat) (junk : Buf R)
    (TR_D1D Q1D : Nat) (bt gt grad : Buf R) (qz : Nat) (hD : TR_D1D ≤ max_TR_D1D)
    {dy dx : Nat} (hdy : dy < TR_D1D) (hdx : dx < TR_D1D) :
    PADivergenceApplyTranspose3D_gradXY max_Q1D max_TR_D1D junk TR_D1D Q1D bt gt grad qz
        (carr3 max_TR_D1D 3 dy dx 0) =
      ∑ qy ∈ Finset.range Q1D, (∑ qx ∈ Finset.range Q1D,
        grad (carr4 max_Q1D max_Q1D 3 qz qy qx 0) * Reshape2 gt TR_D1D Q1D dx qx) *
          Reshape2 bt TR_D1D Q1D dy qy ∧
    PADivergenceApplyTranspose3D_gradXY max_Q1D max_TR_D1D junk TR_D1D Q1D bt gt grad qz
        (carr3 max_TR_D1D 3 dy dx 1) =
      ∑ qy ∈ Finset.range Q1D, (∑ qx ∈ Finset.range Q1D,
        grad (carr4 max_Q1D max_Q1D 3 qz qy qx 1) * Reshape2 bt TR_D1D Q1D dx qx) *
          Reshape2 gt TR_D1D Q1D dy qy ∧
    PADivergenceApplyTranspose3D_gradXY max_Q1D max_TR_D1D junk TR_D1D Q1D bt gt grad qz
        (carr3 max_TR_D1D 3 dy dx 2) =
      ∑ qy ∈ Finset.range Q1D, (∑ qx ∈ Finset.range Q1D,
        grad (carr4 max_Q1D max_Q1D 3 qz qy qx 2) * Reshape2 bt TR_D1D Q1D dx qx) *
          Reshape2 bt TR_D1D Q1D dy qy := by
  have hz : Writes (forLoop TR_D1D (fun dy (a : Buf R) => forLoop TR_D1D (fun dx a =>
      ((a.set (carr3 max_TR_D1D 3 dy dx 0) 0).set (carr3 max_TR_D1D 3 dy dx 1) 0).set
        (carr3 max_TR_D1D 3 dy dx 2) 0) a)) _ (fun _ => 0) :=
    writes_forLoop (fun dy _ => writes_forLoop (fun dx _ =>
      writes_comp (writes_comp (writes_set_zero _) (writes_set_zero _)) (writes_set_zero _)))
  have hlt : ∀ i, i < TR_D1D → i < max_TR_D1D := fun i hi => Nat.lt_of_lt_of_le hi hD
  refine ⟨?_, ?_, ?_⟩
  · refine (forLoop_adds_apply (fun qy _ => adds_forLoop (fun dy _ => adds_forLoop (fun dx _ =>
      adds_comp (adds_comp (adds_add _ _) (adds_add _ _)) (adds_add _ _)))) _ _).trans ?_
    rw [writes_zero_apply hz junk ⟨dy, hdy, dx, hdx, Or.inl (Or.inl rfl)⟩, zero_add]
    apply Finset.sum_congr rfl
    intro qy _
    simp only [Finset.sum_add_distrib]
    rw [sum_sum_ite_of_iff hdy hdx, sum_sum_ite_of_not, sum_sum_ite_of_not, add_zero, add_zero,
      (PADivergenceApplyTranspose3D_gradX_eq max_Q1D junk TR_D1D Q1D bt gt grad qz qy hdx).1]
    all_goals
      intro i _ k hk
      simp [carr3_inj (hlt dx hdx) (hlt k hk)]
  · refine (forLoop_adds_apply (fun qy _ => adds_forLoop (fun dy _ => adds_forLoop (fun dx _ =>
      adds_comp (adds_comp (adds_add _ _) (adds_add _ _)) (adds_add _ _)))) _ _).trans ?_
    rw [writes_zero_apply hz junk ⟨dy, hdy, dx, hdx, Or.inl (Or.inr rfl)⟩, zero_add]
    apply Finset.sum_congr rfl
    intro qy _
    simp only [Finset.sum_add_distrib]
    rw [sum_sum_ite_of_not, sum_sum_ite_of_iff hdy hdx, sum_sum_ite_of_not, zero_add, add_zero,
      (PADivergenceApplyTranspose3D_gradX_eq max_Q1D junk TR_D1D Q1D bt gt grad qz qy hdx).2.1]
    all_goals
      intro i _ k hk
      simp [carr3_inj (hlt dx hdx) (hlt k hk)]
  · refine (forLoop_adds_apply (fun qy _ => adds_forLoop (fun dy _ => adds_forLoop (fun dx _ =>
      adds_comp (adds_comp (adds_add _ _) (adds_add _ _)) (adds_add _ _)))) _ _).trans ?_
    rw [writes_zero_apply hz junk ⟨dy, hdy, dx, hdx, Or.inr rfl⟩, zero_add]
    apply Finset.sum_congr rfl
    intro qy _
    simp only [Finset.sum_add_distrib]
    rw [sum_sum_ite_of_not, sum_sum_ite_of_not, sum_sum_ite_of_iff hdy hdx, zero_add, zero_add,
      (PADivergenceApplyTranspose3D_gradX_eq max_Q1D junk TR_D1D Q1D bt gt grad qz qy hdx).2.2]
    all_goals
      intro i _ k hk
      simp [carr3_inj (hlt dx hdx) (hlt k hk)]

theorem PADivergenceApplyTranspose3D_comp_snd (max_Q1D max_TR_D1D : Nat) (junk : Buf R)
    (TR_D1D Q1D NE : Nat) (bt gt op_ quadTest : Buf R) (e c : Nat) (s : Buf R × Buf R)
    (j : Nat) :
    (PADivergenceApplyTranspose3D_comp max_Q1D max_TR_D1D junk TR_D1D Q1D NE bt gt op_ quadTest
        e c s).2 j =
      s.2 j + PADivergenceApplyTranspose3D_delta max_Q1D max_TR_D1D junk TR_D1D Q1D NE bt gt op_
        quadTest e c s.1 j :=
  forLoop_adds_apply (fun _ _ => adds_forLoop (fun _ _ => adds_forLoop (fun _ _ =>
    adds_forLoop (fun _ _ => adds_add _ _)))) _ _

theorem PADivergenceApplyTranspose3D_elem_adds (max_Q1D max_TR_D1D : Nat) (junk : Buf R)
    (TR_D1D TE_D1D Q1D NE : Nat) (bt gt b op_ x_ : Buf R) (e : Nat) :
    Adds (PADivergenceApplyTranspose3D_elem max_Q1D max_TR_D1D junk TR_D1D TE_D1D Q1D NE bt gt b
        op_ x_ e)
      (fun j => ∑ c ∈ Finset.range 3,
        PADivergenceApplyTranspose3D_delta max_Q1D max_TR_D1D junk TR_D1D Q1D NE bt gt op_
          (PADivergenceApplyTranspose3D_quadTest max_Q1D junk TE_D1D Q1D NE b x_ e) e c
          (forLoop c (fun c grad => PADivergenceApplyTranspose3D_grad max_Q1D Q1D NE op_
            (PADivergenceApplyTranspose3D_quadTest max_Q1D junk TE_D1D Q1D NE b x_ e) c e grad)
            junk) j) := by
  intro y j
  exact (forLoop_pair_adds _ _ (fun c _ s => rfl)
    (fun c _ s j => PADivergenceApplyTranspose3D_comp_snd max_Q1D max_TR_D1D junk TR_D1D Q1D NE
      bt gt op_ (PADivergenceApplyTranspose3D_quadTest max_Q1D junk TE_D1D Q1D NE b x_ e) e c
      s j) (junk, y)).2 j

theorem PADivergenceApplyTranspose3D_delta_cell (max_Q1D max_TR_D1D : Nat) (junk : Buf R)
    (TR_D1D TE_D1D Q1D NE : Nat) (bt gt b op_ x_ : Buf R) (hQ : Q1D ≤ max_Q1D)
    (hD : TR_D1D ≤ max_TR_D1D) (e c : Nat)
    (grad : Buf R) {e0 c0 dz0 dy0 dx0 : Nat} (hc0 : c0 < 3) (hc : c < 3) (hdz : dz0 < TR_D1D)
    (hdy : dy0 < TR_D1D) (hdx : dx0 < TR_D1D) :
    PADivergenceApplyTranspose3D_delta max_Q1D max_TR_D1D junk TR_D1D Q1D NE bt gt op_
        (PADivergenceApplyTranspose3D_quadTest max_Q1D junk TE_D1D Q1D NE b x_ e) e c grad
        (idx5 TR_D1D TR_D1D TR_D1D 3 dx0 dy0 dz0 c0 e0) =
      if c0 = c ∧ e0 = e then
        PADivergenceApplyTranspose3D_inc TR_D1D TE_D1D Q1D NE bt gt b op_ x_ e c dz0 dy0 dx0
      else 0 := by
  unfold PADivergenceApplyTranspose3D_delta
  by_cases he : c0 = c ∧ e0 = e
  · rw [if_pos he]
    unfold PADivergenceApplyTranspose3D_inc
    apply Finset.sum_congr rfl
    intro qz hqz
    have hqz2 := Finset.mem_range.mp hqz
    rw [sum3_ite_of_iff hdz hdy hdx,
      (PADivergenceApplyTranspose3D_gradXY_eq _ _ _ _ _ _ _ _ _ hD hdy hdx).1,
      (PADivergenceApplyTranspose3D_gradXY_eq _ _ _ _ _ _ _ _ _ hD hdy hdx).2.1,
      (PADivergenceApplyTranspose3D_gradXY_eq _ _ _ _ _ _ _ _ _ hD hdy hdx).2.2]
    · have hcell : ∀ k, k < 3 → ∀ qy, qy ∈ Finset.range Q1D → ∀ qx, qx ∈ Finset.range Q1D →
          PADivergenceApplyTranspose3D_grad max_Q1D Q1D NE op_
            (PADivergenceApplyTranspose3D_quadTest max_Q1D junk TE_D1D Q1D NE b x_ e) c e grad
            (carr4 max_Q1D max_Q1D 3 qz qy qx k) =
          interp3D TE_D1D (fun dx dy dz => Reshape4 x_ TE_D1D TE_D1D TE_D1D NE dx dy dz e)
            (Reshape2 b Q1D TE_D1D) (Reshape2 b Q1D TE_D1D) (Reshape2 b Q1D TE_D1D) qx qy qz *
            Reshape4 op_ (Q1D * Q1D * Q1D) 3 3 NE (qx + (qy + qz * Q1D) * Q1D) k c e := by
        intro k hk qy hqy qx hqx
        rw [PADivergenceApplyTranspose3D_grad_eq _ _ _ _ _ _ _ _ hQ hqz2
          (Finset.mem_range.mp hqy) (Finset.mem_range.mp hqx) hk,
          PADivergenceApplyTranspose3D_quadTest_eq _ _ _ _ _ _ _ _ hQ hqz2
          (Finset.mem_range.mp hqy) (Finset.mem_range.mp hqx)]
      rw [Finset.sum_congr rfl (fun qy hqy => congrArg (· * _) (Finset.sum_congr rfl
          (fun qx hqx => congrArg (· * _) (hcell 0 (by decide) qy hqy qx hqx)))),
        Finset.sum_congr rfl (fun qy hqy => congrArg (· * _) (Finset.sum_congr rfl
          (fun qx hqx => congrArg (· * _) (hcell 1 (by decide) qy hqy qx hqx)))),
        Finset.sum_congr rfl (fun qy hqy => congrArg (· * _) (Finset.sum_congr rfl
          (fun qx hqx => congrArg (· * _) (hcell 2 (by decide) qy hqy qx hqx))))]
    · intro i hi k hk l hl
      rw [idx5_inj hdx hl hdy hk hdz hi hc0 hc]
      simp [he.1, he.2]
      tauto
  · rw [if_neg he]
    apply Finset.sum_eq_zero
    intro qz _
    apply sum3_ite_of_not
    intro i hi k hk l hl
    rw [idx5_inj hdx hl hdy hk hdz hi hc0 hc]
    tauto

/-- The closed form of the 3D transpose kernel: the value it adds to `y(dx, dy, dz, c, e)`. -/
theorem PADivergenceApplyTranspose3D_core_cell (max_Q1D max_TR_D1D : Nat) (junk : Buf R)
    (TR_D1D TE_D1D Q1D NE : Nat) (bt gt b op_ x_ y_ : Buf R) (hQ : Q1D ≤ max_Q1D)
    (hD : TR_D1D ≤ max_TR_D1D)
    {e c dz dy dx : Nat} (he : e < NE) (hc : c < 3) (hdz : dz < TR_D1D) (hdy : dy < TR_D1D)
    (hdx : dx < TR_D1D) :
    forLoop NE (fun e y_ =>
        PADivergenceApplyTranspose3D_elem max_Q1D max_TR_D1D junk TR_D1D TE_D1D Q1D NE bt gt b
          op_ x_ e y_) y_ (idx5 TR_D1D TR_D1D TR_D1D 3 dx dy dz c e) =
      y_ (idx5 TR_D1D TR_D1D TR_D1D 3 dx dy dz c e) +
        PADivergenceApplyTranspose3D_inc TR_D1D TE_D1D Q1D NE bt gt b op_ x_ e c dz dy dx := by
  rw [forLoop_adds_apply (fun e _ =>
    PADivergenceApplyTranspose3D_elem_adds max_Q1D max_TR_D1D junk TR_D1D TE_D1D Q1D NE bt gt b
      op_ x_ e)]
  congr 1
  rw [Finset.sum_congr rfl (g := fun i => if e = i then
    PADivergenceApplyTranspose3D_inc TR_D1D TE_D1D Q1D NE bt gt b op_ x_ i c dz dy dx else 0)]
  · rw [Finset.sum_ite_eq, if_pos (Finset.mem_range.mpr he)]
  · intro i _
    rw [Finset.sum_congr rfl (g := fun k => if c = k ∧ e = i then
      PADivergenceApplyTranspose3D_inc TR_D1D TE_D1D Q1D NE bt gt b op_ x_ i k dz dy dx else 0)]
    · by_cases hi : e = i
      · simp only [hi, and_true, if_true]
        rw [Finset.sum_ite_eq, if_pos (Finset.mem_range.mpr hc)]
      · simp [hi]
    · intro k hk
      exact PADivergenceApplyTranspose3D_delta_cell max_Q1D max_TR_D1D junk TR_D1D TE_D1D Q1D NE
        bt gt b op_ x_ hQ hD i k _ hc (Finset.mem_range.mp hk) hdz hdy hdx

theorem PADivergenceApplyTranspose3D_ok (dev lim : DofQuadLimits) (T_TR_D1D T_TE_D1D T_Q1D : Nat)
    (junk : Buf R) (NE : Nat) (bt gt b op_ x_ y_ : Buf R) (tr_d1d te_d1d q1d : Nat)
    (h1 : pick T_TR_D1D tr_d1d ≤ dev.MAX_D1D) (h2 : pick T_TE_D1D te_d1d ≤ dev.MAX_D1D)
    (h3 : pick T_Q1D q1d ≤ dev.MAX_Q1D) :
    PADivergenceApplyTranspose3D dev lim T_TR_D1D T_TE_D1D T_Q1D junk NE bt gt b op_ x_ y_
        tr_d1d te_d1d q1d =
      Outcome.ok (forLoop NE (fun e y_ =>
        PADivergenceApplyTranspose3D_elem (pick T_Q1D lim.MAX_Q1D) (pick T_TR_D1D lim.MAX_D1D)
          junk (pick T_TR_D1D tr_d1d) (pick T_TE_D1D te_d1d) (pick T_Q1D q1d) NE bt gt b op_ x_
          e y_) y_) := by
  simp [PADivergenceApplyTranspose3D, h1, h2, h3]

theorem PADivergenceApplyTranspose3D_fatal (dev lim : DofQuadLimits)
    (T_TR_D1D T_TE_D1D T_Q1D : Nat)
    (junk : Buf R) (NE : Nat) (bt gt b op_ x_ y_ : Buf R) (tr_d1d te_d1d q1d : Nat)
    (h : ¬ (pick T_TR_D1D tr_d1d ≤ dev.MAX_D1D ∧ pick T_TE_D1D te_d1d ≤ dev.MAX_D1D ∧
      pick T_Q1D q1d ≤ dev.MAX_Q1D)) :
    PADivergenceApplyTranspose3D dev lim T_TR_D1D T_TE_D1D T_Q1D junk NE bt gt b op_ x_ y_
        tr_d1d te_d1d q1d = Outcome.fatal "" y_ := by
  unfold PADivergenceApplyTranspose3D
  by_cases h1 : pick T_TR_D1D tr_d1d ≤ dev.MAX_D1D
  · by_cases h2 : pick T_TE_D1D te_d1d ≤ dev.MAX_D1D
    · by_cases h3 : pick T_Q1D q1d ≤ dev.MAX_Q1D
      · exact absurd ⟨h1, h2, h3⟩ h
      · simp [h1, h2, h3]
    · simp [h1, h2]
  · simp [h1]

end ApplyTranspose3DProofs

/-! ## Adjointness of the 3D kernels -/

section Adjoint3D

variable {R : Type u} [CommRing R]

/-- Replacing the tables of a backward 3D contraction by their transposes. -/
theorem contract3_congr (Q1D : Nat) (w : Nat → Nat → Nat → R) (M1 M2 M3 N1 N2 N3 : Nat → Nat → R)
    (dx dy dz : Nat) (h1 : ∀ q, q < Q1D → M1 dx q = N1 q dx)
    (h2 : ∀ q, q < Q1D → M2 dy q = N2 q dy) (h3 : ∀ q, q < Q1D → M3 dz q = N3 q dz) :
    (∑ qz ∈ Finset.range Q1D, (∑ qy ∈ Finset.range Q1D,
        (∑ qx ∈ Finset.range Q1D, w qx qy qz * M1 dx qx) * M2 dy qy) * M3 dz qz) =
      ∑ qz ∈ Finset.range Q1D, (∑ qy ∈ Finset.range Q1D,
        (∑ qx ∈ Finset.range Q1D, w qx qy qz * N1 qx dx) * N2 qy dy) * N3 qz dz := by
  apply Finset.sum_congr rfl
  intro qz hqz
  rw [h3 qz (Finset.mem_range.mp hqz)]
  congr 1
  apply Finset.sum_congr rfl
  intro qy hqy
  rw [h2 qy (Finset.mem_range.mp hqy)]
  congr 1
  apply Finset.sum_congr rfl
  intro qx hqx
  rw [h1 qx (Finset.mem_range.mp hqx)]

/-- Adjointness of the closed forms of the 3D kernels, element by element. -/
theorem adjoint3D_elem (TR_D1D TE_D1D Q1D NE : Nat) (b g bt btT gtT bT op_ x_ y_ : Buf R)
    (hB : ∀ d q, d < TR_D1D → q < Q1D → Reshape2 btT TR_D1D Q1D d q = Reshape2 b Q1D TR_D1D q d)
    (hG : ∀ d q, d < TR_D1D → q < Q1D → Reshape2 gtT TR_D1D Q1D d q = Reshape2 g Q1D TR_D1D q d)
    (hT : ∀ d q, d < TE_D1D → q < Q1D → Reshape2 bT Q1D TE_D1D q d = Reshape2 bt TE_D1D Q1D d q)
    (e : Nat) :
    (∑ c ∈ Finset.range 3, ∑ dz ∈ Finset.range TR_D1D, ∑ dy ∈ Finset.range TR_D1D,
        ∑ dx ∈ Finset.range TR_D1D,
          PADivergenceApplyTranspose3D_inc TR_D1D TE_D1D Q1D NE btT gtT bT op_ y_ e c dz dy dx *
            Reshape5 x_ TR_D1D TR_D1D TR_D1D 3 NE dx dy dz c e) =
      ∑ dz ∈ Finset.range TE_D1D, ∑ dy ∈ Finset.range TE_D1D, ∑ dx ∈ Finset.range TE_D1D,
        Reshape4 y_ TE_D1D TE_D1D TE_D1D NE dx dy dz e *
          PADivergenceApply3D_inc TR_D1D TE_D1D Q1D NE b g bt op_ x_ e dz dy dx := by
  have hR : (∑ dz ∈ Finset.range TE_D1D, ∑ dy ∈ Finset.range TE_D1D,
        ∑ dx ∈ Finset.range TE_D1D, Reshape4 y_ TE_D1D TE_D1D TE_D1D NE dx dy dz e *
          PADivergenceApply3D_inc TR_D1D TE_D1D Q1D NE b g bt op_ x_ e dz dy dx) =
      ∑ qz ∈ Finset.range Q1D, ∑ qy ∈ Finset.range Q1D, ∑ qx ∈ Finset.range Q1D,
        div3D TR_D1D Q1D NE b g op_ x_ e qz qy qx *
          interp3D TE_D1D (fun dx dy dz => Reshape4 y_ TE_D1D TE_D1D TE_D1D NE dx dy dz e)
            (Reshape2 bT Q1D TE_D1D) (Reshape2 bT Q1D TE_D1D) (Reshape2 bT Q1D TE_D1D)
            qx qy qz := by
    rw [← interp3D_dual TE_D1D Q1D
      (fun dx dy dz => Reshape4 y_ TE_D1D TE_D1D TE_D1D NE dx dy dz e)
      (fun qx qy qz => div3D TR_D1D Q1D NE b g op_ x_ e qz qy qx)]
    apply Finset.sum_congr rfl
    intro dz hdz
    apply Finset.sum_congr rfl
    intro dy hdy
    apply Finset.sum_congr rfl
    intro dx hdx
    congr 1
    unfold PADivergenceApply3D_inc
    apply Finset.sum_congr rfl
    intro qz hqz
    rw [hT dz qz (Finset.mem_range.mp hdz) (Finset.mem_range.mp hqz), mul_comm]
    congr 1
    apply Finset.sum_congr rfl
    intro qy hqy
    rw [hT dy qy (Finset.mem_range.mp hdy) (Finset.mem_range.mp hqy), mul_comm]
    congr 1
    apply Finset.sum_congr rfl
    intro qx hqx
    rw [hT dx qx (Finset.mem_range.mp hdx) (Finset.mem_range.mp hqx), mul_comm]
  have hL : ∀ c, (∑ dz ∈ Finset.range TR_D1D, ∑ dy ∈ Finset.range TR_D1D,
        ∑ dx ∈ Finset.range TR_D1D,
          PADivergenceApplyTranspose3D_inc TR_D1D TE_D1D Q1D NE btT gtT bT op_ y_ e c dz dy dx *
            Reshape5 x_ TR_D1D TR_D1D TR_D1D 3 NE dx dy dz c e) =
      ∑ qz ∈ Finset.range Q1D, ∑ qy ∈ Finset.range Q1D, ∑ qx ∈ Finset.range Q1D,
        interp3D TE_D1D (fun dx dy dz => Reshape4 y_ TE_D1D TE_D1D TE_D1D NE dx dy dz e)
            (Reshape2 bT Q1D TE_D1D) (Reshape2 bT Q1D TE_D1D) (Reshape2 bT Q1D TE_D1D)
            qx qy qz *
          (interp3D TR_D1D (fun dx dy dz => Reshape5 x_ TR_D1D TR_D1D TR_D1D 3 NE dx dy dz c e)
              (Reshape2 g Q1D TR_D1D) (Reshape2 b Q1D TR_D1D) (Reshape2 b Q1D TR_D1D) qx qy qz *
            Reshape4 op_ (Q1D * Q1D * Q1D) 3 3 NE (qx + (qy + qz * Q1D) * Q1D) 0 c e +
          interp3D TR_D1D (fun dx dy dz => Reshape5 x_ TR_D1D TR_D1D TR_D1D 3 NE dx dy dz c e)
              (Reshape2 b Q1D TR_D1D) (Reshape2 g Q1D TR_D1D) (Reshape2 b Q1D TR_D1D) qx qy qz *
            Reshape4 op_ (Q1D * Q1D * Q1D) 3 3 NE (qx + (qy + qz * Q1D) * Q1D) 1 c e +
          interp3D TR_D1D (fun dx dy dz => Reshape5 x_ TR_D1D TR_D1D TR_D1D 3 NE dx dy dz c e)
              (Reshape2 b Q1D TR_D1D) (Reshape2 b Q1D TR_D1D) (Reshape2 g Q1D TR_D1D) qx qy qz *
            Reshape4 op_ (Q1D * Q1D * Q1D) 3 3 NE (qx + (qy + qz * Q1D) * Q1D) 2 c e) := by
    intro c
    have hd := fun (k : Nat) (M1 M2 M3 : Nat → Nat → R) => interp3D_dual TR_D1D Q1D
      (fun dx dy dz => Reshape5 x_ TR_D1D TR_D1D TR_D1D 3 NE dx dy dz c e)
      (fun qx qy qz =>
        interp3D TE_D1D (fun dx dy dz => Reshape4 y_ TE_D1D TE_D1D TE_D1D NE dx dy dz e)
            (Reshape2 bT Q1D TE_D1D) (Reshape2 bT Q1D TE_D1D) (Reshape2 bT Q1D TE_D1D)
            qx qy qz *
          Reshape4 op_ (Q1D * Q1D * Q1D) 3 3 NE (qx + (qy + qz * Q1D) * Q1D) k c e) M1 M2 M3
    have e1 : ∀ dz, dz ∈ Finset.range TR_D1D → ∀ dy, dy ∈ Finset.range TR_D1D →
        ∀ dx, dx ∈ Finset.range TR_D1D →
        PADivergenceApplyTranspose3D_inc TR_D1D TE_D1D Q1D NE btT gtT bT op_ y_ e c dz dy dx *
          Reshape5 x_ TR_D1D TR_D1D TR_D1D 3 NE dx dy dz c e =
        Reshape5 x_ TR_D1D TR_D1D TR_D1D 3 NE dx dy dz c e * (∑ qz ∈ Finset.range Q1D,
          (∑ qy ∈ Finset.range Q1D, (∑ qx ∈ Finset.range Q1D,
            (interp3D TE_D1D (fun dx dy dz => Reshape4 y_ TE_D1D TE_D1D TE_D1D NE dx dy dz e)
                (Reshape2 bT Q1D TE_D1D) (Reshape2 bT Q1D TE_D1D) (Reshape2 bT Q1D TE_D1D)
                qx qy qz *
              Reshape4 op_ (Q1D * Q1D * Q1D) 3 3 NE (qx + (qy + qz * Q1D) * Q1D) 0 c e) *
            Reshape2 g Q1D TR_D1D qx dx) * Reshape2 b Q1D TR_D1D qy dy) *
              Reshape2 b Q1D TR_D1D qz dz) +
        Reshape5 x_ TR_D1D TR_D1D TR_D1D 3 NE dx dy dz c e * (∑ qz ∈ Finset.range Q1D,
          (∑ qy ∈ Finset.range Q1D, (∑ qx ∈ Finset.range Q1D,
            (interp3D TE_D1D (fun dx dy dz => Reshape4 y_ TE_D1D TE_D1D TE_D1D NE dx dy dz e)
                (Reshape2 bT Q1D TE_D1D) (Reshape2 bT Q1D TE_D1D) (Reshape2 bT Q1D TE_D1D)
                qx qy qz *
              Reshape4 op_ (Q1D * Q1D * Q1D) 3 3 NE (qx + (qy + qz * Q1D) * Q1D) 1 c e) *
            Reshape2 b Q1D TR_D1D qx dx) * Reshape2 g Q1D TR_D1D qy dy) *
              Reshape2 b Q1D TR_D1D qz dz) +
        Reshape5 x_ TR_D1D TR_D1D TR_D1D 3 NE dx dy dz c e * (∑ qz ∈ Finset.range Q1D,
          (∑ qy ∈ Finset.range Q1D, (∑ qx ∈ Finset.range Q1D,
            (interp3D TE_D1D (fun dx dy dz => Reshape4 y_ TE_D1D TE_D1D TE_D1D NE dx dy dz e)
                (Reshape2 bT Q1D TE_D1D) (Reshape2 bT Q1D TE_D1D) (Reshape2 bT Q1D TE_D1D)
                qx qy qz *
              Reshape4 op_ (Q1D * Q1D * Q1D) 3 3 NE (qx + (qy + qz * Q1D) * Q1D) 2 c e) *
            Reshape2 b Q1D TR_D1D qx dx) * Reshape2 b Q1D TR_D1D qy dy) *
              Reshape2 g Q1D TR_D1D qz dz) := by
      intro dz hdz dy hdy dx hdx
      have hdz2 := Finset.mem_range.mp hdz
      have hdy2 := Finset.mem_range.mp hdy
      have hdx2 := Finset.mem_range.mp hdx
      unfold PADivergenceApplyTranspose3D_inc
      rw [mul_comm, ← mul_add, ← mul_add]
      congr 1
      simp only [Finset.sum_add_distrib]
      congr 1
      · congr 1
        · exact contract3_congr Q1D _ _ _ _ _ _ _ dx dy dz (fun q hq => hG dx q hdx2 hq)
            (fun q hq => hB dy q hdy2 hq) (fun q hq => hB dz q hdz2 hq)
        · exact contract3_congr Q1D _ _ _ _ _ _ _ dx dy dz (fun q hq => hB dx q hdx2 hq)
            (fun q hq => hG dy q hdy2 hq) (fun q hq => hB dz q hdz2 hq)
      · exact contract3_congr Q1D _ _ _ _ _ _ _ dx dy dz (fun q hq => hB dx q hdx2 hq)
          (fun q hq => hB dy q hdy2 hq) (fun q hq => hG dz q hdz2 hq)
    rw [Finset.sum_congr rfl (fun dz hdz => Finset.sum_congr rfl (fun dy hdy =>
      Finset.sum_congr rfl (e1 dz hdz dy hdy)))]
    simp only [Finset.sum_add_distrib]
    rw [hd 0, hd 1, hd 2]
    simp only [← Finset.sum_add_distrib]
    apply Finset.sum_congr rfl
    intro qz _
    apply Finset.sum_congr rfl
    intro qy _
    apply Finset.sum_congr rfl
    intro qx _
    ring
  rw [hR, Finset.sum_congr rfl (fun c _ => hL c), Finset.sum_comm]
  apply Finset.sum_congr rfl
  intro qz _
  rw [Finset.sum_comm]
  apply Finset.sum_congr rfl
  intro qy _
  rw [Finset.sum_comm]
  apply Finset.sum_congr rfl
  intro qx _
  rw [← Finset.mul_sum, mul_comm]
  rfl

theorem PADivergenceApply3D_adjoint_core (dev lim : DofQuadLimits) (T_TR_D1D T_TE_D1D T_Q1D : Nat)
    (junk junk2 : Buf R) (NE : Nat) (b g bt btT gtT bT op_ x_ y_ : Buf R)
    (tr_d1d te_d1d q1d : Nat)
    (h1 : pick T_TR_D1D tr_d1d ≤ dev.MAX_D1D) (h2 : pick T_TE_D1D te_d1d ≤ dev.MAX_D1D)
    (h3 : pick T_Q1D q1d ≤ dev.MAX_Q1D) (hlim : dev.le lim)
    (hB : ∀ d q, d < pick T_TR_D1D tr_d1d → q < pick T_Q1D q1d →
      Reshape2 btT (pick T_TR_D1D tr_d1d) (pick T_Q1D q1d) d q =
        Reshape2 b (pick T_Q1D q1d) (pick T_TR_D1D tr_d1d) q d)
    (hG : ∀ d q, d < pick T_TR_D1D tr_d1d → q < pick T_Q1D q1d →
      Reshape2 gtT (pick T_TR_D1D tr_d1d) (pick T_Q1D q1d) d q =
        Reshape2 g (pick T_Q1D q1d) (pick T_TR_D1D tr_d1d) q d)
    (hT : ∀ d q, d < pick T_TE_D1D te_d1d → q < pick T_Q1D q1d →
      Reshape2 bT (pick T_Q1D q1d) (pick T_TE_D1D te_d1d) q d =
        Reshape2 bt (pick T_TE_D1D te_d1d) (pick T_Q1D q1d) d q) :
    dot (pick T_TR_D1D tr_d1d * pick T_TR_D1D tr_d1d * pick T_TR_D1D tr_d1d * 3 * NE)
        (PADivergenceApplyTranspose3D dev lim T_TR_D1D T_TE_D1D T_Q1D junk NE btT gtT bT op_ y_
          (fun _ => 0) tr_d1d te_d1d q1d).out x_ =
      dot (pick T_TE_D1D te_d1d * pick T_TE_D1D te_d1d * pick T_TE_D1D te_d1d * NE) y_
        (PADivergenceApply3D dev lim T_TR_D1D T_TE_D1D T_Q1D junk2 NE b g bt op_ x_
          (fun _ => 0) tr_d1d te_d1d q1d).out := by
  have hQ : pick T_Q1D q1d ≤ pick T_Q1D lim.MAX_Q1D := pick_le_pick h3 hlim.2
  have hDR : pick T_TR_D1D tr_d1d ≤ pick T_TR_D1D lim.MAX_D1D := pick_le_pick h1 hlim.1
  have hDE : pick T_TE_D1D te_d1d ≤ pick T_TE_D1D lim.MAX_D1D := pick_le_pick h2 hlim.1
  rw [PADivergenceApplyTranspose3D_ok dev lim T_TR_D1D T_TE_D1D T_Q1D junk NE btT gtT bT op_ y_
      _ tr_d1d te_d1d q1d h1 h2 h3,
    PADivergenceApply3D_ok dev lim T_TR_D1D T_TE_D1D T_Q1D junk2 NE b g bt op_ x_
      _ tr_d1d te_d1d q1d h1 h2 h3]
  simp only [Outcome.out, dot]
  rw [sum_range_idx5, sum_range_idx4]
  apply Finset.sum_congr rfl
  intro e he
  have he2 := Finset.mem_range.mp he
  refine Eq.trans ?_ ((adjoint3D_elem (pick T_TR_D1D tr_d1d) (pick T_TE_D1D te_d1d)
    (pick T_Q1D q1d) NE b g bt btT gtT bT op_ x_ y_ hB hG hT e).trans ?_)
  · apply Finset.sum_congr rfl
    intro c hc
    apply Finset.sum_congr rfl
    intro dz hdz
    apply Finset.sum_congr rfl
    intro dy hdy
    apply Finset.sum_congr rfl
    intro dx hdx
    rw [PADivergenceApplyTranspose3D_core_cell _ _ _ _ _ _ _ _ _ _ _ _ _ hQ hDR he2
      (Finset.mem_range.mp hc) (Finset.mem_range.mp hdz) (Finset.mem_range.mp hdy)
      (Finset.mem_range.mp hdx), zero_add]
    rfl
  · apply Finset.sum_congr rfl
    intro dz hdz
    apply Finset.sum_congr rfl
    intro dy hdy
    apply Finset.sum_congr rfl
    intro dx hdx
    rw [PADivergenceApply3D_core_cell _ _ _ _ _ _ _ _ _ _ _ _ _ hQ hDE he2
      (Finset.mem_range.mp hdz) (Finset.mem_range.mp hdy) (Finset.mem_range.mp hdx), zero_add]
    rfl

end Adjoint3D

/-! ## Steps that read the buffer they write; views of the shared arrays -/

section SmemFramework

variable {R : Type u}

theorem writesOn_comp {P : Buf R → Prop} {f h : Buf R → Buf R} {W1 W2 : Nat → Prop}
    {g : Buf R} (hf : WritesOn P f W1 g) (hh : WritesOn P h W2 g) :
    WritesOn P (fun a => h (f a)) (fun j => W1 j ∨ W2 j) g := by
  intro a ha
  obtain ⟨hPf, hfa⟩ := hf a ha
  obtain ⟨hPh, hha⟩ := hh (f a) hPf
  refine ⟨hPh, fun j => ?_⟩
  by_cases h2 : W2 j
  · exact ⟨fun _ => (hha j).1 h2, fun hn => absurd (Or.inr h2) hn⟩
  · constructor
    · intro hj
      exact ((hha j).2 h2).trans ((hfa j).1 (hj.resolve_right h2))
    · intro hj
      exact ((hha j).2 h2).trans ((hfa j).2 (fun h1 => hj (Or.inl h1)))

theorem writesOn_forLoop {P : Buf R → Prop} {n : Nat} {body : Nat → Buf R → Buf R}
    {W : Nat → Nat → Prop} {g : Buf R} (hb : ∀ i, i < n → WritesOn P (body i) (W i) g) :
    WritesOn P (forLoop n body) (fun j => ∃ i, i < n ∧ W i j) g := by
  induction n with
  | zero =>
    intro a ha
    exact ⟨ha, fun j => ⟨fun ⟨i, hi, _⟩ => absurd hi (Nat.not_lt_zero i), fun _ => rfl⟩⟩
  | succ n ih =>
    have ih2 := ih (fun i hi => hb i (Nat.lt_succ_of_lt hi))
    have hc := writesOn_comp ih2 (hb n (Nat.lt_succ_self n))
    intro a ha
    obtain ⟨hP, hcj⟩ := hc a ha
    refine ⟨hP, fun j => ⟨?_, ?_⟩⟩
    · rintro ⟨i, hi, hw⟩
      apply (hcj j).1
      rcases Nat.lt_succ_iff_lt_or_eq.mp hi with h | h
      · exact Or.inl ⟨i, h, hw⟩
      · exact Or.inr (h ▸ hw)
    · intro hn
      apply (hcj j).2
      rintro (⟨i, hi, hw⟩ | hw)
      · exact hn ⟨i, Nat.lt_succ_of_lt hi, hw⟩
      · exact hn ⟨n, Nat.lt_succ_self n, hw⟩

theorem writesOn_set {P : Buf R → Prop} {g : Buf R} {i : Nat} (val : Buf R → R)
    (hv : ∀ a, P a → val a = g i) (hP : ∀ a v, P a → P (a.set i v)) :
    WritesOn P (fun a => a.set i (val a)) (fun j => j = i) g := by
  intro a ha
  refine ⟨hP a _ ha, fun j => ⟨?_, ?_⟩⟩
  · intro hj
    subst hj
    simp [Buf.set, hv a ha]
  · intro hj
    simp only [Buf.set, if_neg hj]

theorem writesOn_set2 {P : Buf R → Prop} {g : Buf R} {i0 i1 : Nat} (u v : Buf R → R)
    (hu : ∀ a, P a → u a = g i0) (hv : ∀ a, P a → v a = g i1)
    (hP0 : ∀ a v, P a → P (a.set i0 v)) (hP1 : ∀ a v, P a → P (a.set i1 v)) :
    WritesOn P (fun a => (a.set i0 (u a)).set i1 (v a)) (fun j => j = i0 ∨ j = i1) g := by
  intro a ha
  refine ⟨hP1 _ _ (hP0 a _ ha), fun j => ⟨?_, ?_⟩⟩
  · intro hj
    by_cases h1 : j = i1
    · subst h1
      simp [Buf.set, hv a ha]
    · have h0 : j = i0 := hj.resolve_right h1
      subst h0
      simp [Buf.set, h1, hu a ha]
  · intro hj
    have h0 : ¬ j = i0 := fun h => hj (Or.inl h)
    have h1 : ¬ j = i1 := fun h => hj (Or.inr h)
    simp only [Buf.set, if_neg h0, if_neg h1]

theorem writes_of_writesOn {f : Buf R → Buf R} {W : Nat → Prop} {g : Buf R}
    (h : WritesOn (fun _ => True) f W g) : Writes f W g :=
  fun a j => (h a trivial).2 j

theorem carr3_lt_cube {M K I D i j k : Nat} (hi : i < I) (hj : j < M) (hk : k < K)
    (hI : I ≤ D) (hM : M ≤ D) (hK : K ≤ D) : carr3 M K i j k < D * D * D := by
  unfold carr3 idx3
  have h1 : idx2 M j i < M * I := idx2_lt hj hi
  have h2 : idx2 K k (idx2 M j i) < K * (M * I) := idx2_lt hk h1
  have h3 : K * (M * I) ≤ D * (D * D) := Nat.mul_le_mul hK (Nat.mul_le_mul hM hI)
  rw [Nat.mul_assoc]
  exact Nat.lt_of_lt_of_le h2 h3

theorem cell3_view3 {N M K p i j k : Nat} (val : Nat → Nat → Nat → Nat → R) (hj : j < M)
    (hk : k < K) (hlt : carr3 M K i j k < N) :
    cell3 N M K val (view3 N p M K i j k) = val p i j k := by
  have h1 : view3 N p M K i j k / N = p := idx2_div p hlt
  have h2 : view3 N p M K i j k % N = carr3 M K i j k := idx2_mod p hlt
  have h3 := carr3_decode (M := M) (K := K) i hj hk
  simp only [cell3, h1, h2, h3]

theorem cell2_view2 {N M p i j : Nat} (val : Nat → Nat → Nat → R) (hj : j < M)
    (hlt : carr2 M i j < N) :
    cell2 N M val (view2 N p M i j) = val p i j := by
  have h1 : view2 N p M i j / N = p := idx2_div p hlt
  have h2 : view2 N p M i j % N = carr2 M i j := idx2_mod p hlt
  have h3 : carr2 M i j % M = j := idx2_mod i hj
  have h4 : carr2 M i j / M = i := idx2_div i hj
  simp only [cell2, h1, h2, h3, h4]

theorem view3_plane_ne {N M K M2 K2 p p2 i j k i2 j2 k2 : Nat} (hp : p ≠ p2)
    (h1 : carr3 M K i j k < N) (h2 : carr3 M2 K2 i2 j2 k2 < N) :
    view3 N p M K i j k ≠ view3 N p2 M2 K2 i2 j2 k2 := by
  intro h
  have := congrArg (· / N) h
  simp only [view3, carr2, idx2_div _ h1, idx2_div _ h2] at this
  exact hp this

end SmemFramework

/-! ## The shared-memory 3D kernel -/

section Smem3DProofs

variable {R : Type u} [CommRing R]

theorem forLoop_sum1 (n : Nat) (f : Nat → R) :
    forLoop n (fun i (u : R) => u + f i) 0 = ∑ i ∈ Finset.range n, f i := by
  induction n with
  | zero => simp [forLoop]
  | succ n ih => rw [forLoop_succ, ih, Finset.sum_range_succ]

theorem forLoop_sum2 (n : Nat) (f g : Nat → R) :
    forLoop n (fun i (s : R × R) => (s.1 + f i, s.2 + g i)) (0, 0) =
      (∑ i ∈ Finset.range n, f i, ∑ i ∈ Finset.range n, g i) := by
  induction n with
  | zero => simp [forLoop]
  | succ n ih => rw [forLoop_succ, ih, Finset.sum_range_succ, Finset.sum_range_succ]

theorem forLoop_sum3 (n : Nat) (f g h : Nat → R) :
    forLoop n (fun i (s : R × R × R) => (s.1 + f i, s.2.1 + g i, s.2.2 + h i)) (0, 0, 0) =
      (∑ i ∈ Finset.range n, f i, ∑ i ∈ Finset.range n, g i, ∑ i ∈ Finset.range n, h i) := by
  induction n with
  | zero => simp [forLoop]
  | succ n ih =>
    rw [forLoop_succ, ih, Finset.sum_range_succ, Finset.sum_range_succ, Finset.sum_range_succ]

theorem carr2_lt_mul {M I i j : Nat} (hi : i < I) (hj : j < M) : carr2 M i j < I * M := by
  unfold carr2
  rw [Nat.mul_comm]
  exact idx2_lt hj hi

theorem SmemPADivergenceApply3D_loadBG_eq (MQ1 MD1 D1DR Q1D : Nat) (b_ g_ sBG : Buf R)
    (hQ : Q1D ≤ MQ1) (hR : D1DR ≤ MD1) {q d : Nat} (hq : q < Q1D) (hd : d < D1DR) :
    SmemPADivergenceApply3D_loadBG MQ1 MD1 D1DR Q1D b_ g_ sBG (view2 (MQ1 * MD1) 0 MD1 q d) =
      Reshape2 b_ Q1D D1DR q d ∧
    SmemPADivergenceApply3D_loadBG MQ1 MD1 D1DR Q1D b_ g_ sBG (view2 (MQ1 * MD1) 1 MD1 q d) =
      Reshape2 g_ Q1D D1DR q d := by
  have hw : Writes (SmemPADivergenceApply3D_loadBG MQ1 MD1 D1DR Q1D b_ g_)
      (fun j => ∃ d, d < D1DR ∧ ∃ q, q < Q1D ∧
        (j = view2 (MQ1 * MD1) 0 MD1 q d ∨ j = view2 (MQ1 * MD1) 1 MD1 q d))
      (cell2 (MQ1 * MD1) MD1 (fun p q d =>
        if p = 0 then Reshape2 b_ Q1D D1DR q d else Reshape2 g_ Q1D D1DR q d)) := by
    apply writes_forLoop
    intro d hd
    apply writes_forLoop
    intro q hq
    have hlt := carr2_lt_mul (Nat.lt_of_lt_of_le hq hQ) (Nat.lt_of_lt_of_le hd hR)
    refine writes_comp (writes_set ?_) (writes_set ?_)
    · rw [cell2_view2 _ (Nat.lt_of_lt_of_le hd hR) hlt]
      simp
    · rw [cell2_view2 _ (Nat.lt_of_lt_of_le hd hR) hlt]
      simp
  have hlt := carr2_lt_mul (Nat.lt_of_lt_of_le hq hQ) (Nat.lt_of_lt_of_le hd hR)
  constructor
  · rw [(hw sBG _).1 ⟨d, hd, q, hq, Or.inl rfl⟩, cell2_view2 _ (Nat.lt_of_lt_of_le hd hR) hlt]
    simp
  · rw [(hw sBG _).1 ⟨d, hd, q, hq, Or.inr rfl⟩, cell2_view2 _ (Nat.lt_of_lt_of_le hd hR) hlt]
    simp

theorem SmemPADivergenceApply3D_loadBt_eq (MQ1 MD1 D1DE Q1D : Nat) (bt_ sBG : Buf R)
    (hQ : Q1D ≤ MQ1) (hE : D1DE ≤ MD1) {q d : Nat} (hq : q < Q1D) (hd : d < D1DE) :
    SmemPADivergenceApply3D_loadBt MQ1 MD1 D1DE Q1D bt_ sBG (view2 (MQ1 * MD1) 0 MQ1 d q) =
      Reshape2 bt_ D1DE Q1D d q := by
  have hw : Writes (SmemPADivergenceApply3D_loadBt MQ1 MD1 D1DE Q1D bt_)
      (fun j => ∃ d, d < D1DE ∧ ∃ q, q < Q1D ∧ j = view2 (MQ1 * MD1) 0 MQ1 d q)
      (cell2 (MQ1 * MD1) MQ1 (fun _ d q => Reshape2 bt_ D1DE Q1D d q)) := by
    apply writes_forLoop
    intro d hd
    apply writes_forLoop
    intro q hq
    have hlt : carr2 MQ1 d q < MQ1 * MD1 := by
      rw [Nat.mul_comm]
      exact carr2_lt_mul (Nat.lt_of_lt_of_le hd hE) (Nat.lt_of_lt_of_le hq hQ)
    refine writes_set ?_
    rw [cell2_view2 _ (Nat.lt_of_lt_of_le hq hQ) hlt]
  have hlt : carr2 MQ1 d q < MQ1 * MD1 := by
    rw [Nat.mul_comm]
    exact carr2_lt_mul (Nat.lt_of_lt_of_le hd hE) (Nat.lt_of_lt_of_le hq hQ)
  rw [(hw sBG _).1 ⟨d, hd, q, hq, rfl⟩, cell2_view2 _ (Nat.lt_of_lt_of_le hq hQ) hlt]

theorem SmemPADivergenceApply3D_loadX_eq (MDQ MD1 D1DR NE : Nat) (x_ : Buf R) (c e : Nat)
    (sm0 : Buf R) (hR : D1DR ≤ MD1) (hMD : MD1 ≤ MDQ) {dz dy dx : Nat} (hdz : dz < D1DR)
    (hdy : dy < D1DR) (hdx : dx < D1DR) :
    SmemPADivergenceApply3D_loadX MDQ MD1 D1DR NE x_ c e sm0
        (view3 (MDQ * MDQ * MDQ) 2 MD1 MD1 dz dy dx) =
      Reshape5 x_ D1DR D1DR D1DR 3 NE dx dy dz c e := by
  have hb : ∀ i, i < D1DR → i < MD1 := fun i hi => Nat.lt_of_lt_of_le hi hR
  have hw : Writes (SmemPADivergenceApply3D_loadX MDQ MD1 D1DR NE x_ c e)
      (fun j => ∃ dz, dz < D1DR ∧ ∃ dy, dy < D1DR ∧ ∃ dx, dx < D1DR ∧
        j = view3 (MDQ * MDQ * MDQ) 2 MD1 MD1 dz dy dx)
      (cell3 (MDQ * MDQ * MDQ) MD1 MD1 (fun _ dz dy dx =>
        Reshape5 x_ D1DR D1DR D1DR 3 NE dx dy dz c e)) := by
    apply writes_forLoop
    intro dz hdz
    apply writes_forLoop
    intro dy hdy
    apply writes_forLoop
    intro dx hdx
    refine writes_set ?_
    rw [cell3_view3 _ (hb dy hdy) (hb dx hdx)
      (carr3_lt_cube (hb dz hdz) (hb dy hdy) (hb dx hdx) hMD hMD hMD)]
  rw [(hw sm0 _).1 ⟨dz, hdz, dy, hdy, dx, hdx, rfl⟩, cell3_view3 _ (hb dy hdy) (hb dx hdx)
    (carr3_lt_cube (hb dz hdz) (hb dy hdy) (hb dx hdx) hMD hMD hMD)]

theorem SmemPADivergenceApply3D_stageX_eq (MDQ MQ1 MD1 D1DR Q1D : Nat) (sBG sm0 : Buf R)
    (hQ : Q1D ≤ MQ1) (hR : D1DR ≤ MD1) (hMD : MD1 ≤ MDQ) (hMQ : MQ1 ≤ MDQ) {dz dy qx : Nat}
    (hdz : dz < D1DR) (hdy : dy < D1DR) (hqx : qx < Q1D) :
    SmemPADivergenceApply3D_stageX MDQ MQ1 MD1 D1DR Q1D sBG sm0
        (view3 (MDQ * MDQ * MDQ) 0 MD1 MQ1 dz dy qx) =
      ∑ dx ∈ Finset.range D1DR, sm0 (view3 (MDQ * MDQ * MDQ) 2 MD1 MD1 dz dy dx) *
        sBG (view2 (MQ1 * MD1) 0 MD1 qx dx) ∧
    SmemPADivergenceApply3D_stageX MDQ MQ1 MD1 D1DR Q1D sBG sm0
        (view3 (MDQ * MDQ * MDQ) 1 MD1 MQ1 dz dy qx) =
      ∑ dx ∈ Finset.range D1DR, sm0 (view3 (MDQ * MDQ * MDQ) 2 MD1 MD1 dz dy dx) *
        sBG (view2 (MQ1 * MD1) 1 MD1 qx dx) := by
  have hb : ∀ i, i < D1DR → i < MD1 := fun i hi => Nat.lt_of_lt_of_le hi hR
  have hq : ∀ i, i < Q1D → i < MQ1 := fun i hi => Nat.lt_of_lt_of_le hi hQ
  have hXlt : ∀ dz dy dx, dz < D1DR → dy < D1DR → dx < D1DR →
      carr3 MD1 MD1 dz dy dx < MDQ * MDQ * MDQ := fun dz dy dx h1 h2 h3 =>
    carr3_lt_cube (hb dz h1) (hb dy h2) (hb dx h3) hMD hMD hMD
  have hDlt : ∀ dz dy qx, dz < D1DR → dy < D1DR → qx < Q1D →
      carr3 MD1 MQ1 dz dy qx < MDQ * MDQ * MDQ := fun dz dy qx h1 h2 h3 =>
    carr3_lt_cube (hb dz h1) (hb dy h2) (hq qx h3) hMD hMD hMQ
  have hw : WritesOn
      (fun a : Buf R => ∀ dz dy dx, dz < D1DR → dy < D1DR → dx < D1DR →
        a (view3 (MDQ * MDQ * MDQ) 2 MD1 MD1 dz dy dx) =
          sm0 (view3 (MDQ * MDQ * MDQ) 2 MD1 MD1 dz dy dx))
      (SmemPADivergenceApply3D_stageX MDQ MQ1 MD1 D1DR Q1D sBG)
      (fun j => ∃ dz, dz < D1DR ∧ ∃ dy, dy < D1DR ∧ ∃ qx, qx < Q1D ∧
        (j = view3 (MDQ * MDQ * MDQ) 0 MD1 MQ1 dz dy qx ∨
          j = view3 (MDQ * MDQ * MDQ) 1 MD1 MQ1 dz dy qx))
      (cell3 (MDQ * MDQ * MDQ) MD1 MQ1 (fun p dz dy qx =>
        if p = 0 then
          ∑ dx ∈ Finset.range D1DR, sm0 (view3 (MDQ * MDQ * MDQ) 2 MD1 MD1 dz dy dx) *
            sBG (view2 (MQ1 * MD1) 0 MD1 qx dx)
        else
          ∑ dx ∈ Finset.range D1DR, sm0 (view3 (MDQ * MDQ * MDQ) 2 MD1 MD1 dz dy dx) *
            sBG (view2 (MQ1 * MD1) 1 MD1 qx dx))) := by
    apply writesOn_forLoop
    intro dz hdz
    apply writesOn_forLoop
    intro dy hdy
    apply writesOn_forLoop
    intro qx hqx
    refine writesOn_set2 _ _ ?_ ?_ ?_ ?_
    · intro a ha
      rw [cell3_view3 _ (hb dy hdy) (hq qx hqx) (hDlt dz dy qx hdz hdy hqx), forLoop_sum2]
      simp only [if_true]
      apply Finset.sum_congr rfl
      intro dx hdx
      rw [ha dz dy dx hdz hdy (Finset.mem_range.mp hdx)]
    · intro a ha
      rw [cell3_view3 _ (hb dy hdy) (hq qx hqx) (hDlt dz dy qx hdz hdy hqx), forLoop_sum2]
      simp only [one_ne_zero, if_false]
      apply Finset.sum_congr rfl
      intro dx hdx
      rw [ha dz dy dx hdz hdy (Finset.mem_range.mp hdx)]
    · intro a v ha dz2 dy2 dx2 h1 h2 h3
      rw [← ha dz2 dy2 dx2 h1 h2 h3]
      exact if_neg (view3_plane_ne (by decide) (hXlt dz2 dy2 dx2 h1 h2 h3)
        (hDlt dz dy qx hdz hdy hqx))
    · intro a v ha dz2 dy2 dx2 h1 h2 h3
      rw [← ha dz2 dy2 dx2 h1 h2 h3]
      exact if_neg (view3_plane_ne (by decide) (hXlt dz2 dy2 dx2 h1 h2 h3)
        (hDlt dz dy qx hdz hdy hqx))
  have h := (hw sm0 (fun _ _ _ _ _ _ => rfl)).2
  constructor
  · rw [(h _).1 ⟨dz, hdz, dy, hdy, qx, hqx, Or.inl rfl⟩,
      cell3_view3 _ (hb dy hdy) (hq qx hqx) (hDlt dz dy qx hdz hdy hqx)]
    simp
  · rw [(h _).1 ⟨dz, hdz, dy, hdy, qx, hqx, Or.inr rfl⟩,
      cell3_view3 _ (hb dy hdy) (hq qx hqx) (hDlt dz dy qx hdz hdy hqx)]
    simp

theorem SmemPADivergenceApply3D_stageY_eq (MDQ MQ1 MD1 D1DR Q1D : Nat) (sBG sm0 sm1 : Buf R)
    (hQ : Q1D ≤ MQ1) (hR : D1DR ≤ MD1) (hMD : MD1 ≤ MDQ) (hMQ : MQ1 ≤ MDQ) {dz qy qx : Nat}
    (hdz : dz < D1DR) (hqy : qy < Q1D) (hqx : qx < Q1D) :
    SmemPADivergenceApply3D_stageY MDQ MQ1 MD1 D1DR Q1D sBG sm0 sm1
        (view3 (MDQ * MDQ * MDQ) 0 MQ1 MQ1 dz qy qx) =
      ∑ dy ∈ Finset.range D1DR, sm0 (view3 (MDQ * MDQ * MDQ) 1 MD1 MQ1 dz dy qx) *
        sBG (view2 (MQ1 * MD1) 0 MD1 qy dy) ∧
    SmemPADivergenceApply3D_stageY MDQ MQ1 MD1 D1DR Q1D sBG sm0 sm1
        (view3 (MDQ * MDQ * MDQ) 1 MQ1 MQ1 dz qy qx) =
      ∑ dy ∈ Finset.range D1DR, sm0 (view3 (MDQ * MDQ * MDQ) 0 MD1 MQ1 dz dy qx) *
        sBG (view2 (MQ1 * MD1) 1 MD1 qy dy) ∧
    SmemPADivergenceApply3D_stageY MDQ MQ1 MD1 D1DR Q1D sBG sm0 sm1
        (view3 (MDQ * MDQ * MDQ) 2 MQ1 MQ1 dz qy qx) =
      ∑ dy ∈ Finset.range D1DR, sm0 (view3 (MDQ * MDQ * MDQ) 0 MD1 MQ1 dz dy qx) *
        sBG (view2 (MQ1 * MD1) 0 MD1 qy dy) := by
  have hb : ∀ i, i < D1DR → i < MD1 := fun i hi => Nat.lt_of_lt_of_le hi hR
  have hq : ∀ i, i < Q1D → i < MQ1 := fun i hi => Nat.lt_of_lt_of_le hi hQ
  have hlt : ∀ dz qy qx, dz < D1DR → qy < Q1D → qx < Q1D →
      carr3 MQ1 MQ1 dz qy qx < MDQ * MDQ * MDQ := fun dz qy qx h1 h2 h3 =>
    carr3_lt_cube (hb dz h1) (hq qy h2) (hq qx h3) hMD hMQ hMQ
  have hw : Writes (SmemPADivergenceApply3D_stageY MDQ MQ1 MD1 D1DR Q1D sBG sm0)
      (fun j => ∃ dz, dz < D1DR ∧ ∃ qy, qy < Q1D ∧ ∃ qx, qx < Q1D ∧
        ((j = view3 (MDQ * MDQ * MDQ) 0 MQ1 MQ1 dz qy qx ∨
          j = view3 (MDQ * MDQ * MDQ) 1 MQ1 MQ1 dz qy qx) ∨
          j = view3 (MDQ * MDQ * MDQ) 2 MQ1 MQ1 dz qy qx))
      (cell3 (MDQ * MDQ * MDQ) MQ1 MQ1 (fun p dz qy qx =>
        if p = 0 then
          ∑ dy ∈ Finset.range D1DR, sm0 (view3 (MDQ * MDQ * MDQ) 1 MD1 MQ1 dz dy qx) *
            sBG (view2 (MQ1 * MD1) 0 MD1 qy dy)
        else if p = 1 then
          ∑ dy ∈ Finset.range D1DR, sm0 (view3 (MDQ * MDQ * MDQ) 0 MD1 MQ1 dz dy qx) *
            sBG (view2 (MQ1 * MD1) 1 MD1 qy dy)
        else
          ∑ dy ∈ Finset.range D1DR, sm0 (view3 (MDQ * MDQ * MDQ) 0 MD1 MQ1 dz dy qx) *
            sBG (view2 (MQ1 * MD1) 0 MD1 qy dy))) := by
    apply writes_forLoop
    intro dz hdz
    apply writes_forLoop
    intro qy hqy
    apply writes_forLoop
    intro qx hqx
    refine writes_comp (writes_comp (writes_set ?_) (writes_set ?_)) (writes_set ?_)
    · rw [cell3_view3 _ (hq qy hqy) (hq qx hqx) (hlt dz qy qx hdz hqy hqx), forLoop_sum3]
      simp
    · rw [cell3_view3 _ (hq qy hqy) (hq qx hqx) (hlt dz qy qx hdz hqy hqx), forLoop_sum3]
      simp
    · rw [cell3_view3 _ (hq qy hqy) (hq qx hqx) (hlt dz qy qx hdz hqy hqx), forLoop_sum3]
      simp
  refine ⟨?_, ?_, ?_⟩
  · rw [(hw sm1 _).1 ⟨dz, hdz, qy, hqy, qx, hqx, Or.inl (Or.inl rfl)⟩,
      cell3_view3 _ (hq qy hqy) (hq qx hqx) (hlt dz qy qx hdz hqy hqx)]
    simp
  · rw [(hw sm1 _).1 ⟨dz, hdz, qy, hqy, qx, hqx, Or.inl (Or.inr rfl)⟩,
      cell3_view3 _ (hq qy hqy) (hq qx hqx) (hlt dz qy qx hdz hqy hqx)]
    simp
  · rw [(hw sm1 _).1 ⟨dz, hdz, qy, hqy, qx, hqx, Or.inr rfl⟩,
      cell3_view3 _ (hq qy hqy) (hq qx hqx) (hlt dz qy qx hdz hqy hqx)]
    simp

theorem SmemPADivergenceApply3D_stageZ_eq (MDQ MQ1 MD1 D1DR Q1D : Nat) (sBG sm1 sm0 : Buf R)
    (hQ : Q1D ≤ MQ1) (hMQ : MQ1 ≤ MDQ) {qz qy qx : Nat}
    (hqz : qz < Q1D) (hqy : qy < Q1D) (hqx : qx < Q1D) :
    SmemPADivergenceApply3D_stageZ MDQ MQ1 MD1 D1DR Q1D sBG sm1 sm0
        (view3 (MDQ * MDQ * MDQ) 0 MQ1 MQ1 qz qy qx) =
      ∑ dz ∈ Finset.range D1DR, sm1 (view3 (MDQ * MDQ * MDQ) 0 MQ1 MQ1 dz qy qx) *
        sBG (view2 (MQ1 * MD1) 0 MD1 qz dz) ∧
    SmemPADivergenceApply3D_stageZ MDQ MQ1 MD1 D1DR Q1D sBG sm1 sm0
        (view3 (MDQ * MDQ * MDQ) 1 MQ1 MQ1 qz qy qx) =
      ∑ dz ∈ Finset.range D1DR, sm1 (view3 (MDQ * MDQ * MDQ) 1 MQ1 MQ1 dz qy qx) *
        sBG (view2 (MQ1 * MD1) 0 MD1 qz dz) ∧
    SmemPADivergenceApply3D_stageZ MDQ MQ1 MD1 D1DR Q1D sBG sm1 sm0
        (view3 (MDQ * MDQ * MDQ) 2 MQ1 MQ1 qz qy qx) =
      ∑ dz ∈ Finset.range D1DR, sm1 (view3 (MDQ * MDQ * MDQ) 2 MQ1 MQ1 dz qy qx) *
        sBG (view2 (MQ1 * MD1) 1 MD1 qz dz) := by
  have hq : ∀ i, i < Q1D → i < MQ1 := fun i hi => Nat.lt_of_lt_of_le hi hQ
  have hlt : ∀ qz qy qx, qz < Q1D → qy < Q1D → qx < Q1D →
      carr3 MQ1 MQ1 qz qy qx < MDQ * MDQ * MDQ := fun qz qy qx h1 h2 h3 =>
    carr3_lt_cube (hq qz h1) (hq qy h2) (hq qx h3) hMQ hMQ hMQ
  have hw : Writes (SmemPADivergenceApply3D_stageZ MDQ MQ1 MD1 D1DR Q1D sBG sm1)
      (fun j => ∃ qz, qz < Q1D ∧ ∃ qy, qy < Q1D ∧ ∃ qx, qx < Q1D ∧
        ((j = view3 (MDQ * MDQ * MDQ) 0 MQ1 MQ1 qz qy qx ∨
          j = view3 (MDQ * MDQ * MDQ) 1 MQ1 MQ1 qz qy qx) ∨
          j = view3 (MDQ * MDQ * MDQ) 2 MQ1 MQ1 qz qy qx))
      (cell3 (MDQ * MDQ * MDQ) MQ1 MQ1 (fun p qz qy qx =>
        if p = 0 then
          ∑ dz ∈ Finset.range D1DR, sm1 (view3 (MDQ * MDQ * MDQ) 0 MQ1 MQ1 dz qy qx) *
            sBG (view2 (MQ1 * MD1) 0 MD1 qz dz)
        else if p = 1 then
          ∑ dz ∈ Finset.range D1DR, sm1 (view3 (MDQ * MDQ * MDQ) 1 MQ1 MQ1 dz qy qx) *
            sBG (view2 (MQ1 * MD1) 0 MD1 qz dz)
        else
          ∑ dz ∈ Finset.range D1DR, sm1 (view3 (MDQ * MDQ * MDQ) 2 MQ1 MQ1 dz qy qx) *
            sBG (view2 (MQ1 * MD1) 1 MD1 qz dz))) := by
    apply writes_forLoop
    intro qz hqz
    apply writes_forLoop
    intro qy hqy
    apply writes_forLoop
    intro qx hqx
    refine writes_comp (writes_comp (writes_set ?_) (writes_set ?_)) (writes_set ?_)
    · rw [cell3_view3 _ (hq qy hqy) (hq qx hqx) (hlt qz qy qx hqz hqy hqx), forLoop_sum3]
      simp
    · rw [cell3_view3 _ (hq qy hqy) (hq qx hqx) (hlt qz qy qx hqz hqy hqx), forLoop_sum3]
      simp
    · rw [cell3_view3 _ (hq qy hqy) (hq qx hqx) (hlt qz qy qx hqz hqy hqx), forLoop_sum3]
      simp
  refine ⟨?_, ?_, ?_⟩
  · rw [(hw sm0 _).1 ⟨qz, hqz, qy, hqy, qx, hqx, Or.inl (Or.inl rfl)⟩,
      cell3_view3 _ (hq qy hqy) (hq qx hqx) (hlt qz qy qx hqz hqy hqx)]
    simp
  · rw [(hw sm0 _).1 ⟨qz, hqz, qy, hqy, qx, hqx, Or.inl (Or.inr rfl)⟩,
      cell3_view3 _ (hq qy hqy) (hq qx hqx) (hlt qz qy qx hqz hqy hqx)]
    simp
  · rw [(hw sm0 _).1 ⟨qz, hqz, qy, hqy, qx, hqx, Or.inr rfl⟩,
      cell3_view3 _ (hq qy hqy) (hq qx hqx) (hlt qz qy qx hqz hqy hqx)]
    simp

theorem SmemPADivergenceApply3D_stageQQD_eq (MDQ MQ1 MD1 D1DE Q1D : Nat) (sBG div sm1 : Buf R)
    (hQ : Q1D ≤ MQ1) (hE : D1DE ≤ MD1) (hMD : MD1 ≤ MDQ) (hMQ : MQ1 ≤ MDQ) {qz qy dx : Nat}
    (hqz : qz < Q1D) (hqy : qy < Q1D) (hdx : dx < D1DE) :
    SmemPADivergenceApply3D_stageQQD MDQ MQ1 MD1 D1DE Q1D sBG div sm1
        (view3 (MDQ * MDQ * MDQ) 0 MQ1 MD1 qz qy dx) =
      ∑ qx ∈ Finset.range Q1D, div (carr3 MQ1 MQ1 qz qy qx) *
        sBG (view2 (MQ1 * MD1) 0 MQ1 dx qx) := by
  have hb : ∀ i, i < D1DE → i < MD1 := fun i hi => Nat.lt_of_lt_of_le hi hE
  have hq : ∀ i, i < Q1D → i < MQ1 := fun i hi => Nat.lt_of_lt_of_le hi hQ
  have hlt : ∀ qz qy dx, qz < Q1D → qy < Q1D → dx < D1DE →
      carr3 MQ1 MD1 qz qy dx < MDQ * MDQ * MDQ := fun qz qy dx h1 h2 h3 =>
    carr3_lt_cube (hq qz h1) (hq qy h2) (hb dx h3) hMQ hMQ hMD
  have hw : Writes (SmemPADivergenceApply3D_stageQQD MDQ MQ1 MD1 D1DE Q1D sBG div)
      (fun j => ∃ qz, qz < Q1D ∧ ∃ qy, qy < Q1D ∧ ∃ dx, dx < D1DE ∧
        j = view3 (MDQ * MDQ * MDQ) 0 MQ1 MD1 qz qy dx)
      (cell3 (MDQ * MDQ * MDQ) MQ1 MD1 (fun _ qz qy dx =>
        ∑ qx ∈ Finset.range Q1D, div (carr3 MQ1 MQ1 qz qy qx) *
          sBG (view2 (MQ1 * MD1) 0 MQ1 dx qx))) := by
    apply writes_forLoop
    intro qz hqz
    apply writes_forLoop
    intro qy hqy
    apply writes_forLoop
    intro dx hdx
    refine writes_set ?_
    rw [cell3_view3 _ (hq qy hqy) (hb dx hdx) (hlt qz qy dx hqz hqy hdx), forLoop_sum1]
  rw [(hw sm1 _).1 ⟨qz, hqz, qy, hqy, dx, hdx, rfl⟩,
    cell3_view3 _ (hq qy hqy) (hb dx hdx) (hlt qz qy dx hqz hqy hdx)]

theorem SmemPADivergenceApply3D_stageQDD_eq (MDQ MQ1 MD1 D1DE Q1D : Nat) (sBG sm1 sm0 : Buf R)
    (hQ : Q1D ≤ MQ1) (hE : D1DE ≤ MD1) (hMD : MD1 ≤ MDQ) (hMQ : MQ1 ≤ MDQ) {qz dy dx : Nat}
    (hqz : qz < Q1D) (hdy : dy < D1DE) (hdx : dx < D1DE) :
    SmemPADivergenceApply3D_stageQDD MDQ MQ1 MD1 D1DE Q1D sBG sm1 sm0
        (view3 (MDQ * MDQ * MDQ) 0 MD1 MD1 qz dy dx) =
      ∑ qy ∈ Finset.range Q1D, sm1 (view3 (MDQ * MDQ * MDQ) 0 MQ1 MD1 qz qy dx) *
        sBG (view2 (MQ1 * MD1) 0 MQ1 dy qy) := by
  have hb : ∀ i, i < D1DE → i < MD1 := fun i hi => Nat.lt_of_lt_of_le hi hE
  have hq : ∀ i, i < Q1D → i < MQ1 := fun i hi => Nat.lt_of_lt_of_le hi hQ
  have hlt : ∀ qz dy dx, qz < Q1D → dy < D1DE → dx < D1DE →
      carr3 MD1 MD1 qz dy dx < MDQ * MDQ * MDQ := fun qz dy dx h1 h2 h3 =>
    carr3_lt_cube (hq qz h1) (hb dy h2) (hb dx h3) hMQ hMD hMD
  have hw : Writes (SmemPADivergenceApply3D_stageQDD MDQ MQ1 MD1 D1DE Q1D sBG sm1)
      (fun j => ∃ qz, qz < Q1D ∧ ∃ dy, dy < D1DE ∧ ∃ dx, dx < D1DE ∧
        j = view3 (MDQ * MDQ * MDQ) 0 MD1 MD1 qz dy dx)
      (cell3 (MDQ * MDQ * MDQ) MD1 MD1 (fun _ qz dy dx =>
        ∑ qy ∈ Finset.range Q1D, sm1 (view3 (MDQ * MDQ * MDQ) 0 MQ1 MD1 qz qy dx) *
          sBG (view2 (MQ1 * MD1) 0 MQ1 dy qy))) := by
    apply writes_forLoop
    intro qz hqz
    apply writes_forLoop
    intro dy hdy
    apply writes_forLoop
    intro dx hdx
    refine writes_set ?_
    rw [cell3_view3 _ (hb dy hdy) (hb dx hdx) (hlt qz dy dx hqz hdy hdx), forLoop_sum1]
  rw [(hw sm0 _).1 ⟨qz, hqz, dy, hdy, dx, hdx, rfl⟩,
    cell3_view3 _ (hb dy hdy) (hb dx hdx) (hlt qz dy dx hqz hdy hdx)]

theorem forLoop_proj_adds_at {σ : Type u} {n : Nat} {body : Nat → σ → σ} (p : σ → R)
    (d : Nat → R) (hb : ∀ i, i < n → ∀ s, p (body i s) = p s + d i) (s : σ) :
    p (forLoop n body s) = p s + ∑ i ∈ Finset.range n, d i := by
  induction n with
  | zero => simp [forLoop]
  | succ n ih =>
    rw [forLoop_succ, hb n (Nat.lt_succ_self n), ih (fun i hi => hb i (Nat.lt_succ_of_lt hi)),
      Finset.sum_range_succ, add_assoc]

/-- After the three contraction stages of the tiled kernel, `QQQ0`, `QQQ1`, `QQQ2` hold the
reference gradient of component `c`. -/
theorem SmemPADivergenceApply3D_comp_QQQ (MDQ MQ1 MD1 D1DR Q1D NE : Nat)
    (sBG q_ x_ b_ g_ : Buf R) (e c : Nat) (s : Buf R × Buf R × Buf R)
    (hQ : Q1D ≤ MQ1) (hR : D1DR ≤ MD1) (hMD : MD1 ≤ MDQ) (hMQ : MQ1 ≤ MDQ)
    (hBv : ∀ q d, q < Q1D → d < D1DR →
      sBG (view2 (MQ1 * MD1) 0 MD1 q d) = Reshape2 b_ Q1D D1DR q d)
    (hGv : ∀ q d, q < Q1D → d < D1DR →
      sBG (view2 (MQ1 * MD1) 1 MD1 q d) = Reshape2 g_ Q1D D1DR q d)
    {qz qy qx : Nat} (hqz : qz < Q1D) (hqy : qy < Q1D) (hqx : qx < Q1D) :
    (SmemPADivergenceApply3D_comp MDQ MQ1 MD1 D1DR Q1D NE sBG q_ x_ e c s).1
        (view3 (MDQ * MDQ * MDQ) 0 MQ1 MQ1 qz qy qx) =
      interp3D D1DR (fun dx dy dz => Reshape5 x_ D1DR D1DR D1DR 3 NE dx dy dz c e)
        (Reshape2 g_ Q1D D1DR) (Reshape2 b_ Q1D D1DR) (Reshape2 b_ Q1D D1DR) qx qy qz ∧
    (SmemPADivergenceApply3D_comp MDQ MQ1 MD1 D1DR Q1D NE sBG q_ x_ e c s).1
        (view3 (MDQ * MDQ * MDQ) 1 MQ1 MQ1 qz qy qx) =
      interp3D D1DR (fun dx dy dz => Reshape5 x_ D1DR D1DR D1DR 3 NE dx dy dz c e)
        (Reshape2 b_ Q1D D1DR) (Reshape2 g_ Q1D D1DR) (Reshape2 b_ Q1D D1DR) qx qy qz ∧
    (SmemPADivergenceApply3D_comp MDQ MQ1 MD1 D1DR Q1D NE sBG q_ x_ e c s).1
        (view3 (MDQ * MDQ * MDQ) 2 MQ1 MQ1 qz qy qx) =
      interp3D D1DR (fun dx dy dz => Reshape5 x_ D1DR D1DR D1DR 3 NE dx dy dz c e)
        (Reshape2 b_ Q1D D1DR) (Reshape2 b_ Q1D D1DR) (Reshape2 g_ Q1D D1DR) qx qy qz := by
  have hZ := SmemPADivergenceApply3D_stageZ_eq MDQ MQ1 MD1 D1DR Q1D sBG
    (SmemPADivergenceApply3D_stageY MDQ MQ1 MD1 D1DR Q1D sBG
      (SmemPADivergenceApply3D_stageX MDQ MQ1 MD1 D1DR Q1D sBG
        (SmemPADivergenceApply3D_loadX MDQ MD1 D1DR NE x_ c e
          (SmemPADivergenceApply3D_zeroQQQ MDQ MQ1 Q1D s.1))) s.2.1)
    (SmemPADivergenceApply3D_stageX MDQ MQ1 MD1 D1DR Q1D sBG
        (SmemPADivergenceApply3D_loadX MDQ MD1 D1DR NE x_ c e
          (SmemPADivergenceApply3D_zeroQQQ MDQ MQ1 Q1D s.1))) hQ hMQ hqz hqy hqx
  have hY := fun dz (hdz : dz < D1DR) => SmemPADivergenceApply3D_stageY_eq MDQ MQ1 MD1 D1DR Q1D
    sBG (SmemPADivergenceApply3D_stageX MDQ MQ1 MD1 D1DR Q1D sBG
        (SmemPADivergenceApply3D_loadX MDQ MD1 D1DR NE x_ c e
          (SmemPADivergenceApply3D_zeroQQQ MDQ MQ1 Q1D s.1))) s.2.1 hQ hR hMD hMQ hdz hqy hqx
  have hX := fun dz (hdz : dz < D1DR) dy (hdy : dy < D1DR) =>
    SmemPADivergenceApply3D_stageX_eq MDQ MQ1 MD1 D1DR Q1D sBG
      (SmemPADivergenceApply3D_loadX MDQ MD1 D1DR NE x_ c e
        (SmemPADivergenceApply3D_zeroQQQ MDQ MQ1 Q1D s.1)) hQ hR hMD hMQ hdz hdy hqx
  have hL := fun dz (hdz : dz < D1DR) dy (hdy : dy < D1DR) dx (hdx : dx < D1DR) =>
    SmemPADivergenceApply3D_loadX_eq MDQ MD1 D1DR NE x_ c e
      (SmemPADivergenceApply3D_zeroQQQ MDQ MQ1 Q1D s.1) hR hMD hdz hdy hdx
  unfold interp3D
  refine ⟨?_, ?_, ?_⟩
  · refine hZ.1.trans (Finset.sum_congr rfl fun dz hdz => ?_)
    have hdz2 := Finset.mem_range.mp hdz
    rw [(hY dz hdz2).1, hBv qz dz hqz hdz2]
    congr 1
    refine Finset.sum_congr rfl fun dy hdy => ?_
    have hdy2 := Finset.mem_range.mp hdy
    rw [(hX dz hdz2 dy hdy2).2, hBv qy dy hqy hdy2]
    congr 1
    refine Finset.sum_congr rfl fun dx hdx => ?_
    have hdx2 := Finset.mem_range.mp hdx
    rw [hL dz hdz2 dy hdy2 dx hdx2, hGv qx dx hqx hdx2]
  · refine hZ.2.1.trans (Finset.sum_congr rfl fun dz hdz => ?_)
    have hdz2 := Finset.mem_range.mp hdz
    rw [(hY dz hdz2).2.1, hBv qz dz hqz hdz2]
    congr 1
    refine Finset.sum_congr rfl fun dy hdy => ?_
    have hdy2 := Finset.mem_range.mp hdy
    rw [(hX dz hdz2 dy hdy2).1, hGv qy dy hqy hdy2]
    congr 1
    refine Finset.sum_congr rfl fun dx hdx => ?_
    have hdx2 := Finset.mem_range.mp hdx
    rw [hL dz hdz2 dy hdy2 dx hdx2, hBv qx dx hqx hdx2]
  · refine hZ.2.2.trans (Finset.sum_congr rfl fun dz hdz => ?_)
    have hdz2 := Finset.mem_range.mp hdz
    rw [(hY dz hdz2).2.2, hGv qz dz hqz hdz2]
    congr 1
    refine Finset.sum_congr rfl fun dy hdy => ?_
    have hdy2 := Finset.mem_range.mp hdy
    rw [(hX dz hdz2 dy hdy2).1, hBv qy dy hqy hdy2]
    congr 1
    refine Finset.sum_congr rfl fun dx hdx => ?_
    have hdx2 := Finset.mem_range.mp hdx
    rw [hL dz hdz2 dy hdy2 dx hdx2, hBv qx dx hqx hdx2]

/-- One pass of the component loop of the tiled kernel adds the contribution of component
`c` to `div`. -/
theorem SmemPADivergenceApply3D_comp_div (MDQ MQ1 MD1 D1DR Q1D NE : Nat)
    (sBG q_ x_ b_ g_ : Buf R) (e c : Nat) (s : Buf R × Buf R × Buf R)
    (hQ : Q1D ≤ MQ1) (hR : D1DR ≤ MD1) (hMD : MD1 ≤ MDQ) (hMQ : MQ1 ≤ MDQ)
    (hBv : ∀ q d, q < Q1D → d < D1DR →
      sBG (view2 (MQ1 * MD1) 0 MD1 q d) = Reshape2 b_ Q1D D1DR q d)
    (hGv : ∀ q d, q < Q1D → d < D1DR →
      sBG (view2 (MQ1 * MD1) 1 MD1 q d) = Reshape2 g_ Q1D D1DR q d)
    {qz qy qx : Nat} (hqz : qz < Q1D) (hqy : qy < Q1D) (hqx : qx < Q1D) :
    (SmemPADivergenceApply3D_comp MDQ MQ1 MD1 D1DR Q1D NE sBG q_ x_ e c s).2.2
        (carr3 MQ1 MQ1 qz qy qx) =
      s.2.2 (carr3 MQ1 MQ1 qz qy qx) +
        (interp3D D1DR (fun dx dy dz => Reshape5 x_ D1DR D1DR D1DR 3 NE dx dy dz c e)
            (Reshape2 g_ Q1D D1DR) (Reshape2 b_ Q1D D1DR) (Reshape2 b_ Q1D D1DR) qx qy qz *
          Reshape4 q_ (Q1D * Q1D * Q1D) 3 3 NE (qx + (qy + qz * Q1D) * Q1D) 0 c e +
        interp3D D1DR (fun dx dy dz => Reshape5 x_ D1DR D1DR D1DR 3 NE dx dy dz c e)
            (Reshape2 b_ Q1D D1DR) (Reshape2 g_ Q1D D1DR) (Reshape2 b_ Q1D D1DR) qx qy qz *
          Reshape4 q_ (Q1D * Q1D * Q1D) 3 3 NE (qx + (qy + qz * Q1D) * Q1D) 1 c e +
        interp3D D1DR (fun dx dy dz => Reshape5 x_ D1DR D1DR D1DR 3 NE dx dy dz c e)
            (Reshape2 b_ Q1D D1DR) (Reshape2 b_ Q1D D1DR) (Reshape2 g_ Q1D D1DR) qx qy qz *
          Reshape4 q_ (Q1D * Q1D * Q1D) 3 3 NE (qx + (qy + qz * Q1D) * Q1D) 2 c e) := by
  have hq : ∀ i, i < Q1D → i < MQ1 := fun i hi => Nat.lt_of_lt_of_le hi hQ
  obtain ⟨h0, h1, h2⟩ := SmemPADivergenceApply3D_comp_QQQ MDQ MQ1 MD1 D1DR Q1D NE sBG q_ x_
    b_ g_ e c s hQ hR hMD hMQ hBv hGv hqz hqy hqx
  refine (forLoop_adds_apply (fun qz _ => adds_forLoop (fun qy _ => adds_forLoop (fun qx _ =>
    adds_add _ _))) _ _).trans ?_
  congr 1
  rw [sum3_ite_of_iff hqz hqy hqx]
  · rw [← h0, ← h1, ← h2]
    rfl
  · intro i _ k hk l hl
    exact carr3_inj (hq qy hqy) (hq k hk) (hq qx hqx) (hq l hl)

theorem sum_ite_const {n : Nat} (c : Prop) [Decidable c] (f : Nat → R) :
    (∑ i ∈ Finset.range n, if c then f i else 0) = if c then ∑ i ∈ Finset.range n, f i else 0 := by
  by_cases h : c
  · simp [h]
  · simp [h]

/-- The 3D forward kernel adds `PADivergenceApply3D_inc` to the cells of element `e` and
nothing to any other cell. -/
theorem PADivergenceApply3D_elem_normal (max_Q1D max_TE_D1D : Nat) (junk : Buf R)
    (TR_D1D TE_D1D Q1D NE : Nat) (b g bt op_ x_ : Buf R) (hQ : Q1D ≤ max_Q1D)
    (hD : TE_D1D ≤ max_TE_D1D) (e : Nat) :
    Adds (PADivergenceApply3D_elem max_Q1D max_TE_D1D junk TR_D1D TE_D1D Q1D NE b g bt op_ x_ e)
      (fun j => ∑ dz ∈ Finset.range TE_D1D, ∑ dy ∈ Finset.range TE_D1D,
        ∑ dx ∈ Finset.range TE_D1D,
          if j = idx4 TE_D1D TE_D1D TE_D1D dx dy dz e then
            PADivergenceApply3D_inc TR_D1D TE_D1D Q1D NE b g bt op_ x_ e dz dy dx
          else 0) := by
  intro y j
  rw [PADivergenceApply3D_elem_adds]
  congr 1
  beta_reduce
  rw [Finset.sum_comm]
  refine Finset.sum_congr rfl fun dz hdz => ?_
  rw [Finset.sum_comm]
  refine Finset.sum_congr rfl fun dy hdy => ?_
  rw [Finset.sum_comm]
  refine Finset.sum_congr rfl fun dx hdx => ?_
  rw [sum_ite_const]
  refine if_congr Iff.rfl ?_ rfl
  unfold PADivergenceApply3D_inc
  refine Finset.sum_congr rfl fun qz hqz => ?_
  rw [PADivergenceApply3D_opXY_eq _ _ _ _ _ _ _ _ hD (Finset.mem_range.mp hdy)
    (Finset.mem_range.mp hdx)]
  congr 1
  refine Finset.sum_congr rfl fun qy hqy => ?_
  congr 1
  refine Finset.sum_congr rfl fun qx hqx => ?_
  rw [PADivergenceApply3D_quad_eq _ _ _ _ _ _ _ _ _ _ hQ (Finset.mem_range.mp hqz)
    (Finset.mem_range.mp hqy) (Finset.mem_range.mp hqx)]

/-- The 2D forward kernel adds `PADivergenceApply2D_inc` to the cells of element `e` and
nothing to any other cell. -/
theorem PADivergenceApply2D_elem_normal (max_Q1D : Nat) (junk : Buf R)
    (TR_D1D TE_D1D Q1D NE : Nat) (b g bt op_ x_ : Buf R) (hQ : Q1D ≤ max_Q1D) (e : Nat) :
    Adds (PADivergenceApply2D_elem max_Q1D junk TR_D1D TE_D1D Q1D NE b g bt op_ x_ e)
      (fun j => ∑ dy ∈ Finset.range TE_D1D, ∑ dx ∈ Finset.range TE_D1D,
          if j = idx3 TE_D1D TE_D1D dx dy e then
            PADivergenceApply2D_inc TR_D1D TE_D1D Q1D NE b g bt op_ x_ e dy dx
          else 0) := by
  intro y j
  rw [PADivergenceApply2D_elem_adds]
  congr 1
  beta_reduce
  rw [Finset.sum_comm]
  refine Finset.sum_congr rfl fun dy hdy => ?_
  rw [Finset.sum_comm]
  refine Finset.sum_congr rfl fun dx hdx => ?_
  rw [sum_ite_const]
  refine if_congr Iff.rfl ?_ rfl
  unfold PADivergenceApply2D_inc
  refine Finset.sum_congr rfl fun qy hqy => ?_
  rw [PADivergenceApply2D_opX_eq _ _ _ _ _ _ _ (Finset.mem_range.mp hdx)]
  congr 1
  refine Finset.sum_congr rfl fun qx hqx => ?_
  rw [PADivergenceApply2D_quad_eq _ _ _ _ _ _ _ _ _ _ hQ (Finset.mem_range.mp hqy)
    (Finset.mem_range.mp hqx)]

/-- The tiled 3D kernel adds `PADivergenceApply3D_inc` to the cells of element `e` and
nothing to any other cell. -/
theorem SmemPADivergenceApply3D_elem_normal (MQ1 MD1R MD1E : Nat) (junk : Buf R)
    (D1DR D1DE Q1D NE : Nat) (b_ g_ bt_ q_ x_ : Buf R) (hQ : Q1D ≤ MQ1) (hR : D1DR ≤ MD1R)
    (hE : D1DE ≤ MD1E) (e : Nat) :
    Adds (SmemPADivergenceApply3D_elem MQ1 MD1R MD1E junk D1DR D1DE Q1D NE b_ g_ bt_ q_ x_ e)
      (fun j => ∑ dz ∈ Finset.range D1DE, ∑ dy ∈ Finset.range D1DE,
        ∑ dx ∈ Finset.range D1DE,
          if j = idx4 D1DE D1DE D1DE dx dy dz e then
            PADivergenceApply3D_inc D1DR D1DE Q1D NE b_ g_ bt_ q_ x_ e dz dy dx
          else 0) := by
  have hMD1R : MD1R ≤ (if MD1E > MD1R then MD1E else MD1R) := by split_ifs <;> omega
  have hMD1E : MD1E ≤ (if MD1E > MD1R then MD1E else MD1R) := by split_ifs <;> omega
  generalize hMD1 : (if MD1E > MD1R then MD1E else MD1R) = MD1 at hMD1R hMD1E
  have hMD : MD1 ≤ (if MQ1 > MD1 then MQ1 else MD1) := by split_ifs <;> omega
  have hMQ : MQ1 ≤ (if MQ1 > MD1 then MQ1 else MD1) := by split_ifs <;> omega
  generalize hMDQ : (if MQ1 > MD1 then MQ1 else MD1) = MDQ at hMD hMQ
  have hR2 : D1DR ≤ MD1 := Nat.le_trans hR hMD1R
  have hE2 : D1DE ≤ MD1 := Nat.le_trans hE hMD1E
  have hq : ∀ i, i < Q1D → i < MQ1 := fun i hi => Nat.lt_of_lt_of_le hi hQ
  intro y j
  unfold SmemPADivergenceApply3D_elem
  simp only [hMD1, hMDQ]
  refine (forLoop_adds_apply (fun dz _ => adds_forLoop (fun dy _ => adds_forLoop (fun dx _ =>
    adds_add _ _))) _ _).trans ?_
  congr 1
  refine Finset.sum_congr rfl fun dz hdz => ?_
  refine Finset.sum_congr rfl fun dy hdy => ?_
  refine Finset.sum_congr rfl fun dx hdx => ?_
  refine if_congr Iff.rfl ?_ rfl
  have hdz2 := Finset.mem_range.mp hdz
  have hdy2 := Finset.mem_range.mp hdy
  have hdx2 := Finset.mem_range.mp hdx
  rw [forLoop_sum1]
  unfold PADivergenceApply3D_inc
  refine Finset.sum_congr rfl fun qz hqz => ?_
  have hqz2 := Finset.mem_range.mp hqz
  rw [SmemPADivergenceApply3D_stageQDD_eq _ _ _ _ _ _ _ _ hQ hE2 hMD hMQ hqz2 hdy2 hdx2,
    SmemPADivergenceApply3D_loadBt_eq _ _ _ _ _ _ hQ hE2 hqz2 hdz2, mul_comm]
  congr 1
  refine Finset.sum_congr rfl fun qy hqy => ?_
  have hqy2 := Finset.mem_range.mp hqy
  rw [SmemPADivergenceApply3D_stageQQD_eq _ _ _ _ _ _ _ _ hQ hE2 hMD hMQ hqz2 hqy2 hdx2,
    SmemPADivergenceApply3D_loadBt_eq _ _ _ _ _ _ hQ hE2 hqy2 hdy2, mul_comm]
  congr 1
  refine Finset.sum_congr rfl fun qx hqx => ?_
  have hqx2 := Finset.mem_range.mp hqx
  rw [SmemPADivergenceApply3D_loadBt_eq _ _ _ _ _ _ hQ hE2 hqx2 hdx2, mul_comm]
  congr 1
  -- the divergence at the quadrature point
  refine (forLoop_proj_adds_at (fun s : Buf R × Buf R × Buf R => s.2.2 (carr3 MQ1 MQ1 qz qy qx))
    _ (fun c _ s => SmemPADivergenceApply3D_comp_div MDQ MQ1 MD1 D1DR Q1D NE _ q_ x_ b_ g_ e c s
      hQ hR2 hMD hMQ
      (fun q d hq2 hd2 => (SmemPADivergenceApply3D_loadBG_eq MQ1 MD1 D1DR Q1D b_ g_ junk hQ hR2
        hq2 hd2).1)
      (fun q d hq2 hd2 => (SmemPADivergenceApply3D_loadBG_eq MQ1 MD1 D1DR Q1D b_ g_ junk hQ hR2
        hq2 hd2).2) hqz2 hqy2 hqx2) _).trans ?_
  have hz : Writes (SmemPADivergenceApply3D_zeroDiv (R := R) MQ1 Q1D) _ (fun _ => 0) :=
    writes_forLoop (fun qz _ => writes_forLoop (fun qy _ => writes_forLoop (fun qx _ =>
      writes_set_zero _)))
  rw [show ((junk, junk, SmemPADivergenceApply3D_zeroDiv MQ1 Q1D junk) :
      Buf R × Buf R × Buf R).2.2 (carr3 MQ1 MQ1 qz qy qx) = 0
    from writes_zero_apply hz junk ⟨qz, hqz2, qy, hqy2, qx, hqx2, rfl⟩, zero_add]
  rfl

end Smem3DProofs

/-! ## The kernels in closed form -/

section NormalForms

variable {R : Type u} [CommRing R]

/-- The 2D transpose kernel adds `PADivergenceApplyTranspose2D_inc` to the cells of element
`e` and nothing to any other cell. -/
theorem PADivergenceApplyTranspose2D_elem_normal (max_Q1D : Nat) (junk : Buf R)
    (TR_D1D TE_D1D Q1D NE : Nat) (bt gt b op_ x_ : Buf R) (hQ : Q1D ≤ max_Q1D) (e : Nat) :
    Adds (PADivergenceApplyTranspose2D_elem max_Q1D junk TR_D1D TE_D1D Q1D NE bt gt b op_ x_ e)
      (fun j => ∑ c ∈ Finset.range 2, ∑ dy ∈ Finset.range TR_D1D, ∑ dx ∈ Finset.range TR_D1D,
          if j = idx4 TR_D1D TR_D1D 2 dx dy c e then
            PADivergenceApplyTranspose2D_inc TR_D1D TE_D1D Q1D NE bt gt b op_ x_ e c dy dx
          else 0) := by
  intro y j
  rw [PADivergenceApplyTranspose2D_elem_adds]
  congr 1
  beta_reduce
  refine Finset.sum_congr rfl fun c _ => ?_
  unfold PADivergenceApplyTranspose2D_delta
  rw [Finset.sum_comm]
  refine Finset.sum_congr rfl fun dy hdy => ?_
  rw [Finset.sum_comm]
  refine Finset.sum_congr rfl fun dx hdx => ?_
  rw [sum_ite_const]
  refine if_congr Iff.rfl ?_ rfl
  have hdx2 := Finset.mem_range.mp hdx
  unfold PADivergenceApplyTranspose2D_inc
  refine Finset.sum_congr rfl fun qy hqy => ?_
  rw [(PADivergenceApplyTranspose2D_gradX_eq _ _ _ _ _ _ _ _ hdx2).1,
    (PADivergenceApplyTranspose2D_gradX_eq _ _ _ _ _ _ _ _ hdx2).2]
  congr 2
  · refine Finset.sum_congr rfl fun qx hqx => ?_
    rw [(PADivergenceApplyTranspose2D_grad_eq _ _ _ _ _ _ _ _ hQ (Finset.mem_range.mp hqy)
      (Finset.mem_range.mp hqx)).1, PADivergenceApplyTranspose2D_quadTest_eq _ _ _ _ _ _ _ _
      hQ (Finset.mem_range.mp hqy) (Finset.mem_range.mp hqx)]
  · refine Finset.sum_congr rfl fun qx hqx => ?_
    rw [(PADivergenceApplyTranspose2D_grad_eq _ _ _ _ _ _ _ _ hQ (Finset.mem_range.mp hqy)
      (Finset.mem_range.mp hqx)).2, PADivergenceApplyTranspose2D_quadTest_eq _ _ _ _ _ _ _ _
      hQ (Finset.mem_range.mp hqy) (Finset.mem_range.mp hqx)]

/-- The 3D transpose kernel adds `PADivergenceApplyTranspose3D_inc` to the cells of element
`e` and nothing to any other cell. -/
theorem PADivergenceApplyTranspose3D_elem_normal (max_Q1D max_TR_D1D : Nat) (junk : Buf R)
    (TR_D1D TE_D1D Q1D NE : Nat) (bt gt b op_ x_ : Buf R) (hQ : Q1D ≤ max_Q1D)
    (hD : TR_D1D ≤ max_TR_D1D) (e : Nat) :
    Adds (PADivergenceApplyTranspose3D_elem max_Q1D max_TR_D1D junk TR_D1D TE_D1D Q1D NE bt gt b
        op_ x_ e)
      (fun j => ∑ c ∈ Finset.range 3, ∑ dz ∈ Finset.range TR_D1D, ∑ dy ∈ Finset.range TR_D1D,
        ∑ dx ∈ Finset.range TR_D1D,
          if j = idx5 TR_D1D TR_D1D TR_D1D 3 dx dy dz c e then
            PADivergenceApplyTranspose3D_inc TR_D1D TE_D1D Q1D NE bt gt b op_ x_ e c dz dy dx
          else 0) := by
  intro y j
  rw [PADivergenceApplyTranspose3D_elem_adds]
  congr 1
  beta_reduce
  refine Finset.sum_congr rfl fun c hc => ?_
  unfold PADivergenceApplyTranspose3D_delta
  rw [Finset.sum_comm]
  refine Finset.sum_congr rfl fun dz hdz => ?_
  rw [Finset.sum_comm]
  refine Finset.sum_congr rfl fun dy hdy => ?_
  rw [Finset.sum_comm]
  refine Finset.sum_congr rfl fun dx hdx => ?_
  rw [sum_ite_const]
  refine if_congr Iff.rfl ?_ rfl
  have hdx2 := Finset.mem_range.mp hdx
  have hdy2 := Finset.mem_range.mp hdy
  unfold PADivergenceApplyTranspose3D_inc
  refine Finset.sum_congr rfl fun qz hqz => ?_
  have hqz2 := Finset.mem_range.mp hqz
  rw [(PADivergenceApplyTranspose3D_gradXY_eq _ _ _ _ _ _ _ _ _ hD hdy2 hdx2).1,
    (PADivergenceApplyTranspose3D_gradXY_eq _ _ _ _ _ _ _ _ _ hD hdy2 hdx2).2.1,
    (PADivergenceApplyTranspose3D_gradXY_eq _ _ _ _ _ _ _ _ _ hD hdy2 hdx2).2.2]
  have hcell : ∀ k, k < 3 → ∀ qy, qy ∈ Finset.range Q1D → ∀ qx, qx ∈ Finset.range Q1D →
      PADivergenceApplyTranspose3D_grad max_Q1D Q1D NE op_
        (PADivergenceApplyTranspose3D_quadTest max_Q1D junk TE_D1D Q1D NE b x_ e) c e
        (forLoop c (fun c grad => PADivergenceApplyTranspose3D_grad max_Q1D Q1D NE op_
          (PADivergenceApplyTranspose3D_quadTest max_Q1D junk TE_D1D Q1D NE b x_ e) c e grad)
          junk)
        (carr4 max_Q1D max_Q1D 3 qz qy qx k) =
      interp3D TE_D1D (fun dx dy dz => Reshape4 x_ TE_D1D TE_D1D TE_D1D NE dx dy dz e)
        (Reshape2 b Q1D TE_D1D) (Reshape2 b Q1D TE_D1D) (Reshape2 b Q1D TE_D1D) qx qy qz *
        Reshape4 op_ (Q1D * Q1D * Q1D) 3 3 NE (qx + (qy + qz * Q1D) * Q1D) k c e := by
    intro k hk qy hqy qx hqx
    rw [PADivergenceApplyTranspose3D_grad_eq _ _ _ _ _ _ _ _ hQ hqz2
      (Finset.mem_range.mp hqy) (Finset.mem_range.mp hqx) hk,
      PADivergenceApplyTranspose3D_quadTest_eq _ _ _ _ _ _ _ _ hQ hqz2
      (Finset.mem_range.mp hqy) (Finset.mem_range.mp hqx)]
  rw [Finset.sum_congr rfl (fun qy hqy => congrArg (· * _) (Finset.sum_congr rfl
      (fun qx hqx => congrArg (· * _) (hcell 0 (by decide) qy hqy qx hqx)))),
    Finset.sum_congr rfl (fun qy hqy => congrArg (· * _) (Finset.sum_congr rfl
      (fun qx hqx => congrArg (· * _) (hcell 1 (by decide) qy hqy qx hqx)))),
    Finset.sum_congr rfl (fun qy hqy => congrArg (· * _) (Finset.sum_congr rfl
      (fun qx hqx => congrArg (· * _) (hcell 2 (by decide) qy hqy qx hqx))))]

theorem SmemPADivergenceApply3D_ok (dev lim : DofQuadLimits) (T_TR_D1D T_TE_D1D T_Q1D : Nat)
    (junk : Buf R) (NE : Nat) (b g bt op_ x_ y_ : Buf R) (tr_d1d te_d1d q1d : Nat)
    (h1 : pick T_TR_D1D tr_d1d ≤ dev.MAX_D1D) (h2 : pick T_TE_D1D te_d1d ≤ dev.MAX_D1D)
    (h3 : pick T_Q1D q1d ≤ dev.MAX_Q1D) :
    SmemPADivergenceApply3D dev lim T_TR_D1D T_TE_D1D T_Q1D junk NE b g bt op_ x_ y_
        tr_d1d te_d1d q1d =
      Outcome.ok (forLoop NE (fun e y_ =>
        SmemPADivergenceApply3D_elem (pick T_Q1D lim.MAX_Q1D) (pick T_TR_D1D lim.MAX_D1D)
          (pick T_TE_D1D lim.MAX_D1D) junk
          (pick T_TR_D1D tr_d1d) (pick T_TE_D1D te_d1d) (pick T_Q1D q1d) NE b g bt op_ x_ e y_)
        y_) := by
  simp [SmemPADivergenceApply3D, h1, h2, h3]

theorem SmemPADivergenceApply3D_fatal (dev lim : DofQuadLimits) (T_TR_D1D T_TE_D1D T_Q1D : Nat)
    (junk : Buf R) (NE : Nat) (b g bt op_ x_ y_ : Buf R) (tr_d1d te_d1d q1d : Nat)
    (h : ¬ (pick T_TR_D1D tr_d1d ≤ dev.MAX_D1D ∧ pick T_TE_D1D te_d1d ≤ dev.MAX_D1D ∧
      pick T_Q1D q1d ≤ dev.MAX_Q1D)) :
    SmemPADivergenceApply3D dev lim T_TR_D1D T_TE_D1D T_Q1D junk NE b g bt op_ x_ y_
        tr_d1d te_d1d q1d = Outcome.fatal "" y_ := by
  unfold SmemPADivergenceApply3D
  by_cases h1 : pick T_TR_D1D tr_d1d ≤ dev.MAX_D1D
  · by_cases h2 : pick T_TE_D1D te_d1d ≤ dev.MAX_D1D
    · by_cases h3 : pick T_Q1D q1d ≤ dev.MAX_Q1D
      · exact absurd ⟨h1, h2, h3⟩ h
      · simp [h1, h2, h3]
    · simp [h1, h2]
  · simp [h1]

theorem forLoop_adds_ext {n : Nat} {body : Nat → Buf R → Buf R} {d : Nat → Buf R}
    (hb : ∀ i, i < n → Adds (body i) (d i)) (a : Buf R) :
    forLoop n body a = fun j => a j + ∑ i ∈ Finset.range n, d i j :=
  funext fun j => forLoop_adds_apply hb a j

/-- Within the limits the 2D forward kernel returns the closed form. -/
theorem PADivergenceApply2D_eq_spec (dev lim : DofQuadLimits) (T_TR_D1D T_TE_D1D T_Q1D : Nat)
    (junk : Buf R) (NE : Nat) (b g bt op_ x_ y_ : Buf R) (tr_d1d te_d1d q1d : Nat)
    (h1 : pick T_TR_D1D tr_d1d ≤ dev.MAX_D1D) (h2 : pick T_TE_D1D te_d1d ≤ dev.MAX_D1D)
    (h3 : pick T_Q1D q1d ≤ dev.MAX_Q1D) (hlim : dev.le lim) :
    PADivergenceApply2D dev lim T_TR_D1D T_TE_D1D T_Q1D junk NE b g bt op_ x_ y_
        tr_d1d te_d1d q1d =
      Outcome.ok (PADivergenceApply2D_spec (pick T_TR_D1D tr_d1d) (pick T_TE_D1D te_d1d)
        (pick T_Q1D q1d) NE b g bt op_ x_ y_) := by
  rw [PADivergenceApply2D_ok _ _ _ _ _ _ _ _ _ _ _ _ _ _ _ _ h1 h2 h3,
    forLoop_adds_ext (fun e _ => PADivergenceApply2D_elem_normal _ junk _ _ _ NE b g bt op_ x_
      (pick_le_pick h3 hlim.2) e)]
  rfl

/-- Within the limits the 2D transpose kernel returns the closed form. -/
theorem PADivergenceApplyTranspose2D_eq_spec (dev lim : DofQuadLimits)
    (T_TR_D1D T_TE_D1D T_Q1D : Nat)
    (junk : Buf R) (NE : Nat) (bt gt b op_ x_ y_ : Buf R) (tr_d1d te_d1d q1d : Nat)
    (h1 : pick T_TR_D1D tr_d1d ≤ dev.MAX_D1D) (h2 : pick T_TE_D1D te_d1d ≤ dev.MAX_D1D)
    (h3 : pick T_Q1D q1d ≤ dev.MAX_Q1D) (hlim : dev.le lim) :
    PADivergenceApplyTranspose2D dev lim T_TR_D1D T_TE_D1D T_Q1D junk NE bt gt b op_ x_ y_
        tr_d1d te_d1d q1d =
      Outcome.ok (PADivergenceApplyTranspose2D_spec (pick T_TR_D1D tr_d1d) (pick T_TE_D1D te_d1d)
        (pick T_Q1D q1d) NE bt gt b op_ x_ y_) := by
  rw [PADivergenceApplyTranspose2D_ok _ _ _ _ _ _ _ _ _ _ _ _ _ _ _ _ h1 h2 h3,
    forLoop_adds_ext (fun e _ => PADivergenceApplyTranspose2D_elem_normal _ junk _ _ _ NE bt gt
      b op_ x_ (pick_le_pick h3 hlim.2) e)]
  rfl

/-- Within the limits the 3D forward kernel returns the closed form. -/
theorem PADivergenceApply3D_eq_spec (dev lim : DofQuadLimits) (T_TR_D1D T_TE_D1D T_Q1D : Nat)
    (junk : Buf R) (NE : Nat) (b g bt op_ x_ y_ : Buf R) (tr_d1d te_d1d q1d : Nat)
    (h1 : pick T_TR_D1D tr_d1d ≤ dev.MAX_D1D) (h2 : pick T_TE_D1D te_d1d ≤ dev.MAX_D1D)
    (h3 : pick T_Q1D q1d ≤ dev.MAX_Q1D) (hlim : dev.le lim) :
    PADivergenceApply3D dev lim T_TR_D1D T_TE_D1D T_Q1D junk NE b g bt op_ x_ y_
        tr_d1d te_d1d q1d =
      Outcome.ok (PADivergenceApply3D_spec (pick T_TR_D1D tr_d1d) (pick T_TE_D1D te_d1d)
        (pick T_Q1D q1d) NE b g bt op_ x_ y_) := by
  rw [PADivergenceApply3D_ok _ _ _ _ _ _ _ _ _ _ _ _ _ _ _ _ h1 h2 h3,
    forLoop_adds_ext (fun e _ => PADivergenceApply3D_elem_normal _ _ junk _ _ _ NE b g bt op_ x_
      (pick_le_pick h3 hlim.2) (pick_le_pick h2 hlim.1) e)]
  rfl

/-- Within the limits the 3D transpose kernel returns the closed form. -/
theorem PADivergenceApplyTranspose3D_eq_spec (dev lim : DofQuadLimits)
    (T_TR_D1D T_TE_D1D T_Q1D : Nat)
    (junk : Buf R) (NE : Nat) (bt gt b op_ x_ y_ : Buf R) (tr_d1d te_d1d q1d : Nat)
    (h1 : pick T_TR_D1D tr_d1d ≤ dev.MAX_D1D) (h2 : pick T_TE_D1D te_d1d ≤ dev.MAX_D1D)
    (h3 : pick T_Q1D q1d ≤ dev.MAX_Q1D) (hlim : dev.le lim) :
    PADivergenceApplyTranspose3D dev lim T_TR_D1D T_TE_D1D T_Q1D junk NE bt gt b op_ x_ y_
        tr_d1d te_d1d q1d =
      Outcome.ok (PADivergenceApplyTranspose3D_spec (pick T_TR_D1D tr_d1d) (pick T_TE_D1D te_d1d)
        (pick T_Q1D q1d) NE bt gt b op_ x_ y_) := by
  rw [PADivergenceApplyTranspose3D_ok _ _ _ _ _ _ _ _ _ _ _ _ _ _ _ _ h1 h2 h3,
    forLoop_adds_ext (fun e _ => PADivergenceApplyTranspose3D_elem_normal _ _ junk _ _ _ NE bt gt
      b op_ x_ (pick_le_pick h3 hlim.2) (pick_le_pick h1 hlim.1) e)]
  rfl

/-- Within the limits the tiled 3D forward kernel returns the closed form. -/
theorem SmemPADivergenceApply3D_eq_spec (dev lim : DofQuadLimits) (T_TR_D1D T_TE_D1D T_Q1D : Nat)
    (junk : Buf R) (NE : Nat) (b g bt op_ x_ y_ : Buf R) (tr_d1d te_d1d q1d : Nat)
    (h1 : pick T_TR_D1D tr_d1d ≤ dev.MAX_D1D) (h2 : pick T_TE_D1D te_d1d ≤ dev.MAX_D1D)
    (h3 : pick T_Q1D q1d ≤ dev.MAX_Q1D) (hlim : dev.le lim) :
    SmemPADivergenceApply3D dev lim T_TR_D1D T_TE_D1D T_Q1D junk NE b g bt op_ x_ y_
        tr_d1d te_d1d q1d =
      Outcome.ok (PADivergenceApply3D_spec (pick T_TR_D1D tr_d1d) (pick T_TE_D1D te_d1d)
        (pick T_Q1D q1d) NE b g bt op_ x_ y_) := by
  rw [SmemPADivergenceApply3D_ok _ _ _ _ _ _ _ _ _ _ _ _ _ _ _ _ h1 h2 h3,
    forLoop_adds_ext (fun e _ => SmemPADivergenceApply3D_elem_normal _ _ _ junk _ _ _ NE b g bt
      op_ x_ (pick_le_pick h3 hlim.2) (pick_le_pick h1 hlim.1) (pick_le_pick h2 hlim.1) e)]
  rfl

/-- The 2D forward increment of the zero trial vector is zero. -/
theorem PADivergenceApply2D_inc_zero (TR_D1D TE_D1D Q1D NE : Nat) (b g bt op_ : Buf R)
    (e dy dx : Nat) :
    PADivergenceApply2D_inc TR_D1D TE_D1D Q1D NE b g bt op_ (fun _ => 0) e dy dx = 0 := by
  simp [PADivergenceApply2D_inc, div2D, interp2D, Reshape4]

/-- The 3D forward increment of the zero trial vector is zero. -/
theorem PADivergenceApply3D_inc_zero (TR_D1D TE_D1D Q1D NE : Nat) (b g bt op_ : Buf R)
    (e dz dy dx : Nat) :
    PADivergenceApply3D_inc TR_D1D TE_D1D Q1D NE b g bt op_ (fun _ => 0) e dz dy dx = 0 := by
  simp [PADivergenceApply3D_inc, div3D, interp3D, Reshape5]

/-- The closed form of the 2D forward kernel at the zero trial vector is the initial output. -/
theorem PADivergenceApply2D_spec_zero (TR_D1D TE_D1D Q1D NE : Nat) (b g bt op_ y_ : Buf R) :
    PADivergenceApply2D_spec TR_D1D TE_D1D Q1D NE b g bt op_ (fun _ => 0) y_ = y_ := by
  funext j
  simp [PADivergenceApply2D_spec, PADivergenceApply2D_inc_zero]

/-- The closed form of the 3D forward kernel at the zero trial vector is the initial output. -/
theorem PADivergenceApply3D_spec_zero (TR_D1D TE_D1D Q1D NE : Nat) (b g bt op_ y_ : Buf R) :
    PADivergenceApply3D_spec TR_D1D TE_D1D Q1D NE b g bt op_ (fun _ => 0) y_ = y_ := by
  funext j
  simp [PADivergenceApply3D_spec, PADivergenceApply3D_inc_zero]

end NormalForms

/-! ## Setup kernels -/

section SetupProofs

variable {R : Type u} [CommRing R]

theorem setupCell2D_at (NQ : Nat) (w j : Buf R) (COEFF : R) {q : Nat} (e : Nat) (hq : q < NQ) :
    setupCell2D NQ w j COEFF (idx4 NQ 2 2 q 0 0 e) = w q * COEFF * j (idx4 NQ 2 2 q 1 1 e) ∧
    setupCell2D NQ w j COEFF (idx4 NQ 2 2 q 0 1 e) = w q * COEFF * -j (idx4 NQ 2 2 q 0 1 e) ∧
    setupCell2D NQ w j COEFF (idx4 NQ 2 2 q 1 0 e) = w q * COEFF * -j (idx4 NQ 2 2 q 1 0 e) ∧
    setupCell2D NQ w j COEFF (idx4 NQ 2 2 q 1 1 e) = w q * COEFF * j (idx4 NQ 2 2 q 0 0 e) := by
  have h00 := idx4_decode e hq (by decide : 0 < 2) (by decide : 0 < 2)
  have h01 := idx4_decode e hq (by decide : 0 < 2) (by decide : 1 < 2)
  have h10 := idx4_decode e hq (by decide : 1 < 2) (by decide : 0 < 2)
  have h11 := idx4_decode e hq (by decide : 1 < 2) (by decide : 1 < 2)
  refine ⟨?_, ?_, ?_, ?_⟩
  · simp [setupCell2D, h00]
  · simp [setupCell2D, h01]
  · simp [setupCell2D, h10]
  · simp [setupCell2D, h11]

theorem PADivergenceSetup2D_writes (Q1D NE : Nat) (w j : Buf R) (COEFF : R) :
    Writes (PADivergenceSetup2D Q1D NE w j COEFF)
      (fun i => ∃ e, e < NE ∧ ∃ q, q < Q1D * Q1D ∧ blockCells (Q1D * Q1D) 2 q e i)
      (setupCell2D (Q1D * Q1D) w j COEFF) := by
  intro a i
  have key : Writes (PADivergenceSetup2D Q1D NE w j COEFF)
      (fun i => ∃ e, e < NE ∧ ∃ q, q < Q1D * Q1D ∧
        (((i = idx4 (Q1D * Q1D) 2 2 q 0 0 e ∨ i = idx4 (Q1D * Q1D) 2 2 q 0 1 e) ∨
          i = idx4 (Q1D * Q1D) 2 2 q 1 0 e) ∨ i = idx4 (Q1D * Q1D) 2 2 q 1 1 e))
      (setupCell2D (Q1D * Q1D) w j COEFF) := by
    apply writes_forLoop
    intro e _
    apply writes_forLoop
    intro q hq
    obtain ⟨c00, c01, c10, c11⟩ := setupCell2D_at (Q1D * Q1D) w j COEFF e hq
    exact writes_comp (writes_comp (writes_comp (writes_set c00.symm) (writes_set c01.symm))
      (writes_set c10.symm)) (writes_set c11.symm)
  have hiff : (∃ e, e < NE ∧ ∃ q, q < Q1D * Q1D ∧ blockCells (Q1D * Q1D) 2 q e i) ↔
      (∃ e, e < NE ∧ ∃ q, q < Q1D * Q1D ∧
        (((i = idx4 (Q1D * Q1D) 2 2 q 0 0 e ∨ i = idx4 (Q1D * Q1D) 2 2 q 0 1 e) ∨
          i = idx4 (Q1D * Q1D) 2 2 q 1 0 e) ∨ i = idx4 (Q1D * Q1D) 2 2 q 1 1 e)) := by
    constructor
    · rintro ⟨e, he, q, hq, r, hr, c, hc, rfl⟩
      refine ⟨e, he, q, hq, ?_⟩
      interval_cases r <;> interval_cases c <;> simp
    · rintro ⟨e, he, q, hq, h⟩
      refine ⟨e, he, q, hq, ?_⟩
      rcases h with ((h | h) | h) | h
      · exact ⟨0, by decide, 0, by decide, h⟩
      · exact ⟨0, by decide, 1, by decide, h⟩
      · exact ⟨1, by decide, 0, by decide, h⟩
      · exact ⟨1, by decide, 1, by decide, h⟩
  constructor
  · intro h
    exact (key a i).1 (hiff.mp h)
  · intro h
    exact (key a i).2 (fun h2 => h (hiff.mpr h2))

theorem blockCells_three_iff (NQ q e i : Nat) :
    blockCells NQ 3 q e i ↔
      ((((((((i = idx4 NQ 3 3 q 0 0 e ∨ i = idx4 NQ 3 3 q 0 1 e) ∨ i = idx4 NQ 3 3 q 0 2 e) ∨
        i = idx4 NQ 3 3 q 1 0 e) ∨ i = idx4 NQ 3 3 q 1 1 e) ∨ i = idx4 NQ 3 3 q 1 2 e) ∨
        i = idx4 NQ 3 3 q 2 0 e) ∨ i = idx4 NQ 3 3 q 2 1 e) ∨ i = idx4 NQ 3 3 q 2 2 e) := by
  constructor
  · rintro ⟨r, hr, c, hc, rfl⟩
    interval_cases r <;> interval_cases c <;> simp
  · intro h
    rcases h with (((((((h | h) | h) | h) | h) | h) | h) | h) | h
    · exact ⟨0, by decide, 0, by decide, h⟩
    · exact ⟨0, by decide, 1, by decide, h⟩
    · exact ⟨0, by decide, 2, by decide, h⟩
    · exact ⟨1, by decide, 0, by decide, h⟩
    · exact ⟨1, by decide, 1, by decide, h⟩
    · exact ⟨1, by decide, 2, by decide, h⟩
    · exact ⟨2, by decide, 0, by decide, h⟩
    · exact ⟨2, by decide, 1, by decide, h⟩
    · exact ⟨2, by decide, 2, by decide, h⟩

theorem PADivergenceSetup3D_writes (Q1D NE : Nat) (w j : Buf R) (COEFF : R) :
    Writes (PADivergenceSetup3D Q1D NE w j COEFF)
      (fun i => ∃ e, e < NE ∧ ∃ q, q < Q1D * Q1D * Q1D ∧ blockCells (Q1D * Q1D * Q1D) 3 q e i)
      (setupCell3D (Q1D * Q1D * Q1D) w j COEFF) := by
  have key : Writes (PADivergenceSetup3D Q1D NE w j COEFF)
      (fun i => ∃ e, e < NE ∧ ∃ q, q < Q1D * Q1D * Q1D ∧
        ((((((((i = idx4 (Q1D * Q1D * Q1D) 3 3 q 0 0 e ∨ i = idx4 (Q1D * Q1D * Q1D) 3 3 q 0 1 e) ∨
        i = idx4 (Q1D * Q1D * Q1D) 3 3 q 0 2 e) ∨ i = idx4 (Q1D * Q1D * Q1D) 3 3 q 1 0 e) ∨
        i = idx4 (Q1D * Q1D * Q1D) 3 3 q 1 1 e) ∨ i = idx4 (Q1D * Q1D * Q1D) 3 3 q 1 2 e) ∨
        i = idx4 (Q1D * Q1D * Q1D) 3 3 q 2 0 e) ∨ i = idx4 (Q1D * Q1D * Q1D) 3 3 q 2 1 e) ∨
        i = idx4 (Q1D * Q1D * Q1D) 3 3 q 2 2 e))
      (setupCell3D (Q1D * Q1D * Q1D) w j COEFF) := by
    apply writes_forLoop
    intro e _
    apply writes_forLoop
    intro q hq
    have h00 := idx4_decode e hq (by decide : 0 < 3) (by decide : 0 < 3)
    have h01 := idx4_decode e hq (by decide : 0 < 3) (by decide : 1 < 3)
    have h02 := idx4_decode e hq (by decide : 0 < 3) (by decide : 2 < 3)
    have h10 := idx4_decode e hq (by decide : 1 < 3) (by decide : 0 < 3)
    have h11 := idx4_decode e hq (by decide : 1 < 3) (by decide : 1 < 3)
    have h12 := idx4_decode e hq (by decide : 1 < 3) (by decide : 2 < 3)
    have h20 := idx4_decode e hq (by decide : 2 < 3) (by decide : 0 < 3)
    have h21 := idx4_decode e hq (by decide : 2 < 3) (by decide : 1 < 3)
    have h22 := idx4_decode e hq (by decide : 2 < 3) (by decide : 2 < 3)
    refine writes_comp (writes_comp (writes_comp (writes_comp (writes_comp (writes_comp
      (writes_comp (writes_comp (writes_set ?_) (writes_set ?_)) (writes_set ?_))
      (writes_set ?_)) (writes_set ?_)) (writes_set ?_)) (writes_set ?_)) (writes_set ?_))
      (writes_set ?_)
    · simp [setupCell3D, h00]
    · simp [setupCell3D, h01]
    · simp [setupCell3D, h02]
    · simp [setupCell3D, h10]
    · simp [setupCell3D, h11]
    · simp [setupCell3D, h12]
    · simp [setupCell3D, h20]
    · simp [setupCell3D, h21]
    · simp [setupCell3D, h22]
  intro a i
  have hiff : (∃ e, e < NE ∧ ∃ q, q < Q1D * Q1D * Q1D ∧
      blockCells (Q1D * Q1D * Q1D) 3 q e i) ↔ _ :=
    exists_congr fun e => and_congr_right fun _ => exists_congr fun q =>
      and_congr_right fun _ => blockCells_three_iff (Q1D * Q1D * Q1D) q e i
  constructor
  · intro h
    exact (key a i).1 (hiff.mp h)
  · intro h
    exact (key a i).2 (fun h2 => h (hiff.mpr h2))

/-- The value of `PADivergenceSetup3D` in the nine cells of a block. -/
theorem PADivergenceSetup3D_cell (Q1D NE : Nat) (w j : Buf R) (COEFF : R) (op : Buf R)
    {q e r c : Nat} (hq : q < Q1D * Q1D * Q1D) (he : e < NE) (hr : r < 3) (hc : c < 3) :
    PADivergenceSetup3D Q1D NE w j COEFF op (idx4 (Q1D * Q1D * Q1D) 3 3 q r c e) =
      setupCell3D (Q1D * Q1D * Q1D) w j COEFF (idx4 (Q1D * Q1D * Q1D) 3 3 q r c e) :=
  (PADivergenceSetup3D_writes Q1D NE w j COEFF op _).1 ⟨e, he, q, hq, r, hr, c, hc, rfl⟩

/-- The value of `PADivergenceSetup2D` in the four cells of a block. -/
theorem PADivergenceSetup2D_cell (Q1D NE : Nat) (w j : Buf R) (COEFF : R) (op : Buf R)
    {q e r c : Nat} (hq : q < Q1D * Q1D) (he : e < NE) (hr : r < 2) (hc : c < 2) :
    PADivergenceSetup2D Q1D NE w j COEFF op (idx4 (Q1D * Q1D) 2 2 q r c e) =
      setupCell2D (Q1D * Q1D) w j COEFF (idx4 (Q1D * Q1D) 2 2 q r c e) :=
  (PADivergenceSetup2D_writes Q1D NE w j COEFF op _).1 ⟨e, he, q, hq, r, hr, c, hc, rfl⟩

/-- Every flat index below `n1 * n2 * n3 * n4` is the index of a cell `(i1, i2, i3, i4)`. -/
theorem idx4_surj {n1 n2 n3 n4 i : Nat} (h : i < n1 * n2 * n3 * n4) :
    ∃ i1, i1 < n1 ∧ ∃ i2, i2 < n2 ∧ ∃ i3, i3 < n3 ∧ ∃ i4, i4 < n4 ∧
      i = idx4 n1 n2 n3 i1 i2 i3 i4 := by
  have h1 : 0 < n1 := by
    rcases Nat.eq_zero_or_pos n1 with h0 | h0
    · simp [h0] at h
    · exact h0
  have h2 : 0 < n2 := by
    rcases Nat.eq_zero_or_pos n2 with h0 | h0
    · simp [h0] at h
    · exact h0
  have h3 : 0 < n3 := by
    rcases Nat.eq_zero_or_pos n3 with h0 | h0
    · simp [h0] at h
    · exact h0
  refine ⟨i % n1, Nat.mod_lt _ h1, i / n1 % n2, Nat.mod_lt _ h2, i / n1 / n2 % n3,
    Nat.mod_lt _ h3, i / n1 / n2 / n3, ?_, ?_⟩
  · rw [Nat.div_div_eq_div_mul, Nat.div_div_eq_div_mul]
    exact Nat.div_lt_of_lt_mul (by rwa [Nat.mul_assoc n1 n2 n3] at h)
  · simp only [idx4, idx3, idx2]
    rw [Nat.mod_add_div (i / n1 / n2) n3, Nat.mod_add_div (i / n1) n2, Nat.mod_add_div i n1]

theorem PADivergenceSetup_two (TR_D1D TE_D1D Q1D NE : Nat) (W J : Buf R) (COEFF : R)
    (op : Buf R) :
    PADivergenceSetup 2 TR_D1D TE_D1D Q1D NE W J COEFF op =
      Outcome.ok (PADivergenceSetup2D Q1D NE W J COEFF op) := by
  simp [PADivergenceSetup]

theorem PADivergenceSetup_three (TR_D1D TE_D1D Q1D NE : Nat) (W J : Buf R) (COEFF : R)
    (op : Buf R) :
    PADivergenceSetup 3 TR_D1D TE_D1D Q1D NE W J COEFF op =
      Outcome.ok (PADivergenceSetup3D Q1D NE W J COEFF op) := by
  simp [PADivergenceSetup]

/-- The block of `setupCell2D` at `(q, e)` reads `w[q]` and the Jacobian block at `(q, e)`
only. -/
theorem setupCell2D_congr (NQ : Nat) {w w2 j j2 : Buf R} (COEFF : R) {q e r c : Nat}
    (hq : q < NQ) (hr : r < 2) (hc : c < 2) (hw : w q = w2 q)
    (hj : ∀ r c, r < 2 → c < 2 → j (idx4 NQ 2 2 q r c e) = j2 (idx4 NQ 2 2 q r c e)) :
    setupCell2D NQ w j COEFF (idx4 NQ 2 2 q r c e) =
      setupCell2D NQ w2 j2 COEFF (idx4 NQ 2 2 q r c e) := by
  obtain ⟨d1, d2, d3, d4⟩ := idx4_decode e hq hr hc
  simp only [setupCell2D, d1, d2, d3, d4, hw, hj 0 0 (by decide) (by decide),
    hj 0 1 (by decide) (by decide), hj 1 0 (by decide) (by decide),
    hj 1 1 (by decide) (by decide)]

/-- The block of `setupCell3D` at `(q, e)` reads `w[q]` and the Jacobian block at `(q, e)`
only. -/
theorem setupCell3D_congr (NQ : Nat) {w w2 j j2 : Buf R} (COEFF : R) {q e r c : Nat}
    (hq : q < NQ) (hr : r < 3) (hc : c < 3) (hw : w q = w2 q)
    (hj : ∀ r c, r < 3 → c < 3 → j (idx4 NQ 3 3 q r c e) = j2 (idx4 NQ 3 3 q r c e)) :
    setupCell3D NQ w j COEFF (idx4 NQ 3 3 q r c e) =
      setupCell3D NQ w2 j2 COEFF (idx4 NQ 3 3 q r c e) := by
  obtain ⟨d1, d2, d3, d4⟩ := idx4_decode e hq hr hc
  simp only [setupCell3D, d1, d2, d3, d4, hw, hj 0 0 (by decide) (by decide),
    hj 0 1 (by decide) (by decide), hj 0 2 (by decide) (by decide),
    hj 1 0 (by decide) (by decide), hj 1 1 (by decide) (by decide),
    hj 1 2 (by decide) (by decide), hj 2 0 (by decide) (by decide),
    hj 2 1 (by decide) (by decide), hj 2 2 (by decide) (by decide)]

/-- The block stored by `PADivergenceSetup2D` at `(q, e)`, as a matrix. -/
theorem PADivergenceSetup2D_block (Q1D NE : Nat) (w j : Buf R) (COEFF : R) (op : Buf R)
    {q e : Nat} (hq : q < Q1D * Q1D) (he : e < NE) :
    (fun r c => PADivergenceSetup2D Q1D NE w j COEFF op (idx4 (Q1D * Q1D) 2 2 q r c e) :
        Matrix (Fin 2) (Fin 2) R) =
      (w q * COEFF) • Matrix.adjugate
        (fun r c => j (idx4 (Q1D * Q1D) 2 2 q r c e) : Matrix (Fin 2) (Fin 2) R) := by
  obtain ⟨c00, c01, c10, c11⟩ := setupCell2D_at (Q1D * Q1D) w j COEFF e hq
  ext r c
  rw [PADivergenceSetup2D_cell Q1D NE w j COEFF op hq he r.2 c.2]
  fin_cases r <;> fin_cases c
  · simpa [Matrix.adjugate_fin_two] using c00
  · simpa [Matrix.adjugate_fin_two] using c01
  · simpa [Matrix.adjugate_fin_two] using c10
  · simpa [Matrix.adjugate_fin_two] using c11

/-- The block stored by `PADivergenceSetup3D` at `(q, e)`, as a matrix. -/
theorem PADivergenceSetup3D_block (Q1D NE : Nat) (w j : Buf R) (COEFF : R) (op : Buf R)
    {q e : Nat} (hq : q < Q1D * Q1D * Q1D) (he : e < NE) :
    (fun r c => PADivergenceSetup3D Q1D NE w j COEFF op
        (idx4 (Q1D * Q1D * Q1D) 3 3 q r c e) : Matrix (Fin 3) (Fin 3) R) =
      (w q * COEFF) • Matrix.adjugate
        (fun r c => j (idx4 (Q1D * Q1D * Q1D) 3 3 q r c e) : Matrix (Fin 3) (Fin 3) R) := by
  ext r c
  have hcell := PADivergenceSetup3D_cell Q1D NE w j COEFF op hq he r.2 c.2
  have hd := idx4_decode e hq r.2 c.2
  rw [hcell]
  fin_cases r <;> fin_cases c <;>
    simp [setupCell3D, Matrix.adjugate_fin_three] at hd ⊢ <;>
    simp [hd] <;> ring

/-- Past the two assertions, `AssemblePA` with a usable coefficient wraps the outcome of
`PADivergenceSetup` run with that coefficient on the resized `pa_data`. -/
theorem VectorDivergenceIntegrator_AssemblePA_run (MFEM_DEBUG : Bool) (env : AssemblePA_Env R)
    (Q : Option (Coefficient R)) (resized : Buf R) (self : VectorDivergenceIntegrator R)
    (coeff : R)
    (hpre : MFEM_DEBUG = true → env.ordering_byNODES = true ∧ env.trial_nqpt = env.test_nqpt)
    (hQ : Q = none ∧ coeff = 1 ∨ Q = some (Coefficient.ConstantCoefficient coeff)) :
    (VectorDivergenceIntegrator_AssemblePA MFEM_DEBUG env Q resized self).failed =
      (PADivergenceSetup env.dim env.trial_ndof env.test_ndof env.trial_nqpt env.ne
        env.weights env.J coeff resized).failed ∧
    (VectorDivergenceIntegrator_AssemblePA MFEM_DEBUG env Q resized self).out.pa_data =
      (PADivergenceSetup env.dim env.trial_ndof env.test_ndof env.trial_nqpt env.ne
        env.weights env.J coeff resized).out := by
  have h1 : ¬ (MFEM_DEBUG = true ∧ ¬ env.ordering_byNODES = true) :=
    fun h => h.2 (hpre h.1).1
  have h2 : ¬ (MFEM_DEBUG = true ∧ ¬ env.trial_nqpt = env.test_nqpt) :=
    fun h => h.2 (hpre h.1).2
  rcases hQ with ⟨rfl, rfl⟩ | rfl
  · simp only [VectorDivergenceIntegrator_AssemblePA, h1, h2, if_false]
    cases PADivergenceSetup env.dim env.trial_ndof env.test_ndof env.trial_nqpt env.ne
      env.weights env.J 1 resized <;> exact ⟨rfl, rfl⟩
  · simp only [VectorDivergenceIntegrator_AssemblePA, h1, h2, if_false]
    cases PADivergenceSetup env.dim env.trial_ndof env.test_ndof env.trial_nqpt env.ne
      env.weights env.J coeff resized <;> exact ⟨rfl, rfl⟩

/-- Past the two assertions, `AssemblePA` with a coefficient that is not a
`ConstantCoefficient` aborts with `pa_data` resized and not written. -/
theorem VectorDivergenceIntegrator_AssemblePA_other (MFEM_DEBUG : Bool) (env : AssemblePA_Env R)
    (resized : Buf R) (self : VectorDivergenceIntegrator R)
    (hpre : MFEM_DEBUG = true → env.ordering_byNODES = true ∧ env.trial_nqpt = env.test_nqpt) :
    VectorDivergenceIntegrator_AssemblePA MFEM_DEBUG env (some Coefficient.other) resized self =
      Outcome.fatal "only ConstantCoefficient is supported!"
        ⟨env.nq, env.dim, env.ne, env.trial_ndof, env.trial_nqpt, env.test_ndof,
          env.nq * (env.dims * env.dims) * env.ne, resized⟩ := by
  have h1 : ¬ (MFEM_DEBUG = true ∧ ¬ env.ordering_byNODES = true) :=
    fun h => h.2 (hpre h.1).1
  have h2 : ¬ (MFEM_DEBUG = true ∧ ¬ env.trial_nqpt = env.test_nqpt) :=
    fun h => h.2 (hpre h.1).2
  simp only [VectorDivergenceIntegrator_AssemblePA, h1, h2, if_false]

end SetupProofs

/-! ## Element locality of the apply kernels -/

section ElementLocal

variable {R : Type u} [CommRing R]

theorem interp2D_congr (D1D : Nat) {u u2 : Nat → Nat → R}
    (h : ∀ dx dy, dx < D1D → dy < D1D → u dx dy = u2 dx dy) (Mx My : Nat → Nat → R)
    (qx qy : Nat) : interp2D D1D u Mx My qx qy = interp2D D1D u2 Mx My qx qy := by
  unfold interp2D
  refine Finset.sum_congr rfl (fun dy hdy => ?_)
  refine congrArg (· * _) (Finset.sum_congr rfl (fun dx hdx => ?_))
  rw [h dx dy (Finset.mem_range.mp hdx) (Finset.mem_range.mp hdy)]

theorem interp3D_congr (D1D : Nat) {u u2 : Nat → Nat → Nat → R}
    (h : ∀ dx dy dz, dx < D1D → dy < D1D → dz < D1D → u dx dy dz = u2 dx dy dz)
    (Mx My Mz : Nat → Nat → R) (qx qy qz : Nat) :
    interp3D D1D u Mx My Mz qx qy qz = interp3D D1D u2 Mx My Mz qx qy qz := by
  unfold interp3D
  refine Finset.sum_congr rfl (fun dz hdz => ?_)
  refine congrArg (· * _) (Finset.sum_congr rfl (fun dy hdy => ?_))
  refine congrArg (· * _) (Finset.sum_congr rfl (fun dx hdx => ?_))
  rw [h dx dy dz (Finset.mem_range.mp hdx) (Finset.mem_range.mp hdy) (Finset.mem_range.mp hdz)]

theorem quad2_lt {Q1D qx qy : Nat} (hqx : qx < Q1D) (hqy : qy < Q1D) :
    qx + qy * Q1D < Q1D * Q1D := by
  have h := idx2_lt hqx hqy
  rwa [idx2, Nat.mul_comm Q1D qy] at h

theorem quad3_lt {Q1D qx qy qz : Nat} (hqx : qx < Q1D) (hqy : qy < Q1D) (hqz : qz < Q1D) :
    qx + (qy + qz * Q1D) * Q1D < Q1D * Q1D * Q1D := by
  have h := idx2_lt hqx (quad2_lt hqy hqz)
  rwa [idx2, Nat.mul_comm Q1D (qy + qz * Q1D), ← Nat.mul_assoc] at h

/-- The divergence value at a point of element `e` reads `x` and `op` in the slices of `e`
only. -/
theorem div2D_congr (TR_D1D Q1D NE : Nat) (b g : Buf R) {op_ op2 x_ x2 : Buf R} {e : Nat}
    (hx : ∀ dx dy c, dx < TR_D1D → dy < TR_D1D → c < 2 →
      Reshape4 x_ TR_D1D TR_D1D 2 NE dx dy c e = Reshape4 x2 TR_D1D TR_D1D 2 NE dx dy c e)
    (hop : ∀ q k c, q < Q1D * Q1D → k < 2 → c < 2 →
      Reshape4 op_ (Q1D * Q1D) 2 2 NE q k c e = Reshape4 op2 (Q1D * Q1D) 2 2 NE q k c e)
    {qy qx : Nat} (hqy : qy < Q1D) (hqx : qx < Q1D) :
    div2D TR_D1D Q1D NE b g op_ x_ e qy qx = div2D TR_D1D Q1D NE b g op2 x2 e qy qx := by
  simp only [div2D]
  refine Finset.sum_congr rfl (fun c hc => ?_)
  have hc2 := Finset.mem_range.mp hc
  rw [interp2D_congr TR_D1D (fun dx dy hdx hdy => hx dx dy c hdx hdy hc2),
    interp2D_congr TR_D1D (fun dx dy hdx hdy => hx dx dy c hdx hdy hc2),
    hop _ 0 c (quad2_lt hqx hqy) (by decide) hc2, hop _ 1 c (quad2_lt hqx hqy) (by decide) hc2]

theorem div3D_congr (TR_D1D Q1D NE : Nat) (b g : Buf R) {op_ op2 x_ x2 : Buf R} {e : Nat}
    (hx : ∀ dx dy dz c, dx < TR_D1D → dy < TR_D1D → dz < TR_D1D → c < 3 →
      Reshape5 x_ TR_D1D TR_D1D TR_D1D 3 NE dx dy dz c e =
        Reshape5 x2 TR_D1D TR_D1D TR_D1D 3 NE dx dy dz c e)
    (hop : ∀ q k c, q < Q1D * Q1D * Q1D → k < 3 → c < 3 →
      Reshape4 op_ (Q1D * Q1D * Q1D) 3 3 NE q k c e =
        Reshape4 op2 (Q1D * Q1D * Q1D) 3 3 NE q k c e)
    {qz qy qx : Nat} (hqz : qz < Q1D) (hqy : qy < Q1D) (hqx : qx < Q1D) :
    div3D TR_D1D Q1D NE b g op_ x_ e qz qy qx = div3D TR_D1D Q1D NE b g op2 x2 e qz qy qx := by
  simp only [div3D]
  refine Finset.sum_congr rfl (fun c hc => ?_)
  have hc2 := Finset.mem_range.mp hc
  rw [interp3D_congr TR_D1D (fun dx dy dz hdx hdy hdz => hx dx dy dz c hdx hdy hdz hc2),
    interp3D_congr TR_D1D (fun dx dy dz hdx hdy hdz => hx dx dy dz c hdx hdy hdz hc2),
    interp3D_congr TR_D1D (fun dx dy dz hdx hdy hdz => hx dx dy dz c hdx hdy hdz hc2),
    hop _ 0 c (quad3_lt hqx hqy hqz) (by decide) hc2,
    hop _ 1 c (quad3_lt hqx hqy hqz) (by decide) hc2,
    hop _ 2 c (quad3_lt hqx hqy hqz) (by decide) hc2]

theorem PADivergenceApply2D_inc_congr (TR_D1D TE_D1D Q1D NE : Nat) (b g bt : Buf R)
    {op_ op2 x_ x2 : Buf R} {e : Nat}
    (hx : ∀ dx dy c, dx < TR_D1D → dy < TR_D1D → c < 2 →
      Reshape4 x_ TR_D1D TR_D1D 2 NE dx dy c e = Reshape4 x2 TR_D1D TR_D1D 2 NE dx dy c e)
    (hop : ∀ q k c, q < Q1D * Q1D → k < 2 → c < 2 →
      Reshape4 op_ (Q1D * Q1D) 2 2 NE q k c e = Reshape4 op2 (Q1D * Q1D) 2 2 NE q k c e)
    (dy dx : Nat) :
    PADivergenceApply2D_inc TR_D1D TE_D1D Q1D NE b g bt op_ x_ e dy dx =
      PADivergenceApply2D_inc TR_D1D TE_D1D Q1D NE b g bt op2 x2 e dy dx := by
  unfold PADivergenceApply2D_inc
  refine Finset.sum_congr rfl (fun qy hqy => congrArg (_ * ·) ?_)
  refine Finset.sum_congr rfl (fun qx hqx => congrArg (_ * ·) ?_)
  exact div2D_congr TR_D1D Q1D NE b g hx hop (Finset.mem_range.mp hqy) (Finset.mem_range.mp hqx)

theorem PADivergenceApply3D_inc_congr (TR_D1D TE_D1D Q1D NE : Nat) (b g bt : Buf R)
    {op_ op2 x_ x2 : Buf R} {e : Nat}
    (hx : ∀ dx dy dz c, dx < TR_D1D → dy < TR_D1D → dz < TR_D1D → c < 3 →
      Reshape5 x_ TR_D1D TR_D1D TR_D1D 3 NE dx dy dz c e =
        Reshape5 x2 TR_D1D TR_D1D TR_D1D 3 NE dx dy dz c e)
    (hop : ∀ q k c, q < Q1D * Q1D * Q1D → k < 3 → c < 3 →
      Reshape4 op_ (Q1D * Q1D * Q1D) 3 3 NE q k c e =
        Reshape4 op2 (Q1D * Q1D * Q1D) 3 3 NE q k c e)
    (dz dy dx : Nat) :
    PADivergenceApply3D_inc TR_D1D TE_D1D Q1D NE b g bt op_ x_ e dz dy dx =
      PADivergenceApply3D_inc TR_D1D TE_D1D Q1D NE b g bt op2 x2 e dz dy dx := by
  unfold PADivergenceApply3D_inc
  refine Finset.sum_congr rfl (fun qz hqz => congrArg (_ * ·) ?_)
  refine Finset.sum_congr rfl (fun qy hqy => congrArg (_ * ·) ?_)
  refine Finset.sum_congr rfl (fun qx hqx => congrArg (_ * ·) ?_)
  exact div3D_congr TR_D1D Q1D NE b g hx hop (Finset.mem_range.mp hqz)
    (Finset.mem_range.mp hqy) (Finset.mem_range.mp hqx)

theorem PADivergenceApplyTranspose2D_inc_congr (TR_D1D TE_D1D Q1D NE : Nat) (bt gt b : Buf R)
    {op_ op2 x_ x2 : Buf R} {e : Nat}
    (hx : ∀ dx dy, dx < TE_D1D → dy < TE_D1D →
      Reshape3 x_ TE_D1D TE_D1D NE dx dy e = Reshape3 x2 TE_D1D TE_D1D NE dx dy e)
    (hop : ∀ q k c, q < Q1D * Q1D → k < 2 → c < 2 →
      Reshape4 op_ (Q1D * Q1D) 2 2 NE q k c e = Reshape4 op2 (Q1D * Q1D) 2 2 NE q k c e)
    {c : Nat} (hc : c < 2) (dy dx : Nat) :
    PADivergenceApplyTranspose2D_inc TR_D1D TE_D1D Q1D NE bt gt b op_ x_ e c dy dx =
      PADivergenceApplyTranspose2D_inc TR_D1D TE_D1D Q1D NE bt gt b op2 x2 e c dy dx := by
  simp only [PADivergenceApplyTranspose2D_inc]
  refine Finset.sum_congr rfl (fun qy hqy => ?_)
  have hqy2 := Finset.mem_range.mp hqy
  have hin : ∀ qx, qx < Q1D → ∀ k, k < 2 →
      interp2D TE_D1D (fun dx dy => Reshape3 x_ TE_D1D TE_D1D NE dx dy e)
          (Reshape2 b Q1D TE_D1D) (Reshape2 b Q1D TE_D1D) qx qy *
          Reshape4 op_ (Q1D * Q1D) 2 2 NE (qx + qy * Q1D) k c e =
        interp2D TE_D1D (fun dx dy => Reshape3 x2 TE_D1D TE_D1D NE dx dy e)
          (Reshape2 b Q1D TE_D1D) (Reshape2 b Q1D TE_D1D) qx qy *
          Reshape4 op2 (Q1D * Q1D) 2 2 NE (qx + qy * Q1D) k c e := by
    intro qx hqx k hk
    rw [interp2D_congr TE_D1D (fun dx dy hdx hdy => hx dx dy hdx hdy),
      hop _ k c (quad2_lt hqx hqy2) hk hc]
  rw [Finset.sum_congr rfl (fun qx hqx => congrArg (· * _)
      (hin qx (Finset.mem_range.mp hqx) 0 (by decide))),
    Finset.sum_congr rfl (fun qx hqx => congrArg (· * Reshape2 bt TR_D1D Q1D dx qx)
      (hin qx (Finset.mem_range.mp hqx) 1 (by decide)))]

theorem PADivergenceApplyTranspose3D_inc_congr (TR_D1D TE_D1D Q1D NE : Nat) (bt gt b : Buf R)
    {op_ op2 x_ x2 : Buf R} {e : Nat}
    (hx : ∀ dx dy dz, dx < TE_D1D → dy < TE_D1D → dz < TE_D1D →
      Reshape4 x_ TE_D1D TE_D1D TE_D1D NE dx dy dz e =
        Reshape4 x2 TE_D1D TE_D1D TE_D1D NE dx dy dz e)
    (hop : ∀ q k c, q < Q1D * Q1D * Q1D → k < 3 → c < 3 →
      Reshape4 op_ (Q1D * Q1D * Q1D) 3 3 NE q k c e =
        Reshape4 op2 (Q1D * Q1D * Q1D) 3 3 NE q k c e)
    {c : Nat} (hc : c < 3) (dz dy dx : Nat) :
    PADivergenceApplyTranspose3D_inc TR_D1D TE_D1D Q1D NE bt gt b op_ x_ e c dz dy dx =
      PADivergenceApplyTranspose3D_inc TR_D1D TE_D1D Q1D NE bt gt b op2 x2 e c dz dy dx := by
  simp only [PADivergenceApplyTranspose3D_inc]
  refine Finset.sum_congr rfl (fun qz hqz => ?_)
  have hqz2 := Finset.mem_range.mp hqz
  have hin : ∀ qy, qy < Q1D → ∀ qx, qx < Q1D → ∀ k, k < 3 →
      interp3D TE_D1D (fun dx dy dz => Reshape4 x_ TE_D1D TE_D1D TE_D1D NE dx dy dz e)
          (Reshape2 b Q1D TE_D1D) (Reshape2 b Q1D TE_D1D) (Reshape2 b Q1D TE_D1D) qx qy qz *
          Reshape4 op_ (Q1D * Q1D * Q1D) 3 3 NE (qx + (qy + qz * Q1D) * Q1D) k c e =
        interp3D TE_D1D (fun dx dy dz => Reshape4 x2 TE_D1D TE_D1D TE_D1D NE dx dy dz e)
          (Reshape2 b Q1D TE_D1D) (Reshape2 b Q1D TE_D1D) (Reshape2 b Q1D TE_D1D) qx qy qz *
          Reshape4 op2 (Q1D * Q1D * Q1D) 3 3 NE (qx + (qy + qz * Q1D) * Q1D) k c e := by
    intro qy hqy qx hqx k hk
    rw [interp3D_congr TE_D1D (fun dx dy dz hdx hdy hdz => hx dx dy dz hdx hdy hdz),
      hop _ k c (quad3_lt hqx hqy hqz2) hk hc]
  have hs : ∀ (k : Nat), k < 3 → ∀ (M1 M2 : Nat → R),
      (∑ qy ∈ Finset.range Q1D, (∑ qx ∈ Finset.range Q1D,
        (interp3D TE_D1D (fun dx dy dz => Reshape4 x_ TE_D1D TE_D1D TE_D1D NE dx dy dz e)
          (Reshape2 b Q1D TE_D1D) (Reshape2 b Q1D TE_D1D) (Reshape2 b Q1D TE_D1D) qx qy qz *
          Reshape4 op_ (Q1D * Q1D * Q1D) 3 3 NE (qx + (qy + qz * Q1D) * Q1D) k c e) * M1 qx) *
          M2 qy) =
      ∑ qy ∈ Finset.range Q1D, (∑ qx ∈ Finset.range Q1D,
        (interp3D TE_D1D (fun dx dy dz => Reshape4 x2 TE_D1D TE_D1D TE_D1D NE dx dy dz e)
          (Reshape2 b Q1D TE_D1D) (Reshape2 b Q1D TE_D1D) (Reshape2 b Q1D TE_D1D) qx qy qz *
          Reshape4 op2 (Q1D * Q1D * Q1D) 3 3 NE (qx + (qy + qz * Q1D) * Q1D) k c e) * M1 qx) *
          M2 qy := by
    intro k hk M1 M2
    refine Finset.sum_congr rfl (fun qy hqy => congrArg (· * _) ?_)
    refine Finset.sum_congr rfl (fun qx hqx => congrArg (· * _) ?_)
    exact hin qy (Finset.mem_range.mp hqy) qx (Finset.mem_range.mp hqx) k hk
  rw [hs 0 (by decide) (fun qx => Reshape2 gt TR_D1D Q1D dx qx)
      (fun qy => Reshape2 bt TR_D1D Q1D dy qy),
    hs 1 (by decide) (fun qx => Reshape2 bt TR_D1D Q1D dx qx)
      (fun qy => Reshape2 gt TR_D1D Q1D dy qy),
    hs 2 (by decide) (fun qx => Reshape2 bt TR_D1D Q1D dx qx)
      (fun qy => Reshape2 bt TR_D1D Q1D dy qy)]

/-- The cell of element `e` after `PADivergenceApply2D`: the initial value plus, when the size checks
pass, the closed-form increment. -/
theorem PADivergenceApply2D_out_cell (dev lim : DofQuadLimits) (T_TR_D1D T_TE_D1D T_Q1D : Nat)
    (junk : Buf R) (NE : Nat) (b g bt op_ x_ y_ : Buf R) (tr_d1d te_d1d q1d : Nat)
    (hlim : dev.le lim) {e dy dx : Nat} (he : e < NE)
    (hdy : dy < pick T_TE_D1D te_d1d) (hdx : dx < pick T_TE_D1D te_d1d) :
    (PADivergenceApply2D dev lim T_TR_D1D T_TE_D1D T_Q1D junk NE b g bt op_ x_ y_
        tr_d1d te_d1d q1d).out (idx3 (pick T_TE_D1D te_d1d) (pick T_TE_D1D te_d1d) dx dy e) =
      y_ (idx3 (pick T_TE_D1D te_d1d) (pick T_TE_D1D te_d1d) dx dy e) +
        if pick T_TR_D1D tr_d1d ≤ dev.MAX_D1D ∧ pick T_TE_D1D te_d1d ≤ dev.MAX_D1D ∧
      pick T_Q1D q1d ≤ dev.MAX_Q1D then
          PADivergenceApply2D_inc (pick T_TR_D1D tr_d1d) (pick T_TE_D1D te_d1d) (pick T_Q1D q1d) NE b g bt op_ x_ e dy dx
        else 0 := by
  by_cases h : pick T_TR_D1D tr_d1d ≤ dev.MAX_D1D ∧ pick T_TE_D1D te_d1d ≤ dev.MAX_D1D ∧
      pick T_Q1D q1d ≤ dev.MAX_Q1D
  · rw [if_pos h, PADivergenceApply2D_ok _ _ _ _ _ _ _ _ _ _ _ _ _ _ _ _ h.1 h.2.1 h.2.2]
    exact PADivergenceApply2D_core_cell _ junk _ _ _ NE b g bt op_ x_ y_ (pick_le_pick h.2.2 hlim.2) he hdy hdx
  · rw [if_neg h, PADivergenceApply2D_fatal _ _ _ _ _ _ _ _ _ _ _ _ _ _ _ _ h, add_zero]
    rfl

/-- The cell of element `e` after `PADivergenceApply3D`: the initial value plus, when the size checks
pass, the closed-form increment. -/
theorem PADivergenceApply3D_out_cell (dev lim : DofQuadLimits) (T_TR_D1D T_TE_D1D T_Q1D : Nat)
    (junk : Buf R) (NE : Nat) (b g bt op_ x_ y_ : Buf R) (tr_d1d te_d1d q1d : Nat)
    (hlim : dev.le lim) {e dz dy dx : Nat} (he : e < NE)
    (hdz : dz < pick T_TE_D1D te_d1d) (hdy : dy < pick T_TE_D1D te_d1d) (hdx : dx < pick T_TE_D1D te_d1d) :
    (PADivergenceApply3D dev lim T_TR_D1D T_TE_D1D T_Q1D junk NE b g bt op_ x_ y_
        tr_d1d te_d1d q1d).out (idx4 (pick T_TE_D1D te_d1d) (pick T_TE_D1D te_d1d) (pick T_TE_D1D te_d1d) dx dy dz e) =
      y_ (idx4 (pick T_TE_D1D te_d1d) (pick T_TE_D1D te_d1d) (pick T_TE_D1D te_d1d) dx dy dz e) +
        if pick T_TR_D1D tr_d1d ≤ dev.MAX_D1D ∧ pick T_TE_D1D te_d1d ≤ dev.MAX_D1D ∧
      pick T_Q1D q1d ≤ dev.MAX_Q1D then
          PADivergenceApply3D_inc (pick T_TR_D1D tr_d1d) (pick T_TE_D1D te_d1d) (pick T_Q1D q1d) NE b g bt op_ x_ e dz dy dx
        else 0 := by
  by_cases h : pick T_TR_D1D tr_d1d ≤ dev.MAX_D1D ∧ pick T_TE_D1D te_d1d ≤ dev.MAX_D1D ∧
      pick T_Q1D q1d ≤ dev.MAX_Q1D
  · rw [if_pos h, PADivergenceApply3D_ok _ _ _ _ _ _ _ _ _ _ _ _ _ _ _ _ h.1 h.2.1 h.2.2]
    exact PADivergenceApply3D_core_cell _ _ junk _ _ _ NE b g bt op_ x_ y_ (pick_le_pick h.2.2 hlim.2)
      (pick_le_pick h.2.1 hlim.1) he hdz hdy hdx
  · rw [if_neg h, PADivergenceApply3D_fatal _ _ _ _ _ _ _ _ _ _ _ _ _ _ _ _ h, add_zero]
    rfl

/-- The cell of element `e` after `PADivergenceApplyTranspose2D`: the initial value plus, when the size checks
pass, the closed-form increment. -/
theorem PADivergenceApplyTranspose2D_out_cell (dev lim : DofQuadLimits) (T_TR_D1D T_TE_D1D T_Q1D : Nat)
    (junk : Buf R) (NE : Nat) (bt gt b op_ x_ y_ : Buf R) (tr_d1d te_d1d q1d : Nat)
    (hlim : dev.le lim) {e c dy dx : Nat} (he : e < NE)
    (hc : c < 2) (hdy : dy < pick T_TR_D1D tr_d1d) (hdx : dx < pick T_TR_D1D tr_d1d) :
    (PADivergenceApplyTranspose2D dev lim T_TR_D1D T_TE_D1D T_Q1D junk NE bt gt b op_ x_ y_
        tr_d1d te_d1d q1d).out (idx4 (pick T_TR_D1D tr_d1d) (pick T_TR_D1D tr_d1d) 2 dx dy c e) =
      y_ (idx4 (pick T_TR_D1D tr_d1d) (pick T_TR_D1D tr_d1d) 2 dx dy c e) +
        if pick T_TR_D1D tr_d1d ≤ dev.MAX_D1D ∧ pick T_TE_D1D te_d1d ≤ dev.MAX_D1D ∧
      pick T_Q1D q1d ≤ dev.MAX_Q1D then
          PADivergenceApplyTranspose2D_inc (pick T_TR_D1D tr_d1d) (pick T_TE_D1D te_d1d) (pick T_Q1D q1d) NE bt gt b op_ x_ e c dy dx
        else 0 := by
  by_cases h : pick T_TR_D1D tr_d1d ≤ dev.MAX_D1D ∧ pick T_TE_D1D te_d1d ≤ dev.MAX_D1D ∧
      pick T_Q1D q1d ≤ dev.MAX_Q1D
  · rw [if_pos h, PADivergenceApplyTranspose2D_ok _ _ _ _ _ _ _ _ _ _ _ _ _ _ _ _ h.1 h.2.1 h.2.2]
    exact PADivergenceApplyTranspose2D_core_cell _ junk _ _ _ NE bt gt b op_ x_ y_
      (pick_le_pick h.2.2 hlim.2) he hc hdy hdx
  · rw [if_neg h, PADivergenceApplyTranspose2D_fatal _ _ _ _ _ _ _ _ _ _ _ _ _ _ _ _ h, add_zero]
    rfl

/-- The cell of element `e` after `PADivergenceApplyTranspose3D`: the initial value plus, when the size checks
pass, the closed-form increment. -/
theorem PADivergenceApplyTranspose3D_out_cell (dev lim : DofQuadLimits) (T_TR_D1D T_TE_D1D T_Q1D : Nat)
    (junk : Buf R) (NE : Nat) (bt gt b op_ x_ y_ : Buf R) (tr_d1d te_d1d q1d : Nat)
    (hlim : dev.le lim) {e c dz dy dx : Nat} (he : e < NE)
    (hc : c < 3) (hdz : dz < pick T_TR_D1D tr_d1d) (hdy : dy < pick T_TR_D1D tr_d1d) (hdx : dx < pick T_TR_D1D tr_d1d) :
    (PADivergenceApplyTranspose3D dev lim T_TR_D1D T_TE_D1D T_Q1D junk NE bt gt b op_ x_ y_
        tr_d1d te_d1d q1d).out (idx5 (pick T_TR_D1D tr_d1d) (pick T_TR_D1D tr_d1d) (pick T_TR_D1D tr_d1d) 3 dx dy dz c e) =
      y_ (idx5 (pick T_TR_D1D tr_d1d) (pick T_TR_D1D tr_d1d) (pick T_TR_D1D tr_d1d) 3 dx dy dz c e) +
        if pick T_TR_D1D tr_d1d ≤ dev.MAX_D1D ∧ pick T_TE_D1D te_d1d ≤ dev.MAX_D1D ∧
      pick T_Q1D q1d ≤ dev.MAX_Q1D then
          PADivergenceApplyTranspose3D_inc (pick T_TR_D1D tr_d1d) (pick T_TE_D1D te_d1d) (pick T_Q1D q1d) NE bt gt b op_ x_ e c dz dy dx
        else 0 := by
  by_cases h : pick T_TR_D1D tr_d1d ≤ dev.MAX_D1D ∧ pick T_TE_D1D te_d1d ≤ dev.MAX_D1D ∧
      pick T_Q1D q1d ≤ dev.MAX_Q1D
  · rw [if_pos h, PADivergenceApplyTranspose3D_ok _ _ _ _ _ _ _ _ _ _ _ _ _ _ _ _ h.1 h.2.1 h.2.2]
    exact PADivergenceApplyTranspose3D_core_cell _ _ junk _ _ _ NE bt gt b op_ x_ y_
      (pick_le_pick h.2.2 hlim.2) (pick_le_pick h.1 hlim.1) he hc hdz hdy hdx
  · rw [if_neg h, PADivergenceApplyTranspose3D_fatal _ _ _ _ _ _ _ _ _ _ _ _ _ _ _ _ h, add_zero]
    rfl

/-- The sum-factorised 3D contraction as one triple sum. -/
theorem interp3D_expand (D1D : Nat) (u : Nat → Nat → Nat → R) (Mx My Mz : Nat → Nat → R)
    (qx qy qz : Nat) :
    interp3D D1D u Mx My Mz qx qy qz =
      ∑ dz ∈ Finset.range D1D, ∑ dy ∈ Finset.range D1D, ∑ dx ∈ Finset.range D1D,
        u dx dy dz * Mx qx dx * My qy dy * Mz qz dz := by
  simp only [interp3D, Finset.sum_mul]

/-- The sum-factorised 2D contraction as one double sum. -/
theorem interp2D_expand (D1D : Nat) (u : Nat → Nat → R) (Mx My : Nat → Nat → R)
    (qx qy : Nat) :
    interp2D D1D u Mx My qx qy =
      ∑ dy ∈ Finset.range D1D, ∑ dx ∈ Finset.range D1D, u dx dy * Mx qx dx * My qy dy := by
  simp only [interp2D, Finset.sum_mul]

end ElementLocal

/-! ## The TMOP energy kernel: proofs -/

section TmopProofs

variable {R : Type u} [Field R]

theorem forLoop_fst {α β : Type u} {n : Nat} {body : Nat → α × β → α × β} {f : Nat → α → α}
    (h : ∀ i, i < n → ∀ s, (body i s).1 = f i s.1) (s : α × β) :
    (forLoop n body s).1 = forLoop n f s.1 := by
  induction n with
  | zero => rfl
  | succ n ih =>
    rw [forLoop_succ, forLoop_succ, h n (Nat.lt_succ_self n),
      ih (fun i hi => h i (Nat.lt_succ_of_lt hi))]

theorem forLoop_snd {α β : Type u} {n : Nat} {body : Nat → α × β → α × β} {g : Nat → β → β}
    (h : ∀ i, i < n → ∀ s, (body i s).2 = g i s.2) (s : α × β) :
    (forLoop n body s).2 = forLoop n g s.2 := by
  induction n with
  | zero => rfl
  | succ n ih =>
    rw [forLoop_succ, forLoop_succ, h n (Nat.lt_succ_self n),
      ih (fun i hi => h i (Nat.lt_succ_of_lt hi))]

/-- A three-fold loop that stores `v e qy qx` in the cell `(qx, qy, e)` of a `Reshape` view
leaves `v e qy qx` in that cell. -/
theorem forLoop3_set_cell {S : Type u} (n1 n2 n3 : Nat) (v : Nat → Nat → Nat → S) (a : Buf S)
    {e qy qx : Nat} (he : e < n3) (hqy : qy < n2) (hqx : qx < n1) :
    forLoop n3 (fun e a => forLoop n2 (fun qy a => forLoop n1 (fun qx a =>
      a.set (idx3 n1 n2 qx qy e) (v e qy qx)) a) a) a (idx3 n1 n2 qx qy e) = v e qy qx := by
  have hw : Writes (forLoop n3 (fun e (a : Buf S) => forLoop n2 (fun qy a => forLoop n1
      (fun qx a => a.set (idx3 n1 n2 qx qy e) (v e qy qx)) a) a))
      (fun j => ∃ e, e < n3 ∧ ∃ qy, qy < n2 ∧ ∃ qx, qx < n1 ∧ j = idx3 n1 n2 qx qy e)
      (fun j => v (j / n1 / n2) (j / n1 % n2) (j % n1)) := by
    refine writes_forLoop (fun e _ => writes_forLoop (fun qy hqy => writes_forLoop
      (fun qx hqx => writes_set ?_)))
    simp only [idx3, idx2_mod _ hqx, idx2_div _ hqx, idx2_mod _ hqy, idx2_div _ hqy]
  exact ((hw a _).1 ⟨e, he, qy, hqy, qx, hqx, rfl⟩).trans (by
    simp only [idx3, idx2_mod _ hqx, idx2_div _ hqx, idx2_mod _ hqy, idx2_div _ hqy])

/-- The body of the loop over `qx` stores `weight * EvalW` and `weight`. -/
theorem EnergyPA_2D_point_eq (K : TmopKernels R) (T_D1D T_Q1D T_MAX : Nat) (junk : Buf R)
    (metric_normal : R) (use_detA const_m0 : Bool) (mc_ metric_data : Buf R) (mid : Int)
    (NE : Nat) (j_ w_ b_ g_ x_ : Buf R) (d1d q1d : Nat) (e qy qx : Nat) (s : Buf R × Buf R) :
    EnergyPA_2D_point K (pick T_Q1D T_MAX) junk metric_normal use_detA const_m0 mc_ metric_data
        mid NE (pick T_Q1D q1d) j_ w_
        (EnergyPA_2D_QQ K (pick T_D1D T_MAX) (pick T_Q1D T_MAX) junk (pick T_D1D d1d)
          (pick T_Q1D q1d) b_ g_ x_ e) e qy qx s =
      (s.1.set (idx3 (pick T_Q1D q1d) (pick T_Q1D q1d) qx qy e)
          (EnergyPA_2D_weight K T_D1D T_Q1D T_MAX junk metric_normal use_detA const_m0 mc_ NE
              j_ w_ b_ g_ x_ d1d q1d e qy qx *
            EnergyPA_2D_EvalW K mid metric_data
              (EnergyPA_2D_Jpt K T_D1D T_Q1D T_MAX junk j_ b_ g_ x_ d1d q1d e qy qx)),
        s.2.set (idx3 (pick T_Q1D q1d) (pick T_Q1D q1d) qx qy e)
          (EnergyPA_2D_weight K T_D1D T_Q1D T_MAX junk metric_normal use_detA const_m0 mc_ NE
              j_ w_ b_ g_ x_ d1d q1d e qy qx)) := rfl

/-- The cells `(qx, qy, e)` of `energy` and `l_energy` after the loop over the elements. -/
theorem EnergyPA_2D_loop_cell (K : TmopKernels R) (T_D1D T_Q1D T_MAX : Nat) (junk : Buf R)
    (metric_normal : R) (use_detA const_m0 : Bool) (mc_ metric_data : Buf R) (mid : Int)
    (NE : Nat) (j_ w_ b_ g_ x_ : Buf R) (d1d q1d : Nat) (s : Buf R × Buf R) {e qy qx : Nat}
    (he : e < NE) (hqy : qy < pick T_Q1D q1d) (hqx : qx < pick T_Q1D q1d) :
    (forLoop NE (fun e s =>
        EnergyPA_2D_elem K T_D1D T_Q1D T_MAX junk metric_normal use_detA const_m0 mc_
          metric_data mid NE j_ w_ b_ g_ x_ d1d q1d e s) s).1
        (idx3 (pick T_Q1D q1d) (pick T_Q1D q1d) qx qy e) =
      EnergyPA_2D_weight K T_D1D T_Q1D T_MAX junk metric_normal use_detA const_m0 mc_ NE
          j_ w_ b_ g_ x_ d1d q1d e qy qx *
        EnergyPA_2D_EvalW K mid metric_data
          (EnergyPA_2D_Jpt K T_D1D T_Q1D T_MAX junk j_ b_ g_ x_ d1d q1d e qy qx) ∧
    (forLoop NE (fun e s =>
        EnergyPA_2D_elem K T_D1D T_Q1D T_MAX junk metric_normal use_detA const_m0 mc_
          metric_data mid NE j_ w_ b_ g_ x_ d1d q1d e s) s).2
        (idx3 (pick T_Q1D q1d) (pick T_Q1D q1d) qx qy e) =
      EnergyPA_2D_weight K T_D1D T_Q1D T_MAX junk metric_normal use_detA const_m0 mc_ NE
          j_ w_ b_ g_ x_ d1d q1d e qy qx := by
  constructor
  · rw [forLoop_fst (f := fun e a => forLoop (pick T_Q1D q1d) (fun qy a =>
        forLoop (pick T_Q1D q1d) (fun qx a =>
          a.set (idx3 (pick T_Q1D q1d) (pick T_Q1D q1d) qx qy e)
            (EnergyPA_2D_weight K T_D1D T_Q1D T_MAX junk metric_normal use_detA const_m0 mc_ NE
                j_ w_ b_ g_ x_ d1d q1d e qy qx *
              EnergyPA_2D_EvalW K mid metric_data
                (EnergyPA_2D_Jpt K T_D1D T_Q1D T_MAX junk j_ b_ g_ x_ d1d q1d e qy qx))) a) a)]
    · exact forLoop3_set_cell _ _ _ _ _ he hqy hqx
    · intro e _ s
      exact forLoop_fst (fun qy _ s => forLoop_fst (fun qx _ s => rfl) s) s
  · rw [forLoop_snd (g := fun e a => forLoop (pick T_Q1D q1d) (fun qy a =>
        forLoop (pick T_Q1D q1d) (fun qx a =>
          a.set (idx3 (pick T_Q1D q1d) (pick T_Q1D q1d) qx qy e)
            (EnergyPA_2D_weight K T_D1D T_Q1D T_MAX junk metric_normal use_detA const_m0 mc_ NE
                j_ w_ b_ g_ x_ d1d q1d e qy qx)) a) a)]
    · exact forLoop3_set_cell _ _ _ _ _ he hqy hqx
    · intro e _ s
      exact forLoop_snd (fun qy _ s => forLoop_snd (fun qx _ s => rfl) s) s

/-- An accepted metric within the size limits: the kernel returns. -/
theorem EnergyPA_2D_ok (K : TmopKernels R) (T_D1D T_Q1D T_MAX : Nat) (junk : Buf R)
    (metric_normal : R) (use_detA : Bool) (mc_ : Buf R) (mc_Size : Nat) (metric_param : Buf R)
    (mid : Int) (NE : Nat) (j_ w_ b_ g_ x_ ones energy l_energy : Buf R)
    (energy_Size l_energy_Size : Nat) (metric_energy lim_energy : R) (d1d q1d : Nat)
    (hmid : mid = 1 ∨ mid = 2 ∨ mid = 7 ∨ mid = 56 ∨ mid = 77 ∨ mid = 80 ∨ mid = 94)
    (hD : T_D1D > 0 ∨ pick T_D1D d1d ≤ T_MAX) (hQ : T_Q1D > 0 ∨ pick T_Q1D q1d ≤ T_MAX) :
    EnergyPA_2D K T_D1D T_Q1D T_MAX junk metric_normal use_detA mc_ mc_Size metric_param mid NE
        j_ w_ b_ g_ x_ ones energy l_energy energy_Size l_energy_Size metric_energy lim_energy
        d1d q1d =
      Outcome.ok ⟨
        (forLoop NE (fun e s => EnergyPA_2D_elem K T_D1D T_Q1D T_MAX junk metric_normal use_detA
          (decide (mc_Size = 1)) mc_ metric_param mid NE j_ w_ b_ g_ x_ d1d q1d e s)
          (energy, l_energy)).1,
        (forLoop NE (fun e s => EnergyPA_2D_elem K T_D1D T_Q1D T_MAX junk metric_normal use_detA
          (decide (mc_Size = 1)) mc_ metric_param mid NE j_ w_ b_ g_ x_ d1d q1d e s)
          (energy, l_energy)).2,
        dot energy_Size (forLoop NE (fun e s => EnergyPA_2D_elem K T_D1D T_Q1D T_MAX junk
          metric_normal use_detA (decide (mc_Size = 1)) mc_ metric_param mid NE j_ w_ b_ g_ x_
          d1d q1d e s) (energy, l_energy)).1 ones,
        dot l_energy_Size (forLoop NE (fun e s => EnergyPA_2D_elem K T_D1D T_Q1D T_MAX junk
          metric_normal use_detA (decide (mc_Size = 1)) mc_ metric_param mid NE j_ w_ b_ g_ x_
          d1d q1d e s) (energy, l_energy)).2 ones⟩ := by
  unfold EnergyPA_2D
  simp only [not_not.mpr hmid, not_not.mpr hD, not_not.mpr hQ, if_false]

/-- A metric identifier outside the catalogue: the kernel aborts before writing anything. -/
theorem EnergyPA_2D_fatal_mid (K : TmopKernels R) (T_D1D T_Q1D T_MAX : Nat) (junk : Buf R)
    (metric_normal : R) (use_detA : Bool) (mc_ : Buf R) (mc_Size : Nat) (metric_param : Buf R)
    (mid : Int) (NE : Nat) (j_ w_ b_ g_ x_ ones energy l_energy : Buf R)
    (energy_Size l_energy_Size : Nat) (metric_energy lim_energy : R) (d1d q1d : Nat)
    (hmid : ¬ (mid = 1 ∨ mid = 2 ∨ mid = 7 ∨ mid = 56 ∨ mid = 77 ∨ mid = 80 ∨ mid = 94)) :
    EnergyPA_2D K T_D1D T_Q1D T_MAX junk metric_normal use_detA mc_ mc_Size metric_param mid NE
        j_ w_ b_ g_ x_ ones energy l_energy energy_Size l_energy_Size metric_energy lim_energy
        d1d q1d =
      Outcome.fatal "2D metric not yet implemented!"
        ⟨energy, l_energy, metric_energy, lim_energy⟩ := by
  unfold EnergyPA_2D
  simp only [hmid, not_false_eq_true, if_true]

/-- The modelled helpers compute the inverse, the product, the determinant and the invariants. -/
theorem tmopKernels_exact : (tmopKernels : TmopKernels R).Exact where
  calcInverse := by
    intro A o
    rw [Matrix.inv_def, Ring.inverse_eq_inv']
    ext i j
    fin_cases i <;> fin_cases j <;>
      simp [mat2, tmopKernels, kernels_CalcInverse2, Buf.set, Matrix.det_fin_two,
        Matrix.adjugate_fin_two, mul_comm]
  mult := by
    intro A B o
    ext i j
    fin_cases i <;> fin_cases j <;>
      simp [mat2, tmopKernels, kernels_Mult, Matrix.mul_apply, Fin.sum_univ_two,
        Finset.sum_range_succ]
  det := by
    intro A
    simp [mat2, tmopKernels, kernels_Det2, Matrix.det_fin_two]
    exact mul_comm _ _
  get_I1 := fun _ => rfl
  get_I2b := by
    intro J
    simp [mat2, tmopKernels, Matrix.det_fin_two]
    exact mul_comm _ _
  get_I1b := fun _ => rfl
  get_I2 := fun _ => rfl

/-- An accepted metric with `D1D` above `T_MAX` in the generic instantiation: the second check
aborts before anything is written. -/
theorem EnergyPA_2D_fatal_D1D (K : TmopKernels R) (T_D1D T_Q1D T_MAX : Nat) (junk : Buf R)
    (metric_normal : R) (use_detA : Bool) (mc_ : Buf R) (mc_Size : Nat) (metric_param : Buf R)
    (mid : Int) (NE : Nat) (j_ w_ b_ g_ x_ ones energy l_energy : Buf R)
    (energy_Size l_energy_Size : Nat) (metric_energy lim_energy : R) (d1d q1d : Nat)
    (hmid : mid = 1 ∨ mid = 2 ∨ mid = 7 ∨ mid = 56 ∨ mid = 77 ∨ mid = 80 ∨ mid = 94)
    (hD : ¬ (T_D1D > 0 ∨ pick T_D1D d1d ≤ T_MAX)) :
    EnergyPA_2D K T_D1D T_Q1D T_MAX junk metric_normal use_detA mc_ mc_Size metric_param mid NE
        j_ w_ b_ g_ x_ ones energy l_energy energy_Size l_energy_Size metric_energy lim_energy d1d q1d =
      Outcome.fatal "D1D > T_MAX!" ⟨energy, l_energy, metric_energy, lim_energy⟩ := by
  unfold EnergyPA_2D
  simp only [not_not.mpr hmid, hD, not_false_eq_true, if_true, if_false]

/-- An accepted metric with `Q1D` above `T_MAX` in the generic instantiation: the third check
aborts before anything is written. -/
theorem EnergyPA_2D_fatal_Q1D (K : TmopKernels R) (T_D1D T_Q1D T_MAX : Nat) (junk : Buf R)
    (metric_normal : R) (use_detA : Bool) (mc_ : Buf R) (mc_Size : Nat) (metric_param : Buf R)
    (mid : Int) (NE : Nat) (j_ w_ b_ g_ x_ ones energy l_energy : Buf R)
    (energy_Size l_energy_Size : Nat) (metric_energy lim_energy : R) (d1d q1d : Nat)
    (hmid : mid = 1 ∨ mid = 2 ∨ mid = 7 ∨ mid = 56 ∨ mid = 77 ∨ mid = 80 ∨ mid = 94)
    (hD : T_D1D > 0 ∨ pick T_D1D d1d ≤ T_MAX) (hQ : ¬ (T_Q1D > 0 ∨ pick T_Q1D q1d ≤ T_MAX)) :
    EnergyPA_2D K T_D1D T_Q1D T_MAX junk metric_normal use_detA mc_ mc_Size metric_param mid NE
        j_ w_ b_ g_ x_ ones energy l_energy energy_Size l_energy_Size metric_energy lim_energy d1d q1d =
      Outcome.fatal "Q1D > T_MAX!" ⟨energy, l_energy, metric_energy, lim_energy⟩ := by
  unfold EnergyPA_2D
  simp only [not_not.mpr hmid, not_not.mpr hD, hQ, not_false_eq_true, if_true, if_false]

/-- Whatever the arguments, the kernel returns or aborts with the state it was given. -/
theorem EnergyPA_2D_cases (K : TmopKernels R) (T_D1D T_Q1D T_MAX : Nat) (junk : Buf R)
    (metric_normal : R) (use_detA : Bool) (mc_ : Buf R) (mc_Size : Nat) (metric_param : Buf R)
    (mid : Int) (NE : Nat) (j_ w_ b_ g_ x_ ones energy l_energy : Buf R)
    (energy_Size l_energy_Size : Nat) (metric_energy lim_energy : R) (d1d q1d : Nat) :
    (∃ s, EnergyPA_2D K T_D1D T_Q1D T_MAX junk metric_normal use_detA mc_ mc_Size metric_param mid NE
        j_ w_ b_ g_ x_ ones energy l_energy energy_Size l_energy_Size metric_energy lim_energy d1d q1d = Outcome.ok s) ∨
    (∃ msg, EnergyPA_2D K T_D1D T_Q1D T_MAX junk metric_normal use_detA mc_ mc_Size metric_param mid NE
        j_ w_ b_ g_ x_ ones energy l_energy energy_Size l_energy_Size metric_energy lim_energy d1d q1d =
      Outcome.fatal msg ⟨energy, l_energy, metric_energy, lim_energy⟩) := by
  by_cases hmid : mid = 1 ∨ mid = 2 ∨ mid = 7 ∨ mid = 56 ∨ mid = 77 ∨ mid = 80 ∨ mid = 94
  · by_cases hD : T_D1D > 0 ∨ pick T_D1D d1d ≤ T_MAX
    · by_cases hQ : T_Q1D > 0 ∨ pick T_Q1D q1d ≤ T_MAX
      · exact Or.inl ⟨_, EnergyPA_2D_ok K T_D1D T_Q1D T_MAX junk metric_normal use_detA mc_ mc_Size metric_param mid NE j_ w_ b_ g_ x_ ones energy l_energy energy_Size l_energy_Size metric_energy lim_energy d1d q1d hmid hD hQ⟩
      · exact Or.inr ⟨_, EnergyPA_2D_fatal_Q1D K T_D1D T_Q1D T_MAX junk metric_normal use_detA mc_ mc_Size metric_param mid NE j_ w_ b_ g_ x_ ones energy l_energy energy_Size l_energy_Size metric_energy lim_energy d1d q1d hmid hD hQ⟩
    · exact Or.inr ⟨_, EnergyPA_2D_fatal_D1D K T_D1D T_Q1D T_MAX junk metric_normal use_detA mc_ mc_Size metric_param mid NE j_ w_ b_ g_ x_ ones energy l_energy energy_Size l_energy_Size metric_energy lim_energy d1d q1d hmid hD⟩
  · exact Or.inr ⟨_, EnergyPA_2D_fatal_mid K T_D1D T_Q1D T_MAX junk metric_normal use_detA mc_ mc_Size metric_param mid NE j_ w_ b_ g_ x_ ones energy l_energy energy_Size l_energy_Size metric_energy lim_energy d1d q1d hmid⟩

theorem pick_zero (t : Nat) : pick 0 t = t := by simp [pick]

theorem pick_pos {T : Nat} (t : Nat) (h : 0 < T) : pick T t = T := by
  simp [pick, Nat.pos_iff_ne_zero.mp h]

end TmopProofs

/-! ## The claims -/

section Claims

variable {R : Type u} [CommRing R]

/-- C1: for every point `q < Q1D^2` and element `e < NE`, the block that `PADivergenceSetup2D`
stores is `W[q] * COEFF * adj(J(q,.,.,e))`: the four entries are `W*COEFF*J22`,
`-W*COEFF*J12`, `-W*COEFF*J21`, `W*COEFF*J11`, the block is `W[q]*COEFF` times the adjugate of
the Jacobian, and the Jacobian times the block (in either order) is `W[q]*COEFF*det(J)` times
the identity. -/
theorem PADivergenceSetup2D_adjugate (Q1D NE : Nat) (w j : Buf R) (COEFF : R) (op : Buf R)
    (q e : Nat) (hq : q < Q1D * Q1D) (he : e < NE) :
    let J : Matrix (Fin 2) (Fin 2) R := fun r c => j (idx4 (Q1D * Q1D) 2 2 q r c e)
    let A : Matrix (Fin 2) (Fin 2) R := fun r c =>
      PADivergenceSetup2D Q1D NE w j COEFF op (idx4 (Q1D * Q1D) 2 2 q r c e)
    (A 0 0 = w q * COEFF * J 1 1 ∧ A 0 1 = -(w q * COEFF * J 0 1) ∧
      A 1 0 = -(w q * COEFF * J 1 0) ∧ A 1 1 = w q * COEFF * J 0 0) ∧
    A = (w q * COEFF) • J.adjugate ∧
    J * A = (w q * COEFF * J.det) • (1 : Matrix (Fin 2) (Fin 2) R) ∧
    A * J = (w q * COEFF * J.det) • (1 : Matrix (Fin 2) (Fin 2) R) := by
  intro J A
  obtain ⟨c00, c01, c10, c11⟩ := setupCell2D_at (Q1D * Q1D) w j COEFF e hq
  have a00 : A 0 0 = w q * COEFF * J 1 1 :=
    (PADivergenceSetup2D_cell Q1D NE w j COEFF op hq he (by decide) (by decide)).trans c00
  have a01 : A 0 1 = -(w q * COEFF * J 0 1) :=
    ((PADivergenceSetup2D_cell Q1D NE w j COEFF op hq he (by decide) (by decide)).trans
      c01).trans (mul_neg _ _)
  have a10 : A 1 0 = -(w q * COEFF * J 1 0) :=
    ((PADivergenceSetup2D_cell Q1D NE w j COEFF op hq he (by decide) (by decide)).trans
      c10).trans (mul_neg _ _)
  have a11 : A 1 1 = w q * COEFF * J 0 0 :=
    (PADivergenceSetup2D_cell Q1D NE w j COEFF op hq he (by decide) (by decide)).trans c11
  have hA : A = (w q * COEFF) • J.adjugate := by
    ext r c
    fin_cases r <;> fin_cases c <;>
      simp [Matrix.adjugate_fin_two, a00, a01, a10, a11]
  refine ⟨⟨a00, a01, a10, a11⟩, hA, ?_, ?_⟩
  · rw [hA, Matrix.mul_smul, Matrix.mul_adjugate, smul_smul]
  · rw [hA, Matrix.smul_mul, Matrix.adjugate_mul, smul_smul]

/-- Evaluation of C1 at `Q1D = 1`, `NE = 2`, point `0` of element `1`, over the integers. -/
theorem PADivergenceSetup2D_adjugate_witness :
    (0 < 1 * 1 ∧ 1 < 2) ∧
    (let J : Matrix (Fin 2) (Fin 2) ℤ := fun r c => (fun i => (i : ℤ) + 1) (idx4 (1 * 1) 2 2 0 r c 1)
     let A : Matrix (Fin 2) (Fin 2) ℤ := fun r c =>
       PADivergenceSetup2D 1 2 (fun _ => 2) (fun i => (i : ℤ) + 1) 3 (fun _ => 0)
         (idx4 (1 * 1) 2 2 0 r c 1)
     (A 0 0 = (fun _ => 2) 0 * 3 * J 1 1 ∧ A 0 1 = -((fun _ => 2) 0 * 3 * J 0 1) ∧
       A 1 0 = -((fun _ => 2) 0 * 3 * J 1 0) ∧ A 1 1 = (fun _ => 2) 0 * 3 * J 0 0) ∧
     A = ((fun _ => 2) 0 * 3) • J.adjugate ∧
     J * A = ((fun _ => 2) 0 * 3 * J.det) • (1 : Matrix (Fin 2) (Fin 2) ℤ) ∧
     A * J = ((fun _ => 2) 0 * 3 * J.det) • (1 : Matrix (Fin 2) (Fin 2) ℤ)) :=
  ⟨⟨by decide, by decide⟩,
    PADivergenceSetup2D_adjugate 1 2 (fun _ => 2) (fun i => (i : ℤ) + 1) 3 (fun _ => 0) 0 1
      (by decide) (by decide)⟩


/-- C2: for every point `q < Q1D^3` and element `e < NE`, the 3x3 block `A(q,e)` stored by
`PADivergenceSetup3D` (second index of `op` the row, third the column) is `W[q]*COEFF` times
the adjugate of the Jacobian `J(q,e)`, and `J*A = A*J = W[q]*COEFF*det(J)*I3` for every
Jacobian, singular or not. -/
theorem PADivergenceSetup3D_adjugate (Q1D NE : Nat) (w j : Buf R) (COEFF : R) (op : Buf R)
    (q e : Nat) (hq : q < Q1D * Q1D * Q1D) (he : e < NE) :
    let J : Matrix (Fin 3) (Fin 3) R := fun r c => j (idx4 (Q1D * Q1D * Q1D) 3 3 q r c e)
    let A : Matrix (Fin 3) (Fin 3) R := fun r c =>
      PADivergenceSetup3D Q1D NE w j COEFF op (idx4 (Q1D * Q1D * Q1D) 3 3 q r c e)
    A = (w q * COEFF) • J.adjugate ∧
    J * A = (w q * COEFF * J.det) • (1 : Matrix (Fin 3) (Fin 3) R) ∧
    A * J = (w q * COEFF * J.det) • (1 : Matrix (Fin 3) (Fin 3) R) := by
  intro J A
  have hA : A = (w q * COEFF) • J.adjugate := by
    ext r c
    have hcell : A r c = setupCell3D (Q1D * Q1D * Q1D) w j COEFF
        (idx4 (Q1D * Q1D * Q1D) 3 3 q r c e) :=
      PADivergenceSetup3D_cell Q1D NE w j COEFF op hq he r.2 c.2
    have hd := idx4_decode e hq r.2 c.2
    rw [hcell]
    fin_cases r <;> fin_cases c <;>
      simp [setupCell3D, Matrix.adjugate_fin_three, J] at hd ⊢ <;>
      simp [hd] <;> ring
  refine ⟨hA, ?_, ?_⟩
  · rw [hA, Matrix.mul_smul, Matrix.mul_adjugate, smul_smul]
  · rw [hA, Matrix.smul_mul, Matrix.adjugate_mul, smul_smul]

/-- Evaluation of C2 at `Q1D = 1`, `NE = 2`, point `0` of element `1`, over the integers. -/
theorem PADivergenceSetup3D_adjugate_witness :
    (0 < 1 * 1 * 1 ∧ 1 < 2) ∧
    (let J : Matrix (Fin 3) (Fin 3) ℤ := fun r c =>
       (fun i => (i : ℤ) * i + 1) (idx4 (1 * 1 * 1) 3 3 0 r c 1)
     let A : Matrix (Fin 3) (Fin 3) ℤ := fun r c =>
       PADivergenceSetup3D 1 2 (fun _ => 2) (fun i => (i : ℤ) * i + 1) 3 (fun _ => 0)
         (idx4 (1 * 1 * 1) 3 3 0 r c 1)
     A = ((fun _ => 2) 0 * 3) • J.adjugate ∧
     J * A = ((fun _ => 2) 0 * 3 * J.det) • (1 : Matrix (Fin 3) (Fin 3) ℤ) ∧
     A * J = ((fun _ => 2) 0 * 3 * J.det) • (1 : Matrix (Fin 3) (Fin 3) ℤ)) :=
  ⟨⟨by decide, by decide⟩,
    PADivergenceSetup3D_adjugate 1 2 (fun _ => 2) (fun i => (i : ℤ) * i + 1) 3 (fun _ => 0) 0 1
      (by decide) (by decide)⟩

/-- C6: scaling the coefficient by `k` scales every entry of the operator tensor written by
`PADivergenceSetup2D`, respectively `PADivergenceSetup3D`, by `k`. -/
theorem PADivergenceSetup_coeff_linear (Q1D NE : Nat) (w j : Buf R) (COEFF k : R)
    (op op2 : Buf R) (q e r c : Nat) (he : e < NE) :
    (q < Q1D * Q1D → r < 2 → c < 2 →
      PADivergenceSetup2D Q1D NE w j (k * COEFF) op (idx4 (Q1D * Q1D) 2 2 q r c e) =
        k * PADivergenceSetup2D Q1D NE w j COEFF op2 (idx4 (Q1D * Q1D) 2 2 q r c e)) ∧
    (q < Q1D * Q1D * Q1D → r < 3 → c < 3 →
      PADivergenceSetup3D Q1D NE w j (k * COEFF) op (idx4 (Q1D * Q1D * Q1D) 3 3 q r c e) =
        k * PADivergenceSetup3D Q1D NE w j COEFF op2 (idx4 (Q1D * Q1D * Q1D) 3 3 q r c e)) := by
  constructor
  · intro hq hr hc
    rw [PADivergenceSetup2D_cell Q1D NE w j (k * COEFF) op hq he hr hc,
      PADivergenceSetup2D_cell Q1D NE w j COEFF op2 hq he hr hc]
    simp only [setupCell2D]
    split_ifs <;> ring
  · intro hq hr hc
    rw [PADivergenceSetup3D_cell Q1D NE w j (k * COEFF) op hq he hr hc,
      PADivergenceSetup3D_cell Q1D NE w j COEFF op2 hq he hr hc]
    simp only [setupCell3D]
    split_ifs <;> ring

/-- Evaluation of C6 at `Q1D = 1`, `NE = 1`, entry `(0, 1)` of the only block, `k = 5`. -/
theorem PADivergenceSetup_coeff_linear_witness :
    (0 < 1) ∧
    ((0 < 1 * 1 → 0 < 2 → 1 < 2 →
      PADivergenceSetup2D 1 1 (fun _ => (2 : ℤ)) (fun i => (i : ℤ) + 1) (5 * 3) (fun _ => 0)
          (idx4 (1 * 1) 2 2 0 0 1 0) =
        5 * PADivergenceSetup2D 1 1 (fun _ => (2 : ℤ)) (fun i => (i : ℤ) + 1) 3 (fun _ => 7)
          (idx4 (1 * 1) 2 2 0 0 1 0)) ∧
    (0 < 1 * 1 * 1 → 0 < 3 → 1 < 3 →
      PADivergenceSetup3D 1 1 (fun _ => (2 : ℤ)) (fun i => (i : ℤ) + 1) (5 * 3) (fun _ => 0)
          (idx4 (1 * 1 * 1) 3 3 0 0 1 0) =
        5 * PADivergenceSetup3D 1 1 (fun _ => (2 : ℤ)) (fun i => (i : ℤ) + 1) 3 (fun _ => 7)
          (idx4 (1 * 1 * 1) 3 3 0 0 1 0))) :=
  ⟨by decide,
    PADivergenceSetup_coeff_linear 1 1 (fun _ => (2 : ℤ)) (fun i => (i : ℤ) + 1) 3 5
      (fun _ => 0) (fun _ => 7) 0 0 0 1 (by decide)⟩

/-- C3: 2D adjointness. Within the limits, with the transpose kernel given the transposed
tables (`btT(d,q) = b(q,d)`, `gtT(d,q) = g(q,d)` for the trial space, `bT(q,d) = bt(d,q)` for
the test space) and both outputs starting from zero, both calls return normally and
`dot(PADivergenceApplyTranspose2D(y), x) = dot(y, PADivergenceApply2D(x))` for every operator
tensor, trial vector `x` and test vector `y`. -/
theorem PADivergenceApply2D_adjoint (dev lim : DofQuadLimits) (T_TR_D1D T_TE_D1D T_Q1D : Nat)
    (junk junk2 : Buf R) (NE : Nat) (b g bt btT gtT bT op_ x_ y_ : Buf R)
    (tr_d1d te_d1d q1d : Nat)
    (h1 : pick T_TR_D1D tr_d1d ≤ dev.MAX_D1D) (h2 : pick T_TE_D1D te_d1d ≤ dev.MAX_D1D)
    (h3 : pick T_Q1D q1d ≤ dev.MAX_Q1D) (hlim : dev.le lim)
    (hB : ∀ d q, d < pick T_TR_D1D tr_d1d → q < pick T_Q1D q1d →
      Reshape2 btT (pick T_TR_D1D tr_d1d) (pick T_Q1D q1d) d q =
        Reshape2 b (pick T_Q1D q1d) (pick T_TR_D1D tr_d1d) q d)
    (hG : ∀ d q, d < pick T_TR_D1D tr_d1d → q < pick T_Q1D q1d →
      Reshape2 gtT (pick T_TR_D1D tr_d1d) (pick T_Q1D q1d) d q =
        Reshape2 g (pick T_Q1D q1d) (pick T_TR_D1D tr_d1d) q d)
    (hT : ∀ d q, d < pick T_TE_D1D te_d1d → q < pick T_Q1D q1d →
      Reshape2 bT (pick T_Q1D q1d) (pick T_TE_D1D te_d1d) q d =
        Reshape2 bt (pick T_TE_D1D te_d1d) (pick T_Q1D q1d) d q) :
    (PADivergenceApplyTranspose2D dev lim T_TR_D1D T_TE_D1D T_Q1D junk NE btT gtT bT op_ y_
        (fun _ => 0) tr_d1d te_d1d q1d).failed = false ∧
    (PADivergenceApply2D dev lim T_TR_D1D T_TE_D1D T_Q1D junk2 NE b g bt op_ x_
        (fun _ => 0) tr_d1d te_d1d q1d).failed = false ∧
    dot (pick T_TR_D1D tr_d1d * pick T_TR_D1D tr_d1d * 2 * NE)
        (PADivergenceApplyTranspose2D dev lim T_TR_D1D T_TE_D1D T_Q1D junk NE btT gtT bT op_ y_
          (fun _ => 0) tr_d1d te_d1d q1d).out x_ =
      dot (pick T_TE_D1D te_d1d * pick T_TE_D1D te_d1d * NE) y_
        (PADivergenceApply2D dev lim T_TR_D1D T_TE_D1D T_Q1D junk2 NE b g bt op_ x_
          (fun _ => 0) tr_d1d te_d1d q1d).out := by
  refine ⟨?_, ?_, PADivergenceApply2D_adjoint_core dev lim T_TR_D1D T_TE_D1D T_Q1D junk junk2 NE
    b g bt btT gtT bT op_ x_ y_ tr_d1d te_d1d q1d h1 h2 h3 hlim hB hG hT⟩
  · rw [PADivergenceApplyTranspose2D_ok _ _ _ _ _ _ _ _ _ _ _ _ _ _ _ _ h1 h2 h3]
    rfl
  · rw [PADivergenceApply2D_ok _ _ _ _ _ _ _ _ _ _ _ _ _ _ _ _ h1 h2 h3]
    rfl

/-- C3 at `TR_D1D = 2`, `TE_D1D = 1`, `Q1D = 2`, `NE = 2` with the limits `24, 24`: the trial
tables are `b i = i`, `g i = 2 i + 1` and their transposes. -/
theorem PADivergenceApply2D_adjoint_witness :
    (PADivergenceApplyTranspose2D ⟨24, 24⟩ ⟨24, 24⟩ 0 0 0 (fun _ => (7 : ℤ)) 2
        (fun i => ((i % 2 * 2 + i / 2 : Nat) : ℤ)) (fun i => ((2 * (i % 2 * 2 + i / 2) + 1 : Nat) : ℤ))
        (fun i => (i : ℤ) + 3) (fun i => (i : ℤ) * i) (fun i => 5 - (i : ℤ))
        (fun _ => 0) 2 1 2).failed = false ∧
    (PADivergenceApply2D ⟨24, 24⟩ ⟨24, 24⟩ 0 0 0 (fun _ => (9 : ℤ)) 2
        (fun i => (i : ℤ)) (fun i => ((2 * i + 1 : Nat) : ℤ)) (fun i => (i : ℤ) + 3)
        (fun i => (i : ℤ) * i) (fun i => (i : ℤ) - 4)
        (fun _ => 0) 2 1 2).failed = false ∧
    dot (pick 0 2 * pick 0 2 * 2 * 2)
        (PADivergenceApplyTranspose2D ⟨24, 24⟩ ⟨24, 24⟩ 0 0 0 (fun _ => (7 : ℤ)) 2
          (fun i => ((i % 2 * 2 + i / 2 : Nat) : ℤ))
          (fun i => ((2 * (i % 2 * 2 + i / 2) + 1 : Nat) : ℤ))
          (fun i => (i : ℤ) + 3) (fun i => (i : ℤ) * i) (fun i => 5 - (i : ℤ))
          (fun _ => 0) 2 1 2).out (fun i => (i : ℤ) - 4) =
      dot (pick 0 1 * pick 0 1 * 2) (fun i => 5 - (i : ℤ))
        (PADivergenceApply2D ⟨24, 24⟩ ⟨24, 24⟩ 0 0 0 (fun _ => (9 : ℤ)) 2
          (fun i => (i : ℤ)) (fun i => ((2 * i + 1 : Nat) : ℤ)) (fun i => (i : ℤ) + 3)
          (fun i => (i : ℤ) * i) (fun i => (i : ℤ) - 4)
          (fun _ => 0) 2 1 2).out :=
  PADivergenceApply2D_adjoint ⟨24, 24⟩ ⟨24, 24⟩ 0 0 0 (fun _ => (7 : ℤ)) (fun _ => (9 : ℤ)) 2
    (fun i => (i : ℤ)) (fun i => ((2 * i + 1 : Nat) : ℤ)) (fun i => (i : ℤ) + 3)
    (fun i => ((i % 2 * 2 + i / 2 : Nat) : ℤ)) (fun i => ((2 * (i % 2 * 2 + i / 2) + 1 : Nat) : ℤ))
    (fun i => (i : ℤ) + 3) (fun i => (i : ℤ) * i) (fun i => (i : ℤ) - 4) (fun i => 5 - (i : ℤ))
    2 1 2 (by decide) (by decide) (by decide) ⟨by decide, by decide⟩
    (by
      intro d q hd hq
      have hd2 : d < 2 := hd
      have hq2 : q < 2 := hq
      interval_cases d <;> interval_cases q <;> rfl)
    (by
      intro d q hd hq
      have hd2 : d < 2 := hd
      have hq2 : q < 2 := hq
      interval_cases d <;> interval_cases q <;> rfl)
    (by
      intro d q hd hq
      have hd2 : d < 1 := hd
      have hq2 : q < 2 := hq
      interval_cases d
      interval_cases q <;> rfl)

/-- C4: 3D adjointness. Within the limits, with the transpose kernel given the transposed
tables and both outputs starting from zero, both calls return normally and
`dot(PADivergenceApplyTranspose3D(y), x) = dot(y, PADivergenceApply3D(x))` for every operator
tensor, trial vector `x` and test vector `y`. -/
theorem PADivergenceApply3D_adjoint (dev lim : DofQuadLimits) (T_TR_D1D T_TE_D1D T_Q1D : Nat)
    (junk junk2 : Buf R) (NE : Nat) (b g bt btT gtT bT op_ x_ y_ : Buf R)
    (tr_d1d te_d1d q1d : Nat)
    (h1 : pick T_TR_D1D tr_d1d ≤ dev.MAX_D1D) (h2 : pick T_TE_D1D te_d1d ≤ dev.MAX_D1D)
    (h3 : pick T_Q1D q1d ≤ dev.MAX_Q1D) (hlim : dev.le lim)
    (hB : ∀ d q, d < pick T_TR_D1D tr_d1d → q < pick T_Q1D q1d →
      Reshape2 btT (pick T_TR_D1D tr_d1d) (pick T_Q1D q1d) d q =
        Reshape2 b (pick T_Q1D q1d) (pick T_TR_D1D tr_d1d) q d)
    (hG : ∀ d q, d < pick T_TR_D1D tr_d1d → q < pick T_Q1D q1d →
      Reshape2 gtT (pick T_TR_D1D tr_d1d) (pick T_Q1D q1d) d q =
        Reshape2 g (pick T_Q1D q1d) (pick T_TR_D1D tr_d1d) q d)
    (hT : ∀ d q, d < pick T_TE_D1D te_d1d → q < pick T_Q1D q1d →
      Reshape2 bT (pick T_Q1D q1d) (pick T_TE_D1D te_d1d) q d =
        Reshape2 bt (pick T_TE_D1D te_d1d) (pick T_Q1D q1d) d q) :
    (PADivergenceApplyTranspose3D dev lim T_TR_D1D T_TE_D1D T_Q1D junk NE btT gtT bT op_ y_
        (fun _ => 0) tr_d1d te_d1d q1d).failed = false ∧
    (PADivergenceApply3D dev lim T_TR_D1D T_TE_D1D T_Q1D junk2 NE b g bt op_ x_
        (fun _ => 0) tr_d1d te_d1d q1d).failed = false ∧
    dot (pick T_TR_D1D tr_d1d * pick T_TR_D1D tr_d1d * pick T_TR_D1D tr_d1d * 3 * NE)
        (PADivergenceApplyTranspose3D dev lim T_TR_D1D T_TE_D1D T_Q1D junk NE btT gtT bT op_ y_
          (fun _ => 0) tr_d1d te_d1d q1d).out x_ =
      dot (pick T_TE_D1D te_d1d * pick T_TE_D1D te_d1d * pick T_TE_D1D te_d1d * NE) y_
        (PADivergenceApply3D dev lim T_TR_D1D T_TE_D1D T_Q1D junk2 NE b g bt op_ x_
          (fun _ => 0) tr_d1d te_d1d q1d).out := by
  refine ⟨?_, ?_, PADivergenceApply3D_adjoint_core dev lim T_TR_D1D T_TE_D1D T_Q1D junk junk2 NE
    b g bt btT gtT bT op_ x_ y_ tr_d1d te_d1d q1d h1 h2 h3 hlim hB hG hT⟩
  · rw [PADivergenceApplyTranspose3D_ok _ _ _ _ _ _ _ _ _ _ _ _ _ _ _ _ h1 h2 h3]
    rfl
  · rw [PADivergenceApply3D_ok _ _ _ _ _ _ _ _ _ _ _ _ _ _ _ _ h1 h2 h3]
    rfl

/-- C4 at `TR_D1D = 2`, `TE_D1D = 1`, `Q1D = 2`, `NE = 2` with the limits `24, 24`. -/
theorem PADivergenceApply3D_adjoint_witness :
    (PADivergenceApplyTranspose3D ⟨24, 24⟩ ⟨24, 24⟩ 0 0 0 (fun _ => (7 : ℤ)) 2
        (fun i => ((i % 2 * 2 + i / 2 : Nat) : ℤ)) (fun i => ((2 * (i % 2 * 2 + i / 2) + 1 : Nat) : ℤ))
        (fun i => (i : ℤ) + 3) (fun i => (i : ℤ) * i) (fun i => 5 - (i : ℤ))
        (fun _ => 0) 2 1 2).failed = false ∧
    (PADivergenceApply3D ⟨24, 24⟩ ⟨24, 24⟩ 0 0 0 (fun _ => (9 : ℤ)) 2
        (fun i => (i : ℤ)) (fun i => ((2 * i + 1 : Nat) : ℤ)) (fun i => (i : ℤ) + 3)
        (fun i => (i : ℤ) * i) (fun i => (i : ℤ) - 4)
        (fun _ => 0) 2 1 2).failed = false ∧
    dot (pick 0 2 * pick 0 2 * pick 0 2 * 3 * 2)
        (PADivergenceApplyTranspose3D ⟨24, 24⟩ ⟨24, 24⟩ 0 0 0 (fun _ => (7 : ℤ)) 2
          (fun i => ((i % 2 * 2 + i / 2 : Nat) : ℤ))
          (fun i => ((2 * (i % 2 * 2 + i / 2) + 1 : Nat) : ℤ))
          (fun i => (i : ℤ) + 3) (fun i => (i : ℤ) * i) (fun i => 5 - (i : ℤ))
          (fun _ => 0) 2 1 2).out (fun i => (i : ℤ) - 4) =
      dot (pick 0 1 * pick 0 1 * pick 0 1 * 2) (fun i => 5 - (i : ℤ))
        (PADivergenceApply3D ⟨24, 24⟩ ⟨24, 24⟩ 0 0 0 (fun _ => (9 : ℤ)) 2
          (fun i => (i : ℤ)) (fun i => ((2 * i + 1 : Nat) : ℤ)) (fun i => (i : ℤ) + 3)
          (fun i => (i : ℤ) * i) (fun i => (i : ℤ) - 4)
          (fun _ => 0) 2 1 2).out :=
  PADivergenceApply3D_adjoint ⟨24, 24⟩ ⟨24, 24⟩ 0 0 0 (fun _ => (7 : ℤ)) (fun _ => (9 : ℤ)) 2
    (fun i => (i : ℤ)) (fun i => ((2 * i + 1 : Nat) : ℤ)) (fun i => (i : ℤ) + 3)
    (fun i => ((i % 2 * 2 + i / 2 : Nat) : ℤ)) (fun i => ((2 * (i % 2 * 2 + i / 2) + 1 : Nat) : ℤ))
    (fun i => (i : ℤ) + 3) (fun i => (i : ℤ) * i) (fun i => (i : ℤ) - 4) (fun i => 5 - (i : ℤ))
    2 1 2 (by decide) (by decide) (by decide) ⟨by decide, by decide⟩
    (by
      intro d q hd hq
      have hd2 : d < 2 := hd
      have hq2 : q < 2 := hq
      interval_cases d <;> interval_cases q <;> rfl)
    (by
      intro d q hd hq
      have hd2 : d < 2 := hd
      have hq2 : q < 2 := hq
      interval_cases d <;> interval_cases q <;> rfl)
    (by
      intro d q hd hq
      have hd2 : d < 1 := hd
      have hq2 : q < 2 := hq
      interval_cases d
      interval_cases q <;> rfl)

/-- C5: tiled vs. untiled equivalence. Within the limits and for identical inputs (tables,
operator tensor, `x`, initial `y`), `SmemPADivergenceApply3D`, its thread loops run one after
the other between the barriers and its scratch views aliased over the flat arrays `sBG`, `sm0`,
`sm1`, returns normally with exactly the output vector of `PADivergenceApply3D`, whatever the
initial content of the scratch arrays of either kernel. -/
theorem SmemPADivergenceApply3D_eq_PADivergenceApply3D (dev lim : DofQuadLimits)
    (T_TR_D1D T_TE_D1D T_Q1D : Nat)
    (junk junk2 : Buf R) (NE : Nat) (b g bt op_ x_ y_ : Buf R) (tr_d1d te_d1d q1d : Nat)
    (h1 : pick T_TR_D1D tr_d1d ≤ dev.MAX_D1D) (h2 : pick T_TE_D1D te_d1d ≤ dev.MAX_D1D)
    (h3 : pick T_Q1D q1d ≤ dev.MAX_Q1D) (hlim : dev.le lim) :
    (SmemPADivergenceApply3D dev lim T_TR_D1D T_TE_D1D T_Q1D junk NE b g bt op_ x_ y_
        tr_d1d te_d1d q1d).failed = false ∧
    SmemPADivergenceApply3D dev lim T_TR_D1D T_TE_D1D T_Q1D junk NE b g bt op_ x_ y_
        tr_d1d te_d1d q1d =
      PADivergenceApply3D dev lim T_TR_D1D T_TE_D1D T_Q1D junk2 NE b g bt op_ x_ y_
        tr_d1d te_d1d q1d := by
  rw [SmemPADivergenceApply3D_eq_spec dev lim T_TR_D1D T_TE_D1D T_Q1D junk NE b g bt op_ x_ y_
      tr_d1d te_d1d q1d h1 h2 h3 hlim,
    PADivergenceApply3D_eq_spec dev lim T_TR_D1D T_TE_D1D T_Q1D junk2 NE b g bt op_ x_ y_
      tr_d1d te_d1d q1d h1 h2 h3 hlim]
  exact ⟨rfl, rfl⟩

/-- C5 at `TR_D1D = 3`, `TE_D1D = 2`, `Q1D = 4`, `NE = 2` with the limits `24, 24`. -/
theorem SmemPADivergenceApply3D_eq_PADivergenceApply3D_witness :
    (SmemPADivergenceApply3D ⟨24, 24⟩ ⟨24, 24⟩ 0 0 0 (fun _ => (7 : ℤ)) 2
        (fun i => (i : ℤ)) (fun i => 2 * (i : ℤ) + 1) (fun i => (i : ℤ) + 3)
        (fun i => (i : ℤ) * i) (fun i => (i : ℤ) - 4) (fun i => 5 - (i : ℤ)) 3 2 4).failed =
      false ∧
    SmemPADivergenceApply3D ⟨24, 24⟩ ⟨24, 24⟩ 0 0 0 (fun _ => (7 : ℤ)) 2
        (fun i => (i : ℤ)) (fun i => 2 * (i : ℤ) + 1) (fun i => (i : ℤ) + 3)
        (fun i => (i : ℤ) * i) (fun i => (i : ℤ) - 4) (fun i => 5 - (i : ℤ)) 3 2 4 =
      PADivergenceApply3D ⟨24, 24⟩ ⟨24, 24⟩ 0 0 0 (fun i => (i : ℤ)) 2
        (fun i => (i : ℤ)) (fun i => 2 * (i : ℤ) + 1) (fun i => (i : ℤ) + 3)
        (fun i => (i : ℤ) * i) (fun i => (i : ℤ) - 4) (fun i => 5 - (i : ℤ)) 3 2 4 :=
  SmemPADivergenceApply3D_eq_PADivergenceApply3D ⟨24, 24⟩ ⟨24, 24⟩ 0 0 0 (fun _ => (7 : ℤ))
    (fun i => (i : ℤ)) 2 (fun i => (i : ℤ)) (fun i => 2 * (i : ℤ) + 1) (fun i => (i : ℤ) + 3)
    (fun i => (i : ℤ) * i) (fun i => (i : ℤ) - 4) (fun i => 5 - (i : ℤ)) 3 2 4
    (by decide) (by decide) (by decide) ⟨by decide, by decide⟩

/-- C7: accumulate, not overwrite. For each of `PADivergenceApply2D`, `PADivergenceApply3D`,
`PADivergenceApplyTranspose2D`, `PADivergenceApplyTranspose3D`, for sizes within the limits and
every initial output `y0`, the call returns normally and every entry of the final output is the
entry of `y0` plus the entry of the output obtained from the same inputs with a zero initial
output (whatever the initial content of the scratch arrays of either run). -/
theorem PADivergenceApply_accumulates (dev lim : DofQuadLimits) (T_TR_D1D T_TE_D1D T_Q1D : Nat)
    (junk junk2 : Buf R) (NE : Nat) (b g bt op_ x_ y0 : Buf R) (tr_d1d te_d1d q1d : Nat)
    (h1 : pick T_TR_D1D tr_d1d ≤ dev.MAX_D1D) (h2 : pick T_TE_D1D te_d1d ≤ dev.MAX_D1D)
    (h3 : pick T_Q1D q1d ≤ dev.MAX_Q1D) (hlim : dev.le lim) :
    (PADivergenceApply2D dev lim T_TR_D1D T_TE_D1D T_Q1D junk NE b g bt op_ x_ y0
        tr_d1d te_d1d q1d).failed = false ∧
    (∀ j, (PADivergenceApply2D dev lim T_TR_D1D T_TE_D1D T_Q1D junk NE b g bt op_ x_ y0
        tr_d1d te_d1d q1d).out j =
      y0 j + (PADivergenceApply2D dev lim T_TR_D1D T_TE_D1D T_Q1D junk2 NE b g bt op_ x_
        (fun _ => 0) tr_d1d te_d1d q1d).out j) ∧
    (PADivergenceApply3D dev lim T_TR_D1D T_TE_D1D T_Q1D junk NE b g bt op_ x_ y0
        tr_d1d te_d1d q1d).failed = false ∧
    (∀ j, (PADivergenceApply3D dev lim T_TR_D1D T_TE_D1D T_Q1D junk NE b g bt op_ x_ y0
        tr_d1d te_d1d q1d).out j =
      y0 j + (PADivergenceApply3D dev lim T_TR_D1D T_TE_D1D T_Q1D junk2 NE b g bt op_ x_
        (fun _ => 0) tr_d1d te_d1d q1d).out j) ∧
    (PADivergenceApplyTranspose2D dev lim T_TR_D1D T_TE_D1D T_Q1D junk NE b g bt op_ x_ y0
        tr_d1d te_d1d q1d).failed = false ∧
    (∀ j, (PADivergenceApplyTranspose2D dev lim T_TR_D1D T_TE_D1D T_Q1D junk NE b g bt op_ x_ y0
        tr_d1d te_d1d q1d).out j =
      y0 j + (PADivergenceApplyTranspose2D dev lim T_TR_D1D T_TE_D1D T_Q1D junk2 NE b g bt op_ x_
        (fun _ => 0) tr_d1d te_d1d q1d).out j) ∧
    (PADivergenceApplyTranspose3D dev lim T_TR_D1D T_TE_D1D T_Q1D junk NE b g bt op_ x_ y0
        tr_d1d te_d1d q1d).failed = false ∧
    (∀ j, (PADivergenceApplyTranspose3D dev lim T_TR_D1D T_TE_D1D T_Q1D junk NE b g bt op_ x_ y0
        tr_d1d te_d1d q1d).out j =
      y0 j + (PADivergenceApplyTranspose3D dev lim T_TR_D1D T_TE_D1D T_Q1D junk2 NE b g bt op_ x_
        (fun _ => 0) tr_d1d te_d1d q1d).out j) := by
  rw [PADivergenceApply2D_eq_spec dev lim T_TR_D1D T_TE_D1D T_Q1D junk NE b g bt op_ x_ y0
      tr_d1d te_d1d q1d h1 h2 h3 hlim,
    PADivergenceApply2D_eq_spec dev lim T_TR_D1D T_TE_D1D T_Q1D junk2 NE b g bt op_ x_ (fun _ => 0)
      tr_d1d te_d1d q1d h1 h2 h3 hlim,
    PADivergenceApply3D_eq_spec dev lim T_TR_D1D T_TE_D1D T_Q1D junk NE b g bt op_ x_ y0
      tr_d1d te_d1d q1d h1 h2 h3 hlim,
    PADivergenceApply3D_eq_spec dev lim T_TR_D1D T_TE_D1D T_Q1D junk2 NE b g bt op_ x_ (fun _ => 0)
      tr_d1d te_d1d q1d h1 h2 h3 hlim,
    PADivergenceApplyTranspose2D_eq_spec dev lim T_TR_D1D T_TE_D1D T_Q1D junk NE b g bt op_ x_ y0
      tr_d1d te_d1d q1d h1 h2 h3 hlim,
    PADivergenceApplyTranspose2D_eq_spec dev lim T_TR_D1D T_TE_D1D T_Q1D junk2 NE b g bt op_ x_ (fun _ => 0)
      tr_d1d te_d1d q1d h1 h2 h3 hlim,
    PADivergenceApplyTranspose3D_eq_spec dev lim T_TR_D1D T_TE_D1D T_Q1D junk NE b g bt op_ x_ y0
      tr_d1d te_d1d q1d h1 h2 h3 hlim,
    PADivergenceApplyTranspose3D_eq_spec dev lim T_TR_D1D T_TE_D1D T_Q1D junk2 NE b g bt op_ x_ (fun _ => 0)
      tr_d1d te_d1d q1d h1 h2 h3 hlim]
  refine ⟨rfl, fun j => ?_, rfl, fun j => ?_, rfl, fun j => ?_, rfl, fun j => ?_⟩
  · simp [Outcome.out, PADivergenceApply2D_spec]
  · simp [Outcome.out, PADivergenceApply3D_spec]
  · simp [Outcome.out, PADivergenceApplyTranspose2D_spec]
  · simp [Outcome.out, PADivergenceApplyTranspose3D_spec]


/-- C7 at `TR_D1D = 3`, `TE_D1D = 2`, `Q1D = 4`, `NE = 2` with the limits `24, 24`. -/
theorem PADivergenceApply_accumulates_witness :
    (PADivergenceApply2D ⟨24, 24⟩ ⟨24, 24⟩ 0 0 0 (fun _ => (7 : ℤ)) 2
        (fun i => (i : ℤ)) (fun i => 2 * (i : ℤ) + 1) (fun i => (i : ℤ) + 3)
        (fun i => (i : ℤ) * i) (fun i => (i : ℤ) - 4)
        (fun i => 5 - (i : ℤ)) 3 2 4).failed = false ∧
    (∀ j, (PADivergenceApply2D ⟨24, 24⟩ ⟨24, 24⟩ 0 0 0 (fun _ => (7 : ℤ)) 2
        (fun i => (i : ℤ)) (fun i => 2 * (i : ℤ) + 1) (fun i => (i : ℤ) + 3)
        (fun i => (i : ℤ) * i) (fun i => (i : ℤ) - 4)
        (fun i => 5 - (i : ℤ)) 3 2 4).out j =
      (fun i => 5 - (i : ℤ)) j + (PADivergenceApply2D ⟨24, 24⟩ ⟨24, 24⟩ 0 0 0 (fun i => (i : ℤ)) 2
        (fun i => (i : ℤ)) (fun i => 2 * (i : ℤ) + 1) (fun i => (i : ℤ) + 3)
        (fun i => (i : ℤ) * i) (fun i => (i : ℤ) - 4)
        (fun _ => 0) 3 2 4).out j) ∧
    (PADivergenceApply3D ⟨24, 24⟩ ⟨24, 24⟩ 0 0 0 (fun _ => (7 : ℤ)) 2
        (fun i => (i : ℤ)) (fun i => 2 * (i : ℤ) + 1) (fun i => (i : ℤ) + 3)
        (fun i => (i : ℤ) * i) (fun i => (i : ℤ) - 4)
        (fun i => 5 - (i : ℤ)) 3 2 4).failed = false ∧
    (∀ j, (PADivergenceApply3D ⟨24, 24⟩ ⟨24, 24⟩ 0 0 0 (fun _ => (7 : ℤ)) 2
        (fun i => (i : ℤ)) (fun i => 2 * (i : ℤ) + 1) (fun i => (i : ℤ) + 3)
        (fun i => (i : ℤ) * i) (fun i => (i : ℤ) - 4)
        (fun i => 5 - (i : ℤ)) 3 2 4).out j =
      (fun i => 5 - (i : ℤ)) j + (PADivergenceApply3D ⟨24, 24⟩ ⟨24, 24⟩ 0 0 0 (fun i => (i : ℤ)) 2
        (fun i => (i : ℤ)) (fun i => 2 * (i : ℤ) + 1) (fun i => (i : ℤ) + 3)
        (fun i => (i : ℤ) * i) (fun i => (i : ℤ) - 4)
        (fun _ => 0) 3 2 4).out j) ∧
    (PADivergenceApplyTranspose2D ⟨24, 24⟩ ⟨24, 24⟩ 0 0 0 (fun _ => (7 : ℤ)) 2
        (fun i => (i : ℤ)) (fun i => 2 * (i : ℤ) + 1) (fun i => (i : ℤ) + 3)
        (fun i => (i : ℤ) * i) (fun i => (i : ℤ) - 4)
        (fun i => 5 - (i : ℤ)) 3 2 4).failed = false ∧
    (∀ j, (PADivergenceApplyTranspose2D ⟨24, 24⟩ ⟨24, 24⟩ 0 0 0 (fun _ => (7 : ℤ)) 2
        (fun i => (i : ℤ)) (fun i => 2 * (i : ℤ) + 1) (fun i => (i : ℤ) + 3)
        (fun i => (i : ℤ) * i) (fun i => (i : ℤ) - 4)
        (fun i => 5 - (i : ℤ)) 3 2 4).out j =
      (fun i => 5 - (i : ℤ)) j + (PADivergenceApplyTranspose2D ⟨24, 24⟩ ⟨24, 24⟩ 0 0 0 (fun i => (i : ℤ)) 2
        (fun i => (i : ℤ)) (fun i => 2 * (i : ℤ) + 1) (fun i => (i : ℤ) + 3)
        (fun i => (i : ℤ) * i) (fun i => (i : ℤ) - 4)
        (fun _ => 0) 3 2 4).out j) ∧
    (PADivergenceApplyTranspose3D ⟨24, 24⟩ ⟨24, 24⟩ 0 0 0 (fun _ => (7 : ℤ)) 2
        (fun i => (i : ℤ)) (fun i => 2 * (i : ℤ) + 1) (fun i => (i : ℤ) + 3)
        (fun i => (i : ℤ) * i) (fun i => (i : ℤ) - 4)
        (fun i => 5 - (i : ℤ)) 3 2 4).failed = false ∧
    (∀ j, (PADivergenceApplyTranspose3D ⟨24, 24⟩ ⟨24, 24⟩ 0 0 0 (fun _ => (7 : ℤ)) 2
        (fun i => (i : ℤ)) (fun i => 2 * (i : ℤ) + 1) (fun i => (i : ℤ) + 3)
        (fun i => (i : ℤ) * i) (fun i => (i : ℤ) - 4)
        (fun i => 5 - (i : ℤ)) 3 2 4).out j =
      (fun i => 5 - (i : ℤ)) j + (PADivergenceApplyTranspose3D ⟨24, 24⟩ ⟨24, 24⟩ 0 0 0 (fun i => (i : ℤ)) 2
        (fun i => (i : ℤ)) (fun i => 2 * (i : ℤ) + 1) (fun i => (i : ℤ) + 3)
        (fun i => (i : ℤ) * i) (fun i => (i : ℤ) - 4)
        (fun _ => 0) 3 2 4).out j) :=
  PADivergenceApply_accumulates ⟨24, 24⟩ ⟨24, 24⟩ 0 0 0 (fun _ => (7 : ℤ)) (fun i => (i : ℤ)) 2
    (fun i => (i : ℤ)) (fun i => 2 * (i : ℤ) + 1) (fun i => (i : ℤ) + 3)
        (fun i => (i : ℤ) * i) (fun i => (i : ℤ) - 4)
    (fun i => 5 - (i : ℤ)) 3 2 4
    (by decide) (by decide) (by decide) ⟨by decide, by decide⟩

/-- C8: zero-field. For every `B`, `G`, `Bt`, operator tensor, sizes and initial output `y`,
`PADivergenceApply2D` and `PADivergenceApply3D` applied to the all-zero trial vector end with
every entry of `y` unchanged (so a zero `y` stays zero), the run-time limits not exceeding the
compile-time limits that size the scratch arrays. -/
theorem PADivergenceApply_zero_field (dev lim : DofQuadLimits) (T_TR_D1D T_TE_D1D T_Q1D : Nat)
    (junk : Buf R) (NE : Nat) (b g bt op_ y_ : Buf R) (tr_d1d te_d1d q1d : Nat)
    (hlim : dev.le lim) :
    (PADivergenceApply2D dev lim T_TR_D1D T_TE_D1D T_Q1D junk NE b g bt op_ (fun _ => 0) y_
        tr_d1d te_d1d q1d).out = y_ ∧
    (PADivergenceApply3D dev lim T_TR_D1D T_TE_D1D T_Q1D junk NE b g bt op_ (fun _ => 0) y_
        tr_d1d te_d1d q1d).out = y_ := by
  by_cases h : pick T_TR_D1D tr_d1d ≤ dev.MAX_D1D ∧ pick T_TE_D1D te_d1d ≤ dev.MAX_D1D ∧
      pick T_Q1D q1d ≤ dev.MAX_Q1D
  · rw [PADivergenceApply2D_eq_spec dev lim T_TR_D1D T_TE_D1D T_Q1D junk NE b g bt op_
        (fun _ => 0) y_ tr_d1d te_d1d q1d h.1 h.2.1 h.2.2 hlim,
      PADivergenceApply3D_eq_spec dev lim T_TR_D1D T_TE_D1D T_Q1D junk NE b g bt op_
        (fun _ => 0) y_ tr_d1d te_d1d q1d h.1 h.2.1 h.2.2 hlim]
    exact ⟨PADivergenceApply2D_spec_zero _ _ _ _ _ _ _ _ _,
      PADivergenceApply3D_spec_zero _ _ _ _ _ _ _ _ _⟩
  · rw [PADivergenceApply2D_fatal dev lim T_TR_D1D T_TE_D1D T_Q1D junk NE b g bt op_
        (fun _ => 0) y_ tr_d1d te_d1d q1d h,
      PADivergenceApply3D_fatal dev lim T_TR_D1D T_TE_D1D T_Q1D junk NE b g bt op_
        (fun _ => 0) y_ tr_d1d te_d1d q1d h]
    exact ⟨rfl, rfl⟩

/-- C8 at `TR_D1D = 3`, `TE_D1D = 2`, `Q1D = 4`, `NE = 2` with the limits `24, 24`. -/
theorem PADivergenceApply_zero_field_witness :
    (PADivergenceApply2D ⟨24, 24⟩ ⟨24, 24⟩ 0 0 0 (fun _ => (7 : ℤ)) 2
        (fun i => (i : ℤ)) (fun i => 2 * (i : ℤ) + 1) (fun i => (i : ℤ) + 3)
        (fun i => (i : ℤ) * i) (fun _ => 0) (fun i => 5 - (i : ℤ)) 3 2 4).out =
      (fun (i : Nat) => 5 - (i : ℤ)) ∧
    (PADivergenceApply3D ⟨24, 24⟩ ⟨24, 24⟩ 0 0 0 (fun _ => (7 : ℤ)) 2
        (fun i => (i : ℤ)) (fun i => 2 * (i : ℤ) + 1) (fun i => (i : ℤ) + 3)
        (fun i => (i : ℤ) * i) (fun _ => 0) (fun i => 5 - (i : ℤ)) 3 2 4).out =
      (fun (i : Nat) => 5 - (i : ℤ)) :=
  PADivergenceApply_zero_field ⟨24, 24⟩ ⟨24, 24⟩ 0 0 0 (fun _ => (7 : ℤ)) 2
    (fun i => (i : ℤ)) (fun i => 2 * (i : ℤ) + 1) (fun i => (i : ℤ) + 3)
    (fun i => (i : ℤ) * i) (fun i => 5 - (i : ℤ)) 3 2 4 ⟨by decide, by decide⟩

/-- C10: size limits are fatal and checked before any work. Each of `PADivergenceApply2D`,
`PADivergenceApplyTranspose2D`, `PADivergenceApply3D`, `PADivergenceApplyTranspose3D` and
`SmemPADivergenceApply3D` returns normally when `TR_D1D ≤ MAX_D1D`, `TE_D1D ≤ MAX_D1D` and
`Q1D ≤ MAX_Q1D` all hold, and otherwise ends in the fatal error of `MFEM_VERIFY` with the
output vector `y` exactly as it was passed in. -/
theorem PADivergenceApply_size_limits (dev lim : DofQuadLimits) (T_TR_D1D T_TE_D1D T_Q1D : Nat)
    (junk : Buf R) (NE : Nat) (b g bt gt op_ x_ y_ : Buf R) (tr_d1d te_d1d q1d : Nat) :
    PADivergenceApply2D dev lim T_TR_D1D T_TE_D1D T_Q1D junk NE b g bt op_ x_ y_
        tr_d1d te_d1d q1d =
      (if pick T_TR_D1D tr_d1d ≤ dev.MAX_D1D ∧ pick T_TE_D1D te_d1d ≤ dev.MAX_D1D ∧
          pick T_Q1D q1d ≤ dev.MAX_Q1D then
        Outcome.ok (PADivergenceApply2D dev lim T_TR_D1D T_TE_D1D T_Q1D junk NE b g bt op_ x_ y_
        tr_d1d te_d1d q1d).out
      else Outcome.fatal "" y_) ∧
    PADivergenceApplyTranspose2D dev lim T_TR_D1D T_TE_D1D T_Q1D junk NE bt gt b op_ x_ y_
        tr_d1d te_d1d q1d =
      (if pick T_TR_D1D tr_d1d ≤ dev.MAX_D1D ∧ pick T_TE_D1D te_d1d ≤ dev.MAX_D1D ∧
          pick T_Q1D q1d ≤ dev.MAX_Q1D then
        Outcome.ok (PADivergenceApplyTranspose2D dev lim T_TR_D1D T_TE_D1D T_Q1D junk NE bt gt b op_ x_ y_
        tr_d1d te_d1d q1d).out
      else Outcome.fatal "" y_) ∧
    PADivergenceApply3D dev lim T_TR_D1D T_TE_D1D T_Q1D junk NE b g bt op_ x_ y_
        tr_d1d te_d1d q1d =
      (if pick T_TR_D1D tr_d1d ≤ dev.MAX_D1D ∧ pick T_TE_D1D te_d1d ≤ dev.MAX_D1D ∧
          pick T_Q1D q1d ≤ dev.MAX_Q1D then
        Outcome.ok (PADivergenceApply3D dev lim T_TR_D1D T_TE_D1D T_Q1D junk NE b g bt op_ x_ y_
        tr_d1d te_d1d q1d).out
      else Outcome.fatal "" y_) ∧
    PADivergenceApplyTranspose3D dev lim T_TR_D1D T_TE_D1D T_Q1D junk NE bt gt b op_ x_ y_
        tr_d1d te_d1d q1d =
      (if pick T_TR_D1D tr_d1d ≤ dev.MAX_D1D ∧ pick T_TE_D1D te_d1d ≤ dev.MAX_D1D ∧
          pick T_Q1D q1d ≤ dev.MAX_Q1D then
        Outcome.ok (PADivergenceApplyTranspose3D dev lim T_TR_D1D T_TE_D1D T_Q1D junk NE bt gt b op_ x_ y_
        tr_d1d te_d1d q1d).out
      else Outcome.fatal "" y_) ∧
    SmemPADivergenceApply3D dev lim T_TR_D1D T_TE_D1D T_Q1D junk NE b g bt op_ x_ y_
        tr_d1d te_d1d q1d =
      (if pick T_TR_D1D tr_d1d ≤ dev.MAX_D1D ∧ pick T_TE_D1D te_d1d ≤ dev.MAX_D1D ∧
          pick T_Q1D q1d ≤ dev.MAX_Q1D then
        Outcome.ok (SmemPADivergenceApply3D dev lim T_TR_D1D T_TE_D1D T_Q1D junk NE b g bt op_ x_ y_
        tr_d1d te_d1d q1d).out
      else Outcome.fatal "" y_) := by
  by_cases h : pick T_TR_D1D tr_d1d ≤ dev.MAX_D1D ∧ pick T_TE_D1D te_d1d ≤ dev.MAX_D1D ∧
      pick T_Q1D q1d ≤ dev.MAX_Q1D
  · simp only [if_pos h]
    rw [PADivergenceApply2D_ok dev lim T_TR_D1D T_TE_D1D T_Q1D junk NE b g bt op_ x_ y_
        tr_d1d te_d1d q1d h.1 h.2.1 h.2.2,
      PADivergenceApplyTranspose2D_ok dev lim T_TR_D1D T_TE_D1D T_Q1D junk NE bt gt b op_ x_ y_
        tr_d1d te_d1d q1d h.1 h.2.1 h.2.2,
      PADivergenceApply3D_ok dev lim T_TR_D1D T_TE_D1D T_Q1D junk NE b g bt op_ x_ y_
        tr_d1d te_d1d q1d h.1 h.2.1 h.2.2,
      PADivergenceApplyTranspose3D_ok dev lim T_TR_D1D T_TE_D1D T_Q1D junk NE bt gt b op_ x_ y_
        tr_d1d te_d1d q1d h.1 h.2.1 h.2.2,
      SmemPADivergenceApply3D_ok dev lim T_TR_D1D T_TE_D1D T_Q1D junk NE b g bt op_ x_ y_
        tr_d1d te_d1d q1d h.1 h.2.1 h.2.2]
    exact ⟨rfl, rfl, rfl, rfl, rfl⟩
  · simp only [if_neg h]
    exact ⟨PADivergenceApply2D_fatal dev lim T_TR_D1D T_TE_D1D T_Q1D junk NE b g bt op_ x_ y_
        tr_d1d te_d1d q1d h,
      PADivergenceApplyTranspose2D_fatal dev lim T_TR_D1D T_TE_D1D T_Q1D junk NE bt gt b op_ x_ y_
        tr_d1d te_d1d q1d h,
      PADivergenceApply3D_fatal dev lim T_TR_D1D T_TE_D1D T_Q1D junk NE b g bt op_ x_ y_
        tr_d1d te_d1d q1d h,
      PADivergenceApplyTranspose3D_fatal dev lim T_TR_D1D T_TE_D1D T_Q1D junk NE bt gt b op_ x_ y_
        tr_d1d te_d1d q1d h,
      SmemPADivergenceApply3D_fatal dev lim T_TR_D1D T_TE_D1D T_Q1D junk NE b g bt op_ x_ y_
        tr_d1d te_d1d q1d h⟩

/-- C9, as the code has it: in `PADivergenceApply2D` and `PADivergenceApply3D`, for every
element `e` and quadrature point `q`, the value of `div` at `q` after the loop over the
components is `sum_c sum_k grad_k(u_c)(q) * op[q][row=k][col=c][e]`: the reference gradient of
component `c` (the content of `grad` for that component, whatever the array held before) is
contracted with COLUMN `c` of the block, `op` indexed `[point][row][col][element]` as the Setup
kernels store it. -/
theorem PADivergenceApply_div_column (max_Q1D : Nat) (junk : Buf R) (TR_D1D Q1D NE : Nat)
    (b g op_ x_ : Buf R) (e : Nat) (grad0 : Nat → Buf R) (qz qy qx : Nat)
    (hQ : Q1D ≤ max_Q1D) (hqz : qz < Q1D) (hqy : qy < Q1D) (hqx : qx < Q1D) :
    (PADivergenceApply2D_quad max_Q1D junk TR_D1D Q1D NE b g op_ x_ e).2 (carr2 max_Q1D qy qx) =
      ∑ c ∈ Finset.range 2, ∑ k ∈ Finset.range 2,
        PADivergenceApply2D_grad max_Q1D junk TR_D1D Q1D NE b g x_ c e (grad0 c)
            (carr3 max_Q1D 2 qy qx k) *
          Reshape4 op_ (Q1D * Q1D) 2 2 NE (qx + qy * Q1D) k c e ∧
    (PADivergenceApply3D_quad max_Q1D junk TR_D1D Q1D NE b g op_ x_ e).2
        (carr3 max_Q1D max_Q1D qz qy qx) =
      ∑ c ∈ Finset.range 3, ∑ k ∈ Finset.range 3,
        PADivergenceApply3D_grad max_Q1D junk TR_D1D Q1D NE b g x_ c e (grad0 c)
            (carr4 max_Q1D max_Q1D 3 qz qy qx k) *
          Reshape4 op_ (Q1D * Q1D * Q1D) 3 3 NE (qx + (qy + qz * Q1D) * Q1D) k c e := by
  constructor
  · rw [PADivergenceApply2D_quad_eq max_Q1D junk TR_D1D Q1D NE b g op_ x_ e hQ hqy hqx]
    unfold div2D
    refine Finset.sum_congr rfl (fun c _ => ?_)
    obtain ⟨h0, h1⟩ := PADivergenceApply2D_grad_eq max_Q1D junk TR_D1D Q1D NE b g x_ c e
      (grad0 c) hQ hqy hqx
    simp only [Finset.sum_range_succ, Finset.sum_range_zero, zero_add, h0, h1]
  · rw [PADivergenceApply3D_quad_eq max_Q1D junk TR_D1D Q1D NE b g op_ x_ e hQ hqz hqy hqx]
    unfold div3D
    refine Finset.sum_congr rfl (fun c _ => ?_)
    obtain ⟨h0, h1, h2⟩ := PADivergenceApply3D_grad_eq max_Q1D junk TR_D1D Q1D NE b g x_ c e
      (grad0 c) hQ hqz hqy hqx
    simp only [Finset.sum_range_succ, Finset.sum_range_zero, zero_add, h0, h1, h2]

/-- C9 at `max_Q1D = 24`, `TR_D1D = 2`, `Q1D = 3`, `NE = 2`, element `1`, point `(0, 2, 1)`. -/
theorem PADivergenceApply_div_column_witness :
    (PADivergenceApply2D_quad 24 (fun _ => (7 : ℤ)) 2 3 2 (fun i => (i : ℤ))
        (fun i => 2 * (i : ℤ) + 1) (fun i => (i : ℤ) * i) (fun i => (i : ℤ) - 4) 1).2
        (carr2 24 2 0) =
      ∑ c ∈ Finset.range 2, ∑ k ∈ Finset.range 2,
        PADivergenceApply2D_grad 24 (fun _ => (7 : ℤ)) 2 3 2 (fun i => (i : ℤ))
            (fun i => 2 * (i : ℤ) + 1) (fun i => (i : ℤ) - 4) c 1 ((fun _ _ => 5) c)
            (carr3 24 2 2 0 k) *
          Reshape4 (fun i => (i : ℤ) * i) (3 * 3) 2 2 2 (0 + 2 * 3) k c 1 ∧
    (PADivergenceApply3D_quad 24 (fun _ => (7 : ℤ)) 2 3 2 (fun i => (i : ℤ))
        (fun i => 2 * (i : ℤ) + 1) (fun i => (i : ℤ) * i) (fun i => (i : ℤ) - 4) 1).2
        (carr3 24 24 1 2 0) =
      ∑ c ∈ Finset.range 3, ∑ k ∈ Finset.range 3,
        PADivergenceApply3D_grad 24 (fun _ => (7 : ℤ)) 2 3 2 (fun i => (i : ℤ))
            (fun i => 2 * (i : ℤ) + 1) (fun i => (i : ℤ) - 4) c 1 ((fun _ _ => 5) c)
            (carr4 24 24 3 1 2 0 k) *
          Reshape4 (fun i => (i : ℤ) * i) (3 * 3 * 3) 3 3 2 (0 + (2 + 1 * 3) * 3) k c 1 :=
  PADivergenceApply_div_column 24 (fun _ => (7 : ℤ)) 2 3 2 (fun i => (i : ℤ))
    (fun i => 2 * (i : ℤ) + 1) (fun i => (i : ℤ) * i) (fun i => (i : ℤ) - 4) 1 (fun _ _ => 5)
    1 2 0 (by decide) (by decide) (by decide) (by decide)

/-- C9 as stated fails: with `TR_D1D = Q1D = NE = 1`, `B = G = 1`, the operator block stored by
`PADivergenceSetup2D` for the Jacobian `J11 = 1, J21 = 0, J12 = 1, J22 = 1` (so
`op = [[1, -1], [0, 1]]`) and the trial vector with `u_0 = 1`, `u_1 = 0`, the kernel's `div` at
the point is `1`, while the contraction of each component's gradient with ROW `c` gives `0`. -/
theorem PADivergenceApply2D_div_row_counterexample :
    (PADivergenceApply2D_quad 24 (fun _ => (0 : ℤ)) 1 1 1 (fun _ => 1) (fun _ => 1)
        (PADivergenceSetup2D 1 1 (fun _ => 1) (fun i => if i = 1 then 0 else 1) 1 (fun _ => 0))
        (fun i => if i = 0 then 1 else 0) 0).2 (carr2 24 0 0) = 1 ∧
    (∑ c ∈ Finset.range 2, ∑ k ∈ Finset.range 2,
        PADivergenceApply2D_grad 24 (fun _ => (0 : ℤ)) 1 1 1 (fun _ => 1) (fun _ => 1)
            (fun i => if i = 0 then 1 else 0) c 0 (fun _ => 0) (carr3 24 2 0 0 k) *
          Reshape4 (PADivergenceSetup2D 1 1 (fun _ => 1) (fun i => if i = 1 then 0 else 1) 1
            (fun _ => 0)) (1 * 1) 2 2 1 (0 + 0 * 1) c k 0) = 0 ∧
    (PADivergenceApply2D_quad 24 (fun _ => (0 : ℤ)) 1 1 1 (fun _ => 1) (fun _ => 1)
        (PADivergenceSetup2D 1 1 (fun _ => 1) (fun i => if i = 1 then 0 else 1) 1 (fun _ => 0))
        (fun i => if i = 0 then 1 else 0) 0).2 (carr2 24 0 0) ≠
      ∑ c ∈ Finset.range 2, ∑ k ∈ Finset.range 2,
        PADivergenceApply2D_grad 24 (fun _ => (0 : ℤ)) 1 1 1 (fun _ => 1) (fun _ => 1)
            (fun i => if i = 0 then 1 else 0) c 0 (fun _ => 0) (carr3 24 2 0 0 k) *
          Reshape4 (PADivergenceSetup2D 1 1 (fun _ => 1) (fun i => if i = 1 then 0 else 1) 1
            (fun _ => 0)) (1 * 1) 2 2 1 (0 + 0 * 1) c k 0 := by
  refine ⟨by decide, by decide, by decide⟩

/-- C11: `PADivergenceSetup` with `dim = 1` ends in the fatal error of `MFEM_ABORT`, for every
`Q1D`, `NE`, `W`, `J` and `COEFF`, with every entry of the operator tensor as it was before the
call. -/
theorem PADivergenceSetup_dim_one (TR_D1D TE_D1D Q1D NE : Nat) (W J : Buf R) (COEFF : R)
    (op : Buf R) :
    PADivergenceSetup 1 TR_D1D TE_D1D Q1D NE W J COEFF op =
        Outcome.fatal "dim==1 not supported in PADivergenceSetup" op ∧
    (PADivergenceSetup 1 TR_D1D TE_D1D Q1D NE W J COEFF op).failed = true ∧
    (PADivergenceSetup 1 TR_D1D TE_D1D Q1D NE W J COEFF op).out = op := by
  refine ⟨?_, ?_, ?_⟩ <;> simp [PADivergenceSetup, Outcome.failed, Outcome.out]

/-- C12, what the code does: for every `dim` other than 1, 2 and 3 (such as 0 or 4)
`PADivergenceSetup` returns normally and leaves the operator tensor as it was; only `dim = 1` is
fatal. -/
theorem PADivergenceSetup_other_dim_returns (dim : Int) (TR_D1D TE_D1D Q1D NE : Nat)
    (W J : Buf R) (COEFF : R) (op : Buf R) (h1 : dim ≠ 1) (h2 : dim ≠ 2) (h3 : dim ≠ 3) :
    PADivergenceSetup dim TR_D1D TE_D1D Q1D NE W J COEFF op = Outcome.ok op ∧
    (PADivergenceSetup dim TR_D1D TE_D1D Q1D NE W J COEFF op).failed = false := by
  constructor <;> simp [PADivergenceSetup, h1, h2, h3, Outcome.failed]

/-- C12 at `dim = 4`, `Q1D = 2`, `NE = 3` over the integers. -/
theorem PADivergenceSetup_other_dim_returns_witness :
    PADivergenceSetup 4 2 2 2 3 (fun _ => (1 : ℤ)) (fun i => (i : ℤ)) 5 (fun _ => 7) =
        Outcome.ok (fun _ => 7) ∧
    (PADivergenceSetup 4 2 2 2 3 (fun _ => (1 : ℤ)) (fun i => (i : ℤ)) 5
        (fun _ => 7)).failed = false :=
  PADivergenceSetup_other_dim_returns 4 2 2 2 3 (fun _ => (1 : ℤ)) (fun i => (i : ℤ)) 5
    (fun _ => 7) (by decide) (by decide) (by decide)

/-- C13: `PADivergenceApply` runs exactly `PADivergenceApply2D` (`PADivergenceApplyTranspose2D`
when `transpose` is true) for `dim = 2`, exactly `PADivergenceApply3D`
(`PADivergenceApplyTranspose3D`) for `dim = 3`, with the arguments in the order received and the
default template arguments, and for every other `dim` ends in the fatal error
`"Unknown kernel."` with `y` as it was passed in. -/
theorem PADivergenceApply_dispatch (dev lim : DofQuadLimits) (junk : Buf R) (dim : Int)
    (TR_D1D TE_D1D Q1D NE : Nat) (B G Bt op x y : Buf R) (transpose : Bool) :
    PADivergenceApply dev lim junk 2 TR_D1D TE_D1D Q1D NE B G Bt op x y false =
      PADivergenceApply2D dev lim 0 0 0 junk NE B G Bt op x y TR_D1D TE_D1D Q1D ∧
    PADivergenceApply dev lim junk 2 TR_D1D TE_D1D Q1D NE B G Bt op x y true =
      PADivergenceApplyTranspose2D dev lim 0 0 0 junk NE B G Bt op x y TR_D1D TE_D1D Q1D ∧
    PADivergenceApply dev lim junk 3 TR_D1D TE_D1D Q1D NE B G Bt op x y false =
      PADivergenceApply3D dev lim 0 0 0 junk NE B G Bt op x y TR_D1D TE_D1D Q1D ∧
    PADivergenceApply dev lim junk 3 TR_D1D TE_D1D Q1D NE B G Bt op x y true =
      PADivergenceApplyTranspose3D dev lim 0 0 0 junk NE B G Bt op x y TR_D1D TE_D1D Q1D ∧
    ((dim = 2 ∨ dim = 3) ∨
      (PADivergenceApply dev lim junk dim TR_D1D TE_D1D Q1D NE B G Bt op x y transpose =
          Outcome.fatal "Unknown kernel." y ∧
        (PADivergenceApply dev lim junk dim TR_D1D TE_D1D Q1D NE B G Bt op x y transpose).out =
          y)) := by
  refine ⟨by simp [PADivergenceApply], by simp [PADivergenceApply], by simp [PADivergenceApply],
    by simp [PADivergenceApply], ?_⟩
  by_cases h2 : dim = 2
  · exact Or.inl (Or.inl h2)
  · by_cases h3 : dim = 3
    · exact Or.inl (Or.inr h3)
    · refine Or.inr ?_
      simp [PADivergenceApply, h2, h3, Outcome.out]

/-- C19: no cross-element coupling. For each of `PADivergenceApply2D`, `PADivergenceApply3D`,
`PADivergenceApplyTranspose2D`, `PADivergenceApplyTranspose3D` and every element `e < NE`: two
runs with the same basis tables and sizes whose inputs agree on the slices `x(..., e)`,
`op(..., e)` and on the initial `y(..., e)` end with the same output slice `y(..., e)`, whatever
the data of the other elements and the initial content of the scratch arrays (the run-time
limits not exceeding the compile-time limits that size the scratch arrays). -/
theorem PADivergenceApply_element_local (dev lim : DofQuadLimits)
    (T_TR_D1D T_TE_D1D T_Q1D : Nat) (junk junk2 : Buf R) (NE : Nat) (b g bt : Buf R)
    (tr_d1d te_d1d q1d : Nat) (e : Nat) (hlim : dev.le lim) (he : e < NE) :
    (∀ op_ op2 x_ x2 y_ y2 : Buf R,
      (∀ dx dy c, dx < (pick T_TR_D1D tr_d1d) → dy < (pick T_TR_D1D tr_d1d) → c < 2 →
        Reshape4 x_ (pick T_TR_D1D tr_d1d) (pick T_TR_D1D tr_d1d) 2 NE dx dy c e =
          Reshape4 x2 (pick T_TR_D1D tr_d1d) (pick T_TR_D1D tr_d1d) 2 NE dx dy c e) →
      (∀ q k c, q < (pick T_Q1D q1d) * (pick T_Q1D q1d) → k < 2 → c < 2 →
        Reshape4 op_ ((pick T_Q1D q1d) * (pick T_Q1D q1d)) 2 2 NE q k c e =
          Reshape4 op2 ((pick T_Q1D q1d) * (pick T_Q1D q1d)) 2 2 NE q k c e) →
      (∀ dx dy, dx < (pick T_TE_D1D te_d1d) → dy < (pick T_TE_D1D te_d1d) →
        Reshape3 y_ (pick T_TE_D1D te_d1d) (pick T_TE_D1D te_d1d) NE dx dy e = Reshape3 y2 (pick T_TE_D1D te_d1d) (pick T_TE_D1D te_d1d) NE dx dy e) →
      ∀ dx dy, dx < (pick T_TE_D1D te_d1d) → dy < (pick T_TE_D1D te_d1d) →
        Reshape3 (PADivergenceApply2D dev lim T_TR_D1D T_TE_D1D T_Q1D junk NE b g bt
          op_ x_ y_ tr_d1d te_d1d q1d).out (pick T_TE_D1D te_d1d) (pick T_TE_D1D te_d1d) NE dx dy e =
        Reshape3 (PADivergenceApply2D dev lim T_TR_D1D T_TE_D1D T_Q1D junk2 NE b g bt
          op2 x2 y2 tr_d1d te_d1d q1d).out (pick T_TE_D1D te_d1d) (pick T_TE_D1D te_d1d) NE dx dy e) ∧
    (∀ op_ op2 x_ x2 y_ y2 : Buf R,
      (∀ dx dy dz c, dx < (pick T_TR_D1D tr_d1d) → dy < (pick T_TR_D1D tr_d1d) → dz < (pick T_TR_D1D tr_d1d) → c < 3 →
        Reshape5 x_ (pick T_TR_D1D tr_d1d) (pick T_TR_D1D tr_d1d) (pick T_TR_D1D tr_d1d) 3 NE dx dy dz c e =
          Reshape5 x2 (pick T_TR_D1D tr_d1d) (pick T_TR_D1D tr_d1d) (pick T_TR_D1D tr_d1d) 3 NE dx dy dz c e) →
      (∀ q k c, q < (pick T_Q1D q1d) * (pick T_Q1D q1d) * (pick T_Q1D q1d) → k < 3 → c < 3 →
        Reshape4 op_ ((pick T_Q1D q1d) * (pick T_Q1D q1d) * (pick T_Q1D q1d)) 3 3 NE q k c e =
          Reshape4 op2 ((pick T_Q1D q1d) * (pick T_Q1D q1d) * (pick T_Q1D q1d)) 3 3 NE q k c e) →
      (∀ dx dy dz, dx < (pick T_TE_D1D te_d1d) → dy < (pick T_TE_D1D te_d1d) → dz < (pick T_TE_D1D te_d1d) →
        Reshape4 y_ (pick T_TE_D1D te_d1d) (pick T_TE_D1D te_d1d) (pick T_TE_D1D te_d1d) NE dx dy dz e =
          Reshape4 y2 (pick T_TE_D1D te_d1d) (pick T_TE_D1D te_d1d) (pick T_TE_D1D te_d1d) NE dx dy dz e) →
      ∀ dx dy dz, dx < (pick T_TE_D1D te_d1d) → dy < (pick T_TE_D1D te_d1d) → dz < (pick T_TE_D1D te_d1d) →
        Reshape4 (PADivergenceApply3D dev lim T_TR_D1D T_TE_D1D T_Q1D junk NE b g bt
          op_ x_ y_ tr_d1d te_d1d q1d).out (pick T_TE_D1D te_d1d) (pick T_TE_D1D te_d1d) (pick T_TE_D1D te_d1d) NE dx dy dz e =
        Reshape4 (PADivergenceApply3D dev lim T_TR_D1D T_TE_D1D T_Q1D junk2 NE b g bt
          op2 x2 y2 tr_d1d te_d1d q1d).out (pick T_TE_D1D te_d1d) (pick T_TE_D1D te_d1d) (pick T_TE_D1D te_d1d) NE dx dy dz e) ∧
    (∀ op_ op2 x_ x2 y_ y2 : Buf R,
      (∀ dx dy, dx < (pick T_TE_D1D te_d1d) → dy < (pick T_TE_D1D te_d1d) →
        Reshape3 x_ (pick T_TE_D1D te_d1d) (pick T_TE_D1D te_d1d) NE dx dy e = Reshape3 x2 (pick T_TE_D1D te_d1d) (pick T_TE_D1D te_d1d) NE dx dy e) →
      (∀ q k c, q < (pick T_Q1D q1d) * (pick T_Q1D q1d) → k < 2 → c < 2 →
        Reshape4 op_ ((pick T_Q1D q1d) * (pick T_Q1D q1d)) 2 2 NE q k c e =
          Reshape4 op2 ((pick T_Q1D q1d) * (pick T_Q1D q1d)) 2 2 NE q k c e) →
      (∀ dx dy c, dx < (pick T_TR_D1D tr_d1d) → dy < (pick T_TR_D1D tr_d1d) → c < 2 →
        Reshape4 y_ (pick T_TR_D1D tr_d1d) (pick T_TR_D1D tr_d1d) 2 NE dx dy c e =
          Reshape4 y2 (pick T_TR_D1D tr_d1d) (pick T_TR_D1D tr_d1d) 2 NE dx dy c e) →
      ∀ dx dy c, dx < (pick T_TR_D1D tr_d1d) → dy < (pick T_TR_D1D tr_d1d) → c < 2 →
        Reshape4 (PADivergenceApplyTranspose2D dev lim T_TR_D1D T_TE_D1D T_Q1D junk NE b g bt
          op_ x_ y_ tr_d1d te_d1d q1d).out (pick T_TR_D1D tr_d1d) (pick T_TR_D1D tr_d1d) 2 NE dx dy c e =
        Reshape4 (PADivergenceApplyTranspose2D dev lim T_TR_D1D T_TE_D1D T_Q1D junk2 NE b g bt
          op2 x2 y2 tr_d1d te_d1d q1d).out (pick T_TR_D1D tr_d1d) (pick T_TR_D1D tr_d1d) 2 NE dx dy c e) ∧
    (∀ op_ op2 x_ x2 y_ y2 : Buf R,
      (∀ dx dy dz, dx < (pick T_TE_D1D te_d1d) → dy < (pick T_TE_D1D te_d1d) → dz < (pick T_TE_D1D te_d1d) →
        Reshape4 x_ (pick T_TE_D1D te_d1d) (pick T_TE_D1D te_d1d) (pick T_TE_D1D te_d1d) NE dx dy dz e =
          Reshape4 x2 (pick T_TE_D1D te_d1d) (pick T_TE_D1D te_d1d) (pick T_TE_D1D te_d1d) NE dx dy dz e) →
      (∀ q k c, q < (pick T_Q1D q1d) * (pick T_Q1D q1d) * (pick T_Q1D q1d) → k < 3 → c < 3 →
        Reshape4 op_ ((pick T_Q1D q1d) * (pick T_Q1D q1d) * (pick T_Q1D q1d)) 3 3 NE q k c e =
          Reshape4 op2 ((pick T_Q1D q1d) * (pick T_Q1D q1d) * (pick T_Q1D q1d)) 3 3 NE q k c e) →
      (∀ dx dy dz c, dx < (pick T_TR_D1D tr_d1d) → dy < (pick T_TR_D1D tr_d1d) → dz < (pick T_TR_D1D tr_d1d) → c < 3 →
        Reshape5 y_ (pick T_TR_D1D tr_d1d) (pick T_TR_D1D tr_d1d) (pick T_TR_D1D tr_d1d) 3 NE dx dy dz c e =
          Reshape5 y2 (pick T_TR_D1D tr_d1d) (pick T_TR_D1D tr_d1d) (pick T_TR_D1D tr_d1d) 3 NE dx dy dz c e) →
      ∀ dx dy dz c, dx < (pick T_TR_D1D tr_d1d) → dy < (pick T_TR_D1D tr_d1d) → dz < (pick T_TR_D1D tr_d1d) → c < 3 →
        Reshape5 (PADivergenceApplyTranspose3D dev lim T_TR_D1D T_TE_D1D T_Q1D junk NE b g bt
          op_ x_ y_ tr_d1d te_d1d q1d).out (pick T_TR_D1D tr_d1d) (pick T_TR_D1D tr_d1d) (pick T_TR_D1D tr_d1d) 3 NE dx dy dz c e =
        Reshape5 (PADivergenceApplyTranspose3D dev lim T_TR_D1D T_TE_D1D T_Q1D junk2 NE b g bt
          op2 x2 y2 tr_d1d te_d1d q1d).out (pick T_TR_D1D tr_d1d) (pick T_TR_D1D tr_d1d) (pick T_TR_D1D tr_d1d) 3 NE dx dy dz c e) := by
  refine ⟨?_, ?_, ?_, ?_⟩
  · intro op_ op2 x_ x2 y_ y2 hx hop hy dx dy hdx hdy
    rw [Reshape3, Reshape3, PADivergenceApply2D_out_cell dev lim T_TR_D1D T_TE_D1D T_Q1D junk NE
        b g bt op_ x_ y_ tr_d1d te_d1d q1d hlim he hdy hdx,
      PADivergenceApply2D_out_cell dev lim T_TR_D1D T_TE_D1D T_Q1D junk2 NE
        b g bt op2 x2 y2 tr_d1d te_d1d q1d hlim he hdy hdx,
      PADivergenceApply2D_inc_congr _ _ _ NE b g bt hx hop dy dx]
    exact congrArg (· + _) (hy dx dy hdx hdy)
  · intro op_ op2 x_ x2 y_ y2 hx hop hy dx dy dz hdx hdy hdz
    rw [Reshape4, Reshape4, PADivergenceApply3D_out_cell dev lim T_TR_D1D T_TE_D1D T_Q1D junk NE
        b g bt op_ x_ y_ tr_d1d te_d1d q1d hlim he hdz hdy hdx,
      PADivergenceApply3D_out_cell dev lim T_TR_D1D T_TE_D1D T_Q1D junk2 NE
        b g bt op2 x2 y2 tr_d1d te_d1d q1d hlim he hdz hdy hdx,
      PADivergenceApply3D_inc_congr _ _ _ NE b g bt hx hop dz dy dx]
    exact congrArg (· + _) (hy dx dy dz hdx hdy hdz)
  · intro op_ op2 x_ x2 y_ y2 hx hop hy dx dy c hdx hdy hc
    rw [Reshape4, Reshape4, PADivergenceApplyTranspose2D_out_cell dev lim T_TR_D1D T_TE_D1D T_Q1D
        junk NE b g bt op_ x_ y_ tr_d1d te_d1d q1d hlim he hc hdy hdx,
      PADivergenceApplyTranspose2D_out_cell dev lim T_TR_D1D T_TE_D1D T_Q1D junk2 NE
        b g bt op2 x2 y2 tr_d1d te_d1d q1d hlim he hc hdy hdx,
      PADivergenceApplyTranspose2D_inc_congr _ _ _ NE b g bt hx hop hc dy dx]
    exact congrArg (· + _) (hy dx dy c hdx hdy hc)
  · intro op_ op2 x_ x2 y_ y2 hx hop hy dx dy dz c hdx hdy hdz hc
    rw [Reshape5, Reshape5, PADivergenceApplyTranspose3D_out_cell dev lim T_TR_D1D T_TE_D1D T_Q1D
        junk NE b g bt op_ x_ y_ tr_d1d te_d1d q1d hlim he hc hdz hdy hdx,
      PADivergenceApplyTranspose3D_out_cell dev lim T_TR_D1D T_TE_D1D T_Q1D junk2 NE
        b g bt op2 x2 y2 tr_d1d te_d1d q1d hlim he hc hdz hdy hdx,
      PADivergenceApplyTranspose3D_inc_congr _ _ _ NE b g bt hx hop hc dz dy dx]
    exact congrArg (· + _) (hy dx dy dz c hdx hdy hdz hc)

/-- C19 at `TR_D1D = 2`, `TE_D1D = 1`, `Q1D = 1`, `NE = 2`, element `1`: the second run differs
from the first in the entry `0` of `op`, `x` and `y`, which belongs to element `0`, and in the
content of the scratch arrays. -/
theorem PADivergenceApply_element_local_witness :
    (∀ dx dy, dx < (pick 0 1) → dy < (pick 0 1) →
        Reshape3 (PADivergenceApply2D ⟨24, 24⟩ ⟨24, 24⟩ 0 0 0 (fun _ => (7 : ℤ)) 2 (fun i => (i : ℤ) + 1) (fun i => 2 * (i : ℤ) + 1) (fun i => (i : ℤ) + 3)
          (fun i => (i : ℤ) * i) (fun i => (i : ℤ) - 4) (fun i => 5 - (i : ℤ)) 2 1 1).out (pick 0 1) (pick 0 1) 2 dx dy 1 =
        Reshape3 (PADivergenceApply2D ⟨24, 24⟩ ⟨24, 24⟩ 0 0 0 (fun _ => (9 : ℤ)) 2 (fun i => (i : ℤ) + 1) (fun i => 2 * (i : ℤ) + 1) (fun i => (i : ℤ) + 3)
          (fun i => if i = 0 then 5 else (i : ℤ) * i) (fun i => if i = 0 then 6 else (i : ℤ) - 4) (fun i => if i = 0 then 8 else 5 - (i : ℤ)) 2 1 1).out (pick 0 1) (pick 0 1) 2 dx dy 1) ∧
    (∀ dx dy dz, dx < (pick 0 1) → dy < (pick 0 1) → dz < (pick 0 1) →
        Reshape4 (PADivergenceApply3D ⟨24, 24⟩ ⟨24, 24⟩ 0 0 0 (fun _ => (7 : ℤ)) 2 (fun i => (i : ℤ) + 1) (fun i => 2 * (i : ℤ) + 1) (fun i => (i : ℤ) + 3)
          (fun i => (i : ℤ) * i) (fun i => (i : ℤ) - 4) (fun i => 5 - (i : ℤ)) 2 1 1).out (pick 0 1) (pick 0 1) (pick 0 1) 2 dx dy dz 1 =
        Reshape4 (PADivergenceApply3D ⟨24, 24⟩ ⟨24, 24⟩ 0 0 0 (fun _ => (9 : ℤ)) 2 (fun i => (i : ℤ) + 1) (fun i => 2 * (i : ℤ) + 1) (fun i => (i : ℤ) + 3)
          (fun i => if i = 0 then 5 else (i : ℤ) * i) (fun i => if i = 0 then 6 else (i : ℤ) - 4) (fun i => if i = 0 then 8 else 5 - (i : ℤ)) 2 1 1).out (pick 0 1) (pick 0 1) (pick 0 1) 2 dx dy dz 1) ∧
    (∀ dx dy c, dx < (pick 0 2) → dy < (pick 0 2) → c < 2 →
        Reshape4 (PADivergenceApplyTranspose2D ⟨24, 24⟩ ⟨24, 24⟩ 0 0 0 (fun _ => (7 : ℤ)) 2 (fun i => (i : ℤ) + 1) (fun i => 2 * (i : ℤ) + 1) (fun i => (i : ℤ) + 3)
          (fun i => (i : ℤ) * i) (fun i => (i : ℤ) - 4) (fun i => 5 - (i : ℤ)) 2 1 1).out (pick 0 2) (pick 0 2) 2 2 dx dy c 1 =
        Reshape4 (PADivergenceApplyTranspose2D ⟨24, 24⟩ ⟨24, 24⟩ 0 0 0 (fun _ => (9 : ℤ)) 2 (fun i => (i : ℤ) + 1) (fun i => 2 * (i : ℤ) + 1) (fun i => (i : ℤ) + 3)
          (fun i => if i = 0 then 5 else (i : ℤ) * i) (fun i => if i = 0 then 6 else (i : ℤ) - 4) (fun i => if i = 0 then 8 else 5 - (i : ℤ)) 2 1 1).out (pick 0 2) (pick 0 2) 2 2 dx dy c 1) ∧
    (∀ dx dy dz c, dx < (pick 0 2) → dy < (pick 0 2) → dz < (pick 0 2) → c < 3 →
        Reshape5 (PADivergenceApplyTranspose3D ⟨24, 24⟩ ⟨24, 24⟩ 0 0 0 (fun _ => (7 : ℤ)) 2 (fun i => (i : ℤ) + 1) (fun i => 2 * (i : ℤ) + 1) (fun i => (i : ℤ) + 3)
          (fun i => (i : ℤ) * i) (fun i => (i : ℤ) - 4) (fun i => 5 - (i : ℤ)) 2 1 1).out (pick 0 2) (pick 0 2) (pick 0 2) 3 2 dx dy dz c 1 =
        Reshape5 (PADivergenceApplyTranspose3D ⟨24, 24⟩ ⟨24, 24⟩ 0 0 0 (fun _ => (9 : ℤ)) 2 (fun i => (i : ℤ) + 1) (fun i => 2 * (i : ℤ) + 1) (fun i => (i : ℤ) + 3)
          (fun i => if i = 0 then 5 else (i : ℤ) * i) (fun i => if i = 0 then 6 else (i : ℤ) - 4) (fun i => if i = 0 then 8 else 5 - (i : ℤ)) 2 1 1).out (pick 0 2) (pick 0 2) (pick 0 2) 3 2 dx dy dz c 1) :=
  ⟨(PADivergenceApply_element_local ⟨24, 24⟩ ⟨24, 24⟩ 0 0 0 (fun _ => (7 : ℤ)) (fun _ => (9 : ℤ)) 2
      (fun i => (i : ℤ) + 1) (fun i => 2 * (i : ℤ) + 1) (fun i => (i : ℤ) + 3) 2 1 1 1
      ⟨by decide, by decide⟩ (by decide)).1 (fun i => (i : ℤ) * i) (fun i => if i = 0 then 5 else (i : ℤ) * i) (fun i => (i : ℤ) - 4) (fun i => if i = 0 then 6 else (i : ℤ) - 4) (fun i => 5 - (i : ℤ)) (fun i => if i = 0 then 8 else 5 - (i : ℤ))
      (fun dx dy c _ _ _ => by simp [Reshape4, idx4, idx3, idx2, pick])
      (fun q k c _ _ _ => by simp [Reshape4, idx4, idx3, idx2, pick])
      (fun dx dy _ _ => by simp [Reshape3, idx3, idx2, pick]),
    (PADivergenceApply_element_local ⟨24, 24⟩ ⟨24, 24⟩ 0 0 0 (fun _ => (7 : ℤ)) (fun _ => (9 : ℤ)) 2
      (fun i => (i : ℤ) + 1) (fun i => 2 * (i : ℤ) + 1) (fun i => (i : ℤ) + 3) 2 1 1 1
      ⟨by decide, by decide⟩ (by decide)).2.1 (fun i => (i : ℤ) * i) (fun i => if i = 0 then 5 else (i : ℤ) * i) (fun i => (i : ℤ) - 4) (fun i => if i = 0 then 6 else (i : ℤ) - 4) (fun i => 5 - (i : ℤ)) (fun i => if i = 0 then 8 else 5 - (i : ℤ))
      (fun dx dy dz c _ _ _ _ => by simp [Reshape5, idx5, idx4, idx3, idx2, pick])
      (fun q k c _ _ _ => by simp [Reshape4, idx4, idx3, idx2, pick])
      (fun dx dy dz _ _ _ => by simp [Reshape4, idx4, idx3, idx2, pick]),
    (PADivergenceApply_element_local ⟨24, 24⟩ ⟨24, 24⟩ 0 0 0 (fun _ => (7 : ℤ)) (fun _ => (9 : ℤ)) 2
      (fun i => (i : ℤ) + 1) (fun i => 2 * (i : ℤ) + 1) (fun i => (i : ℤ) + 3) 2 1 1 1
      ⟨by decide, by decide⟩ (by decide)).2.2.1 (fun i => (i : ℤ) * i) (fun i => if i = 0 then 5 else (i : ℤ) * i) (fun i => (i : ℤ) - 4) (fun i => if i = 0 then 6 else (i : ℤ) - 4) (fun i => 5 - (i : ℤ)) (fun i => if i = 0 then 8 else 5 - (i : ℤ))
      (fun dx dy _ _ => by simp [Reshape3, idx3, idx2, pick])
      (fun q k c _ _ _ => by simp [Reshape4, idx4, idx3, idx2, pick])
      (fun dx dy c _ _ _ => by simp [Reshape4, idx4, idx3, idx2, pick]),
    (PADivergenceApply_element_local ⟨24, 24⟩ ⟨24, 24⟩ 0 0 0 (fun _ => (7 : ℤ)) (fun _ => (9 : ℤ)) 2
      (fun i => (i : ℤ) + 1) (fun i => 2 * (i : ℤ) + 1) (fun i => (i : ℤ) + 3) 2 1 1 1
      ⟨by decide, by decide⟩ (by decide)).2.2.2 (fun i => (i : ℤ) * i) (fun i => if i = 0 then 5 else (i : ℤ) * i) (fun i => (i : ℤ) - 4) (fun i => if i = 0 then 6 else (i : ℤ) - 4) (fun i => 5 - (i : ℤ)) (fun i => if i = 0 then 8 else 5 - (i : ℤ))
      (fun dx dy dz _ _ _ => by simp [Reshape4, idx4, idx3, idx2, pick])
      (fun q k c _ _ _ => by simp [Reshape4, idx4, idx3, idx2, pick])
      (fun dx dy dz c _ _ _ _ => by simp [Reshape5, idx5, idx4, idx3, idx2, pick])⟩

/-- C20: for `dim = 2` and `dim = 3`, `PADivergenceSetup` returns normally, every one of the
`NQ * dim * dim * NE` entries of the operator tensor (`NQ = Q1D^dim`) is written, so that the
result does not depend on the previous content of the tensor, and the block at `(q, e)` is the
same for any two inputs that agree on `W[q]`, `COEFF` and the Jacobian block `J(q,.,.,e)`. -/
theorem PADivergenceSetup_overwrite (TR_D1D TE_D1D Q1D NE : Nat) (W W2 J J2 : Buf R)
    (COEFF : R) (op op2 : Buf R) :
    (PADivergenceSetup 2 TR_D1D TE_D1D Q1D NE W J COEFF op).failed = false ∧
    (∀ i, i < Q1D * Q1D * 2 * 2 * NE →
      (PADivergenceSetup 2 TR_D1D TE_D1D Q1D NE W J COEFF op).out i =
        (PADivergenceSetup 2 TR_D1D TE_D1D Q1D NE W J COEFF op2).out i) ∧
    (∀ q e, q < Q1D * Q1D → e < NE → W q = W2 q →
      (∀ r c, r < 2 → c < 2 →
        J (idx4 (Q1D * Q1D) 2 2 q r c e) = J2 (idx4 (Q1D * Q1D) 2 2 q r c e)) →
      ∀ r c, r < 2 → c < 2 →
        (PADivergenceSetup 2 TR_D1D TeD1D Q1D NE W J COEFF op).out
            (idx4 (Q1D * Q1D) 2 2 q r c e) =
          (PADivergenceSetup 2 TR_D1D TeD1D Q1D NE W2 J2 COEFF op2).out
            (idx4 (Q1D * Q1D) 2 2 q r c e)) ∧
    (PADivergenceSetup 3 TR_D1D TE_D1D Q1D NE W J COEFF op).failed = false ∧
    (∀ i, i < Q1D * Q1D * Q1D * 3 * 3 * NE →
      (PADivergenceSetup 3 TR_D1D TE_D1D Q1D NE W J COEFF op).out i =
        (PADivergenceSetup 3 TR_D1D TE_D1D Q1D NE W J COEFF op2).out i) ∧
    (∀ q e, q < Q1D * Q1D * Q1D → e < NE → W q = W2 q →
      (∀ r c, r < 3 → c < 3 →
        J (idx4 (Q1D * Q1D * Q1D) 3 3 q r c e) = J2 (idx4 (Q1D * Q1D * Q1D) 3 3 q r c e)) →
      ∀ r c, r < 3 → c < 3 →
        (PADivergenceSetup 3 TR_D1D TeD1D Q1D NE W J COEFF op).out
            (idx4 (Q1D * Q1D * Q1D) 3 3 q r c e) =
          (PADivergenceSetup 3 TR_D1D TeD1D Q1D NE W2 J2 COEFF op2).out
            (idx4 (Q1D * Q1D * Q1D) 3 3 q r c e)) := by
  simp only [PADivergenceSetup_two, PADivergenceSetup_three, Outcome.out, Outcome.failed]
  refine ⟨trivial, ?_, ?_, trivial, ?_, ?_⟩
  · intro i hi
    obtain ⟨q, hq, r, hr, c, hc, e, he, rfl⟩ := idx4_surj hi
    rw [PADivergenceSetup2D_cell Q1D NE W J COEFF op hq he hr hc,
      PADivergenceSetup2D_cell Q1D NE W J COEFF op2 hq he hr hc]
  · intro q e hq he hW hJ r c hr hc
    rw [PADivergenceSetup2D_cell Q1D NE W J COEFF op hq he hr hc,
      PADivergenceSetup2D_cell Q1D NE W2 J2 COEFF op2 hq he hr hc]
    exact setupCell2D_congr _ COEFF hq hr hc hW hJ
  · intro i hi
    obtain ⟨q, hq, r, hr, c, hc, e, he, rfl⟩ := idx4_surj hi
    rw [PADivergenceSetup3D_cell Q1D NE W J COEFF op hq he hr hc,
      PADivergenceSetup3D_cell Q1D NE W J COEFF op2 hq he hr hc]
  · intro q e hq he hW hJ r c hr hc
    rw [PADivergenceSetup3D_cell Q1D NE W J COEFF op hq he hr hc,
      PADivergenceSetup3D_cell Q1D NE W2 J2 COEFF op2 hq he hr hc]
    exact setupCell3D_congr _ COEFF hq hr hc hW hJ

/-- C20 at `Q1D = 2`, `NE = 2`, point `1` of element `1`: the second input has other weights
at the other points, another Jacobian at point `0` of element `0` and another initial content
of the operator tensor. -/
theorem PADivergenceSetup_overwrite_witness :
    (∀ r c, r < 2 → c < 2 →
        (PADivergenceSetup 2 2 2 2 2 (fun i => (i : ℤ) + 2) (fun i => (i : ℤ) * i + 1) 5 (fun _ => 0)).out
            (idx4 (2 * 2) 2 2 1 r c 1) =
          (PADivergenceSetup 2 2 2 2 2 (fun i => if i = 1 then 3 else 0) (fun i => if i = 0 then 100 else (i : ℤ) * i + 1) 5 (fun i => (i : ℤ))).out
            (idx4 (2 * 2) 2 2 1 r c 1)) ∧
    (∀ r c, r < 3 → c < 3 →
        (PADivergenceSetup 3 2 2 2 2 (fun i => (i : ℤ) + 2) (fun i => (i : ℤ) * i + 1) 5 (fun _ => 0)).out
            (idx4 (2 * 2 * 2) 3 3 1 r c 1) =
          (PADivergenceSetup 3 2 2 2 2 (fun i => if i = 1 then 3 else 0) (fun i => if i = 0 then 100 else (i : ℤ) * i + 1) 5 (fun i => (i : ℤ))).out
            (idx4 (2 * 2 * 2) 3 3 1 r c 1)) :=
  ⟨(PADivergenceSetup_overwrite 2 2 2 2 (fun i => (i : ℤ) + 2) (fun i => if i = 1 then 3 else 0)
      (fun i => (i : ℤ) * i + 1) (fun i => if i = 0 then 100 else (i : ℤ) * i + 1) 5
      (fun _ => 0) (fun i => (i : ℤ))).2.2.1 1 1
      (by decide) (by decide) (by simp)
      (fun r c _ _ => by simp [idx4, idx3, idx2]),
    (PADivergenceSetup_overwrite 2 2 2 2 (fun i => (i : ℤ) + 2) (fun i => if i = 1 then 3 else 0)
      (fun i => (i : ℤ) * i + 1) (fun i => if i = 0 then 100 else (i : ℤ) * i + 1) 5
      (fun _ => 0) (fun i => (i : ℤ))).2.2.2.2.2 1 1
      (by decide) (by decide) (by simp)
      (fun r c _ _ => by simp [idx4, idx3, idx2])⟩

/-- C23: in `PADivergenceApply3D`, for every component `c`, element `e` and quadrature point
`(qx, qy, qz)`, after the three contraction stages
`grad[qz][qy][qx][0] = sum x(dx,dy,dz,c,e) * G(qx,dx) * B(qy,dy) * B(qz,dz)`,
`grad[qz][qy][qx][1] = sum x * B(qx,dx) * G(qy,dy) * B(qz,dz)` and
`grad[qz][qy][qx][2] = sum x * B(qx,dx) * B(qy,dy) * G(qz,dz)`, the sums over
`dx, dy, dz < TR_D1D`, whatever the array `grad` held before. -/
theorem PADivergenceApply3D_grad_reference (max_Q1D : Nat) (junk : Buf R)
    (TR_D1D Q1D NE : Nat) (b g x_ : Buf R) (c e : Nat) (grad : Buf R) (qz qy qx : Nat)
    (hQ : Q1D ≤ max_Q1D) (hqz : qz < Q1D) (hqy : qy < Q1D) (hqx : qx < Q1D) :
    PADivergenceApply3D_grad max_Q1D junk TR_D1D Q1D NE b g x_ c e grad
        (carr4 max_Q1D max_Q1D 3 qz qy qx 0) =
      ∑ dz ∈ Finset.range TR_D1D, ∑ dy ∈ Finset.range TR_D1D, ∑ dx ∈ Finset.range TR_D1D,
        Reshape5 x_ TR_D1D TR_D1D TR_D1D 3 NE dx dy dz c e * Reshape2 g Q1D TR_D1D qx dx *
          Reshape2 b Q1D TR_D1D qy dy * Reshape2 b Q1D TR_D1D qz dz ∧
    PADivergenceApply3D_grad max_Q1D junk TR_D1D Q1D NE b g x_ c e grad
        (carr4 max_Q1D max_Q1D 3 qz qy qx 1) =
      ∑ dz ∈ Finset.range TR_D1D, ∑ dy ∈ Finset.range TR_D1D, ∑ dx ∈ Finset.range TR_D1D,
        Reshape5 x_ TR_D1D TR_D1D TR_D1D 3 NE dx dy dz c e * Reshape2 b Q1D TR_D1D qx dx *
          Reshape2 g Q1D TR_D1D qy dy * Reshape2 b Q1D TR_D1D qz dz ∧
    PADivergenceApply3D_grad max_Q1D junk TR_D1D Q1D NE b g x_ c e grad
        (carr4 max_Q1D max_Q1D 3 qz qy qx 2) =
      ∑ dz ∈ Finset.range TR_D1D, ∑ dy ∈ Finset.range TR_D1D, ∑ dx ∈ Finset.range TR_D1D,
        Reshape5 x_ TR_D1D TR_D1D TR_D1D 3 NE dx dy dz c e * Reshape2 b Q1D TR_D1D qx dx *
          Reshape2 b Q1D TR_D1D qy dy * Reshape2 g Q1D TR_D1D qz dz := by
  obtain ⟨h0, h1, h2⟩ := PADivergenceApply3D_grad_eq max_Q1D junk TR_D1D Q1D NE b g x_ c e grad
    hQ hqz hqy hqx
  rw [h0, h1, h2, interp3D_expand, interp3D_expand, interp3D_expand]
  exact ⟨rfl, rfl, rfl⟩

/-- C23 at `max_Q1D = 24`, `TR_D1D = 2`, `Q1D = 3`, `NE = 2`, component `2` of element `1`,
point `(0, 2, 1)`. -/
theorem PADivergenceApply3D_grad_reference_witness :
    PADivergenceApply3D_grad 24 (fun _ => (7 : ℤ)) 2 3 2 (fun i => (i : ℤ))
        (fun i => 2 * (i : ℤ) + 1) (fun i => (i : ℤ) - 4) 2 1 (fun _ => 5)
        (carr4 24 24 3 1 2 0 0) =
      ∑ dz ∈ Finset.range 2, ∑ dy ∈ Finset.range 2, ∑ dx ∈ Finset.range 2,
        Reshape5 (fun i => (i : ℤ) - 4) 2 2 2 3 2 dx dy dz 2 1 *
          Reshape2 (fun i => 2 * (i : ℤ) + 1) 3 2 0 dx *
          Reshape2 (fun i => (i : ℤ)) 3 2 2 dy * Reshape2 (fun i => (i : ℤ)) 3 2 1 dz ∧
    PADivergenceApply3D_grad 24 (fun _ => (7 : ℤ)) 2 3 2 (fun i => (i : ℤ))
        (fun i => 2 * (i : ℤ) + 1) (fun i => (i : ℤ) - 4) 2 1 (fun _ => 5)
        (carr4 24 24 3 1 2 0 1) =
      ∑ dz ∈ Finset.range 2, ∑ dy ∈ Finset.range 2, ∑ dx ∈ Finset.range 2,
        Reshape5 (fun i => (i : ℤ) - 4) 2 2 2 3 2 dx dy dz 2 1 *
          Reshape2 (fun i => (i : ℤ)) 3 2 0 dx *
          Reshape2 (fun i => 2 * (i : ℤ) + 1) 3 2 2 dy * Reshape2 (fun i => (i : ℤ)) 3 2 1 dz ∧
    PADivergenceApply3D_grad 24 (fun _ => (7 : ℤ)) 2 3 2 (fun i => (i : ℤ))
        (fun i => 2 * (i : ℤ) + 1) (fun i => (i : ℤ) - 4) 2 1 (fun _ => 5)
        (carr4 24 24 3 1 2 0 2) =
      ∑ dz ∈ Finset.range 2, ∑ dy ∈ Finset.range 2, ∑ dx ∈ Finset.range 2,
        Reshape5 (fun i => (i : ℤ) - 4) 2 2 2 3 2 dx dy dz 2 1 *
          Reshape2 (fun i => (i : ℤ)) 3 2 0 dx *
          Reshape2 (fun i => (i : ℤ)) 3 2 2 dy * Reshape2 (fun i => 2 * (i : ℤ) + 1) 3 2 1 dz :=
  PADivergenceApply3D_grad_reference 24 (fun _ => (7 : ℤ)) 2 3 2 (fun i => (i : ℤ))
    (fun i => 2 * (i : ℤ) + 1) (fun i => (i : ℤ) - 4) 2 1 (fun _ => 5) 1 2 0
    (by decide) (by decide) (by decide) (by decide)

/-- C24: for every input within the limits, every element `e < NE` and test index `(dx, dy)`,
`PADivergenceApply2D` returns with `y(dx,dy,e)` increased by exactly
`sum_{qy,qx} Bt(dx,qx) * Bt(dy,qy) * div(qx,qy)`, where
`div(qx,qy) = sum_{c<2} ((sum_{ay,ax} x(ax,ay,c,e) * G(qx,ax) * B(qy,ay)) * op(q,0,c,e) +
(sum_{ay,ax} x(ax,ay,c,e) * B(qx,ax) * G(qy,ay)) * op(q,1,c,e))` and `q = qx + qy * Q1D`. -/
theorem PADivergenceApply2D_reference (dev lim : DofQuadLimits) (T_TR_D1D T_TE_D1D T_Q1D : Nat)
    (junk : Buf R) (NE : Nat) (b g bt op_ x_ y_ : Buf R) (tr_d1d te_d1d q1d : Nat)
    (e dy dx : Nat)
    (h1 : pick T_TR_D1D tr_d1d ≤ dev.MAX_D1D) (h2 : pick T_TE_D1D te_d1d ≤ dev.MAX_D1D)
    (h3 : pick T_Q1D q1d ≤ dev.MAX_Q1D) (hlim : dev.le lim)
    (he : e < NE) (hdy : dy < pick T_TE_D1D te_d1d) (hdx : dx < pick T_TE_D1D te_d1d) :
    (PADivergenceApply2D dev lim T_TR_D1D T_TE_D1D T_Q1D junk NE b g bt op_ x_ y_
        tr_d1d te_d1d q1d).failed = false ∧
    Reshape3 (PADivergenceApply2D dev lim T_TR_D1D T_TE_D1D T_Q1D junk NE b g bt op_ x_ y_
        tr_d1d te_d1d q1d).out (pick T_TE_D1D te_d1d) (pick T_TE_D1D te_d1d) NE dx dy e =
      Reshape3 y_ (pick T_TE_D1D te_d1d) (pick T_TE_D1D te_d1d) NE dx dy e +
        ∑ qy ∈ Finset.range (pick T_Q1D q1d), ∑ qx ∈ Finset.range (pick T_Q1D q1d),
          Reshape2 bt (pick T_TE_D1D te_d1d) (pick T_Q1D q1d) dx qx *
            Reshape2 bt (pick T_TE_D1D te_d1d) (pick T_Q1D q1d) dy qy *
            ∑ c ∈ Finset.range 2,
              ((∑ ay ∈ Finset.range (pick T_TR_D1D tr_d1d),
                  ∑ ax ∈ Finset.range (pick T_TR_D1D tr_d1d),
                    Reshape4 x_ (pick T_TR_D1D tr_d1d) (pick T_TR_D1D tr_d1d) 2 NE ax ay c e *
                      Reshape2 g (pick T_Q1D q1d) (pick T_TR_D1D tr_d1d) qx ax *
                      Reshape2 b (pick T_Q1D q1d) (pick T_TR_D1D tr_d1d) qy ay) *
                  Reshape4 op_ (pick T_Q1D q1d * pick T_Q1D q1d) 2 2 NE
                    (qx + qy * pick T_Q1D q1d) 0 c e +
                (∑ ay ∈ Finset.range (pick T_TR_D1D tr_d1d),
                  ∑ ax ∈ Finset.range (pick T_TR_D1D tr_d1d),
                    Reshape4 x_ (pick T_TR_D1D tr_d1d) (pick T_TR_D1D tr_d1d) 2 NE ax ay c e *
                      Reshape2 b (pick T_Q1D q1d) (pick T_TR_D1D tr_d1d) qx ax *
                      Reshape2 g (pick T_Q1D q1d) (pick T_TR_D1D tr_d1d) qy ay) *
                  Reshape4 op_ (pick T_Q1D q1d * pick T_Q1D q1d) 2 2 NE
                    (qx + qy * pick T_Q1D q1d) 1 c e) := by
  constructor
  · rw [PADivergenceApply2D_ok _ _ _ _ _ _ _ _ _ _ _ _ _ _ _ _ h1 h2 h3]
    rfl
  · rw [Reshape3, PADivergenceApply2D_out_cell dev lim T_TR_D1D T_TE_D1D T_Q1D junk NE
      b g bt op_ x_ y_ tr_d1d te_d1d q1d hlim he hdy hdx, if_pos ⟨h1, h2, h3⟩]
    refine congrArg (Reshape3 y_ _ _ NE dx dy e + ·) ?_
    simp only [PADivergenceApply2D_inc, div2D, interp2D_expand, Finset.mul_sum]
    refine Finset.sum_congr rfl (fun qy _ => Finset.sum_congr rfl (fun qx _ =>
      Finset.sum_congr rfl (fun c _ => ?_)))
    ring

/-- C24 at `TR_D1D = 3`, `TE_D1D = 2`, `Q1D = 4`, `NE = 2` with the limits `24, 24`, test index
`(1, 0)` of element `1`. -/
theorem PADivergenceApply2D_reference_witness :
    (PADivergenceApply2D ⟨24, 24⟩ ⟨24, 24⟩ 0 0 0 (fun _ => (7 : ℤ)) 2 (fun i => (i : ℤ)) (fun i => 2 * (i : ℤ) + 1) (fun i => (i : ℤ) + 3) (fun i => (i : ℤ) * i) (fun i => (i : ℤ) - 4) (fun i => 5 - (i : ℤ))
        3 2 4).failed = false ∧
    Reshape3 (PADivergenceApply2D ⟨24, 24⟩ ⟨24, 24⟩ 0 0 0 (fun _ => (7 : ℤ)) 2 (fun i => (i : ℤ)) (fun i => 2 * (i : ℤ) + 1) (fun i => (i : ℤ) + 3) (fun i => (i : ℤ) * i) (fun i => (i : ℤ) - 4) (fun i => 5 - (i : ℤ))
        3 2 4).out (pick 0 2) (pick 0 2) 2 1 0 1 =
      Reshape3 (fun i => 5 - (i : ℤ)) (pick 0 2) (pick 0 2) 2 1 0 1 +
        ∑ qy ∈ Finset.range (pick 0 4), ∑ qx ∈ Finset.range (pick 0 4),
          Reshape2 (fun i => (i : ℤ) + 3) (pick 0 2) (pick 0 4) 1 qx *
            Reshape2 (fun i => (i : ℤ) + 3) (pick 0 2) (pick 0 4) 0 qy *
            ∑ c ∈ Finset.range 2,
              ((∑ ay ∈ Finset.range (pick 0 3),
                  ∑ ax ∈ Finset.range (pick 0 3),
                    Reshape4 (fun i => (i : ℤ) - 4) (pick 0 3) (pick 0 3) 2 2 ax ay c 1 *
                      Reshape2 (fun i => 2 * (i : ℤ) + 1) (pick 0 4) (pick 0 3) qx ax *
                      Reshape2 (fun i => (i : ℤ)) (pick 0 4) (pick 0 3) qy ay) *
                  Reshape4 (fun i => (i : ℤ) * i) (pick 0 4 * pick 0 4) 2 2 2
                    (qx + qy * pick 0 4) 0 c 1 +
                (∑ ay ∈ Finset.range (pick 0 3),
                  ∑ ax ∈ Finset.range (pick 0 3),
                    Reshape4 (fun i => (i : ℤ) - 4) (pick 0 3) (pick 0 3) 2 2 ax ay c 1 *
                      Reshape2 (fun i => (i : ℤ)) (pick 0 4) (pick 0 3) qx ax *
                      Reshape2 (fun i => 2 * (i : ℤ) + 1) (pick 0 4) (pick 0 3) qy ay) *
                  Reshape4 (fun i => (i : ℤ) * i) (pick 0 4 * pick 0 4) 2 2 2
                    (qx + qy * pick 0 4) 1 c 1) :=
  PADivergenceApply2D_reference ⟨24, 24⟩ ⟨24, 24⟩ 0 0 0 (fun _ => (7 : ℤ)) 2
    (fun i => (i : ℤ)) (fun i => 2 * (i : ℤ) + 1) (fun i => (i : ℤ) + 3)
    (fun i => (i : ℤ) * i) (fun i => (i : ℤ) - 4) (fun i => 5 - (i : ℤ)) 3 2 4 1 0 1
    (by decide) (by decide) (by decide) ⟨by decide, by decide⟩ (by decide) (by decide)
    (by decide)

/-- C21: in `VectorDivergenceIntegrator::AssemblePA`, for calls that pass the two assertions
that precede the coefficient handling: when no coefficient `Q` is set the operator tensor is the
one `PADivergenceSetup` produces with the coefficient `1`; when `Q` is a `ConstantCoefficient` it
is the one produced with its `constant`; in both cases the call fails exactly when Setup does;
when `Q` is any other kind of coefficient the call ends in the fatal error
`"only ConstantCoefficient is supported!"` with `pa_data` resized but not written by Setup. -/
theorem VectorDivergenceIntegrator_AssemblePA_coefficient (MFEM_DEBUG : Bool)
    (env : AssemblePA_Env R) (resized : Buf R) (self : VectorDivergenceIntegrator R)
    (constant : R)
    (hpre : MFEM_DEBUG = true → env.ordering_byNODES = true ∧ env.trial_nqpt = env.test_nqpt) :
    ((VectorDivergenceIntegrator_AssemblePA MFEM_DEBUG env none resized self).failed =
        (PADivergenceSetup env.dim env.trial_ndof env.test_ndof env.trial_nqpt env.ne
          env.weights env.J 1 resized).failed ∧
      (VectorDivergenceIntegrator_AssemblePA MFEM_DEBUG env none resized self).out.pa_data =
        (PADivergenceSetup env.dim env.trial_ndof env.test_ndof env.trial_nqpt env.ne
          env.weights env.J 1 resized).out) ∧
    ((VectorDivergenceIntegrator_AssemblePA MFEM_DEBUG env
          (some (Coefficient.ConstantCoefficient constant)) resized self).failed =
        (PADivergenceSetup env.dim env.trial_ndof env.test_ndof env.trial_nqpt env.ne
          env.weights env.J constant resized).failed ∧
      (VectorDivergenceIntegrator_AssemblePA MFEM_DEBUG env
          (some (Coefficient.ConstantCoefficient constant)) resized self).out.pa_data =
        (PADivergenceSetup env.dim env.trial_ndof env.test_ndof env.trial_nqpt env.ne
          env.weights env.J constant resized).out) ∧
    VectorDivergenceIntegrator_AssemblePA MFEM_DEBUG env (some Coefficient.other) resized self =
      Outcome.fatal "only ConstantCoefficient is supported!"
        ⟨env.nq, env.dim, env.ne, env.trial_ndof, env.trial_nqpt, env.test_ndof,
          env.nq * (env.dims * env.dims) * env.ne, resized⟩ :=
  ⟨VectorDivergenceIntegrator_AssemblePA_run MFEM_DEBUG env none resized self 1 hpre
      (Or.inl ⟨rfl, rfl⟩),
    VectorDivergenceIntegrator_AssemblePA_run MFEM_DEBUG env _ resized self constant hpre
      (Or.inr rfl),
    VectorDivergenceIntegrator_AssemblePA_other MFEM_DEBUG env resized self hpre⟩

/-- C21 with `MFEM_DEBUG`, a 2D mesh with `quad1D = 2`, `ne = 3` and the constant `5`. -/
theorem VectorDivergenceIntegrator_AssemblePA_coefficient_witness :
    ((VectorDivergenceIntegrator_AssemblePA true
          ⟨true, 2, 4, 2, 3, 2, 2, 2, 2, fun _ => (1 : ℤ), fun i => (i : ℤ)⟩ none (fun _ => 7)
          ⟨0, 0, 0, 0, 0, 0, 0, fun _ => 0⟩).failed =
        (PADivergenceSetup 2 2 2 2 3 (fun _ => (1 : ℤ)) (fun i => (i : ℤ)) 1
          (fun _ => 7)).failed ∧
      (VectorDivergenceIntegrator_AssemblePA true
          ⟨true, 2, 4, 2, 3, 2, 2, 2, 2, fun _ => (1 : ℤ), fun i => (i : ℤ)⟩ none (fun _ => 7)
          ⟨0, 0, 0, 0, 0, 0, 0, fun _ => 0⟩).out.pa_data =
        (PADivergenceSetup 2 2 2 2 3 (fun _ => (1 : ℤ)) (fun i => (i : ℤ)) 1
          (fun _ => 7)).out) ∧
    ((VectorDivergenceIntegrator_AssemblePA true
          ⟨true, 2, 4, 2, 3, 2, 2, 2, 2, fun _ => (1 : ℤ), fun i => (i : ℤ)⟩
          (some (Coefficient.ConstantCoefficient 5)) (fun _ => 7)
          ⟨0, 0, 0, 0, 0, 0, 0, fun _ => 0⟩).failed =
        (PADivergenceSetup 2 2 2 2 3 (fun _ => (1 : ℤ)) (fun i => (i : ℤ)) 5
          (fun _ => 7)).failed ∧
      (VectorDivergenceIntegrator_AssemblePA true
          ⟨true, 2, 4, 2, 3, 2, 2, 2, 2, fun _ => (1 : ℤ), fun i => (i : ℤ)⟩
          (some (Coefficient.ConstantCoefficient 5)) (fun _ => 7)
          ⟨0, 0, 0, 0, 0, 0, 0, fun _ => 0⟩).out.pa_data =
        (PADivergenceSetup 2 2 2 2 3 (fun _ => (1 : ℤ)) (fun i => (i : ℤ)) 5
          (fun _ => 7)).out) ∧
    VectorDivergenceIntegrator_AssemblePA true
        ⟨true, 2, 4, 2, 3, 2, 2, 2, 2, fun _ => (1 : ℤ), fun i => (i : ℤ)⟩
        (some Coefficient.other) (fun _ => 7) ⟨0, 0, 0, 0, 0, 0, 0, fun _ => 0⟩ =
      Outcome.fatal "only ConstantCoefficient is supported!"
        ⟨4, 2, 3, 2, 2, 2, 4 * (2 * 2) * 3, fun _ => 7⟩ :=
  VectorDivergenceIntegrator_AssemblePA_coefficient true
    ⟨true, 2, 4, 2, 3, 2, 2, 2, 2, fun _ => (1 : ℤ), fun i => (i : ℤ)⟩ (fun _ => 7)
    ⟨0, 0, 0, 0, 0, 0, 0, fun _ => 0⟩ 5 (fun _ => ⟨rfl, rfl⟩)

theorem forAllLoop_eq_true (n : Nat) (body : Nat → Bool) :
    forAllLoop n body = true ↔ ∀ i, i < n → body i = true := by
  simp [forAllLoop, List.all_eq_true, List.mem_range]

theorem idx3_lt {n1 n2 n3 i1 i2 i3 : Nat} (h1 : i1 < n1) (h2 : i2 < n2) (h3 : i3 < n3) :
    idx3 n1 n2 i1 i2 i3 < n1 * n2 * n3 := by
  have h := idx2_lt h1 (idx2_lt h2 h3)
  rwa [← Nat.mul_assoc] at h

theorem idx4_lt {n1 n2 n3 n4 i1 i2 i3 i4 : Nat} (h1 : i1 < n1) (h2 : i2 < n2) (h3 : i3 < n3)
    (h4 : i4 < n4) : idx4 n1 n2 n3 i1 i2 i3 i4 < n1 * n2 * n3 * n4 := by
  have h := idx2_lt h1 (idx3_lt h2 h3 h4)
  rwa [← Nat.mul_assoc, ← Nat.mul_assoc] at h

theorem idx5_lt {n1 n2 n3 n4 n5 i1 i2 i3 i4 i5 : Nat} (h1 : i1 < n1) (h2 : i2 < n2)
    (h3 : i3 < n3) (h4 : i4 < n4) (h5 : i5 < n5) :
    idx5 n1 n2 n3 n4 i1 i2 i3 i4 i5 < n1 * n2 * n3 * n4 * n5 := by
  have h := idx2_lt h1 (idx4_lt h2 h3 h4 h5)
  rwa [← Nat.mul_assoc, ← Nat.mul_assoc, ← Nat.mul_assoc] at h

/-- Every access of `PADivergenceApply2D` is in bounds when the sizes are within the limits and
the buffers have the sizes of their views. -/
theorem PADivergenceApply2D_safe_ok (dev lim : DofQuadLimits) (T_TR_D1D T_TE_D1D T_Q1D : Nat)
    (NE tr_d1d te_d1d q1d : Nat)
    (h1 : pick T_TR_D1D tr_d1d ≤ dev.MAX_D1D) (h2 : pick T_TE_D1D te_d1d ≤ dev.MAX_D1D)
    (h3 : pick T_Q1D q1d ≤ dev.MAX_Q1D) (hlim : dev.le lim) :
    PADivergenceApply2D_safe lim T_TR_D1D T_TE_D1D T_Q1D NE
      (pick T_Q1D q1d * pick T_TR_D1D tr_d1d) (pick T_Q1D q1d * pick T_TR_D1D tr_d1d)
      (pick T_TE_D1D te_d1d * pick T_Q1D q1d)
      (pick T_Q1D q1d * pick T_Q1D q1d * 2 * 2 * NE)
      (pick T_TR_D1D tr_d1d * pick T_TR_D1D tr_d1d * 2 * NE)
      (pick T_TE_D1D te_d1d * pick T_TE_D1D te_d1d * NE) tr_d1d te_d1d q1d = true := by
  have m1 := pick_le_pick h1 hlim.1
  have m2 := pick_le_pick h2 hlim.1
  have m3 := pick_le_pick h3 hlim.2
  simp only [PADivergenceApply2D_safe, forAllLoop_eq_true, Bool.and_eq_true, inBounds,
    Reshape2_safe, Reshape3_safe, Reshape4_safe, Reshape5_safe, inBuffer, List.all_cons,
    List.all_nil, Bool.and_true, decide_eq_true_eq]
  repeat' (first | intro _ | apply And.intro)
  all_goals first
    | omega
    | (apply quad2_lt <;> assumption)
    | (apply idx2_lt <;> assumption)
    | (apply idx3_lt <;> assumption)
    | (apply idx4_lt <;> first | assumption | omega | (apply quad2_lt <;> assumption))

/-- Every access of `PADivergenceApplyTranspose2D` is in bounds when the sizes are within the
limits and the buffers have the sizes of their views. -/
theorem PADivergenceApplyTranspose2D_safe_ok (dev lim : DofQuadLimits) (T_TR_D1D T_TE_D1D T_Q1D : Nat)
    (NE tr_d1d te_d1d q1d : Nat)
    (h1 : pick T_TR_D1D tr_d1d ≤ dev.MAX_D1D) (h2 : pick T_TE_D1D te_d1d ≤ dev.MAX_D1D)
    (h3 : pick T_Q1D q1d ≤ dev.MAX_Q1D) (hlim : dev.le lim) :
    PADivergenceApplyTranspose2D_safe lim T_TR_D1D T_TE_D1D T_Q1D NE
      (pick T_TR_D1D tr_d1d * pick T_Q1D q1d) (pick T_TR_D1D tr_d1d * pick T_Q1D q1d)
      (pick T_Q1D q1d * pick T_TE_D1D te_d1d)
      (pick T_Q1D q1d * pick T_Q1D q1d * 2 * 2 * NE)
      (pick T_TE_D1D te_d1d * pick T_TE_D1D te_d1d * NE)
      (pick T_TR_D1D tr_d1d * pick T_TR_D1D tr_d1d * 2 * NE) tr_d1d te_d1d q1d = true := by
  have m1 := pick_le_pick h1 hlim.1
  have m2 := pick_le_pick h2 hlim.1
  have m3 := pick_le_pick h3 hlim.2
  simp only [PADivergenceApplyTranspose2D_safe, forAllLoop_eq_true, Bool.and_eq_true, inBounds,
    Reshape2_safe, Reshape3_safe, Reshape4_safe, Reshape5_safe, inBuffer, List.all_cons,
    List.all_nil, Bool.and_true, decide_eq_true_eq]
  repeat' (first | intro _ | apply And.intro)
  all_goals first
    | omega
    | (apply quad2_lt <;> assumption)
    | (apply idx2_lt <;> assumption)
    | (apply idx3_lt <;> assumption)
    | (apply idx4_lt <;> first | assumption | omega | (apply quad2_lt <;> assumption))

/-- Every access of `PADivergenceApply3D` is in bounds when the sizes are within the limits and
the buffers have the sizes of their views. -/
theorem PADivergenceApply3D_safe_ok (dev lim : DofQuadLimits) (T_TR_D1D T_TE_D1D T_Q1D : Nat)
    (NE tr_d1d te_d1d q1d : Nat)
    (h1 : pick T_TR_D1D tr_d1d ≤ dev.MAX_D1D) (h2 : pick T_TE_D1D te_d1d ≤ dev.MAX_D1D)
    (h3 : pick T_Q1D q1d ≤ dev.MAX_Q1D) (hlim : dev.le lim) :
    PADivergenceApply3D_safe lim T_TR_D1D T_TE_D1D T_Q1D NE
      (pick T_Q1D q1d * pick T_TR_D1D tr_d1d) (pick T_Q1D q1d * pick T_TR_D1D tr_d1d)
      (pick T_TE_D1D te_d1d * pick T_Q1D q1d)
      (pick T_Q1D q1d * pick T_Q1D q1d * pick T_Q1D q1d * 3 * 3 * NE)
      (pick T_TR_D1D tr_d1d * pick T_TR_D1D tr_d1d * pick T_TR_D1D tr_d1d * 3 * NE)
      (pick T_TE_D1D te_d1d * pick T_TE_D1D te_d1d * pick T_TE_D1D te_d1d * NE) tr_d1d te_d1d q1d = true := by
  have m1 := pick_le_pick h1 hlim.1
  have m2 := pick_le_pick h2 hlim.1
  have m3 := pick_le_pick h3 hlim.2
  simp only [PADivergenceApply3D_safe, forAllLoop_eq_true, Bool.and_eq_true, inBounds,
    Reshape2_safe, Reshape3_safe, Reshape4_safe, Reshape5_safe, inBuffer, List.all_cons,
    List.all_nil, Bool.and_true, decide_eq_true_eq]
  repeat' (first | intro _ | apply And.intro)
  all_goals first
    | omega
    | (apply quad3_lt <;> assumption)
    | (apply idx2_lt <;> assumption)
    | (apply idx4_lt <;> first | assumption | omega | (apply quad3_lt <;> assumption))
    | (apply idx5_lt <;> assumption)

/-- Every access of `PADivergenceApplyTranspose3D` is in bounds when the sizes are within the
limits and the buffers have the sizes of their views. -/
theorem PADivergenceApplyTranspose3D_safe_ok (dev lim : DofQuadLimits) (T_TR_D1D T_TE_D1D T_Q1D : Nat)
    (NE tr_d1d te_d1d q1d : Nat)
    (h1 : pick T_TR_D1D tr_d1d ≤ dev.MAX_D1D) (h2 : pick T_TE_D1D te_d1d ≤ dev.MAX_D1D)
    (h3 : pick T_Q1D q1d ≤ dev.MAX_Q1D) (hlim : dev.le lim) :
    PADivergenceApplyTranspose3D_safe lim T_TR_D1D T_TE_D1D T_Q1D NE
      (pick T_TR_D1D tr_d1d * pick T_Q1D q1d) (pick T_TR_D1D tr_d1d * pick T_Q1D q1d)
      (pick T_Q1D q1d * pick T_TE_D1D te_d1d)
      (pick T_Q1D q1d * pick T_Q1D q1d * pick T_Q1D q1d * 3 * 3 * NE)
      (pick T_TE_D1D te_d1d * pick T_TE_D1D te_d1d * pick T_TE_D1D te_d1d * NE)
      (pick T_TR_D1D tr_d1d * pick T_TR_D1D tr_d1d * pick T_TR_D1D tr_d1d * 3 * NE) tr_d1d te_d1d q1d = true := by
  have m1 := pick_le_pick h1 hlim.1
  have m2 := pick_le_pick h2 hlim.1
  have m3 := pick_le_pick h3 hlim.2
  simp only [PADivergenceApplyTranspose3D_safe, forAllLoop_eq_true, Bool.and_eq_true, inBounds,
    Reshape2_safe, Reshape3_safe, Reshape4_safe, Reshape5_safe, inBuffer, List.all_cons,
    List.all_nil, Bool.and_true, decide_eq_true_eq]
  repeat' (first | intro _ | apply And.intro)
  all_goals first
    | omega
    | (apply quad3_lt <;> assumption)
    | (apply idx2_lt <;> assumption)
    | (apply idx4_lt <;> first | assumption | omega | (apply quad3_lt <;> assumption))
    | (apply idx5_lt <;> assumption)

/-- C26: when `TR_D1D`, `TE_D1D` and `Q1D` are within the validated limits, the run-time limits
do not exceed the compile-time limits that size the stack arrays, and the buffers behind `B`,
`G`, `Bt`, `Gt`, `op`, `x` and `y` have the sizes of their views, every access of
`PADivergenceApply2D`, `PADivergenceApplyTranspose2D`, `PADivergenceApply3D` and
`PADivergenceApplyTranspose3D` is in bounds: every subscript of a stack array and of a view is
below its extent, and every flattened offset is below the size of its buffer; the point index
`qx + qy * Q1D` is below `Q1D ^ 2` and `qx + (qy + qz * Q1D) * Q1D` is below `Q1D ^ 3`. -/
theorem PADivergenceApply_index_safety (dev lim : DofQuadLimits) (T_TR_D1D T_TE_D1D T_Q1D : Nat)
    (NE tr_d1d te_d1d q1d : Nat)
    (h1 : pick T_TR_D1D tr_d1d ≤ dev.MAX_D1D) (h2 : pick T_TE_D1D te_d1d ≤ dev.MAX_D1D)
    (h3 : pick T_Q1D q1d ≤ dev.MAX_Q1D) (hlim : dev.le lim) :
    PADivergenceApply2D_safe lim T_TR_D1D T_TE_D1D T_Q1D NE
      (pick T_Q1D q1d * pick T_TR_D1D tr_d1d) (pick T_Q1D q1d * pick T_TR_D1D tr_d1d)
      (pick T_TE_D1D te_d1d * pick T_Q1D q1d)
      (pick T_Q1D q1d * pick T_Q1D q1d * 2 * 2 * NE)
      (pick T_TR_D1D tr_d1d * pick T_TR_D1D tr_d1d * 2 * NE)
      (pick T_TE_D1D te_d1d * pick T_TE_D1D te_d1d * NE) tr_d1d te_d1d q1d = true ∧
    PADivergenceApplyTranspose2D_safe lim T_TR_D1D T_TE_D1D T_Q1D NE
      (pick T_TR_D1D tr_d1d * pick T_Q1D q1d) (pick T_TR_D1D tr_d1d * pick T_Q1D q1d)
      (pick T_Q1D q1d * pick T_TE_D1D te_d1d)
      (pick T_Q1D q1d * pick T_Q1D q1d * 2 * 2 * NE)
      (pick T_TE_D1D te_d1d * pick T_TE_D1D te_d1d * NE)
      (pick T_TR_D1D tr_d1d * pick T_TR_D1D tr_d1d * 2 * NE) tr_d1d te_d1d q1d = true ∧
    PADivergenceApply3D_safe lim T_TR_D1D T_TE_D1D T_Q1D NE
      (pick T_Q1D q1d * pick T_TR_D1D tr_d1d) (pick T_Q1D q1d * pick T_TR_D1D tr_d1d)
      (pick T_TE_D1D te_d1d * pick T_Q1D q1d)
      (pick T_Q1D q1d * pick T_Q1D q1d * pick T_Q1D q1d * 3 * 3 * NE)
      (pick T_TR_D1D tr_d1d * pick T_TR_D1D tr_d1d * pick T_TR_D1D tr_d1d * 3 * NE)
      (pick T_TE_D1D te_d1d * pick T_TE_D1D te_d1d * pick T_TE_D1D te_d1d * NE) tr_d1d te_d1d q1d = true ∧
    PADivergenceApplyTranspose3D_safe lim T_TR_D1D T_TE_D1D T_Q1D NE
      (pick T_TR_D1D tr_d1d * pick T_Q1D q1d) (pick T_TR_D1D tr_d1d * pick T_Q1D q1d)
      (pick T_Q1D q1d * pick T_TE_D1D te_d1d)
      (pick T_Q1D q1d * pick T_Q1D q1d * pick T_Q1D q1d * 3 * 3 * NE)
      (pick T_TE_D1D te_d1d * pick T_TE_D1D te_d1d * pick T_TE_D1D te_d1d * NE)
      (pick T_TR_D1D tr_d1d * pick T_TR_D1D tr_d1d * pick T_TR_D1D tr_d1d * 3 * NE) tr_d1d te_d1d q1d = true ∧
    (∀ qx qy, qx < pick T_Q1D q1d → qy < pick T_Q1D q1d → qx + qy * pick T_Q1D q1d < pick T_Q1D q1d ^ 2) ∧
    (∀ qx qy qz, qx < pick T_Q1D q1d → qy < pick T_Q1D q1d → qz < pick T_Q1D q1d →
      qx + (qy + qz * pick T_Q1D q1d) * pick T_Q1D q1d < pick T_Q1D q1d ^ 3) := by
  refine ⟨PADivergenceApply2D_safe_ok dev lim _ _ _ _ _ _ _ h1 h2 h3 hlim,
    PADivergenceApplyTranspose2D_safe_ok dev lim _ _ _ _ _ _ _ h1 h2 h3 hlim,
    PADivergenceApply3D_safe_ok dev lim _ _ _ _ _ _ _ h1 h2 h3 hlim,
    PADivergenceApplyTranspose3D_safe_ok dev lim _ _ _ _ _ _ _ h1 h2 h3 hlim, ?_, ?_⟩
  · intro qx qy hx hy
    rw [pow_two]
    exact quad2_lt hx hy
  · intro qx qy qz hx hy hz
    rw [pow_succ, pow_two]
    exact quad3_lt hx hy hz

/-- C26 at `TR_D1D = 3`, `TE_D1D = 2`, `Q1D = 4`, `NE = 2` in the generic instantiation, with
the run-time limits `6, 6` and the compile-time limits `8, 8`. -/
theorem PADivergenceApply_index_safety_witness :
    PADivergenceApply2D_safe ⟨8, 8⟩ 0 0 0 2
      (pick 0 4 * pick 0 3) (pick 0 4 * pick 0 3)
      (pick 0 2 * pick 0 4)
      (pick 0 4 * pick 0 4 * 2 * 2 * 2)
      (pick 0 3 * pick 0 3 * 2 * 2)
      (pick 0 2 * pick 0 2 * 2) 3 2 4 = true ∧
    PADivergenceApplyTranspose2D_safe ⟨8, 8⟩ 0 0 0 2
      (pick 0 3 * pick 0 4) (pick 0 3 * pick 0 4)
      (pick 0 4 * pick 0 2)
      (pick 0 4 * pick 0 4 * 2 * 2 * 2)
      (pick 0 2 * pick 0 2 * 2)
      (pick 0 3 * pick 0 3 * 2 * 2) 3 2 4 = true ∧
    PADivergenceApply3D_safe ⟨8, 8⟩ 0 0 0 2
      (pick 0 4 * pick 0 3) (pick 0 4 * pick 0 3)
      (pick 0 2 * pick 0 4)
      (pick 0 4 * pick 0 4 * pick 0 4 * 3 * 3 * 2)
      (pick 0 3 * pick 0 3 * pick 0 3 * 3 * 2)
      (pick 0 2 * pick 0 2 * pick 0 2 * 2) 3 2 4 = true ∧
    PADivergenceApplyTranspose3D_safe ⟨8, 8⟩ 0 0 0 2
      (pick 0 3 * pick 0 4) (pick 0 3 * pick 0 4)
      (pick 0 4 * pick 0 2)
      (pick 0 4 * pick 0 4 * pick 0 4 * 3 * 3 * 2)
      (pick 0 2 * pick 0 2 * pick 0 2 * 2)
      (pick 0 3 * pick 0 3 * pick 0 3 * 3 * 2) 3 2 4 = true ∧
    (∀ qx qy, qx < pick 0 4 → qy < pick 0 4 → qx + qy * pick 0 4 < pick 0 4 ^ 2) ∧
    (∀ qx qy qz, qx < pick 0 4 → qy < pick 0 4 → qz < pick 0 4 →
      qx + (qy + qz * pick 0 4) * pick 0 4 < pick 0 4 ^ 3) :=
  PADivergenceApply_index_safety ⟨6, 6⟩ ⟨8, 8⟩ 0 0 0 2 3 2 4 (by decide) (by decide) (by decide)
    ⟨by decide, by decide⟩

/-- The monitors do reject: `PADivergenceApply2D` with `Q1D = 1` above the compile-time limit
`MAX_Q1D = 0` leaves the stack array `div`, a buffer `op_` one entry short is read past its
end, and so is a buffer `y_` of `PADivergenceApplyTranspose2D` one entry short. -/
theorem PADivergenceApply_safe_rejects :
    PADivergenceApply2D_safe ⟨0, 0⟩ 0 0 0 1 1 1 1 4 2 1 1 1 1 = false ∧
    PADivergenceApply2D_safe ⟨1, 1⟩ 0 0 0 1 1 1 1 4 2 1 1 1 1 = true ∧
    PADivergenceApply2D_safe ⟨1, 1⟩ 0 0 0 1 1 1 1 3 2 1 1 1 1 = false ∧
    PADivergenceApplyTranspose2D_safe ⟨1, 1⟩ 0 0 0 1 1 1 1 4 1 2 1 1 1 = true ∧
    PADivergenceApplyTranspose2D_safe ⟨1, 1⟩ 0 0 0 1 1 1 1 4 1 1 1 1 1 = false :=
  ⟨rfl, rfl, rfl, rfl, rfl⟩

theorem PADivergenceApply2D_inc_linear_x (TR_D1D TE_D1D Q1D NE : Nat) (b g bt op_ x1 x2 : Buf R)
    (a : R) (e dy dx : Nat) :
    PADivergenceApply2D_inc TR_D1D TE_D1D Q1D NE b g bt op_ (fun i => a * x1 i + x2 i) e dy dx =
      a * PADivergenceApply2D_inc TR_D1D TE_D1D Q1D NE b g bt op_ x1 e dy dx +
        PADivergenceApply2D_inc TR_D1D TE_D1D Q1D NE b g bt op_ x2 e dy dx := by
  simp only [PADivergenceApply2D_inc, div2D, interp2D, Reshape2, Reshape4, Finset.mul_sum,
    Finset.sum_mul, ← Finset.sum_add_distrib]
  repeat (refine Finset.sum_congr rfl fun _ _ => ?_)
  ring

theorem PADivergenceApply2D_inc_linear_op (TR_D1D TE_D1D Q1D NE : Nat)
    (b g bt op1 op2 x_ : Buf R) (a : R) (e dy dx : Nat) :
    PADivergenceApply2D_inc TR_D1D TE_D1D Q1D NE b g bt (fun i => a * op1 i + op2 i) x_ e dy dx =
      a * PADivergenceApply2D_inc TR_D1D TE_D1D Q1D NE b g bt op1 x_ e dy dx +
        PADivergenceApply2D_inc TR_D1D TE_D1D Q1D NE b g bt op2 x_ e dy dx := by
  simp only [PADivergenceApply2D_inc, div2D, interp2D, Reshape2, Reshape4, Finset.mul_sum,
    Finset.sum_mul, ← Finset.sum_add_distrib]
  repeat (refine Finset.sum_congr rfl fun _ _ => ?_)
  ring

theorem PADivergenceApplyTranspose2D_inc_linear_x (TR_D1D TE_D1D Q1D NE : Nat)
    (bt gt b op_ x1 x2 : Buf R) (a : R) (e c dy dx : Nat) :
    PADivergenceApplyTranspose2D_inc TR_D1D TE_D1D Q1D NE bt gt b op_
        (fun i => a * x1 i + x2 i) e c dy dx =
      a * PADivergenceApplyTranspose2D_inc TR_D1D TE_D1D Q1D NE bt gt b op_ x1 e c dy dx +
        PADivergenceApplyTranspose2D_inc TR_D1D TE_D1D Q1D NE bt gt b op_ x2 e c dy dx := by
  simp only [PADivergenceApplyTranspose2D_inc, interp2D, Reshape2, Reshape3, Reshape4,
    Finset.mul_sum, Finset.sum_mul, ← Finset.sum_add_distrib]
  repeat (refine Finset.sum_congr rfl fun _ _ => ?_)
  ring

theorem PADivergenceApplyTranspose2D_inc_linear_op (TR_D1D TE_D1D Q1D NE : Nat)
    (bt gt b op1 op2 x_ : Buf R) (a : R) (e c dy dx : Nat) :
    PADivergenceApplyTranspose2D_inc TR_D1D TE_D1D Q1D NE bt gt b
        (fun i => a * op1 i + op2 i) x_ e c dy dx =
      a * PADivergenceApplyTranspose2D_inc TR_D1D TE_D1D Q1D NE bt gt b op1 x_ e c dy dx +
        PADivergenceApplyTranspose2D_inc TR_D1D TE_D1D Q1D NE bt gt b op2 x_ e c dy dx := by
  simp only [PADivergenceApplyTranspose2D_inc, interp2D, Reshape2, Reshape3, Reshape4,
    Finset.mul_sum, Finset.sum_mul, ← Finset.sum_add_distrib]
  repeat (refine Finset.sum_congr rfl fun _ _ => ?_)
  ring

theorem PADivergenceApply3D_inc_linear_x (TR_D1D TE_D1D Q1D NE : Nat) (b g bt op_ x1 x2 : Buf R)
    (a : R) (e dz dy dx : Nat) :
    PADivergenceApply3D_inc TR_D1D TE_D1D Q1D NE b g bt op_ (fun i => a * x1 i + x2 i)
        e dz dy dx =
      a * PADivergenceApply3D_inc TR_D1D TE_D1D Q1D NE b g bt op_ x1 e dz dy dx +
        PADivergenceApply3D_inc TR_D1D TE_D1D Q1D NE b g bt op_ x2 e dz dy dx := by
  simp only [PADivergenceApply3D_inc, div3D, interp3D, Reshape2, Reshape4, Reshape5,
    Finset.mul_sum, Finset.sum_mul, ← Finset.sum_add_distrib]
  repeat (refine Finset.sum_congr rfl fun _ _ => ?_)
  ring

theorem PADivergenceApply3D_inc_linear_op (TR_D1D TE_D1D Q1D NE : Nat)
    (b g bt op1 op2 x_ : Buf R) (a : R) (e dz dy dx : Nat) :
    PADivergenceApply3D_inc TR_D1D TE_D1D Q1D NE b g bt (fun i => a * op1 i + op2 i) x_
        e dz dy dx =
      a * PADivergenceApply3D_inc TR_D1D TE_D1D Q1D NE b g bt op1 x_ e dz dy dx +
        PADivergenceApply3D_inc TR_D1D TE_D1D Q1D NE b g bt op2 x_ e dz dy dx := by
  simp only [PADivergenceApply3D_inc, div3D, interp3D, Reshape2, Reshape4, Reshape5,
    Finset.mul_sum, Finset.sum_mul, ← Finset.sum_add_distrib]
  repeat (refine Finset.sum_congr rfl fun _ _ => ?_)
  ring

theorem PADivergenceApplyTranspose3D_inc_linear_x (TR_D1D TE_D1D Q1D NE : Nat)
    (bt gt b op_ x1 x2 : Buf R) (a : R) (e c dz dy dx : Nat) :
    PADivergenceApplyTranspose3D_inc TR_D1D TE_D1D Q1D NE bt gt b op_
        (fun i => a * x1 i + x2 i) e c dz dy dx =
      a * PADivergenceApplyTranspose3D_inc TR_D1D TE_D1D Q1D NE bt gt b op_ x1 e c dz dy dx +
        PADivergenceApplyTranspose3D_inc TR_D1D TE_D1D Q1D NE bt gt b op_ x2 e c dz dy dx := by
  simp only [PADivergenceApplyTranspose3D_inc, interp3D, Reshape2, Reshape4,
    Finset.mul_sum, Finset.sum_mul, ← Finset.sum_add_distrib]
  repeat (refine Finset.sum_congr rfl fun _ _ => ?_)
  ring

theorem PADivergenceApplyTranspose3D_inc_linear_op (TR_D1D TE_D1D Q1D NE : Nat)
    (bt gt b op1 op2 x_ : Buf R) (a : R) (e c dz dy dx : Nat) :
    PADivergenceApplyTranspose3D_inc TR_D1D TE_D1D Q1D NE bt gt b
        (fun i => a * op1 i + op2 i) x_ e c dz dy dx =
      a * PADivergenceApplyTranspose3D_inc TR_D1D TE_D1D Q1D NE bt gt b op1 x_ e c dz dy dx +
        PADivergenceApplyTranspose3D_inc TR_D1D TE_D1D Q1D NE bt gt b op2 x_ e c dz dy dx := by
  simp only [PADivergenceApplyTranspose3D_inc, interp3D, Reshape2, Reshape4,
    Finset.mul_sum, Finset.sum_mul, ← Finset.sum_add_distrib]
  repeat (refine Finset.sum_congr rfl fun _ _ => ?_)
  ring

theorem ite_linear (c : Prop) [Decidable c] (a u v : R) :
    (if c then a * u + v else 0) = a * (if c then u else 0) + (if c then v else 0) := by
  split_ifs <;> simp

/-- With a zero initial output, the output of `PADivergenceApply2D` is linear in the input vector,
whatever the scratch arrays of the three runs hold. -/
theorem PADivergenceApply2D_linear_x (dev lim : DofQuadLimits) (T_TR_D1D T_TE_D1D T_Q1D : Nat)
    (junk junk1 junk2 : Buf R) (NE : Nat) (b g bt op_ x1 x2 : Buf R) (a : R)
    (tr_d1d te_d1d q1d : Nat) (hlim : dev.le lim) :
    (PADivergenceApply2D dev lim T_TR_D1D T_TE_D1D T_Q1D junk NE b g bt op_ (fun i => a * x1 i + x2 i)
        (fun _ => 0) tr_d1d te_d1d q1d).out =
      (fun j => a * (PADivergenceApply2D dev lim T_TR_D1D T_TE_D1D T_Q1D junk1 NE b g bt op_ x1
        (fun _ => 0) tr_d1d te_d1d q1d).out j +
        (PADivergenceApply2D dev lim T_TR_D1D T_TE_D1D T_Q1D junk2 NE b g bt op_ x2
        (fun _ => 0) tr_d1d te_d1d q1d).out j) := by
  by_cases h : pick T_TR_D1D tr_d1d ≤ dev.MAX_D1D ∧ pick T_TE_D1D te_d1d ≤ dev.MAX_D1D ∧
      pick T_Q1D q1d ≤ dev.MAX_Q1D
  · rw [PADivergenceApply2D_eq_spec dev lim T_TR_D1D T_TE_D1D T_Q1D junk NE b g bt op_ (fun i => a * x1 i + x2 i)
        (fun _ => 0) tr_d1d te_d1d q1d h.1 h.2.1 h.2.2 hlim,
      PADivergenceApply2D_eq_spec dev lim T_TR_D1D T_TE_D1D T_Q1D junk1 NE b g bt op_ x1
        (fun _ => 0) tr_d1d te_d1d q1d h.1 h.2.1 h.2.2 hlim,
      PADivergenceApply2D_eq_spec dev lim T_TR_D1D T_TE_D1D T_Q1D junk2 NE b g bt op_ x2
        (fun _ => 0) tr_d1d te_d1d q1d h.1 h.2.1 h.2.2 hlim]
    funext j
    simp only [Outcome.out, PADivergenceApply2D_spec, PADivergenceApply2D_inc_linear_x, ite_linear,
      Finset.sum_add_distrib, ← Finset.mul_sum, zero_add]
  · rw [PADivergenceApply2D_fatal dev lim T_TR_D1D T_TE_D1D T_Q1D junk NE b g bt op_ (fun i => a * x1 i + x2 i)
        (fun _ => 0) tr_d1d te_d1d q1d h,
      PADivergenceApply2D_fatal dev lim T_TR_D1D T_TE_D1D T_Q1D junk1 NE b g bt op_ x1
        (fun _ => 0) tr_d1d te_d1d q1d h,
      PADivergenceApply2D_fatal dev lim T_TR_D1D T_TE_D1D T_Q1D junk2 NE b g bt op_ x2
        (fun _ => 0) tr_d1d te_d1d q1d h]
    funext j
    simp [Outcome.out]

/-- With a zero initial output, the output of `PADivergenceApply2D` is linear in the operator tensor,
whatever the scratch arrays of the three runs hold. -/
theorem PADivergenceApply2D_linear_op (dev lim : DofQuadLimits) (T_TR_D1D T_TE_D1D T_Q1D : Nat)
    (junk junk1 junk2 : Buf R) (NE : Nat) (b g bt op1 op2 x_ : Buf R) (a : R)
    (tr_d1d te_d1d q1d : Nat) (hlim : dev.le lim) :
    (PADivergenceApply2D dev lim T_TR_D1D T_TE_D1D T_Q1D junk NE b g bt (fun i => a * op1 i + op2 i) x_
        (fun _ => 0) tr_d1d te_d1d q1d).out =
      (fun j => a * (PADivergenceApply2D dev lim T_TR_D1D T_TE_D1D T_Q1D junk1 NE b g bt op1 x_
        (fun _ => 0) tr_d1d te_d1d q1d).out j +
        (PADivergenceApply2D dev lim T_TR_D1D T_TE_D1D T_Q1D junk2 NE b g bt op2 x_
        (fun _ => 0) tr_d1d te_d1d q1d).out j) := by
  by_cases h : pick T_TR_D1D tr_d1d ≤ dev.MAX_D1D ∧ pick T_TE_D1D te_d1d ≤ dev.MAX_D1D ∧
      pick T_Q1D q1d ≤ dev.MAX_Q1D
  · rw [PADivergenceApply2D_eq_spec dev lim T_TR_D1D T_TE_D1D T_Q1D junk NE b g bt (fun i => a * op1 i + op2 i) x_
        (fun _ => 0) tr_d1d te_d1d q1d h.1 h.2.1 h.2.2 hlim,
      PADivergenceApply2D_eq_spec dev lim T_TR_D1D T_TE_D1D T_Q1D junk1 NE b g bt op1 x_
        (fun _ => 0) tr_d1d te_d1d q1d h.1 h.2.1 h.2.2 hlim,
      PADivergenceApply2D_eq_spec dev lim T_TR_D1D T_TE_D1D T_Q1D junk2 NE b g bt op2 x_
        (fun _ => 0) tr_d1d te_d1d q1d h.1 h.2.1 h.2.2 hlim]
    funext j
    simp only [Outcome.out, PADivergenceApply2D_spec, PADivergenceApply2D_inc_linear_op, ite_linear,
      Finset.sum_add_distrib, ← Finset.mul_sum, zero_add]
  · rw [PADivergenceApply2D_fatal dev lim T_TR_D1D T_TE_D1D T_Q1D junk NE b g bt (fun i => a * op1 i + op2 i) x_
        (fun _ => 0) tr_d1d te_d1d q1d h,
      PADivergenceApply2D_fatal dev lim T_TR_D1D T_TE_D1D T_Q1D junk1 NE b g bt op1 x_
        (fun _ => 0) tr_d1d te_d1d q1d h,
      PADivergenceApply2D_fatal dev lim T_TR_D1D T_TE_D1D T_Q1D junk2 NE b g bt op2 x_
        (fun _ => 0) tr_d1d te_d1d q1d h]
    funext j
    simp [Outcome.out]

/-- With a zero initial output, the output of `PADivergenceApplyTranspose2D` is linear in the input vector,
whatever the scratch arrays of the three runs hold. -/
theorem PADivergenceApplyTranspose2D_linear_x (dev lim : DofQuadLimits) (T_TR_D1D T_TE_D1D T_Q1D : Nat)
    (junk junk1 junk2 : Buf R) (NE : Nat) (bt gt b op_ x1 x2 : Buf R) (a : R)
    (tr_d1d te_d1d q1d : Nat) (hlim : dev.le lim) :
    (PADivergenceApplyTranspose2D dev lim T_TR_D1D T_TE_D1D T_Q1D junk NE bt gt b op_ (fun i => a * x1 i + x2 i)
        (fun _ => 0) tr_d1d te_d1d q1d).out =
      (fun j => a * (PADivergenceApplyTranspose2D dev lim T_TR_D1D T_TE_D1D T_Q1D junk1 NE bt gt b op_ x1
        (fun _ => 0) tr_d1d te_d1d q1d).out j +
        (PADivergenceApplyTranspose2D dev lim T_TR_D1D T_TE_D1D T_Q1D junk2 NE bt gt b op_ x2
        (fun _ => 0) tr_d1d te_d1d q1d).out j) := by
  by_cases h : pick T_TR_D1D tr_d1d ≤ dev.MAX_D1D ∧ pick T_TE_D1D te_d1d ≤ dev.MAX_D1D ∧
      pick T_Q1D q1d ≤ dev.MAX_Q1D
  · rw [PADivergenceApplyTranspose2D_eq_spec dev lim T_TR_D1D T_TE_D1D T_Q1D junk NE bt gt b op_ (fun i => a * x1 i + x2 i)
        (fun _ => 0) tr_d1d te_d1d q1d h.1 h.2.1 h.2.2 hlim,
      PADivergenceApplyTranspose2D_eq_spec dev lim T_TR_D1D T_TE_D1D T_Q1D junk1 NE bt gt b op_ x1
        (fun _ => 0) tr_d1d te_d1d q1d h.1 h.2.1 h.2.2 hlim,
      PADivergenceApplyTranspose2D_eq_spec dev lim T_TR_D1D T_TE_D1D T_Q1D junk2 NE bt gt b op_ x2
        (fun _ => 0) tr_d1d te_d1d q1d h.1 h.2.1 h.2.2 hlim]
    funext j
    simp only [Outcome.out, PADivergenceApplyTranspose2D_spec, PADivergenceApplyTranspose2D_inc_linear_x, ite_linear,
      Finset.sum_add_distrib, ← Finset.mul_sum, zero_add]
  · rw [PADivergenceApplyTranspose2D_fatal dev lim T_TR_D1D T_TE_D1D T_Q1D junk NE bt gt b op_ (fun i => a * x1 i + x2 i)
        (fun _ => 0) tr_d1d te_d1d q1d h,
      PADivergenceApplyTranspose2D_fatal dev lim T_TR_D1D T_TE_D1D T_Q1D junk1 NE bt gt b op_ x1
        (fun _ => 0) tr_d1d te_d1d q1d h,
      PADivergenceApplyTranspose2D_fatal dev lim T_TR_D1D T_TE_D1D T_Q1D junk2 NE bt gt b op_ x2
        (fun _ => 0) tr_d1d te_d1d q1d h]
    funext j
    simp [Outcome.out]

/-- With a zero initial output, the output of `PADivergenceApplyTranspose2D` is linear in the operator tensor,
whatever the scratch arrays of the three runs hold. -/
theorem PADivergenceApplyTranspose2D_linear_op (dev lim : DofQuadLimits) (T_TR_D1D T_TE_D1D T_Q1D : Nat)
    (junk junk1 junk2 : Buf R) (NE : Nat) (bt gt b op1 op2 x_ : Buf R) (a : R)
    (tr_d1d te_d1d q1d : Nat) (hlim : dev.le lim) :
    (PADivergenceApplyTranspose2D dev lim T_TR_D1D T_TE_D1D T_Q1D junk NE bt gt b (fun i => a * op1 i + op2 i) x_
        (fun _ => 0) tr_d1d te_d1d q1d).out =
      (fun j => a * (PADivergenceApplyTranspose2D dev lim T_TR_D1D T_TE_D1D T_Q1D junk1 NE bt gt b op1 x_
        (fun _ => 0) tr_d1d te_d1d q1d).out j +
        (PADivergenceApplyTranspose2D dev lim T_TR_D1D T_TE_D1D T_Q1D junk2 NE bt gt b op2 x_
        (fun _ => 0) tr_d1d te_d1d q1d).out j) := by
  by_cases h : pick T_TR_D1D tr_d1d ≤ dev.MAX_D1D ∧ pick T_TE_D1D te_d1d ≤ dev.MAX_D1D ∧
      pick T_Q1D q1d ≤ dev.MAX_Q1D
  · rw [PADivergenceApplyTranspose2D_eq_spec dev lim T_TR_D1D T_TE_D1D T_Q1D junk NE bt gt b (fun i => a * op1 i + op2 i) x_
        (fun _ => 0) tr_d1d te_d1d q1d h.1 h.2.1 h.2.2 hlim,
      PADivergenceApplyTranspose2D_eq_spec dev lim T_TR_D1D T_TE_D1D T_Q1D junk1 NE bt gt b op1 x_
        (fun _ => 0) tr_d1d te_d1d q1d h.1 h.2.1 h.2.2 hlim,
      PADivergenceApplyTranspose2D_eq_spec dev lim T_TR_D1D T_TE_D1D T_Q1D junk2 NE bt gt b op2 x_
        (fun _ => 0) tr_d1d te_d1d q1d h.1 h.2.1 h.2.2 hlim]
    funext j
    simp only [Outcome.out, PADivergenceApplyTranspose2D_spec, PADivergenceApplyTranspose2D_inc_linear_op, ite_linear,
      Finset.sum_add_distrib, ← Finset.mul_sum, zero_add]
  · rw [PADivergenceApplyTranspose2D_fatal dev lim T_TR_D1D T_TE_D1D T_Q1D junk NE bt gt b (fun i => a * op1 i + op2 i) x_
        (fun _ => 0) tr_d1d te_d1d q1d h,
      PADivergenceApplyTranspose2D_fatal dev lim T_TR_D1D T_TE_D1D T_Q1D junk1 NE bt gt b op1 x_
        (fun _ => 0) tr_d1d te_d1d q1d h,
      PADivergenceApplyTranspose2D_fatal dev lim T_TR_D1D T_TE_D1D T_Q1D junk2 NE bt gt b op2 x_
        (fun _ => 0) tr_d1d te_d1d q1d h]
    funext j
    simp [Outcome.out]

/-- With a zero initial output, the output of `PADivergenceApply3D` is linear in the input vector,
whatever the scratch arrays of the three runs hold. -/
theorem PADivergenceApply3D_linear_x (dev lim : DofQuadLimits) (T_TR_D1D T_TE_D1D T_Q1D : Nat)
    (junk junk1 junk2 : Buf R) (NE : Nat) (b g bt op_ x1 x2 : Buf R) (a : R)
    (tr_d1d te_d1d q1d : Nat) (hlim : dev.le lim) :
    (PADivergenceApply3D dev lim T_TR_D1D T_TE_D1D T_Q1D junk NE b g bt op_ (fun i => a * x1 i + x2 i)
        (fun _ => 0) tr_d1d te_d1d q1d).out =
      (fun j => a * (PADivergenceApply3D dev lim T_TR_D1D T_TE_D1D T_Q1D junk1 NE b g bt op_ x1
        (fun _ => 0) tr_d1d te_d1d q1d).out j +
        (PADivergenceApply3D dev lim T_TR_D1D T_TE_D1D T_Q1D junk2 NE b g bt op_ x2
        (fun _ => 0) tr_d1d te_d1d q1d).out j) := by
  by_cases h : pick T_TR_D1D tr_d1d ≤ dev.MAX_D1D ∧ pick T_TE_D1D te_d1d ≤ dev.MAX_D1D ∧
      pick T_Q1D q1d ≤ dev.MAX_Q1D
  · rw [PADivergenceApply3D_eq_spec dev lim T_TR_D1D T_TE_D1D T_Q1D junk NE b g bt op_ (fun i => a * x1 i + x2 i)
        (fun _ => 0) tr_d1d te_d1d q1d h.1 h.2.1 h.2.2 hlim,
      PADivergenceApply3D_eq_spec dev lim T_TR_D1D T_TE_D1D T_Q1D junk1 NE b g bt op_ x1
        (fun _ => 0) tr_d1d te_d1d q1d h.1 h.2.1 h.2.2 hlim,
      PADivergenceApply3D_eq_spec dev lim T_TR_D1D T_TE_D1D T_Q1D junk2 NE b g bt op_ x2
        (fun _ => 0) tr_d1d te_d1d q1d h.1 h.2.1 h.2.2 hlim]
    funext j
    simp only [Outcome.out, PADivergenceApply3D_spec, PADivergenceApply3D_inc_linear_x, ite_linear,
      Finset.sum_add_distrib, ← Finset.mul_sum, zero_add]
  · rw [PADivergenceApply3D_fatal dev lim T_TR_D1D T_TE_D1D T_Q1D junk NE b g bt op_ (fun i => a * x1 i + x2 i)
        (fun _ => 0) tr_d1d te_d1d q1d h,
      PADivergenceApply3D_fatal dev lim T_TR_D1D T_TE_D1D T_Q1D junk1 NE b g bt op_ x1
        (fun _ => 0) tr_d1d te_d1d q1d h,
      PADivergenceApply3D_fatal dev lim T_TR_D1D T_TE_D1D T_Q1D junk2 NE b g bt op_ x2
        (fun _ => 0) tr_d1d te_d1d q1d h]
    funext j
    simp [Outcome.out]

/-- With a zero initial output, the output of `PADivergenceApply3D` is linear in the operator tensor,
whatever the scratch arrays of the three runs hold. -/
theorem PADivergenceApply3D_linear_op (dev lim : DofQuadLimits) (T_TR_D1D T_TE_D1D T_Q1D : Nat)
    (junk junk1 junk2 : Buf R) (NE : Nat) (b g bt op1 op2 x_ : Buf R) (a : R)
    (tr_d1d te_d1d q1d : Nat) (hlim : dev.le lim) :
    (PADivergenceApply3D dev lim T_TR_D1D T_TE_D1D T_Q1D junk NE b g bt (fun i => a * op1 i + op2 i) x_
        (fun _ => 0) tr_d1d te_d1d q1d).out =
      (fun j => a * (PADivergenceApply3D dev lim T_TR_D1D T_TE_D1D T_Q1D junk1 NE b g bt op1 x_
        (fun _ => 0) tr_d1d te_d1d q1d).out j +
        (PADivergenceApply3D dev lim T_TR_D1D T_TE_D1D T_Q1D junk2 NE b g bt op2 x_
        (fun _ => 0) tr_d1d te_d1d q1d).out j) := by
  by_cases h : pick T_TR_D1D tr_d1d ≤ dev.MAX_D1D ∧ pick T_TE_D1D te_d1d ≤ dev.MAX_D1D ∧
      pick T_Q1D q1d ≤ dev.MAX_Q1D
  · rw [PADivergenceApply3D_eq_spec dev lim T_TR_D1D T_TE_D1D T_Q1D junk NE b g bt (fun i => a * op1 i + op2 i) x_
        (fun _ => 0) tr_d1d te_d1d q1d h.1 h.2.1 h.2.2 hlim,
      PADivergenceApply3D_eq_spec dev lim T_TR_D1D T_TE_D1D T_Q1D junk1 NE b g bt op1 x_
        (fun _ => 0) tr_d1d te_d1d q1d h.1 h.2.1 h.2.2 hlim,
      PADivergenceApply3D_eq_spec dev lim T_TR_D1D T_TE_D1D T_Q1D junk2 NE b g bt op2 x_
        (fun _ => 0) tr_d1d te_d1d q1d h.1 h.2.1 h.2.2 hlim]
    funext j
    simp only [Outcome.out, PADivergenceApply3D_spec, PADivergenceApply3D_inc_linear_op, ite_linear,
      Finset.sum_add_distrib, ← Finset.mul_sum, zero_add]
  · rw [PADivergenceApply3D_fatal dev lim T_TR_D1D T_TE_D1D T_Q1D junk NE b g bt (fun i => a * op1 i + op2 i) x_
        (fun _ => 0) tr_d1d te_d1d q1d h,
      PADivergenceApply3D_fatal dev lim T_TR_D1D T_TE_D1D T_Q1D junk1 NE b g bt op1 x_
        (fun _ => 0) tr_d1d te_d1d q1d h,
      PADivergenceApply3D_fatal dev lim T_TR_D1D T_TE_D1D T_Q1D junk2 NE b g bt op2 x_
        (fun _ => 0) tr_d1d te_d1d q1d h]
    funext j
    simp [Outcome.out]

/-- With a zero initial output, the output of `PADivergenceApplyTranspose3D` is linear in the input vector,
whatever the scratch arrays of the three runs hold. -/
theorem PADivergenceApplyTranspose3D_linear_x (dev lim : DofQuadLimits) (T_TR_D1D T_TE_D1D T_Q1D : Nat)
    (junk junk1 junk2 : Buf R) (NE : Nat) (bt gt b op_ x1 x2 : Buf R) (a : R)
    (tr_d1d te_d1d q1d : Nat) (hlim : dev.le lim) :
    (PADivergenceApplyTranspose3D dev lim T_TR_D1D T_TE_D1D T_Q1D junk NE bt gt b op_ (fun i => a * x1 i + x2 i)
        (fun _ => 0) tr_d1d te_d1d q1d).out =
      (fun j => a * (PADivergenceApplyTranspose3D dev lim T_TR_D1D T_TE_D1D T_Q1D junk1 NE bt gt b op_ x1
        (fun _ => 0) tr_d1d te_d1d q1d).out j +
        (PADivergenceApplyTranspose3D dev lim T_TR_D1D T_TE_D1D T_Q1D junk2 NE bt gt b op_ x2
        (fun _ => 0) tr_d1d te_d1d q1d).out j) := by
  by_cases h : pick T_TR_D1D tr_d1d ≤ dev.MAX_D1D ∧ pick T_TE_D1D te_d1d ≤ dev.MAX_D1D ∧
      pick T_Q1D q1d ≤ dev.MAX_Q1D
  · rw [PADivergenceApplyTranspose3D_eq_spec dev lim T_TR_D1D T_TE_D1D T_Q1D junk NE bt gt b op_ (fun i => a * x1 i + x2 i)
        (fun _ => 0) tr_d1d te_d1d q1d h.1 h.2.1 h.2.2 hlim,
      PADivergenceApplyTranspose3D_eq_spec dev lim T_TR_D1D T_TE_D1D T_Q1D junk1 NE bt gt b op_ x1
        (fun _ => 0) tr_d1d te_d1d q1d h.1 h.2.1 h.2.2 hlim,
      PADivergenceApplyTranspose3D_eq_spec dev lim T_TR_D1D T_TE_D1D T_Q1D junk2 NE bt gt b op_ x2
        (fun _ => 0) tr_d1d te_d1d q1d h.1 h.2.1 h.2.2 hlim]
    funext j
    simp only [Outcome.out, PADivergenceApplyTranspose3D_spec, PADivergenceApplyTranspose3D_inc_linear_x, ite_linear,
      Finset.sum_add_distrib, ← Finset.mul_sum, zero_add]
  · rw [PADivergenceApplyTranspose3D_fatal dev lim T_TR_D1D T_TE_D1D T_Q1D junk NE bt gt b op_ (fun i => a * x1 i + x2 i)
        (fun _ => 0) tr_d1d te_d1d q1d h,
      PADivergenceApplyTranspose3D_fatal dev lim T_TR_D1D T_TE_D1D T_Q1D junk1 NE bt gt b op_ x1
        (fun _ => 0) tr_d1d te_d1d q1d h,
      PADivergenceApplyTranspose3D_fatal dev lim T_TR_D1D T_TE_D1D T_Q1D junk2 NE bt gt b op_ x2
        (fun _ => 0) tr_d1d te_d1d q1d h]
    funext j
    simp [Outcome.out]

/-- With a zero initial output, the output of `PADivergenceApplyTranspose3D` is linear in the operator tensor,
whatever the scratch arrays of the three runs hold. -/
theorem PADivergenceApplyTranspose3D_linear_op (dev lim : DofQuadLimits) (T_TR_D1D T_TE_D1D T_Q1D : Nat)
    (junk junk1 junk2 : Buf R) (NE : Nat) (bt gt b op1 op2 x_ : Buf R) (a : R)
    (tr_d1d te_d1d q1d : Nat) (hlim : dev.le lim) :
    (PADivergenceApplyTranspose3D dev lim T_TR_D1D T_TE_D1D T_Q1D junk NE bt gt b (fun i => a * op1 i + op2 i) x_
        (fun _ => 0) tr_d1d te_d1d q1d).out =
      (fun j => a * (PADivergenceApplyTranspose3D dev lim T_TR_D1D T_TE_D1D T_Q1D junk1 NE bt gt b op1 x_
        (fun _ => 0) tr_d1d te_d1d q1d).out j +
        (PADivergenceApplyTranspose3D dev lim T_TR_D1D T_TE_D1D T_Q1D junk2 NE bt gt b op2 x_
        (fun _ => 0) tr_d1d te_d1d q1d).out j) := by
  by_cases h : pick T_TR_D1D tr_d1d ≤ dev.MAX_D1D ∧ pick T_TE_D1D te_d1d ≤ dev.MAX_D1D ∧
      pick T_Q1D q1d ≤ dev.MAX_Q1D
  · rw [PADivergenceApplyTranspose3D_eq_spec dev lim T_TR_D1D T_TE_D1D T_Q1D junk NE bt gt b (fun i => a * op1 i + op2 i) x_
        (fun _ => 0) tr_d1d te_d1d q1d h.1 h.2.1 h.2.2 hlim,
      PADivergenceApplyTranspose3D_eq_spec dev lim T_TR_D1D T_TE_D1D T_Q1D junk1 NE bt gt b op1 x_
        (fun _ => 0) tr_d1d te_d1d q1d h.1 h.2.1 h.2.2 hlim,
      PADivergenceApplyTranspose3D_eq_spec dev lim T_TR_D1D T_TE_D1D T_Q1D junk2 NE bt gt b op2 x_
        (fun _ => 0) tr_d1d te_d1d q1d h.1 h.2.1 h.2.2 hlim]
    funext j
    simp only [Outcome.out, PADivergenceApplyTranspose3D_spec, PADivergenceApplyTranspose3D_inc_linear_op, ite_linear,
      Finset.sum_add_distrib, ← Finset.mul_sum, zero_add]
  · rw [PADivergenceApplyTranspose3D_fatal dev lim T_TR_D1D T_TE_D1D T_Q1D junk NE bt gt b (fun i => a * op1 i + op2 i) x_
        (fun _ => 0) tr_d1d te_d1d q1d h,
      PADivergenceApplyTranspose3D_fatal dev lim T_TR_D1D T_TE_D1D T_Q1D junk1 NE bt gt b op1 x_
        (fun _ => 0) tr_d1d te_d1d q1d h,
      PADivergenceApplyTranspose3D_fatal dev lim T_TR_D1D T_TE_D1D T_Q1D junk2 NE bt gt b op2 x_
        (fun _ => 0) tr_d1d te_d1d q1d h]
    funext j
    simp [Outcome.out]

/-- C32: for each of `PADivergenceApply2D`, `PADivergenceApplyTranspose2D`,
`PADivergenceApply3D` and `PADivergenceApplyTranspose3D`, with a zero initial output and fixed
basis tables, the output for the input vector `a * x1 + x2` is `a` times the output for `x1`
plus the output for `x2`, and for a fixed input vector the output for the operator tensor
`a * op1 + op2` is `a` times the output for `op1` plus the output for `op2`; this holds entry
by entry, whatever the scratch arrays of the three runs hold, and also when the size check
stops the three runs. -/
theorem PADivergenceApply_linear (dev lim : DofQuadLimits) (T_TR_D1D T_TE_D1D T_Q1D : Nat)
    (junk junk1 junk2 : Buf R) (NE : Nat) (b g bt gt op1 op2 x1 x2 : Buf R) (a : R)
    (tr_d1d te_d1d q1d : Nat) (hlim : dev.le lim) :
    (PADivergenceApply2D dev lim T_TR_D1D T_TE_D1D T_Q1D junk NE b g bt
        op1 (fun i => a * x1 i + x2 i) (fun _ => 0) tr_d1d te_d1d q1d).out =
      (fun j => a * (PADivergenceApply2D dev lim T_TR_D1D T_TE_D1D T_Q1D junk1 NE b g bt
          op1 x1 (fun _ => 0) tr_d1d te_d1d q1d).out j +
        (PADivergenceApply2D dev lim T_TR_D1D T_TE_D1D T_Q1D junk2 NE b g bt
          op1 x2 (fun _ => 0) tr_d1d te_d1d q1d).out j) ∧
    (PADivergenceApply2D dev lim T_TR_D1D T_TE_D1D T_Q1D junk NE b g bt
        (fun i => a * op1 i + op2 i) x1 (fun _ => 0) tr_d1d te_d1d q1d).out =
      (fun j => a * (PADivergenceApply2D dev lim T_TR_D1D T_TE_D1D T_Q1D junk1 NE b g bt
          op1 x1 (fun _ => 0) tr_d1d te_d1d q1d).out j +
        (PADivergenceApply2D dev lim T_TR_D1D T_TE_D1D T_Q1D junk2 NE b g bt
          op2 x1 (fun _ => 0) tr_d1d te_d1d q1d).out j) ∧
    (PADivergenceApplyTranspose2D dev lim T_TR_D1D T_TE_D1D T_Q1D junk NE bt gt b
        op1 (fun i => a * x1 i + x2 i) (fun _ => 0) tr_d1d te_d1d q1d).out =
      (fun j => a * (PADivergenceApplyTranspose2D dev lim T_TR_D1D T_TE_D1D T_Q1D junk1 NE bt gt b
          op1 x1 (fun _ => 0) tr_d1d te_d1d q1d).out j +
        (PADivergenceApplyTranspose2D dev lim T_TR_D1D T_TE_D1D T_Q1D junk2 NE bt gt b
          op1 x2 (fun _ => 0) tr_d1d te_d1d q1d).out j) ∧
    (PADivergenceApplyTranspose2D dev lim T_TR_D1D T_TE_D1D T_Q1D junk NE bt gt b
        (fun i => a * op1 i + op2 i) x1 (fun _ => 0) tr_d1d te_d1d q1d).out =
      (fun j => a * (PADivergenceApplyTranspose2D dev lim T_TR_D1D T_TE_D1D T_Q1D junk1 NE bt gt b
          op1 x1 (fun _ => 0) tr_d1d te_d1d q1d).out j +
        (PADivergenceApplyTranspose2D dev lim T_TR_D1D T_TE_D1D T_Q1D junk2 NE bt gt b
          op2 x1 (fun _ => 0) tr_d1d te_d1d q1d).out j) ∧
    (PADivergenceApply3D dev lim T_TR_D1D T_TE_D1D T_Q1D junk NE b g bt
        op1 (fun i => a * x1 i + x2 i) (fun _ => 0) tr_d1d te_d1d q1d).out =
      (fun j => a * (PADivergenceApply3D dev lim T_TR_D1D T_TE_D1D T_Q1D junk1 NE b g bt
          op1 x1 (fun _ => 0) tr_d1d te_d1d q1d).out j +
        (PADivergenceApply3D dev lim T_TR_D1D T_TE_D1D T_Q1D junk2 NE b g bt
          op1 x2 (fun _ => 0) tr_d1d te_d1d q1d).out j) ∧
    (PADivergenceApply3D dev lim T_TR_D1D T_TE_D1D T_Q1D junk NE b g bt
        (fun i => a * op1 i + op2 i) x1 (fun _ => 0) tr_d1d te_d1d q1d).out =
      (fun j => a * (PADivergenceApply3D dev lim T_TR_D1D T_TE_D1D T_Q1D junk1 NE b g bt
          op1 x1 (fun _ => 0) tr_d1d te_d1d q1d).out j +
        (PADivergenceApply3D dev lim T_TR_D1D T_TE_D1D T_Q1D junk2 NE b g bt
          op2 x1 (fun _ => 0) tr_d1d te_d1d q1d).out j) ∧
    (PADivergenceApplyTranspose3D dev lim T_TR_D1D T_TE_D1D T_Q1D junk NE bt gt b
        op1 (fun i => a * x1 i + x2 i) (fun _ => 0) tr_d1d te_d1d q1d).out =
      (fun j => a * (PADivergenceApplyTranspose3D dev lim T_TR_D1D T_TE_D1D T_Q1D junk1 NE bt gt b
          op1 x1 (fun _ => 0) tr_d1d te_d1d q1d).out j +
        (PADivergenceApplyTranspose3D dev lim T_TR_D1D T_TE_D1D T_Q1D junk2 NE bt gt b
          op1 x2 (fun _ => 0) tr_d1d te_d1d q1d).out j) ∧
    (PADivergenceApplyTranspose3D dev lim T_TR_D1D T_TE_D1D T_Q1D junk NE bt gt b
        (fun i => a * op1 i + op2 i) x1 (fun _ => 0) tr_d1d te_d1d q1d).out =
      (fun j => a * (PADivergenceApplyTranspose3D dev lim T_TR_D1D T_TE_D1D T_Q1D junk1 NE bt gt b
          op1 x1 (fun _ => 0) tr_d1d te_d1d q1d).out j +
        (PADivergenceApplyTranspose3D dev lim T_TR_D1D T_TE_D1D T_Q1D junk2 NE bt gt b
          op2 x1 (fun _ => 0) tr_d1d te_d1d q1d).out j) :=
  ⟨PADivergenceApply2D_linear_x dev lim T_TR_D1D T_TE_D1D T_Q1D junk junk1 junk2 NE b g bt
      op1 x1 x2 a tr_d1d te_d1d q1d hlim,
    PADivergenceApply2D_linear_op dev lim T_TR_D1D T_TE_D1D T_Q1D junk junk1 junk2 NE b g bt
      op1 op2 x1 a tr_d1d te_d1d q1d hlim,
    PADivergenceApplyTranspose2D_linear_x dev lim T_TR_D1D T_TE_D1D T_Q1D junk junk1 junk2 NE bt gt b
      op1 x1 x2 a tr_d1d te_d1d q1d hlim,
    PADivergenceApplyTranspose2D_linear_op dev lim T_TR_D1D T_TE_D1D T_Q1D junk junk1 junk2 NE bt gt b
      op1 op2 x1 a tr_d1d te_d1d q1d hlim,
    PADivergenceApply3D_linear_x dev lim T_TR_D1D T_TE_D1D T_Q1D junk junk1 junk2 NE b g bt
      op1 x1 x2 a tr_d1d te_d1d q1d hlim,
    PADivergenceApply3D_linear_op dev lim T_TR_D1D T_TE_D1D T_Q1D junk junk1 junk2 NE b g bt
      op1 op2 x1 a tr_d1d te_d1d q1d hlim,
    PADivergenceApplyTranspose3D_linear_x dev lim T_TR_D1D T_TE_D1D T_Q1D junk junk1 junk2 NE bt gt b
      op1 x1 x2 a tr_d1d te_d1d q1d hlim,
    PADivergenceApplyTranspose3D_linear_op dev lim T_TR_D1D T_TE_D1D T_Q1D junk junk1 junk2 NE bt gt b
      op1 op2 x1 a tr_d1d te_d1d q1d hlim⟩

/-- C32 over the integers at `TR_D1D = 3`, `TE_D1D = 2`, `Q1D = 4`, `NE = 2` with the limits
`24, 24` and the scalar `5`. -/
theorem PADivergenceApply_linear_witness :
    (PADivergenceApply2D ⟨24, 24⟩ ⟨24, 24⟩ 0 0 0 (fun _ => (7 : ℤ)) 2 (fun i => (i : ℤ)) (fun i => 2 * (i : ℤ) + 1) (fun i => (i : ℤ) + 3)
        (fun i => (i : ℤ) * i) (fun i => 5 * (fun i => (i : ℤ) - 4) i + (fun i => 3 * (i : ℤ)) i) (fun _ => 0) 3 2 4).out =
      (fun j => 5 * (PADivergenceApply2D ⟨24, 24⟩ ⟨24, 24⟩ 0 0 0 (fun _ => (8 : ℤ)) 2 (fun i => (i : ℤ)) (fun i => 2 * (i : ℤ) + 1) (fun i => (i : ℤ) + 3)
          (fun i => (i : ℤ) * i) (fun i => (i : ℤ) - 4) (fun _ => 0) 3 2 4).out j +
        (PADivergenceApply2D ⟨24, 24⟩ ⟨24, 24⟩ 0 0 0 (fun _ => (9 : ℤ)) 2 (fun i => (i : ℤ)) (fun i => 2 * (i : ℤ) + 1) (fun i => (i : ℤ) + 3)
          (fun i => (i : ℤ) * i) (fun i => 3 * (i : ℤ)) (fun _ => 0) 3 2 4).out j) ∧
    (PADivergenceApply2D ⟨24, 24⟩ ⟨24, 24⟩ 0 0 0 (fun _ => (7 : ℤ)) 2 (fun i => (i : ℤ)) (fun i => 2 * (i : ℤ) + 1) (fun i => (i : ℤ) + 3)
        (fun i => 5 * (fun i => (i : ℤ) * i) i + (fun i => (i : ℤ) + 2) i) (fun i => (i : ℤ) - 4) (fun _ => 0) 3 2 4).out =
      (fun j => 5 * (PADivergenceApply2D ⟨24, 24⟩ ⟨24, 24⟩ 0 0 0 (fun _ => (8 : ℤ)) 2 (fun i => (i : ℤ)) (fun i => 2 * (i : ℤ) + 1) (fun i => (i : ℤ) + 3)
          (fun i => (i : ℤ) * i) (fun i => (i : ℤ) - 4) (fun _ => 0) 3 2 4).out j +
        (PADivergenceApply2D ⟨24, 24⟩ ⟨24, 24⟩ 0 0 0 (fun _ => (9 : ℤ)) 2 (fun i => (i : ℤ)) (fun i => 2 * (i : ℤ) + 1) (fun i => (i : ℤ) + 3)
          (fun i => (i : ℤ) + 2) (fun i => (i : ℤ) - 4) (fun _ => 0) 3 2 4).out j) ∧
    (PADivergenceApplyTranspose2D ⟨24, 24⟩ ⟨24, 24⟩ 0 0 0 (fun _ => (7 : ℤ)) 2 (fun i => (i : ℤ) + 3) (fun i => 1 - (i : ℤ)) (fun i => (i : ℤ))
        (fun i => (i : ℤ) * i) (fun i => 5 * (fun i => (i : ℤ) - 4) i + (fun i => 3 * (i : ℤ)) i) (fun _ => 0) 3 2 4).out =
      (fun j => 5 * (PADivergenceApplyTranspose2D ⟨24, 24⟩ ⟨24, 24⟩ 0 0 0 (fun _ => (8 : ℤ)) 2 (fun i => (i : ℤ) + 3) (fun i => 1 - (i : ℤ)) (fun i => (i : ℤ))
          (fun i => (i : ℤ) * i) (fun i => (i : ℤ) - 4) (fun _ => 0) 3 2 4).out j +
        (PADivergenceApplyTranspose2D ⟨24, 24⟩ ⟨24, 24⟩ 0 0 0 (fun _ => (9 : ℤ)) 2 (fun i => (i : ℤ) + 3) (fun i => 1 - (i : ℤ)) (fun i => (i : ℤ))
          (fun i => (i : ℤ) * i) (fun i => 3 * (i : ℤ)) (fun _ => 0) 3 2 4).out j) ∧
    (PADivergenceApplyTranspose2D ⟨24, 24⟩ ⟨24, 24⟩ 0 0 0 (fun _ => (7 : ℤ)) 2 (fun i => (i : ℤ) + 3) (fun i => 1 - (i : ℤ)) (fun i => (i : ℤ))
        (fun i => 5 * (fun i => (i : ℤ) * i) i + (fun i => (i : ℤ) + 2) i) (fun i => (i : ℤ) - 4) (fun _ => 0) 3 2 4).out =
      (fun j => 5 * (PADivergenceApplyTranspose2D ⟨24, 24⟩ ⟨24, 24⟩ 0 0 0 (fun _ => (8 : ℤ)) 2 (fun i => (i : ℤ) + 3) (fun i => 1 - (i : ℤ)) (fun i => (i : ℤ))
          (fun i => (i : ℤ) * i) (fun i => (i : ℤ) - 4) (fun _ => 0) 3 2 4).out j +
        (PADivergenceApplyTranspose2D ⟨24, 24⟩ ⟨24, 24⟩ 0 0 0 (fun _ => (9 : ℤ)) 2 (fun i => (i : ℤ) + 3) (fun i => 1 - (i : ℤ)) (fun i => (i : ℤ))
          (fun i => (i : ℤ) + 2) (fun i => (i : ℤ) - 4) (fun _ => 0) 3 2 4).out j) ∧
    (PADivergenceApply3D ⟨24, 24⟩ ⟨24, 24⟩ 0 0 0 (fun _ => (7 : ℤ)) 2 (fun i => (i : ℤ)) (fun i => 2 * (i : ℤ) + 1) (fun i => (i : ℤ) + 3)
        (fun i => (i : ℤ) * i) (fun i => 5 * (fun i => (i : ℤ) - 4) i + (fun i => 3 * (i : ℤ)) i) (fun _ => 0) 3 2 4).out =
      (fun j => 5 * (PADivergenceApply3D ⟨24, 24⟩ ⟨24, 24⟩ 0 0 0 (fun _ => (8 : ℤ)) 2 (fun i => (i : ℤ)) (fun i => 2 * (i : ℤ) + 1) (fun i => (i : ℤ) + 3)
          (fun i => (i : ℤ) * i) (fun i => (i : ℤ) - 4) (fun _ => 0) 3 2 4).out j +
        (PADivergenceApply3D ⟨24, 24⟩ ⟨24, 24⟩ 0 0 0 (fun _ => (9 : ℤ)) 2 (fun i => (i : ℤ)) (fun i => 2 * (i : ℤ) + 1) (fun i => (i : ℤ) + 3)
          (fun i => (i : ℤ) * i) (fun i => 3 * (i : ℤ)) (fun _ => 0) 3 2 4).out j) ∧
    (PADivergenceApply3D ⟨24, 24⟩ ⟨24, 24⟩ 0 0 0 (fun _ => (7 : ℤ)) 2 (fun i => (i : ℤ)) (fun i => 2 * (i : ℤ) + 1) (fun i => (i : ℤ) + 3)
        (fun i => 5 * (fun i => (i : ℤ) * i) i + (fun i => (i : ℤ) + 2) i) (fun i => (i : ℤ) - 4) (fun _ => 0) 3 2 4).out =
      (fun j => 5 * (PADivergenceApply3D ⟨24, 24⟩ ⟨24, 24⟩ 0 0 0 (fun _ => (8 : ℤ)) 2 (fun i => (i : ℤ)) (fun i => 2 * (i : ℤ) + 1) (fun i => (i : ℤ) + 3)
          (fun i => (i : ℤ) * i) (fun i => (i : ℤ) - 4) (fun _ => 0) 3 2 4).out j +
        (PADivergenceApply3D ⟨24, 24⟩ ⟨24, 24⟩ 0 0 0 (fun _ => (9 : ℤ)) 2 (fun i => (i : ℤ)) (fun i => 2 * (i : ℤ) + 1) (fun i => (i : ℤ) + 3)
          (fun i => (i : ℤ) + 2) (fun i => (i : ℤ) - 4) (fun _ => 0) 3 2 4).out j) ∧
    (PADivergenceApplyTranspose3D ⟨24, 24⟩ ⟨24, 24⟩ 0 0 0 (fun _ => (7 : ℤ)) 2 (fun i => (i : ℤ) + 3) (fun i => 1 - (i : ℤ)) (fun i => (i : ℤ))
        (fun i => (i : ℤ) * i) (fun i => 5 * (fun i => (i : ℤ) - 4) i + (fun i => 3 * (i : ℤ)) i) (fun _ => 0) 3 2 4).out =
      (fun j => 5 * (PADivergenceApplyTranspose3D ⟨24, 24⟩ ⟨24, 24⟩ 0 0 0 (fun _ => (8 : ℤ)) 2 (fun i => (i : ℤ) + 3) (fun i => 1 - (i : ℤ)) (fun i => (i : ℤ))
          (fun i => (i : ℤ) * i) (fun i => (i : ℤ) - 4) (fun _ => 0) 3 2 4).out j +
        (PADivergenceApplyTranspose3D ⟨24, 24⟩ ⟨24, 24⟩ 0 0 0 (fun _ => (9 : ℤ)) 2 (fun i => (i : ℤ) + 3) (fun i => 1 - (i : ℤ)) (fun i => (i : ℤ))
          (fun i => (i : ℤ) * i) (fun i => 3 * (i : ℤ)) (fun _ => 0) 3 2 4).out j) ∧
    (PADivergenceApplyTranspose3D ⟨24, 24⟩ ⟨24, 24⟩ 0 0 0 (fun _ => (7 : ℤ)) 2 (fun i => (i : ℤ) + 3) (fun i => 1 - (i : ℤ)) (fun i => (i : ℤ))
        (fun i => 5 * (fun i => (i : ℤ) * i) i + (fun i => (i : ℤ) + 2) i) (fun i => (i : ℤ) - 4) (fun _ => 0) 3 2 4).out =
      (fun j => 5 * (PADivergenceApplyTranspose3D ⟨24, 24⟩ ⟨24, 24⟩ 0 0 0 (fun _ => (8 : ℤ)) 2 (fun i => (i : ℤ) + 3) (fun i => 1 - (i : ℤ)) (fun i => (i : ℤ))
          (fun i => (i : ℤ) * i) (fun i => (i : ℤ) - 4) (fun _ => 0) 3 2 4).out j +
        (PADivergenceApplyTranspose3D ⟨24, 24⟩ ⟨24, 24⟩ 0 0 0 (fun _ => (9 : ℤ)) 2 (fun i => (i : ℤ) + 3) (fun i => 1 - (i : ℤ)) (fun i => (i : ℤ))
          (fun i => (i : ℤ) + 2) (fun i => (i : ℤ) - 4) (fun _ => 0) 3 2 4).out j) :=
  PADivergenceApply_linear ⟨24, 24⟩ ⟨24, 24⟩ 0 0 0 (fun _ => (7 : ℤ)) (fun _ => (8 : ℤ))
    (fun _ => (9 : ℤ)) 2 (fun i => (i : ℤ)) (fun i => 2 * (i : ℤ) + 1) (fun i => (i : ℤ) + 3)
    (fun i => 1 - (i : ℤ)) (fun i => (i : ℤ) * i) (fun i => (i : ℤ) + 2) (fun i => (i : ℤ) - 4)
    (fun i => 3 * (i : ℤ)) 5 3 2 4 ⟨by decide, by decide⟩

end Claims

/-! ## Setup and Apply together, over a field -/

section SetupFieldClaims

variable {R : Type u} [Field R]

/-- The combination `sum_c sum_k g[c][k] * A[k][c]` with `A = s * adj(J)` and `det(J) != 0` is
`s * det(J) * trace(g * J^-1)`. -/
theorem sum_mul_adjugate {n : Type} [Fintype n] [DecidableEq n] (g J A : Matrix n n R) (s : R)
    (hA : A = s • J.adjugate) (hdet : J.det ≠ 0) :
    ∑ c : n, ∑ k : n, g c k * A k c = s * J.det * (g * J⁻¹).trace := by
  have hadj : J.adjugate = J.det • J⁻¹ := by
    rw [Matrix.inv_def, Ring.inverse_eq_inv', smul_smul, mul_inv_cancel₀ hdet, one_smul]
  have htr : ∑ c : n, ∑ k : n, g c k * A k c = (g * A).trace := by
    simp [Matrix.trace, Matrix.mul_apply]
  rw [htr, hA, hadj, smul_smul, Matrix.mul_smul, Matrix.trace_smul, smul_eq_mul]

/-- C25: for `dim` 2 and 3, if the operator block at `(q, e)` is the one `PADivergenceSetup`
stores for a Jacobian `J` with `det(J) != 0`, then for every reference-gradient matrix `g`
(`g[c][k]` the derivative of component `c` along the reference axis `k`) the combination used by
the forward kernels, `sum_c sum_k g[c][k] * op(q,k,c,e)`, equals
`W[q] * COEFF * det(J) * trace(g * J^-1)`. -/
theorem PADivergenceSetup_physical_divergence (TR_D1D TE_D1D Q1D NE : Nat) (W J : Buf R)
    (COEFF : R) (op : Buf R) (q e : Nat) (he : e < NE) :
    (q < Q1D * Q1D → (blockAt 2 (Q1D * Q1D) J q e).det ≠ 0 →
      ∀ g : Matrix (Fin 2) (Fin 2) R,
        ∑ c : Fin 2, ∑ k : Fin 2, g c k *
            (PADivergenceSetup 2 TR_D1D TE_D1D Q1D NE W J COEFF op).out
              (idx4 (Q1D * Q1D) 2 2 q k c e) =
          W q * COEFF * (blockAt 2 (Q1D * Q1D) J q e).det *
            (g * (blockAt 2 (Q1D * Q1D) J q e)⁻¹).trace) ∧
    (q < Q1D * Q1D * Q1D → (blockAt 3 (Q1D * Q1D * Q1D) J q e).det ≠ 0 →
      ∀ g : Matrix (Fin 3) (Fin 3) R,
        ∑ c : Fin 3, ∑ k : Fin 3, g c k *
            (PADivergenceSetup 3 TR_D1D TE_D1D Q1D NE W J COEFF op).out
              (idx4 (Q1D * Q1D * Q1D) 3 3 q k c e) =
          W q * COEFF * (blockAt 3 (Q1D * Q1D * Q1D) J q e).det *
            (g * (blockAt 3 (Q1D * Q1D * Q1D) J q e)⁻¹).trace) := by
  constructor
  · intro hq hdet g
    rw [PADivergenceSetup_two]
    exact sum_mul_adjugate g _
      (fun r c => PADivergenceSetup2D Q1D NE W J COEFF op (idx4 (Q1D * Q1D) 2 2 q r c e))
      (W q * COEFF) (PADivergenceSetup2D_block Q1D NE W J COEFF op hq he) hdet
  · intro hq hdet g
    rw [PADivergenceSetup_three]
    exact sum_mul_adjugate g _
      (fun r c => PADivergenceSetup3D Q1D NE W J COEFF op
        (idx4 (Q1D * Q1D * Q1D) 3 3 q r c e))
      (W q * COEFF) (PADivergenceSetup3D_block Q1D NE W J COEFF op hq he) hdet

/-- C25 over the rationals at `Q1D = 1`, `NE = 2`, point `0` of element `1`, for the 2D
Jacobian `[[5, 7], [6, 8]]` and the 3D Jacobian with the entries `(10 + r + 3c)^2`. -/
theorem PADivergenceSetup_physical_divergence_witness :
    (∀ g : Matrix (Fin 2) (Fin 2) ℚ,
        ∑ c : Fin 2, ∑ k : Fin 2, g c k *
            (PADivergenceSetup 2 1 1 1 2 (fun _ => (3 : ℚ)) (fun i => (i : ℚ) + 1) 2
              (fun _ => 0)).out (idx4 (1 * 1) 2 2 0 k c 1) =
          (fun _ => (3 : ℚ)) 0 * 2 * (blockAt 2 (1 * 1) (fun i => (i : ℚ) + 1) 0 1).det *
            (g * (blockAt 2 (1 * 1) (fun i => (i : ℚ) + 1) 0 1)⁻¹).trace) ∧
    (∀ g : Matrix (Fin 3) (Fin 3) ℚ,
        ∑ c : Fin 3, ∑ k : Fin 3, g c k *
            (PADivergenceSetup 3 1 1 1 2 (fun _ => (3 : ℚ)) (fun i => ((i : ℚ) + 1) ^ 2) 2
              (fun _ => 0)).out (idx4 (1 * 1 * 1) 3 3 0 k c 1) =
          (fun _ => (3 : ℚ)) 0 * 2 *
            (blockAt 3 (1 * 1 * 1) (fun i => ((i : ℚ) + 1) ^ 2) 0 1).det *
            (g * (blockAt 3 (1 * 1 * 1) (fun i => ((i : ℚ) + 1) ^ 2) 0 1)⁻¹).trace) :=
  ⟨(PADivergenceSetup_physical_divergence 1 1 1 2 (fun _ => (3 : ℚ)) (fun i => (i : ℚ) + 1) 2
      (fun _ => 0) 0 1 (by decide)).1 (by decide)
      (by
        rw [Matrix.det_fin_two]
        simp [blockAt, idx4, idx3, idx2]
        norm_num),
    (PADivergenceSetup_physical_divergence 1 1 1 2 (fun _ => (3 : ℚ))
      (fun i => ((i : ℚ) + 1) ^ 2) 2 (fun _ => 0) 0 1 (by decide)).2 (by decide)
      (by
        rw [Matrix.det_fin_three]
        simp [blockAt, idx4, idx3, idx2]
        norm_num)⟩

end SetupFieldClaims

/-! ## The claims about the TMOP energy kernel -/

section TmopClaims

variable {R : Type u} [Field R]

/-- C15: `EnergyPA_2D` ends in the fatal error `"2D metric not yet implemented!"` if and only if
`mid` is not one of 1, 2, 7, 56, 77, 80, 94, and on that failure `energy`, `l_energy`,
`metric_energy` and `lim_energy` are exactly what they were before the call (the other two checks
of the kernel fail with other messages). -/
theorem EnergyPA_2D_metric_validation (K : TmopKernels R) (T_D1D T_Q1D T_MAX : Nat) (junk : Buf R)
    (metric_normal : R) (use_detA : Bool) (mc_ : Buf R) (mc_Size : Nat) (metric_param : Buf R)
    (mid : Int) (NE : Nat) (j_ w_ b_ g_ x_ ones energy l_energy : Buf R)
    (energy_Size l_energy_Size : Nat) (metric_energy lim_energy : R) (d1d q1d : Nat) :
    ((∃ s, EnergyPA_2D K T_D1D T_Q1D T_MAX junk metric_normal use_detA mc_ mc_Size metric_param mid NE
        j_ w_ b_ g_ x_ ones energy l_energy energy_Size l_energy_Size metric_energy lim_energy d1d q1d =
        Outcome.fatal "2D metric not yet implemented!" s) ↔
      ¬ (mid = 1 ∨ mid = 2 ∨ mid = 7 ∨ mid = 56 ∨ mid = 77 ∨ mid = 80 ∨ mid = 94)) ∧
    (EnergyPA_2D K T_D1D T_Q1D T_MAX junk metric_normal use_detA mc_ mc_Size metric_param mid NE
        j_ w_ b_ g_ x_ ones energy l_energy energy_Size l_energy_Size metric_energy lim_energy d1d q1d =
        Outcome.fatal "2D metric not yet implemented!"
          ⟨energy, l_energy, metric_energy, lim_energy⟩ ↔
      ¬ (mid = 1 ∨ mid = 2 ∨ mid = 7 ∨ mid = 56 ∨ mid = 77 ∨ mid = 80 ∨ mid = 94)) := by
  by_cases hmid : mid = 1 ∨ mid = 2 ∨ mid = 7 ∨ mid = 56 ∨ mid = 77 ∨ mid = 80 ∨ mid = 94
  · have hne : ∀ s, EnergyPA_2D K T_D1D T_Q1D T_MAX junk metric_normal use_detA mc_ mc_Size metric_param mid NE
        j_ w_ b_ g_ x_ ones energy l_energy energy_Size l_energy_Size metric_energy lim_energy d1d q1d ≠
        Outcome.fatal "2D metric not yet implemented!" s := by
      intro s
      unfold EnergyPA_2D
      simp only [not_not.mpr hmid, if_false]
      split_ifs <;> simp
    exact ⟨⟨fun ⟨s, hs⟩ => absurd hs (hne s), fun h => absurd hmid h⟩,
      ⟨fun hs => absurd hs (hne _), fun h => absurd hmid h⟩⟩
  · have hf := EnergyPA_2D_fatal_mid K T_D1D T_Q1D T_MAX junk metric_normal use_detA mc_ mc_Size metric_param mid NE j_ w_ b_ g_ x_ ones energy l_energy energy_Size l_energy_Size metric_energy lim_energy d1d q1d hmid
    exact ⟨⟨fun _ => hmid, fun _ => ⟨_, hf⟩⟩, ⟨fun _ => hmid, fun _ => hf⟩⟩

/-- C16: for every accepted `mid`, sizes within `T_MAX` and every quadrature point `(qx, qy)` of
every element `e`, `EnergyPA_2D` returns with
`L(qx,qy,e) = metric_normal * m_coef * W(qx,qy) * det(D)`, `D = Jpr` when `use_detA` is true and
`D = Jtr` otherwise, and `E(qx,qy,e) = L(qx,qy,e) * mu_mid(Jpt)` with `Jpt = Jpr * Jtr^-1` and
`mu_mid` the function `EvalW_mid` selected by `mid`; `L` is the same for every accepted `mid` and
every metric weight array. The helpers `CalcInverse<2>`, `Mult`, `Det<2>` are assumed to compute
the inverse, the product and the determinant. -/
theorem EnergyPA_2D_point_values (K : TmopKernels R) (T_D1D T_Q1D T_MAX : Nat) (junk : Buf R)
    (metric_normal : R) (use_detA : Bool) (mc_ : Buf R) (mc_Size : Nat) (metric_param : Buf R)
    (mid : Int) (NE : Nat) (j_ w_ b_ g_ x_ ones energy l_energy : Buf R)
    (energy_Size l_energy_Size : Nat) (metric_energy lim_energy : R) (d1d q1d : Nat)
    (e qy qx : Nat) (hK : K.Exact)
    (hmid : mid = 1 ∨ mid = 2 ∨ mid = 7 ∨ mid = 56 ∨ mid = 77 ∨ mid = 80 ∨ mid = 94)
    (hD : T_D1D > 0 ∨ pick T_D1D d1d ≤ T_MAX) (hQ : T_Q1D > 0 ∨ pick T_Q1D q1d ≤ T_MAX)
    (he : e < NE) (hqy : qy < pick T_Q1D q1d) (hqx : qx < pick T_Q1D q1d) :
    (EnergyPA_2D K T_D1D T_Q1D T_MAX junk metric_normal use_detA mc_ mc_Size metric_param mid NE
        j_ w_ b_ g_ x_ ones energy l_energy energy_Size l_energy_Size metric_energy lim_energy d1d q1d).failed = false ∧
    (EnergyPA_2D K T_D1D T_Q1D T_MAX junk metric_normal use_detA mc_ mc_Size metric_param mid NE
        j_ w_ b_ g_ x_ ones energy l_energy energy_Size l_energy_Size metric_energy lim_energy d1d q1d).out.l_energy (idx3 (pick T_Q1D q1d) (pick T_Q1D q1d) qx qy e) =
      metric_normal * (EnergyPA_2D_m_coef (decide (mc_Size = 1)) (pick T_Q1D q1d) NE mc_ e qy qx) *
        Reshape2 w_ (pick T_Q1D q1d) (pick T_Q1D q1d) qx qy *
        (mat2 (if use_detA = true then (EnergyPA_2D_Jpr K T_D1D T_Q1D T_MAX junk b_ g_ x_ d1d q1d e qy qx)
          else (EnergyPA_2D_Jtr (pick T_Q1D q1d) j_ e qy qx))).det ∧
    mat2 (EnergyPA_2D_Jpt K T_D1D T_Q1D T_MAX junk j_ b_ g_ x_ d1d q1d e qy qx) =
      mat2 (EnergyPA_2D_Jpr K T_D1D T_Q1D T_MAX junk b_ g_ x_ d1d q1d e qy qx) *
        (mat2 (EnergyPA_2D_Jtr (pick T_Q1D q1d) j_ e qy qx))⁻¹ ∧
    (mid = 1 →
      (EnergyPA_2D K T_D1D T_Q1D T_MAX junk metric_normal use_detA mc_ mc_Size metric_param mid NE
        j_ w_ b_ g_ x_ ones energy l_energy energy_Size l_energy_Size metric_energy lim_energy d1d q1d).out.energy (idx3 (pick T_Q1D q1d) (pick T_Q1D q1d) qx qy e) =
        (EnergyPA_2D K T_D1D T_Q1D T_MAX junk metric_normal use_detA mc_ mc_Size metric_param mid NE
        j_ w_ b_ g_ x_ ones energy l_energy energy_Size l_energy_Size metric_energy lim_energy d1d q1d).out.l_energy (idx3 (pick T_Q1D q1d) (pick T_Q1D q1d) qx qy e) *
          EvalW_001 K (EnergyPA_2D_Jpt K T_D1D T_Q1D T_MAX junk j_ b_ g_ x_ d1d q1d e qy qx)) ∧
    (mid = 2 →
      (EnergyPA_2D K T_D1D T_Q1D T_MAX junk metric_normal use_detA mc_ mc_Size metric_param mid NE
        j_ w_ b_ g_ x_ ones energy l_energy energy_Size l_energy_Size metric_energy lim_energy d1d q1d).out.energy (idx3 (pick T_Q1D q1d) (pick T_Q1D q1d) qx qy e) =
        (EnergyPA_2D K T_D1D T_Q1D T_MAX junk metric_normal use_detA mc_ mc_Size metric_param mid NE
        j_ w_ b_ g_ x_ ones energy l_energy energy_Size l_energy_Size metric_energy lim_energy d1d q1d).out.l_energy (idx3 (pick T_Q1D q1d) (pick T_Q1D q1d) qx qy e) *
          EvalW_002 K (EnergyPA_2D_Jpt K T_D1D T_Q1D T_MAX junk j_ b_ g_ x_ d1d q1d e qy qx)) ∧
    (mid = 7 →
      (EnergyPA_2D K T_D1D T_Q1D T_MAX junk metric_normal use_detA mc_ mc_Size metric_param mid NE
        j_ w_ b_ g_ x_ ones energy l_energy energy_Size l_energy_Size metric_energy lim_energy d1d q1d).out.energy (idx3 (pick T_Q1D q1d) (pick T_Q1D q1d) qx qy e) =
        (EnergyPA_2D K T_D1D T_Q1D T_MAX junk metric_normal use_detA mc_ mc_Size metric_param mid NE
        j_ w_ b_ g_ x_ ones energy l_energy energy_Size l_energy_Size metric_energy lim_energy d1d q1d).out.l_energy (idx3 (pick T_Q1D q1d) (pick T_Q1D q1d) qx qy e) *
          EvalW_007 K (EnergyPA_2D_Jpt K T_D1D T_Q1D T_MAX junk j_ b_ g_ x_ d1d q1d e qy qx)) ∧
    (mid = 56 →
      (EnergyPA_2D K T_D1D T_Q1D T_MAX junk metric_normal use_detA mc_ mc_Size metric_param mid NE
        j_ w_ b_ g_ x_ ones energy l_energy energy_Size l_energy_Size metric_energy lim_energy d1d q1d).out.energy (idx3 (pick T_Q1D q1d) (pick T_Q1D q1d) qx qy e) =
        (EnergyPA_2D K T_D1D T_Q1D T_MAX junk metric_normal use_detA mc_ mc_Size metric_param mid NE
        j_ w_ b_ g_ x_ ones energy l_energy energy_Size l_energy_Size metric_energy lim_energy d1d q1d).out.l_energy (idx3 (pick T_Q1D q1d) (pick T_Q1D q1d) qx qy e) *
          EvalW_056 K (EnergyPA_2D_Jpt K T_D1D T_Q1D T_MAX junk j_ b_ g_ x_ d1d q1d e qy qx)) ∧
    (mid = 77 →
      (EnergyPA_2D K T_D1D T_Q1D T_MAX junk metric_normal use_detA mc_ mc_Size metric_param mid NE
        j_ w_ b_ g_ x_ ones energy l_energy energy_Size l_energy_Size metric_energy lim_energy d1d q1d).out.energy (idx3 (pick T_Q1D q1d) (pick T_Q1D q1d) qx qy e) =
        (EnergyPA_2D K T_D1D T_Q1D T_MAX junk metric_normal use_detA mc_ mc_Size metric_param mid NE
        j_ w_ b_ g_ x_ ones energy l_energy energy_Size l_energy_Size metric_energy lim_energy d1d q1d).out.l_energy (idx3 (pick T_Q1D q1d) (pick T_Q1D q1d) qx qy e) *
          EvalW_077 K (EnergyPA_2D_Jpt K T_D1D T_Q1D T_MAX junk j_ b_ g_ x_ d1d q1d e qy qx)) ∧
    (mid = 80 →
      (EnergyPA_2D K T_D1D T_Q1D T_MAX junk metric_normal use_detA mc_ mc_Size metric_param mid NE
        j_ w_ b_ g_ x_ ones energy l_energy energy_Size l_energy_Size metric_energy lim_energy d1d q1d).out.energy (idx3 (pick T_Q1D q1d) (pick T_Q1D q1d) qx qy e) =
        (EnergyPA_2D K T_D1D T_Q1D T_MAX junk metric_normal use_detA mc_ mc_Size metric_param mid NE
        j_ w_ b_ g_ x_ ones energy l_energy energy_Size l_energy_Size metric_energy lim_energy d1d q1d).out.l_energy (idx3 (pick T_Q1D q1d) (pick T_Q1D q1d) qx qy e) *
          EvalW_080 K (EnergyPA_2D_Jpt K T_D1D T_Q1D T_MAX junk j_ b_ g_ x_ d1d q1d e qy qx) metric_param) ∧
    (mid = 94 →
      (EnergyPA_2D K T_D1D T_Q1D T_MAX junk metric_normal use_detA mc_ mc_Size metric_param mid NE
        j_ w_ b_ g_ x_ ones energy l_energy energy_Size l_energy_Size metric_energy lim_energy d1d q1d).out.energy (idx3 (pick T_Q1D q1d) (pick T_Q1D q1d) qx qy e) =
        (EnergyPA_2D K T_D1D T_Q1D T_MAX junk metric_normal use_detA mc_ mc_Size metric_param mid NE
        j_ w_ b_ g_ x_ ones energy l_energy energy_Size l_energy_Size metric_energy lim_energy d1d q1d).out.l_energy (idx3 (pick T_Q1D q1d) (pick T_Q1D q1d) qx qy e) *
          EvalW_094 K (EnergyPA_2D_Jpt K T_D1D T_Q1D T_MAX junk j_ b_ g_ x_ d1d q1d e qy qx) metric_param) ∧
    (∀ (mid2 : Int) (metric_param2 : Buf R), (mid2 = 1 ∨ mid2 = 2 ∨ mid2 = 7 ∨ mid2 = 56 ∨ mid2 = 77 ∨ mid2 = 80 ∨ mid2 = 94) →
      (EnergyPA_2D K T_D1D T_Q1D T_MAX junk metric_normal use_detA mc_ mc_Size metric_param2 mid2 NE
        j_ w_ b_ g_ x_ ones energy l_energy energy_Size l_energy_Size metric_energy lim_energy d1d q1d).out.l_energy (idx3 (pick T_Q1D q1d) (pick T_Q1D q1d) qx qy e) =
        (EnergyPA_2D K T_D1D T_Q1D T_MAX junk metric_normal use_detA mc_ mc_Size metric_param mid NE
        j_ w_ b_ g_ x_ ones energy l_energy energy_Size l_energy_Size metric_energy lim_energy d1d q1d).out.l_energy (idx3 (pick T_Q1D q1d) (pick T_Q1D q1d) qx qy e)) := by
  have hok := EnergyPA_2D_ok K T_D1D T_Q1D T_MAX junk metric_normal use_detA mc_ mc_Size metric_param mid NE j_ w_ b_ g_ x_ ones energy l_energy energy_Size l_energy_Size metric_energy lim_energy d1d q1d hmid hD hQ
  have hcell := EnergyPA_2D_loop_cell K T_D1D T_Q1D T_MAX junk metric_normal use_detA
    (decide (mc_Size = 1)) mc_ metric_param mid NE j_ w_ b_ g_ x_ d1d q1d (energy, l_energy)
    he hqy hqx
  have hL : (EnergyPA_2D K T_D1D T_Q1D T_MAX junk metric_normal use_detA mc_ mc_Size metric_param mid NE
        j_ w_ b_ g_ x_ ones energy l_energy energy_Size l_energy_Size metric_energy lim_energy d1d q1d).out.l_energy (idx3 (pick T_Q1D q1d) (pick T_Q1D q1d) qx qy e) =
      EnergyPA_2D_weight K T_D1D T_Q1D T_MAX junk metric_normal use_detA (decide (mc_Size = 1))
        mc_ NE j_ w_ b_ g_ x_ d1d q1d e qy qx := by
    rw [hok]
    exact hcell.2
  have hE : (EnergyPA_2D K T_D1D T_Q1D T_MAX junk metric_normal use_detA mc_ mc_Size metric_param mid NE
        j_ w_ b_ g_ x_ ones energy l_energy energy_Size l_energy_Size metric_energy lim_energy d1d q1d).out.energy (idx3 (pick T_Q1D q1d) (pick T_Q1D q1d) qx qy e) =
      EnergyPA_2D_weight K T_D1D T_Q1D T_MAX junk metric_normal use_detA (decide (mc_Size = 1))
          mc_ NE j_ w_ b_ g_ x_ d1d q1d e qy qx *
        EnergyPA_2D_EvalW K mid metric_param
          (EnergyPA_2D_Jpt K T_D1D T_Q1D T_MAX junk j_ b_ g_ x_ d1d q1d e qy qx) := by
    rw [hok]
    exact hcell.1
  refine ⟨by rw [hok]; rfl, ?_, ?_, ?_, ?_, ?_, ?_, ?_, ?_, ?_, ?_⟩
  · rw [hL, EnergyPA_2D_weight, hK.det]
  · rw [EnergyPA_2D_Jpt, hK.mult, hK.calcInverse]
  · intro h
    rw [hE, hL]
    subst h
    rfl
  · intro h
    rw [hE, hL]
    subst h
    rfl
  · intro h
    rw [hE, hL]
    subst h
    rfl
  · intro h
    rw [hE, hL]
    subst h
    rfl
  · intro h
    rw [hE, hL]
    subst h
    rfl
  · intro h
    rw [hE, hL]
    subst h
    rfl
  · intro h
    rw [hE, hL]
    subst h
    rfl
  · intro mid2 metric_param2 hmid2
    rw [hL, EnergyPA_2D_ok K T_D1D T_Q1D T_MAX junk metric_normal use_detA mc_ mc_Size
      metric_param2 mid2 NE j_ w_ b_ g_ x_ ones energy l_energy energy_Size l_energy_Size
      metric_energy lim_energy d1d q1d hmid2 hD hQ]
    exact (EnergyPA_2D_loop_cell K T_D1D T_Q1D T_MAX junk metric_normal use_detA
      (decide (mc_Size = 1)) mc_ metric_param2 mid2 NE j_ w_ b_ g_ x_ d1d q1d (energy, l_energy)
      he hqy hqx).2

/-- C16 over the rationals with the modelled helpers: `mid = 80`, `D1D = Q1D = 2`, `NE = 2`,
`T_MAX = 4`, point `(0, 1)` of element `1`. -/
theorem EnergyPA_2D_point_values_witness :
    (EnergyPA_2D (tmopKernels : TmopKernels ℚ) 0 0 4 (fun _ => 0) 2 true (fun i => (i : ℚ) + 1) 8 (fun i => (i : ℚ) + 2) (80 : Int) 2
        (fun i => (i : ℚ) * i + 1) (fun i => (i : ℚ) + 3) (fun i => (i : ℚ) + 1) (fun i => 2 * (i : ℚ) - 1) (fun i => (i : ℚ) * (i + 1)) (fun _ => 1) (fun _ => 0) (fun _ => 0) 8 8 0 0 2 2).failed = false ∧
    (EnergyPA_2D (tmopKernels : TmopKernels ℚ) 0 0 4 (fun _ => 0) 2 true (fun i => (i : ℚ) + 1) 8 (fun i => (i : ℚ) + 2) (80 : Int) 2
        (fun i => (i : ℚ) * i + 1) (fun i => (i : ℚ) + 3) (fun i => (i : ℚ) + 1) (fun i => 2 * (i : ℚ) - 1) (fun i => (i : ℚ) * (i + 1)) (fun _ => 1) (fun _ => 0) (fun _ => 0) 8 8 0 0 2 2).out.l_energy (idx3 (pick 0 2) (pick 0 2) 0 1 1) =
      2 * (EnergyPA_2D_m_coef (decide (8 = 1)) (pick 0 2) 2 (fun i => (i : ℚ) + 1) 1 1 0) *
        Reshape2 (fun i => (i : ℚ) + 3) (pick 0 2) (pick 0 2) 0 1 *
        (mat2 (if true = true then (EnergyPA_2D_Jpr (tmopKernels : TmopKernels ℚ) 0 0 4 (fun _ => 0) (fun i => (i : ℚ) + 1) (fun i => 2 * (i : ℚ) - 1) (fun i => (i : ℚ) * (i + 1)) 2 2 1 1 0)
          else (EnergyPA_2D_Jtr (pick 0 2) (fun i => (i : ℚ) * i + 1) 1 1 0))).det ∧
    mat2 (EnergyPA_2D_Jpt (tmopKernels : TmopKernels ℚ) 0 0 4 (fun _ => 0) (fun i => (i : ℚ) * i + 1) (fun i => (i : ℚ) + 1) (fun i => 2 * (i : ℚ) - 1) (fun i => (i : ℚ) * (i + 1)) 2 2 1 1 0) =
      mat2 (EnergyPA_2D_Jpr (tmopKernels : TmopKernels ℚ) 0 0 4 (fun _ => 0) (fun i => (i : ℚ) + 1) (fun i => 2 * (i : ℚ) - 1) (fun i => (i : ℚ) * (i + 1)) 2 2 1 1 0) *
        (mat2 (EnergyPA_2D_Jtr (pick 0 2) (fun i => (i : ℚ) * i + 1) 1 1 0))⁻¹ ∧
    ((80 : Int) = 1 →
      (EnergyPA_2D (tmopKernels : TmopKernels ℚ) 0 0 4 (fun _ => 0) 2 true (fun i => (i : ℚ) + 1) 8 (fun i => (i : ℚ) + 2) (80 : Int) 2
        (fun i => (i : ℚ) * i + 1) (fun i => (i : ℚ) + 3) (fun i => (i : ℚ) + 1) (fun i => 2 * (i : ℚ) - 1) (fun i => (i : ℚ) * (i + 1)) (fun _ => 1) (fun _ => 0) (fun _ => 0) 8 8 0 0 2 2).out.energy (idx3 (pick 0 2) (pick 0 2) 0 1 1) =
        (EnergyPA_2D (tmopKernels : TmopKernels ℚ) 0 0 4 (fun _ => 0) 2 true (fun i => (i : ℚ) + 1) 8 (fun i => (i : ℚ) + 2) (80 : Int) 2
        (fun i => (i : ℚ) * i + 1) (fun i => (i : ℚ) + 3) (fun i => (i : ℚ) + 1) (fun i => 2 * (i : ℚ) - 1) (fun i => (i : ℚ) * (i + 1)) (fun _ => 1) (fun _ => 0) (fun _ => 0) 8 8 0 0 2 2).out.l_energy (idx3 (pick 0 2) (pick 0 2) 0 1 1) *
          EvalW_001 (tmopKernels : TmopKernels ℚ) (EnergyPA_2D_Jpt (tmopKernels : TmopKernels ℚ) 0 0 4 (fun _ => 0) (fun i => (i : ℚ) * i + 1) (fun i => (i : ℚ) + 1) (fun i => 2 * (i : ℚ) - 1) (fun i => (i : ℚ) * (i + 1)) 2 2 1 1 0)) ∧
    ((80 : Int) = 2 →
      (EnergyPA_2D (tmopKernels : TmopKernels ℚ) 0 0 4 (fun _ => 0) 2 true (fun i => (i : ℚ) + 1) 8 (fun i => (i : ℚ) + 2) (80 : Int) 2
        (fun i => (i : ℚ) * i + 1) (fun i => (i : ℚ) + 3) (fun i => (i : ℚ) + 1) (fun i => 2 * (i : ℚ) - 1) (fun i => (i : ℚ) * (i + 1)) (fun _ => 1) (fun _ => 0) (fun _ => 0) 8 8 0 0 2 2).out.energy (idx3 (pick 0 2) (pick 0 2) 0 1 1) =
        (EnergyPA_2D (tmopKernels : TmopKernels ℚ) 0 0 4 (fun _ => 0) 2 true (fun i => (i : ℚ) + 1) 8 (fun i => (i : ℚ) + 2) (80 : Int) 2
        (fun i => (i : ℚ) * i + 1) (fun i => (i : ℚ) + 3) (fun i => (i : ℚ) + 1) (fun i => 2 * (i : ℚ) - 1) (fun i => (i : ℚ) * (i + 1)) (fun _ => 1) (fun _ => 0) (fun _ => 0) 8 8 0 0 2 2).out.l_energy (idx3 (pick 0 2) (pick 0 2) 0 1 1) *
          EvalW_002 (tmopKernels : TmopKernels ℚ) (EnergyPA_2D_Jpt (tmopKernels : TmopKernels ℚ) 0 0 4 (fun _ => 0) (fun i => (i : ℚ) * i + 1) (fun i => (i : ℚ) + 1) (fun i => 2 * (i : ℚ) - 1) (fun i => (i : ℚ) * (i + 1)) 2 2 1 1 0)) ∧
    ((80 : Int) = 7 →
      (EnergyPA_2D (tmopKernels : TmopKernels ℚ) 0 0 4 (fun _ => 0) 2 true (fun i => (i : ℚ) + 1) 8 (fun i => (i : ℚ) + 2) (80 : Int) 2
        (fun i => (i : ℚ) * i + 1) (fun i => (i : ℚ) + 3) (fun i => (i : ℚ) + 1) (fun i => 2 * (i : ℚ) - 1) (fun i => (i : ℚ) * (i + 1)) (fun _ => 1) (fun _ => 0) (fun _ => 0) 8 8 0 0 2 2).out.energy (idx3 (pick 0 2) (pick 0 2) 0 1 1) =
        (EnergyPA_2D (tmopKernels : TmopKernels ℚ) 0 0 4 (fun _ => 0) 2 true (fun i => (i : ℚ) + 1) 8 (fun i => (i : ℚ) + 2) (80 : Int) 2
        (fun i => (i : ℚ) * i + 1) (fun i => (i : ℚ) + 3) (fun i => (i : ℚ) + 1) (fun i => 2 * (i : ℚ) - 1) (fun i => (i : ℚ) * (i + 1)) (fun _ => 1) (fun _ => 0) (fun _ => 0) 8 8 0 0 2 2).out.l_energy (idx3 (pick 0 2) (pick 0 2) 0 1 1) *
          EvalW_007 (tmopKernels : TmopKernels ℚ) (EnergyPA_2D_Jpt (tmopKernels : TmopKernels ℚ) 0 0 4 (fun _ => 0) (fun i => (i : ℚ) * i + 1) (fun i => (i : ℚ) + 1) (fun i => 2 * (i : ℚ) - 1) (fun i => (i : ℚ) * (i + 1)) 2 2 1 1 0)) ∧
    ((80 : Int) = 56 →
      (EnergyPA_2D (tmopKernels : TmopKernels ℚ) 0 0 4 (fun _ => 0) 2 true (fun i => (i : ℚ) + 1) 8 (fun i => (i : ℚ) + 2) (80 : Int) 2
        (fun i => (i : ℚ) * i + 1) (fun i => (i : ℚ) + 3) (fun i => (i : ℚ) + 1) (fun i => 2 * (i : ℚ) - 1) (fun i => (i : ℚ) * (i + 1)) (fun _ => 1) (fun _ => 0) (fun _ => 0) 8 8 0 0 2 2).out.energy (idx3 (pick 0 2) (pick 0 2) 0 1 1) =
        (EnergyPA_2D (tmopKernels : TmopKernels ℚ) 0 0 4 (fun _ => 0) 2 true (fun i => (i : ℚ) + 1) 8 (fun i => (i : ℚ) + 2) (80 : Int) 2
        (fun i => (i : ℚ) * i + 1) (fun i => (i : ℚ) + 3) (fun i => (i : ℚ) + 1) (fun i => 2 * (i : ℚ) - 1) (fun i => (i : ℚ) * (i + 1)) (fun _ => 1) (fun _ => 0) (fun _ => 0) 8 8 0 0 2 2).out.l_energy (idx3 (pick 0 2) (pick 0 2) 0 1 1) *
          EvalW_056 (tmopKernels : TmopKernels ℚ) (EnergyPA_2D_Jpt (tmopKernels : TmopKernels ℚ) 0 0 4 (fun _ => 0) (fun i => (i : ℚ) * i + 1) (fun i => (i : ℚ) + 1) (fun i => 2 * (i : ℚ) - 1) (fun i => (i : ℚ) * (i + 1)) 2 2 1 1 0)) ∧
    ((80 : Int) = 77 →
      (EnergyPA_2D (tmopKernels : TmopKernels ℚ) 0 0 4 (fun _ => 0) 2 true (fun i => (i : ℚ) + 1) 8 (fun i => (i : ℚ) + 2) (80 : Int) 2
        (fun i => (i : ℚ) * i + 1) (fun i => (i : ℚ) + 3) (fun i => (i : ℚ) + 1) (fun i => 2 * (i : ℚ) - 1) (fun i => (i : ℚ) * (i + 1)) (fun _ => 1) (fun _ => 0) (fun _ => 0) 8 8 0 0 2 2).out.energy (idx3 (pick 0 2) (pick 0 2) 0 1 1) =
        (EnergyPA_2D (tmopKernels : TmopKernels ℚ) 0 0 4 (fun _ => 0) 2 true (fun i => (i : ℚ) + 1) 8 (fun i => (i : ℚ) + 2) (80 : Int) 2
        (fun i => (i : ℚ) * i + 1) (fun i => (i : ℚ) + 3) (fun i => (i : ℚ) + 1) (fun i => 2 * (i : ℚ) - 1) (fun i => (i : ℚ) * (i + 1)) (fun _ => 1) (fun _ => 0) (fun _ => 0) 8 8 0 0 2 2).out.l_energy (idx3 (pick 0 2) (pick 0 2) 0 1 1) *
          EvalW_077 (tmopKernels : TmopKernels ℚ) (EnergyPA_2D_Jpt (tmopKernels : TmopKernels ℚ) 0 0 4 (fun _ => 0) (fun i => (i : ℚ) * i + 1) (fun i => (i : ℚ) + 1) (fun i => 2 * (i : ℚ) - 1) (fun i => (i : ℚ) * (i + 1)) 2 2 1 1 0)) ∧
    ((80 : Int) = 80 →
      (EnergyPA_2D (tmopKernels : TmopKernels ℚ) 0 0 4 (fun _ => 0) 2 true (fun i => (i : ℚ) + 1) 8 (fun i => (i : ℚ) + 2) (80 : Int) 2
        (fun i => (i : ℚ) * i + 1) (fun i => (i : ℚ) + 3) (fun i => (i : ℚ) + 1) (fun i => 2 * (i : ℚ) - 1) (fun i => (i : ℚ) * (i + 1)) (fun _ => 1) (fun _ => 0) (fun _ => 0) 8 8 0 0 2 2).out.energy (idx3 (pick 0 2) (pick 0 2) 0 1 1) =
        (EnergyPA_2D (tmopKernels : TmopKernels ℚ) 0 0 4 (fun _ => 0) 2 true (fun i => (i : ℚ) + 1) 8 (fun i => (i : ℚ) + 2) (80 : Int) 2
        (fun i => (i : ℚ) * i + 1) (fun i => (i : ℚ) + 3) (fun i => (i : ℚ) + 1) (fun i => 2 * (i : ℚ) - 1) (fun i => (i : ℚ) * (i + 1)) (fun _ => 1) (fun _ => 0) (fun _ => 0) 8 8 0 0 2 2).out.l_energy (idx3 (pick 0 2) (pick 0 2) 0 1 1) *
          EvalW_080 (tmopKernels : TmopKernels ℚ) (EnergyPA_2D_Jpt (tmopKernels : TmopKernels ℚ) 0 0 4 (fun _ => 0) (fun i => (i : ℚ) * i + 1) (fun i => (i : ℚ) + 1) (fun i => 2 * (i : ℚ) - 1) (fun i => (i : ℚ) * (i + 1)) 2 2 1 1 0) (fun i => (i : ℚ) + 2)) ∧
    ((80 : Int) = 94 →
      (EnergyPA_2D (tmopKernels : TmopKernels ℚ) 0 0 4 (fun _ => 0) 2 true (fun i => (i : ℚ) + 1) 8 (fun i => (i : ℚ) + 2) (80 : Int) 2
        (fun i => (i : ℚ) * i + 1) (fun i => (i : ℚ) + 3) (fun i => (i : ℚ) + 1) (fun i => 2 * (i : ℚ) - 1) (fun i => (i : ℚ) * (i + 1)) (fun _ => 1) (fun _ => 0) (fun _ => 0) 8 8 0 0 2 2).out.energy (idx3 (pick 0 2) (pick 0 2) 0 1 1) =
        (EnergyPA_2D (tmopKernels : TmopKernels ℚ) 0 0 4 (fun _ => 0) 2 true (fun i => (i : ℚ) + 1) 8 (fun i => (i : ℚ) + 2) (80 : Int) 2
        (fun i => (i : ℚ) * i + 1) (fun i => (i : ℚ) + 3) (fun i => (i : ℚ) + 1) (fun i => 2 * (i : ℚ) - 1) (fun i => (i : ℚ) * (i + 1)) (fun _ => 1) (fun _ => 0) (fun _ => 0) 8 8 0 0 2 2).out.l_energy (idx3 (pick 0 2) (pick 0 2) 0 1 1) *
          EvalW_094 (tmopKernels : TmopKernels ℚ) (EnergyPA_2D_Jpt (tmopKernels : TmopKernels ℚ) 0 0 4 (fun _ => 0) (fun i => (i : ℚ) * i + 1) (fun i => (i : ℚ) + 1) (fun i => 2 * (i : ℚ) - 1) (fun i => (i : ℚ) * (i + 1)) 2 2 1 1 0) (fun i => (i : ℚ) + 2)) ∧
    (∀ (mid2 : Int) (metric_param2 : Buf ℚ), (mid2 = 1 ∨ mid2 = 2 ∨ mid2 = 7 ∨ mid2 = 56 ∨ mid2 = 77 ∨ mid2 = 80 ∨ mid2 = 94) →
      (EnergyPA_2D (tmopKernels : TmopKernels ℚ) 0 0 4 (fun _ => 0) 2 true (fun i => (i : ℚ) + 1) 8 metric_param2 mid2 2
        (fun i => (i : ℚ) * i + 1) (fun i => (i : ℚ) + 3) (fun i => (i : ℚ) + 1) (fun i => 2 * (i : ℚ) - 1) (fun i => (i : ℚ) * (i + 1)) (fun _ => 1) (fun _ => 0) (fun _ => 0) 8 8 0 0 2 2).out.l_energy (idx3 (pick 0 2) (pick 0 2) 0 1 1) =
        (EnergyPA_2D (tmopKernels : TmopKernels ℚ) 0 0 4 (fun _ => 0) 2 true (fun i => (i : ℚ) + 1) 8 (fun i => (i : ℚ) + 2) (80 : Int) 2
        (fun i => (i : ℚ) * i + 1) (fun i => (i : ℚ) + 3) (fun i => (i : ℚ) + 1) (fun i => 2 * (i : ℚ) - 1) (fun i => (i : ℚ) * (i + 1)) (fun _ => 1) (fun _ => 0) (fun _ => 0) 8 8 0 0 2 2).out.l_energy (idx3 (pick 0 2) (pick 0 2) 0 1 1)) :=
  EnergyPA_2D_point_values (tmopKernels : TmopKernels ℚ) 0 0 4 (fun _ => 0) 2 true
    (fun i => (i : ℚ) + 1) 8 (fun i => (i : ℚ) + 2) (80 : Int) 2
    (fun i => (i : ℚ) * i + 1) (fun i => (i : ℚ) + 3) (fun i => (i : ℚ) + 1)
    (fun i => 2 * (i : ℚ) - 1) (fun i => (i : ℚ) * (i + 1)) (fun _ => 1) (fun _ => 0) (fun _ => 0) 8 8 0 0 2 2
    1 1 0 tmopKernels_exact (by decide) (by decide) (by decide) (by decide) (by decide)
    (by decide)

/-- C17, as the code has it: when the coefficient vector `mc_` has a single entry, the factor
multiplied into `E` and `L` at every point is that entry `mc_[0]`, whatever its value; otherwise
the factor at `(qx, qy, e)` is `MC(qx,qy,e)`. Each output is the factor times the output of the
same call with the one-entry coefficient vector `(1)`. -/
theorem EnergyPA_2D_coefficient (K : TmopKernels R) (T_D1D T_Q1D T_MAX : Nat) (junk : Buf R)
    (metric_normal : R) (use_detA : Bool) (mc_ : Buf R) (mc_Size : Nat) (metric_param : Buf R)
    (mid : Int) (NE : Nat) (j_ w_ b_ g_ x_ ones energy l_energy : Buf R)
    (energy_Size l_energy_Size : Nat) (metric_energy lim_energy : R) (d1d q1d : Nat)
    (e qy qx : Nat)
    (hmid : mid = 1 ∨ mid = 2 ∨ mid = 7 ∨ mid = 56 ∨ mid = 77 ∨ mid = 80 ∨ mid = 94)
    (hD : T_D1D > 0 ∨ pick T_D1D d1d ≤ T_MAX) (hQ : T_Q1D > 0 ∨ pick T_Q1D q1d ≤ T_MAX)
    (he : e < NE) (hqy : qy < pick T_Q1D q1d) (hqx : qx < pick T_Q1D q1d) :
    (EnergyPA_2D K T_D1D T_Q1D T_MAX junk metric_normal use_detA mc_ mc_Size metric_param mid NE
        j_ w_ b_ g_ x_ ones energy l_energy energy_Size l_energy_Size metric_energy lim_energy d1d q1d).out.energy (idx3 (pick T_Q1D q1d) (pick T_Q1D q1d) qx qy e) =
      (if mc_Size = 1 then mc_ 0 else mc_ (idx3 (pick T_Q1D q1d) (pick T_Q1D q1d) qx qy e)) *
        (EnergyPA_2D K T_D1D T_Q1D T_MAX junk metric_normal use_detA (fun _ => 1) 1 metric_param mid NE
        j_ w_ b_ g_ x_ ones energy l_energy energy_Size l_energy_Size metric_energy lim_energy d1d q1d).out.energy (idx3 (pick T_Q1D q1d) (pick T_Q1D q1d) qx qy e) ∧
    (EnergyPA_2D K T_D1D T_Q1D T_MAX junk metric_normal use_detA mc_ mc_Size metric_param mid NE
        j_ w_ b_ g_ x_ ones energy l_energy energy_Size l_energy_Size metric_energy lim_energy d1d q1d).out.l_energy (idx3 (pick T_Q1D q1d) (pick T_Q1D q1d) qx qy e) =
      (if mc_Size = 1 then mc_ 0 else mc_ (idx3 (pick T_Q1D q1d) (pick T_Q1D q1d) qx qy e)) *
        (EnergyPA_2D K T_D1D T_Q1D T_MAX junk metric_normal use_detA (fun _ => 1) 1 metric_param mid NE
        j_ w_ b_ g_ x_ ones energy l_energy energy_Size l_energy_Size metric_energy lim_energy d1d q1d).out.l_energy (idx3 (pick T_Q1D q1d) (pick T_Q1D q1d) qx qy e) := by
  have hcell := EnergyPA_2D_loop_cell K T_D1D T_Q1D T_MAX junk metric_normal use_detA
    (decide (mc_Size = 1)) mc_ metric_param mid NE j_ w_ b_ g_ x_ d1d q1d (energy, l_energy)
    he hqy hqx
  have hcell1 := EnergyPA_2D_loop_cell K T_D1D T_Q1D T_MAX junk metric_normal use_detA
    (decide (1 = 1)) (fun _ => 1) metric_param mid NE j_ w_ b_ g_ x_ d1d q1d (energy, l_energy)
    he hqy hqx
  have hw : EnergyPA_2D_weight K T_D1D T_Q1D T_MAX junk metric_normal use_detA
        (decide (mc_Size = 1)) mc_ NE j_ w_ b_ g_ x_ d1d q1d e qy qx =
      (if mc_Size = 1 then mc_ 0 else mc_ (idx3 (pick T_Q1D q1d) (pick T_Q1D q1d) qx qy e)) *
        EnergyPA_2D_weight K T_D1D T_Q1D T_MAX junk metric_normal use_detA
          (decide (1 = 1)) (fun _ => 1) NE j_ w_ b_ g_ x_ d1d q1d e qy qx := by
    unfold EnergyPA_2D_weight EnergyPA_2D_m_coef
    by_cases h : mc_Size = 1
    · simp only [h, decide_True, if_true, Reshape3, idx3, idx2]
      ring
    · simp only [h, decide_False, decide_True, if_true, if_false, Reshape3, idx3, idx2]
      simp only [Bool.false_eq_true, if_false]
      ring
  rw [EnergyPA_2D_ok K T_D1D T_Q1D T_MAX junk metric_normal use_detA mc_ mc_Size metric_param mid NE j_ w_ b_ g_ x_ ones energy l_energy energy_Size l_energy_Size metric_energy lim_energy d1d q1d hmid hD hQ,
    EnergyPA_2D_ok K T_D1D T_Q1D T_MAX junk metric_normal use_detA (fun _ => 1) 1 metric_param
      mid NE j_ w_ b_ g_ x_ ones energy l_energy energy_Size l_energy_Size metric_energy
      lim_energy d1d q1d hmid hD hQ]
  constructor
  · exact hcell.1.trans ((congrArg (· * _) hw).trans ((mul_assoc _ _ _).trans
      (congrArg (_ * ·) hcell1.1.symm)))
  · exact hcell.2.trans (hw.trans (congrArg (_ * ·) hcell1.2.symm))

/-- C17 over the rationals with the modelled helpers, `mid = 80`, `D1D = Q1D = 2`, `NE = 2`,
`T_MAX = 4`: first with a coefficient vector of a single entry, `mc_ = (3)`, at the point `(1, 0)`
of element `1`, where the factor is `mc_[0] = 3`; then with a per-point coefficient array of
eight entries at the point `(0, 1)` of element `1`, where the factor is `MC(0,1,1)`. -/
theorem EnergyPA_2D_coefficient_witness :
    ((EnergyPA_2D (tmopKernels : TmopKernels ℚ) 0 0 4 (fun _ => 0) 2 true (fun i => (i : ℚ) + 3) 1
        (fun i => (i : ℚ) + 2) (80 : Int) 2 (fun i => (i : ℚ) * i + 1) (fun i => (i : ℚ) + 3)
        (fun i => (i : ℚ) + 1) (fun i => 2 * (i : ℚ) - 1) (fun i => (i : ℚ) * (i + 1)) (fun _ => 1)
        (fun _ => 0) (fun _ => 0) 8 8 0 0 2 2).out.energy (idx3 (pick 0 2) (pick 0 2) 1 0 1) =
      (if 1 = 1 then (fun i => (i : ℚ) + 3) 0 else (fun i => (i : ℚ) + 3) (idx3 (pick 0 2) (pick 0 2) 1 0 1)) *
        (EnergyPA_2D (tmopKernels : TmopKernels ℚ) 0 0 4 (fun _ => 0) 2 true (fun _ => 1) 1
        (fun i => (i : ℚ) + 2) (80 : Int) 2 (fun i => (i : ℚ) * i + 1) (fun i => (i : ℚ) + 3)
        (fun i => (i : ℚ) + 1) (fun i => 2 * (i : ℚ) - 1) (fun i => (i : ℚ) * (i + 1)) (fun _ => 1)
        (fun _ => 0) (fun _ => 0) 8 8 0 0 2 2).out.energy (idx3 (pick 0 2) (pick 0 2) 1 0 1) ∧
    (EnergyPA_2D (tmopKernels : TmopKernels ℚ) 0 0 4 (fun _ => 0) 2 true (fun i => (i : ℚ) + 3) 1
        (fun i => (i : ℚ) + 2) (80 : Int) 2 (fun i => (i : ℚ) * i + 1) (fun i => (i : ℚ) + 3)
        (fun i => (i : ℚ) + 1) (fun i => 2 * (i : ℚ) - 1) (fun i => (i : ℚ) * (i + 1)) (fun _ => 1)
        (fun _ => 0) (fun _ => 0) 8 8 0 0 2 2).out.l_energy (idx3 (pick 0 2) (pick 0 2) 1 0 1) =
      (if 1 = 1 then (fun i => (i : ℚ) + 3) 0 else (fun i => (i : ℚ) + 3) (idx3 (pick 0 2) (pick 0 2) 1 0 1)) *
        (EnergyPA_2D (tmopKernels : TmopKernels ℚ) 0 0 4 (fun _ => 0) 2 true (fun _ => 1) 1
        (fun i => (i : ℚ) + 2) (80 : Int) 2 (fun i => (i : ℚ) * i + 1) (fun i => (i : ℚ) + 3)
        (fun i => (i : ℚ) + 1) (fun i => 2 * (i : ℚ) - 1) (fun i => (i : ℚ) * (i + 1)) (fun _ => 1)
        (fun _ => 0) (fun _ => 0) 8 8 0 0 2 2).out.l_energy (idx3 (pick 0 2) (pick 0 2) 1 0 1)) ∧
    ((EnergyPA_2D (tmopKernels : TmopKernels ℚ) 0 0 4 (fun _ => 0) 2 true (fun i => (i : ℚ) + 1) 8
        (fun i => (i : ℚ) + 2) (80 : Int) 2 (fun i => (i : ℚ) * i + 1) (fun i => (i : ℚ) + 3)
        (fun i => (i : ℚ) + 1) (fun i => 2 * (i : ℚ) - 1) (fun i => (i : ℚ) * (i + 1)) (fun _ => 1)
        (fun _ => 0) (fun _ => 0) 8 8 0 0 2 2).out.energy (idx3 (pick 0 2) (pick 0 2) 0 1 1) =
      (if 8 = 1 then (fun i => (i : ℚ) + 1) 0 else (fun i => (i : ℚ) + 1) (idx3 (pick 0 2) (pick 0 2) 0 1 1)) *
        (EnergyPA_2D (tmopKernels : TmopKernels ℚ) 0 0 4 (fun _ => 0) 2 true (fun _ => 1) 1
        (fun i => (i : ℚ) + 2) (80 : Int) 2 (fun i => (i : ℚ) * i + 1) (fun i => (i : ℚ) + 3)
        (fun i => (i : ℚ) + 1) (fun i => 2 * (i : ℚ) - 1) (fun i => (i : ℚ) * (i + 1)) (fun _ => 1)
        (fun _ => 0) (fun _ => 0) 8 8 0 0 2 2).out.energy (idx3 (pick 0 2) (pick 0 2) 0 1 1) ∧
    (EnergyPA_2D (tmopKernels : TmopKernels ℚ) 0 0 4 (fun _ => 0) 2 true (fun i => (i : ℚ) + 1) 8
        (fun i => (i : ℚ) + 2) (80 : Int) 2 (fun i => (i : ℚ) * i + 1) (fun i => (i : ℚ) + 3)
        (fun i => (i : ℚ) + 1) (fun i => 2 * (i : ℚ) - 1) (fun i => (i : ℚ) * (i + 1)) (fun _ => 1)
        (fun _ => 0) (fun _ => 0) 8 8 0 0 2 2).out.l_energy (idx3 (pick 0 2) (pick 0 2) 0 1 1) =
      (if 8 = 1 then (fun i => (i : ℚ) + 1) 0 else (fun i => (i : ℚ) + 1) (idx3 (pick 0 2) (pick 0 2) 0 1 1)) *
        (EnergyPA_2D (tmopKernels : TmopKernels ℚ) 0 0 4 (fun _ => 0) 2 true (fun _ => 1) 1
        (fun i => (i : ℚ) + 2) (80 : Int) 2 (fun i => (i : ℚ) * i + 1) (fun i => (i : ℚ) + 3)
        (fun i => (i : ℚ) + 1) (fun i => 2 * (i : ℚ) - 1) (fun i => (i : ℚ) * (i + 1)) (fun _ => 1)
        (fun _ => 0) (fun _ => 0) 8 8 0 0 2 2).out.l_energy (idx3 (pick 0 2) (pick 0 2) 0 1 1)) :=
  ⟨EnergyPA_2D_coefficient (tmopKernels : TmopKernels ℚ) 0 0 4 (fun _ => 0) 2 true
      (fun i => (i : ℚ) + 3) 1 (fun i => (i : ℚ) + 2) (80 : Int) 2
      (fun i => (i : ℚ) * i + 1) (fun i => (i : ℚ) + 3) (fun i => (i : ℚ) + 1)
      (fun i => 2 * (i : ℚ) - 1) (fun i => (i : ℚ) * (i + 1)) (fun _ => 1) (fun _ => 0) (fun _ => 0)
      8 8 0 0 2 2 1 0 1 (by decide) (by decide) (by decide) (by decide) (by decide)
      (by decide),
    EnergyPA_2D_coefficient (tmopKernels : TmopKernels ℚ) 0 0 4 (fun _ => 0) 2 true
      (fun i => (i : ℚ) + 1) 8 (fun i => (i : ℚ) + 2) (80 : Int) 2
      (fun i => (i : ℚ) * i + 1) (fun i => (i : ℚ) + 3) (fun i => (i : ℚ) + 1)
      (fun i => 2 * (i : ℚ) - 1) (fun i => (i : ℚ) * (i + 1)) (fun _ => 1) (fun _ => 0) (fun _ => 0)
      8 8 0 0 2 2 1 1 0 (by decide) (by decide) (by decide) (by decide) (by decide)
      (by decide)⟩

/-- C17 as stated fails: `Q1D = 2` and `NE = 1`, so a per-point coefficient array has four
entries; the coefficient vector has the single entry `mc_ = (3)`, and `metric_normal = 1`,
`W = 1`, `Jtr` the identity at every point, `use_detA` false. The kernel stores `L(1,0,0) = 3`,
while the factor `1` of the claim gives `metric_normal * 1 * W(1,0) * det(Jtr) = 1`. -/
theorem EnergyPA_2D_coefficient_one_counterexample :
    (1 : Nat) ≠ pick 0 2 * pick 0 2 * 1 ∧
    (EnergyPA_2D (tmopKernels : TmopKernels ℚ) 0 0 4 (fun _ => 0) 1 false (fun _ => 3) 1
        (fun i => (i : ℚ) + 2) (1 : Int) 1 (fun i => if i % 4 = 0 ∨ i % 4 = 3 then (1 : ℚ) else 0) (fun _ => 1)
        (fun i => (i : ℚ) + 1) (fun i => 2 * (i : ℚ) - 1) (fun i => (i : ℚ) * (i + 1)) (fun _ => 1)
        (fun _ => 0) (fun _ => 0) 4 4 0 0 2 2).out.l_energy
        (idx3 (pick 0 2) (pick 0 2) 1 0 0) = 3 ∧
    (1 * 1 * Reshape2 (fun _ => 1) (pick 0 2) (pick 0 2) 1 0 *
        (mat2 (EnergyPA_2D_Jtr (pick 0 2) (fun i => if i % 4 = 0 ∨ i % 4 = 3 then (1 : ℚ) else 0) 0 0 1)).det : ℚ) = 1 ∧
    (EnergyPA_2D (tmopKernels : TmopKernels ℚ) 0 0 4 (fun _ => 0) 1 false (fun _ => 3) 1
        (fun i => (i : ℚ) + 2) (1 : Int) 1 (fun i => if i % 4 = 0 ∨ i % 4 = 3 then (1 : ℚ) else 0) (fun _ => 1)
        (fun i => (i : ℚ) + 1) (fun i => 2 * (i : ℚ) - 1) (fun i => (i : ℚ) * (i + 1)) (fun _ => 1)
        (fun _ => 0) (fun _ => 0) 4 4 0 0 2 2).out.l_energy
        (idx3 (pick 0 2) (pick 0 2) 1 0 0) ≠
      (1 * 1 * Reshape2 (fun _ => 1) (pick 0 2) (pick 0 2) 1 0 *
        (mat2 (EnergyPA_2D_Jtr (pick 0 2) (fun i => if i % 4 = 0 ∨ i % 4 = 3 then (1 : ℚ) else 0) 0 0 1)).det : ℚ) := by
  have hL : (EnergyPA_2D (tmopKernels : TmopKernels ℚ) 0 0 4 (fun _ => 0) 1 false (fun _ => 3) 1
        (fun i => (i : ℚ) + 2) (1 : Int) 1 (fun i => if i % 4 = 0 ∨ i % 4 = 3 then (1 : ℚ) else 0) (fun _ => 1)
        (fun i => (i : ℚ) + 1) (fun i => 2 * (i : ℚ) - 1) (fun i => (i : ℚ) * (i + 1)) (fun _ => 1)
        (fun _ => 0) (fun _ => 0) 4 4 0 0 2 2).out.l_energy
        (idx3 (pick 0 2) (pick 0 2) 1 0 0) = 3 := by
    rw [EnergyPA_2D_ok (tmopKernels : TmopKernels ℚ) 0 0 4 (fun _ => 0) 1 false
      (fun _ => 3) 1 (fun i => (i : ℚ) + 2) (1 : Int) 1
      (fun i => if i % 4 = 0 ∨ i % 4 = 3 then (1 : ℚ) else 0) (fun _ => 1)
      (fun i => (i : ℚ) + 1) (fun i => 2 * (i : ℚ) - 1) (fun i => (i : ℚ) * (i + 1)) (fun _ => 1)
      (fun _ => 0) (fun _ => 0) 4 4 0 0 2 2 (by decide) (by decide) (by decide)]
    refine (EnergyPA_2D_loop_cell (tmopKernels : TmopKernels ℚ) 0 0 4 (fun _ => 0) 1 false
      (decide (1 = 1)) (fun _ => 3) (fun i => (i : ℚ) + 2) (1 : Int) 1
      (fun i => if i % 4 = 0 ∨ i % 4 = 3 then (1 : ℚ) else 0) (fun _ => 1)
      (fun i => (i : ℚ) + 1) (fun i => 2 * (i : ℚ) - 1) (fun i => (i : ℚ) * (i + 1)) 2 2
      ((fun _ => 0), (fun _ => 0))
      (by decide : 0 < 1) (by decide : 0 < pick 0 2) (by decide : 1 < pick 0 2)).2.trans ?_
    simp [EnergyPA_2D_weight, EnergyPA_2D_m_coef, EnergyPA_2D_Jtr, Reshape3, Reshape2, idx5,
      idx4, idx3, idx2, pick, tmopKernels, kernels_Det2]
  have hR : (1 * 1 * Reshape2 (fun _ => 1) (pick 0 2) (pick 0 2) 1 0 *
        (mat2 (EnergyPA_2D_Jtr (pick 0 2) (fun i => if i % 4 = 0 ∨ i % 4 = 3 then (1 : ℚ) else 0) 0 0 1)).det : ℚ) = 1 := by
    simp [EnergyPA_2D_Jtr, Reshape2, idx5, idx4, idx3, idx2, pick, mat2, Matrix.det_fin_two]
  refine ⟨by decide, hL, hR, ?_⟩
  rw [hL, hR]
  norm_num

/-- C18: for `Jpt` the 2x2 identity matrix and the 2D invariants `I1 = sum of the squared
entries`, `I2b = det(Jpt)`, `I1b = I1 / I2b`, metric 1 (`EvalW_001`) evaluates to `2`, the value
of `I1`, and metric 2 (`EvalW_002`) evaluates to `0`, in a field of characteristic zero. -/
theorem EvalW_identity [CharZero R] (K : TmopKernels R) (Jpt : Buf R)
    (hI1 : ∀ J, K.Get_I1 J = J 0 * J 0 + J 1 * J 1 + J 2 * J 2 + J 3 * J 3)
    (hI2b : ∀ J, K.Get_I2b J = (mat2 J).det)
    (hI1b : ∀ J, K.Get_I1b J = K.Get_I1 J / K.Get_I2b J)
    (hJ : mat2 Jpt = 1) :
    K.Get_I1 Jpt = 2 ∧ K.Get_I2b Jpt = 1 ∧ K.Get_I1b Jpt = 2 ∧
    EvalW_001 K Jpt = 2 ∧ EvalW_002 K Jpt = 0 := by
  have h0 : Jpt 0 = 1 := by
    have h := congrFun (congrFun hJ 0) 0
    simpa [mat2] using h
  have h1 : Jpt 1 = 0 := by
    have h := congrFun (congrFun hJ 1) 0
    simpa [mat2] using h
  have h2 : Jpt 2 = 0 := by
    have h := congrFun (congrFun hJ 0) 1
    simpa [mat2] using h
  have h3 : Jpt 3 = 1 := by
    have h := congrFun (congrFun hJ 1) 1
    simpa [mat2] using h
  have e1 : K.Get_I1 Jpt = 2 := by
    rw [hI1, h0, h1, h2, h3]
    norm_num
  have e2 : K.Get_I2b Jpt = 1 := by
    rw [hI2b, hJ, Matrix.det_one]
  have e3 : K.Get_I1b Jpt = 2 := by
    rw [hI1b, e1, e2, div_one]
  refine ⟨e1, e2, e3, e1, ?_⟩
  rw [EvalW_002, e3]
  norm_num

/-- C18 over the rationals with the modelled invariants. -/
theorem EvalW_identity_witness :
    (tmopKernels : TmopKernels ℚ).Get_I1 (fun i => if i = 0 ∨ i = 3 then 1 else 0) = 2 ∧
    (tmopKernels : TmopKernels ℚ).Get_I2b (fun i => if i = 0 ∨ i = 3 then 1 else 0) = 1 ∧
    (tmopKernels : TmopKernels ℚ).Get_I1b (fun i => if i = 0 ∨ i = 3 then 1 else 0) = 2 ∧
    EvalW_001 (tmopKernels : TmopKernels ℚ) (fun i => if i = 0 ∨ i = 3 then 1 else 0) = 2 ∧
    EvalW_002 (tmopKernels : TmopKernels ℚ) (fun i => if i = 0 ∨ i = 3 then 1 else 0) = 0 :=
  EvalW_identity (tmopKernels : TmopKernels ℚ) (fun i => if i = 0 ∨ i = 3 then 1 else 0)
    tmopKernels_exact.get_I1 tmopKernels_exact.get_I2b tmopKernels_exact.get_I1b (by
      ext i j
      fin_cases i <;> fin_cases j <;> simp [mat2])

/-- C22: in the generic instantiation (`T_D1D = 0`, respectively `T_Q1D = 0`) `EnergyPA_2D` ends
in a fatal error when `d1d > T_MAX`, respectively `q1d > T_MAX`, with `energy`, `l_energy`,
`metric_energy` and `lim_energy` exactly as passed in; in an instantiation specialised on `D1D`
and `Q1D` neither size check fails, and the call returns for every accepted `mid`. -/
theorem EnergyPA_2D_size_limits (K : TmopKernels R) (T_D1D T_Q1D T_MAX : Nat) (junk : Buf R)
    (metric_normal : R) (use_detA : Bool) (mc_ : Buf R) (mc_Size : Nat) (metric_param : Buf R)
    (mid : Int) (NE : Nat) (j_ w_ b_ g_ x_ ones energy l_energy : Buf R)
    (energy_Size l_energy_Size : Nat) (metric_energy lim_energy : R) (d1d q1d : Nat) :
    (T_D1D = 0 → T_MAX < d1d →
      (EnergyPA_2D K T_D1D T_Q1D T_MAX junk metric_normal use_detA mc_ mc_Size metric_param mid NE
        j_ w_ b_ g_ x_ ones energy l_energy energy_Size l_energy_Size metric_energy lim_energy d1d q1d).failed = true ∧
      (EnergyPA_2D K T_D1D T_Q1D T_MAX junk metric_normal use_detA mc_ mc_Size metric_param mid NE
        j_ w_ b_ g_ x_ ones energy l_energy energy_Size l_energy_Size metric_energy lim_energy d1d q1d).out = (⟨energy, l_energy, metric_energy, lim_energy⟩ : EnergyPA_2D_State R)) ∧
    (T_Q1D = 0 → T_MAX < q1d →
      (EnergyPA_2D K T_D1D T_Q1D T_MAX junk metric_normal use_detA mc_ mc_Size metric_param mid NE
        j_ w_ b_ g_ x_ ones energy l_energy energy_Size l_energy_Size metric_energy lim_energy d1d q1d).failed = true ∧
      (EnergyPA_2D K T_D1D T_Q1D T_MAX junk metric_normal use_detA mc_ mc_Size metric_param mid NE
        j_ w_ b_ g_ x_ ones energy l_energy energy_Size l_energy_Size metric_energy lim_energy d1d q1d).out = (⟨energy, l_energy, metric_energy, lim_energy⟩ : EnergyPA_2D_State R)) ∧
    (0 < T_D1D → 0 < T_Q1D →
      (∀ s, EnergyPA_2D K T_D1D T_Q1D T_MAX junk metric_normal use_detA mc_ mc_Size metric_param mid NE
        j_ w_ b_ g_ x_ ones energy l_energy energy_Size l_energy_Size metric_energy lim_energy d1d q1d ≠
        Outcome.fatal "D1D > T_MAX!" s) ∧
      (∀ s, EnergyPA_2D K T_D1D T_Q1D T_MAX junk metric_normal use_detA mc_ mc_Size metric_param mid NE
        j_ w_ b_ g_ x_ ones energy l_energy energy_Size l_energy_Size metric_energy lim_energy d1d q1d ≠
        Outcome.fatal "Q1D > T_MAX!" s) ∧
      ((mid = 1 ∨ mid = 2 ∨ mid = 7 ∨ mid = 56 ∨ mid = 77 ∨ mid = 80 ∨ mid = 94) →
        (EnergyPA_2D K T_D1D T_Q1D T_MAX junk metric_normal use_detA mc_ mc_Size metric_param mid NE
        j_ w_ b_ g_ x_ ones energy l_energy energy_Size l_energy_Size metric_energy lim_energy d1d q1d).failed = false)) := by
  refine ⟨?_, ?_, ?_⟩
  · intro hT hd
    subst hT
    by_cases hmid : mid = 1 ∨ mid = 2 ∨ mid = 7 ∨ mid = 56 ∨ mid = 77 ∨ mid = 80 ∨ mid = 94
    · rw [EnergyPA_2D_fatal_D1D _ _ _ _ _ _ _ _ _ _ _ _ _ _ _ _ _ _ _ _ _ _ _ _ _ _ hmid
        (by rw [pick_zero]; omega)]
      exact ⟨rfl, rfl⟩
    · rw [EnergyPA_2D_fatal_mid _ _ _ _ _ _ _ _ _ _ _ _ _ _ _ _ _ _ _ _ _ _ _ _ _ _ hmid]
      exact ⟨rfl, rfl⟩
  · intro hT hq
    subst hT
    by_cases hmid : mid = 1 ∨ mid = 2 ∨ mid = 7 ∨ mid = 56 ∨ mid = 77 ∨ mid = 80 ∨ mid = 94
    · by_cases hD : T_D1D > 0 ∨ pick T_D1D d1d ≤ T_MAX
      · rw [EnergyPA_2D_fatal_Q1D _ _ _ _ _ _ _ _ _ _ _ _ _ _ _ _ _ _ _ _ _ _ _ _ _ _ hmid hD
          (by rw [pick_zero]; omega)]
        exact ⟨rfl, rfl⟩
      · rw [EnergyPA_2D_fatal_D1D _ _ _ _ _ _ _ _ _ _ _ _ _ _ _ _ _ _ _ _ _ _ _ _ _ _ hmid hD]
        exact ⟨rfl, rfl⟩
    · rw [EnergyPA_2D_fatal_mid _ _ _ _ _ _ _ _ _ _ _ _ _ _ _ _ _ _ _ _ _ _ _ _ _ _ hmid]
      exact ⟨rfl, rfl⟩
  · intro hD hQ
    have hcase : (∃ s, EnergyPA_2D K T_D1D T_Q1D T_MAX junk metric_normal use_detA mc_ mc_Size metric_param mid NE
        j_ w_ b_ g_ x_ ones energy l_energy energy_Size l_energy_Size metric_energy lim_energy d1d q1d = Outcome.ok s) ∨
        EnergyPA_2D K T_D1D T_Q1D T_MAX junk metric_normal use_detA mc_ mc_Size metric_param mid NE
        j_ w_ b_ g_ x_ ones energy l_energy energy_Size l_energy_Size metric_energy lim_energy d1d q1d =
          Outcome.fatal "2D metric not yet implemented!"
            ⟨energy, l_energy, metric_energy, lim_energy⟩ := by
      by_cases hmid : mid = 1 ∨ mid = 2 ∨ mid = 7 ∨ mid = 56 ∨ mid = 77 ∨ mid = 80 ∨ mid = 94
      · exact Or.inl ⟨_, EnergyPA_2D_ok K T_D1D T_Q1D T_MAX junk metric_normal use_detA mc_ mc_Size metric_param mid NE j_ w_ b_ g_ x_ ones energy l_energy energy_Size l_energy_Size metric_energy lim_energy d1d q1d hmid (Or.inl hD) (Or.inl hQ)⟩
      · exact Or.inr (EnergyPA_2D_fatal_mid K T_D1D T_Q1D T_MAX junk metric_normal use_detA mc_ mc_Size metric_param mid NE j_ w_ b_ g_ x_ ones energy l_energy energy_Size l_energy_Size metric_energy lim_energy d1d q1d hmid)
    refine ⟨?_, ?_, ?_⟩
    · intro s
      rcases hcase with ⟨t, ht⟩ | ht <;> rw [ht] <;> simp
    · intro s
      rcases hcase with ⟨t, ht⟩ | ht <;> rw [ht] <;> simp
    · intro hmid
      rw [EnergyPA_2D_ok K T_D1D T_Q1D T_MAX junk metric_normal use_detA mc_ mc_Size metric_param mid NE j_ w_ b_ g_ x_ ones energy l_energy energy_Size l_energy_Size metric_energy lim_energy d1d q1d hmid (Or.inl hD) (Or.inl hQ)]
      rfl

/-- C22 over the rationals: the generic instantiation with `T_MAX = 4` and `d1d = 5`. -/
theorem EnergyPA_2D_size_limits_witness :
    (EnergyPA_2D (tmopKernels : TmopKernels ℚ) 0 0 4 (fun _ => 0) 2 true (fun i => (i : ℚ) + 1) 8 (fun i => (i : ℚ) + 2) (80 : Int) 2
        (fun i => (i : ℚ) * i + 1) (fun i => (i : ℚ) + 3) (fun i => (i : ℚ) + 1) (fun i => 2 * (i : ℚ) - 1) (fun i => (i : ℚ) * (i + 1)) (fun _ => 1) (fun _ => 0) (fun _ => 0) 8 8 0 0 5 2).failed = true ∧
    (EnergyPA_2D (tmopKernels : TmopKernels ℚ) 0 0 4 (fun _ => 0) 2 true (fun i => (i : ℚ) + 1) 8 (fun i => (i : ℚ) + 2) (80 : Int) 2
        (fun i => (i : ℚ) * i + 1) (fun i => (i : ℚ) + 3) (fun i => (i : ℚ) + 1) (fun i => 2 * (i : ℚ) - 1) (fun i => (i : ℚ) * (i + 1)) (fun _ => 1) (fun _ => 0) (fun _ => 0) 8 8 0 0 5 2).out = (⟨(fun _ => 0), (fun _ => 0), 0, 0⟩ : EnergyPA_2D_State ℚ) :=
  (EnergyPA_2D_size_limits (tmopKernels : TmopKernels ℚ) 0 0 4 (fun _ => 0) 2 true
    (fun i => (i : ℚ) + 1) 8 (fun i => (i : ℚ) + 2) (80 : Int) 2
    (fun i => (i : ℚ) * i + 1) (fun i => (i : ℚ) + 3) (fun i => (i : ℚ) + 1)
    (fun i => 2 * (i : ℚ) - 1) (fun i => (i : ℚ) * (i + 1)) (fun _ => 1) (fun _ => 0) (fun _ => 0) 8 8 0 0 5 2).1 rfl (by decide)

/-- C28: for every `Jpt` and weight array `w`, metric 80 is `w[0]*mu_2 + w[1]*mu_77` and metric
94 is `w[0]*mu_2 + w[1]*mu_56`; both are linear in the weights, with the weights `(1, 0)` they
are metric 2 and with the weights `(0, 1)` they are metric 77, respectively metric 56. -/
theorem EvalW_composite (K : TmopKernels R) (Jpt w w2 : Buf R) (a : R) :
    EvalW_080 K Jpt w = w 0 * EvalW_002 K Jpt + w 1 * EvalW_077 K Jpt ∧
    EvalW_094 K Jpt w = w 0 * EvalW_002 K Jpt + w 1 * EvalW_056 K Jpt ∧
    EvalW_080 K Jpt (fun i => a * w i + w2 i) =
      a * EvalW_080 K Jpt w + EvalW_080 K Jpt w2 ∧
    EvalW_094 K Jpt (fun i => a * w i + w2 i) =
      a * EvalW_094 K Jpt w + EvalW_094 K Jpt w2 ∧
    EvalW_080 K Jpt ((w.set 0 1).set 1 0) = EvalW_002 K Jpt ∧
    EvalW_094 K Jpt ((w.set 0 1).set 1 0) = EvalW_002 K Jpt ∧
    EvalW_080 K Jpt ((w.set 0 0).set 1 1) = EvalW_077 K Jpt ∧
    EvalW_094 K Jpt ((w.set 0 0).set 1 1) = EvalW_056 K Jpt := by
  refine ⟨rfl, rfl, ?_, ?_, ?_, ?_, ?_, ?_⟩
  · simp only [EvalW_080]
    ring
  · simp only [EvalW_094]
    ring
  · simp [EvalW_080, Buf.set]
  · simp [EvalW_094, Buf.set]
  · simp [EvalW_080, Buf.set]
  · simp [EvalW_094, Buf.set]

/-- Every cell of a three-dimensional view is the cell of an index triple. -/
theorem idx3_surj {n1 n2 n3 j : Nat} (h : j < n1 * n2 * n3) :
    ∃ i1 i2 i3, i1 < n1 ∧ i2 < n2 ∧ i3 < n3 ∧ j = idx3 n1 n2 i1 i2 i3 := by
  have h1 : 0 < n1 := by
    rcases Nat.eq_zero_or_pos n1 with h0 | h0
    · simp [h0] at h
    · exact h0
  have h2 : 0 < n2 := by
    rcases Nat.eq_zero_or_pos n2 with h0 | h0
    · simp [h0] at h
    · exact h0
  refine ⟨j % n1, j / n1 % n2, j / n1 / n2, Nat.mod_lt _ h1, Nat.mod_lt _ h2, ?_, ?_⟩
  · rw [Nat.div_div_eq_div_mul]
    exact Nat.div_lt_of_lt_mul h
  · simp only [idx3, idx2]
    rw [Nat.mod_add_div, Nat.mod_add_div]

/-- On the identity matrix the metrics 2, 7, 56, 77, 80 and 94 are zero. -/
theorem EvalW_zero_of_one [CharZero R] (K : TmopKernels R) (Jpt : Buf R)
    (hI1 : ∀ J, K.Get_I1 J = J 0 * J 0 + J 1 * J 1 + J 2 * J 2 + J 3 * J 3)
    (hI2b : ∀ J, K.Get_I2b J = (mat2 J).det)
    (hI1b : ∀ J, K.Get_I1b J = K.Get_I1 J / K.Get_I2b J)
    (hI2 : ∀ J, K.Get_I2 J = K.Get_I2b J * K.Get_I2b J)
    (hJ : mat2 Jpt = 1) :
    EvalW_002 K Jpt = 0 ∧ EvalW_007 K Jpt = 0 ∧ EvalW_056 K Jpt = 0 ∧ EvalW_077 K Jpt = 0 ∧
      (∀ w, EvalW_080 K Jpt w = 0) ∧ (∀ w, EvalW_094 K Jpt w = 0) := by
  have h0 : Jpt 0 = 1 := by
    have h := congrFun (congrFun hJ 0) 0
    simpa [mat2] using h
  have h1 : Jpt 1 = 0 := by
    have h := congrFun (congrFun hJ 1) 0
    simpa [mat2] using h
  have h2 : Jpt 2 = 0 := by
    have h := congrFun (congrFun hJ 0) 1
    simpa [mat2] using h
  have h3 : Jpt 3 = 1 := by
    have h := congrFun (congrFun hJ 1) 1
    simpa [mat2] using h
  have e1 : K.Get_I1 Jpt = 2 := by
    rw [hI1, h0, h1, h2, h3]
    norm_num
  have e2 : K.Get_I2b Jpt = 1 := by
    rw [hI2b, hJ, Matrix.det_one]
  have e3 : K.Get_I1b Jpt = 2 := by
    rw [hI1b, e1, e2, div_one]
  have e4 : K.Get_I2 Jpt = 1 := by
    rw [hI2, e2, mul_one]
  have m2 : EvalW_002 K Jpt = 0 := by
    rw [EvalW_002, e3]
    norm_num
  have m7 : EvalW_007 K Jpt = 0 := by
    rw [EvalW_007, e1, e4]
    norm_num
  have m56 : EvalW_056 K Jpt = 0 := by
    simp only [EvalW_056, e2]
    norm_num
  have m77 : EvalW_077 K Jpt = 0 := by
    simp only [EvalW_077, e2]
    norm_num
  refine ⟨m2, m7, m56, m77, fun w => ?_, fun w => ?_⟩
  · rw [EvalW_080, m2, m77]
    simp
  · rw [EvalW_094, m2, m56]
    simp

theorem EnergyPA_2D_Jpr_unit_square_0 :
    EnergyPA_2D_Jpr (tmopKernels : TmopKernels ℚ) 0 0 2 (fun _ => 0)
      (fun i => if i = 0 then (1 : ℚ) else 0) (fun i => if i = 0 then (-1 : ℚ) else 1)
      (fun i => if i = 1 ∨ i = 3 ∨ i = 6 ∨ i = 7 then (1 : ℚ) else 0) 2 1 0 0 0 0 = 1 := by
  simp [EnergyPA_2D_Jpr, EnergyPA_2D_QQ, tmopKernels, pick, Buf.set, Reshape2, Reshape4, idx2,
    idx3, idx4, Finset.sum_range_succ]

theorem EnergyPA_2D_Jpr_unit_square_1 :
    EnergyPA_2D_Jpr (tmopKernels : TmopKernels ℚ) 0 0 2 (fun _ => 0)
      (fun i => if i = 0 then (1 : ℚ) else 0) (fun i => if i = 0 then (-1 : ℚ) else 1)
      (fun i => if i = 1 ∨ i = 3 ∨ i = 6 ∨ i = 7 then (1 : ℚ) else 0) 2 1 0 0 0 1 = 0 := by
  simp [EnergyPA_2D_Jpr, EnergyPA_2D_QQ, tmopKernels, pick, Buf.set, Reshape2, Reshape4, idx2,
    idx3, idx4, Finset.sum_range_succ]

theorem EnergyPA_2D_Jpr_unit_square_2 :
    EnergyPA_2D_Jpr (tmopKernels : TmopKernels ℚ) 0 0 2 (fun _ => 0)
      (fun i => if i = 0 then (1 : ℚ) else 0) (fun i => if i = 0 then (-1 : ℚ) else 1)
      (fun i => if i = 1 ∨ i = 3 ∨ i = 6 ∨ i = 7 then (1 : ℚ) else 0) 2 1 0 0 0 2 = 0 := by
  simp [EnergyPA_2D_Jpr, EnergyPA_2D_QQ, tmopKernels, pick, Buf.set, Reshape2, Reshape4, idx2,
    idx3, idx4, Finset.sum_range_succ]

theorem EnergyPA_2D_Jpr_unit_square_3 :
    EnergyPA_2D_Jpr (tmopKernels : TmopKernels ℚ) 0 0 2 (fun _ => 0)
      (fun i => if i = 0 then (1 : ℚ) else 0) (fun i => if i = 0 then (-1 : ℚ) else 1)
      (fun i => if i = 1 ∨ i = 3 ∨ i = 6 ∨ i = 7 then (1 : ℚ) else 0) 2 1 0 0 0 3 = 1 := by
  simp [EnergyPA_2D_Jpr, EnergyPA_2D_QQ, tmopKernels, pick, Buf.set, Reshape2, Reshape4, idx2,
    idx3, idx4, Finset.sum_range_succ]

/-- One element with `D1D = 2`, `Q1D = 1`, the nodes of the unit square, `B = (1, 0)`,
`G = (-1, 1)` and the identity as target matrix: `Jpt` is the identity at the only point. -/
theorem EnergyPA_2D_Jpt_unit_square :
    mat2 (EnergyPA_2D_Jpt (tmopKernels : TmopKernels ℚ) 0 0 2 (fun _ => 0)
      (fun i => if i = 0 ∨ i = 3 then (1 : ℚ) else 0) (fun i => if i = 0 then (1 : ℚ) else 0)
      (fun i => if i = 0 then (-1 : ℚ) else 1)
      (fun i => if i = 1 ∨ i = 3 ∨ i = 6 ∨ i = 7 then (1 : ℚ) else 0) 2 1 0 0 0) = 1 := by
  have hJtr : mat2 (EnergyPA_2D_Jtr (pick 0 1)
      (fun i => if i = 0 ∨ i = 3 then (1 : ℚ) else 0) 0 0 0) = 1 := by
    ext i j
    fin_cases i <;> fin_cases j <;> simp [mat2, EnergyPA_2D_Jtr, idx5, idx4, idx3, idx2]
  have hJpr : mat2 (EnergyPA_2D_Jpr (tmopKernels : TmopKernels ℚ) 0 0 2 (fun _ => 0)
      (fun i => if i = 0 then (1 : ℚ) else 0) (fun i => if i = 0 then (-1 : ℚ) else 1)
      (fun i => if i = 1 ∨ i = 3 ∨ i = 6 ∨ i = 7 then (1 : ℚ) else 0) 2 1 0 0 0) = 1 := by
    ext i j
    fin_cases i <;> fin_cases j
    · simpa [mat2] using EnergyPA_2D_Jpr_unit_square_0
    · simpa [mat2] using EnergyPA_2D_Jpr_unit_square_2
    · simpa [mat2] using EnergyPA_2D_Jpr_unit_square_1
    · simpa [mat2] using EnergyPA_2D_Jpr_unit_square_3
  unfold EnergyPA_2D_Jpt
  rw [tmopKernels_exact.mult, tmopKernels_exact.calcInverse, hJtr, hJpr]
  simp

/-- C31: with the 2D invariants `I1 = sum of the squared entries`, `I2b = det`, `I1b = I1 / I2b`,
`I2 = I2b^2`, in a field of characteristic zero: for `Jpt` the 2x2 identity `EvalW_007`,
`EvalW_056` and `EvalW_077` are `0`, and `EvalW_080` and `EvalW_094` are `0` for every weight
array; and when `Jpt` is the identity at every point of every element, `EnergyPA_2D` called with
`mid` in 2, 7, 56, 77, 80, 94 and sizes that pass the checks returns with every entry
`E(qx,qy,e)` of `energy`, that is every entry below `Q1D * Q1D * NE`, equal to `0`. -/
theorem EnergyPA_2D_identity_energy [CharZero R] (K : TmopKernels R) (T_D1D T_Q1D T_MAX : Nat)
    (junk : Buf R) (metric_normal : R) (use_detA : Bool) (mc_ : Buf R) (mc_Size : Nat)
    (metric_param : Buf R) (mid : Int) (NE : Nat) (j_ w_ b_ g_ x_ ones energy l_energy : Buf R)
    (energy_Size l_energy_Size : Nat) (metric_energy lim_energy : R) (d1d q1d : Nat)
    (Jpt w : Buf R)
    (hI1 : ∀ J, K.Get_I1 J = J 0 * J 0 + J 1 * J 1 + J 2 * J 2 + J 3 * J 3)
    (hI2b : ∀ J, K.Get_I2b J = (mat2 J).det)
    (hI1b : ∀ J, K.Get_I1b J = K.Get_I1 J / K.Get_I2b J)
    (hI2 : ∀ J, K.Get_I2 J = K.Get_I2b J * K.Get_I2b J)
    (hJ : mat2 Jpt = 1)
    (hmid : mid = 2 ∨ mid = 7 ∨ mid = 56 ∨ mid = 77 ∨ mid = 80 ∨ mid = 94)
    (hD : T_D1D > 0 ∨ pick T_D1D d1d ≤ T_MAX) (hQ : T_Q1D > 0 ∨ pick T_Q1D q1d ≤ T_MAX)
    (hJpt : ∀ e qy qx, e < NE → qy < pick T_Q1D q1d → qx < pick T_Q1D q1d →
      mat2 (EnergyPA_2D_Jpt K T_D1D T_Q1D T_MAX junk j_ b_ g_ x_ d1d q1d e qy qx) = 1) :
    EvalW_007 K Jpt = 0 ∧ EvalW_056 K Jpt = 0 ∧ EvalW_077 K Jpt = 0 ∧
    EvalW_080 K Jpt w = 0 ∧ EvalW_094 K Jpt w = 0 ∧
    (EnergyPA_2D K T_D1D T_Q1D T_MAX junk metric_normal use_detA mc_ mc_Size metric_param mid NE
        j_ w_ b_ g_ x_ ones energy l_energy energy_Size l_energy_Size metric_energy lim_energy
        d1d q1d).failed = false ∧
    (∀ e qy qx, e < NE → qy < pick T_Q1D q1d → qx < pick T_Q1D q1d →
      (EnergyPA_2D K T_D1D T_Q1D T_MAX junk metric_normal use_detA mc_ mc_Size metric_param mid NE
          j_ w_ b_ g_ x_ ones energy l_energy energy_Size l_energy_Size metric_energy lim_energy
          d1d q1d).out.energy
          (idx3 (pick T_Q1D q1d) (pick T_Q1D q1d) qx qy e) = 0) ∧
    (∀ j, j < pick T_Q1D q1d * (pick T_Q1D q1d) * NE →
      (EnergyPA_2D K T_D1D T_Q1D T_MAX junk metric_normal use_detA mc_ mc_Size metric_param mid NE
          j_ w_ b_ g_ x_ ones energy l_energy energy_Size l_energy_Size metric_energy lim_energy
          d1d q1d).out.energy j = 0) := by
  obtain ⟨_, m7, m56, m77, m80, m94⟩ := EvalW_zero_of_one K Jpt hI1 hI2b hI1b hI2 hJ
  have hmid1 : mid = 1 ∨ mid = 2 ∨ mid = 7 ∨ mid = 56 ∨ mid = 77 ∨ mid = 80 ∨ mid = 94 :=
    Or.inr hmid
  have hok := EnergyPA_2D_ok K T_D1D T_Q1D T_MAX junk metric_normal use_detA mc_ mc_Size
    metric_param mid NE j_ w_ b_ g_ x_ ones energy l_energy energy_Size l_energy_Size
    metric_energy lim_energy d1d q1d hmid1 hD hQ
  have hcell : ∀ e qy qx, e < NE → qy < pick T_Q1D q1d → qx < pick T_Q1D q1d →
      (EnergyPA_2D K T_D1D T_Q1D T_MAX junk metric_normal use_detA mc_ mc_Size metric_param mid NE
          j_ w_ b_ g_ x_ ones energy l_energy energy_Size l_energy_Size metric_energy lim_energy
          d1d q1d).out.energy
          (idx3 (pick T_Q1D q1d) (pick T_Q1D q1d) qx qy e) = 0 := by
    intro e qy qx he hqy hqx
    obtain ⟨z2, z7, z56, z77, z80, z94⟩ := EvalW_zero_of_one K _ hI1 hI2b hI1b hI2
      (hJpt e qy qx he hqy hqx)
    rw [hok]
    refine ((EnergyPA_2D_loop_cell K T_D1D T_Q1D T_MAX junk metric_normal use_detA
      (decide (mc_Size = 1)) mc_ metric_param mid NE j_ w_ b_ g_ x_ d1d q1d (energy, l_energy)
      he hqy hqx).1).trans ?_
    have hz : EnergyPA_2D_EvalW K mid metric_param
        (EnergyPA_2D_Jpt K T_D1D T_Q1D T_MAX junk j_ b_ g_ x_ d1d q1d e qy qx) = 0 := by
      rcases hmid with h | h | h | h | h | h <;> subst h
      · exact z2
      · exact z7
      · exact z56
      · exact z77
      · exact z80 metric_param
      · exact z94 metric_param
    rw [hz, mul_zero]
  refine ⟨m7, m56, m77, m80 w, m94 w, ?_, hcell, ?_⟩
  · rw [hok]
    rfl
  · intro j hj
    obtain ⟨qx, qy, e, hqx, hqy, he, rfl⟩ := idx3_surj hj
    exact hcell e qy qx he hqy hqx

/-- C31 over the rationals with the modelled helpers: one element with `D1D = 2`, `Q1D = 1`,
the nodes of the unit square, `B = (1, 0)`, `G = (-1, 1)` and the identity as target matrix, so
that `Jpr`, `Jtr` and `Jpt` are the identity at the only point; `mid = 80`. -/
theorem EnergyPA_2D_identity_energy_witness :
    EvalW_007 (tmopKernels : TmopKernels ℚ) (fun i => if i = 0 ∨ i = 3 then (1 : ℚ) else 0) = 0 ∧ EvalW_056 (tmopKernels : TmopKernels ℚ) (fun i => if i = 0 ∨ i = 3 then (1 : ℚ) else 0) = 0 ∧ EvalW_077 (tmopKernels : TmopKernels ℚ) (fun i => if i = 0 ∨ i = 3 then (1 : ℚ) else 0) = 0 ∧
    EvalW_080 (tmopKernels : TmopKernels ℚ) (fun i => if i = 0 ∨ i = 3 then (1 : ℚ) else 0) (fun i => (i : ℚ) + 2) = 0 ∧ EvalW_094 (tmopKernels : TmopKernels ℚ) (fun i => if i = 0 ∨ i = 3 then (1 : ℚ) else 0) (fun i => (i : ℚ) + 2) = 0 ∧
    (EnergyPA_2D (tmopKernels : TmopKernels ℚ) 0 0 2 (fun _ => 0) 2 false (fun _ => 3) 1 (fun i => (i : ℚ) + 2) (80 : Int) 1
        (fun i => if i = 0 ∨ i = 3 then (1 : ℚ) else 0) (fun _ => 5) (fun i => if i = 0 then (1 : ℚ) else 0) (fun i => if i = 0 then (-1 : ℚ) else 1) (fun i => if i = 1 ∨ i = 3 ∨ i = 6 ∨ i = 7 then (1 : ℚ) else 0) (fun _ => 1) (fun _ => 9) (fun _ => 9) 1 1 0 0
        2 1).failed = false ∧
    (∀ e qy qx, e < 1 → qy < pick 0 1 → qx < pick 0 1 →
      (EnergyPA_2D (tmopKernels : TmopKernels ℚ) 0 0 2 (fun _ => 0) 2 false (fun _ => 3) 1 (fun i => (i : ℚ) + 2) (80 : Int) 1
          (fun i => if i = 0 ∨ i = 3 then (1 : ℚ) else 0) (fun _ => 5) (fun i => if i = 0 then (1 : ℚ) else 0) (fun i => if i = 0 then (-1 : ℚ) else 1) (fun i => if i = 1 ∨ i = 3 ∨ i = 6 ∨ i = 7 then (1 : ℚ) else 0) (fun _ => 1) (fun _ => 9) (fun _ => 9) 1 1 0 0
          2 1).out.energy
          (idx3 (pick 0 1) (pick 0 1) qx qy e) = 0) ∧
    (∀ j, j < pick 0 1 * (pick 0 1) * 1 →
      (EnergyPA_2D (tmopKernels : TmopKernels ℚ) 0 0 2 (fun _ => 0) 2 false (fun _ => 3) 1 (fun i => (i : ℚ) + 2) (80 : Int) 1
          (fun i => if i = 0 ∨ i = 3 then (1 : ℚ) else 0) (fun _ => 5) (fun i => if i = 0 then (1 : ℚ) else 0) (fun i => if i = 0 then (-1 : ℚ) else 1) (fun i => if i = 1 ∨ i = 3 ∨ i = 6 ∨ i = 7 then (1 : ℚ) else 0) (fun _ => 1) (fun _ => 9) (fun _ => 9) 1 1 0 0
          2 1).out.energy j = 0) :=
  EnergyPA_2D_identity_energy (tmopKernels : TmopKernels ℚ) 0 0 2 (fun _ => 0) 2 false (fun _ => 3) 1
    (fun i => (i : ℚ) + 2) (80 : Int) 1 (fun i => if i = 0 ∨ i = 3 then (1 : ℚ) else 0)
    (fun _ => 5) (fun i => if i = 0 then (1 : ℚ) else 0) (fun i => if i = 0 then (-1 : ℚ) else 1)
    (fun i => if i = 1 ∨ i = 3 ∨ i = 6 ∨ i = 7 then (1 : ℚ) else 0) (fun _ => 1) (fun _ => 9)
    (fun _ => 9) 1 1 0 0 2 1 (fun i => if i = 0 ∨ i = 3 then (1 : ℚ) else 0)
    (fun i => (i : ℚ) + 2)
    tmopKernels_exact.get_I1 tmopKernels_exact.get_I2b tmopKernels_exact.get_I1b
    tmopKernels_exact.get_I2
    (by
      ext i j
      fin_cases i <;> fin_cases j <;> simp [mat2])
    (by decide) (by decide) (by decide)
    (by
      intro e qy qx he hqy hqx
      have he0 : e = 0 := by omega
      have hqy0 : qy = 0 := by
        simp [pick] at hqy
        exact hqy
      have hqx0 : qx = 0 := by
        simp [pick] at hqx
        exact hqx
      subst he0 hqy0 hqx0
      exact EnergyPA_2D_Jpt_unit_square)

end TmopClaims

/-! ## The claims about the sign of the TMOP metrics -/

section TmopOrderedClaims

variable {R : Type u} [LinearOrderedField R]

/-- The determinant of the matrix held by a buffer. -/
theorem mat2_det (J : Buf R) : (mat2 J).det = J 0 * J 3 - J 2 * J 1 := by
  simp [mat2, Matrix.det_fin_two]

/-- C29: with `I2b = det(Jpt)`, for every `Jpt` with `det(Jpt) > 0`,
`EvalW_056(Jpt) = (det - 1)^2 / (2 * det) >= 0` and `EvalW_077(Jpt) = 0.5 * (det - 1/det)^2 >= 0`,
and each of them is `0` if and only if `det(Jpt) = 1`. -/
theorem EvalW_determinant_barrier (K : TmopKernels R) (Jpt : Buf R)
    (hI2b : ∀ J, K.Get_I2b J = (mat2 J).det) (hdet : 0 < (mat2 Jpt).det) :
    EvalW_056 K Jpt = ((mat2 Jpt).det - 1) ^ 2 / (2 * (mat2 Jpt).det) ∧
    0 ≤ EvalW_056 K Jpt ∧
    EvalW_077 K Jpt = 0.5 * ((mat2 Jpt).det - 1 / (mat2 Jpt).det) ^ 2 ∧
    0 ≤ EvalW_077 K Jpt ∧
    (EvalW_056 K Jpt = 0 ↔ (mat2 Jpt).det = 1) ∧
    (EvalW_077 K Jpt = 0 ↔ (mat2 Jpt).det = 1) := by
  have hne : (mat2 Jpt).det ≠ 0 := ne_of_gt hdet
  have h56 : EvalW_056 K Jpt = ((mat2 Jpt).det - 1) ^ 2 / (2 * (mat2 Jpt).det) := by
    simp only [EvalW_056, hI2b]
    field_simp
    ring
  have h77 : EvalW_077 K Jpt = 0.5 * ((mat2 Jpt).det - 1 / (mat2 Jpt).det) ^ 2 := by
    simp only [EvalW_077, hI2b]
    field_simp
    ring
  refine ⟨h56, ?_, h77, ?_, ?_, ?_⟩
  · rw [h56]
    positivity
  · rw [h77]
    positivity
  · rw [h56, div_eq_zero_iff]
    constructor
    · rintro (h | h)
      · exact sub_eq_zero.mp (pow_eq_zero_iff (by decide) |>.mp h)
      · exact absurd h (mul_ne_zero two_ne_zero hne)
    · intro h
      left
      rw [h, sub_self]
      exact zero_pow (by decide)
  · rw [h77]
    constructor
    · intro h
      have h2 : (mat2 Jpt).det - 1 / (mat2 Jpt).det = 0 := by
        rcases mul_eq_zero.mp h with h | h
        · norm_num at h
        · exact pow_eq_zero_iff (by decide) |>.mp h
      have h3 : (mat2 Jpt).det * (mat2 Jpt).det = 1 := by
        field_simp at h2
        linarith
      nlinarith
    · intro h
      rw [h]
      norm_num

/-- C29 over the rationals with the modelled invariants, at `Jpt = [[2, 0], [0, 1]]`. -/
theorem EvalW_determinant_barrier_witness :
    EvalW_056 (tmopKernels : TmopKernels ℚ) (fun i => if i = 0 then 2 else if i = 3 then 1 else 0) =
      ((mat2 (fun i => if i = 0 then 2 else if i = 3 then 1 else 0 : Buf ℚ)).det - 1) ^ 2 /
        (2 * (mat2 (fun i => if i = 0 then 2 else if i = 3 then 1 else 0 : Buf ℚ)).det) ∧
    0 ≤ EvalW_056 (tmopKernels : TmopKernels ℚ) (fun i => if i = 0 then 2 else if i = 3 then 1 else 0) ∧
    EvalW_077 (tmopKernels : TmopKernels ℚ) (fun i => if i = 0 then 2 else if i = 3 then 1 else 0) =
      0.5 * ((mat2 (fun i => if i = 0 then 2 else if i = 3 then 1 else 0 : Buf ℚ)).det -
        1 / (mat2 (fun i => if i = 0 then 2 else if i = 3 then 1 else 0 : Buf ℚ)).det) ^ 2 ∧
    0 ≤ EvalW_077 (tmopKernels : TmopKernels ℚ) (fun i => if i = 0 then 2 else if i = 3 then 1 else 0) ∧
    (EvalW_056 (tmopKernels : TmopKernels ℚ) (fun i => if i = 0 then 2 else if i = 3 then 1 else 0) = 0 ↔
      (mat2 (fun i => if i = 0 then 2 else if i = 3 then 1 else 0 : Buf ℚ)).det = 1) ∧
    (EvalW_077 (tmopKernels : TmopKernels ℚ) (fun i => if i = 0 then 2 else if i = 3 then 1 else 0) = 0 ↔
      (mat2 (fun i => if i = 0 then 2 else if i = 3 then 1 else 0 : Buf ℚ)).det = 1) :=
  EvalW_determinant_barrier (tmopKernels : TmopKernels ℚ)
    (fun i => if i = 0 then 2 else if i = 3 then 1 else 0) tmopKernels_exact.get_I2b
    (by simp [mat2, Matrix.det_fin_two])

/-- C30: with `I1 = sum of the squared entries` and `I1b = I1 / det(Jpt)`, for every `Jpt` with
`det(Jpt) > 0`, `EvalW_002(Jpt) = 0.5 * I1 / det - 1 >= 0`, it is `0` exactly when
`Jpt[0][0] = Jpt[1][1]` and `Jpt[0][1] = -Jpt[1][0]` (a positive multiple of a rotation), and
`EvalW_002(s * Jpt) = EvalW_002(Jpt)` for every scalar `s != 0`. -/
theorem EvalW_002_shape_metric (K : TmopKernels R) (Jpt : Buf R) (s : R)
    (hI1 : ∀ J, K.Get_I1 J = J 0 * J 0 + J 1 * J 1 + J 2 * J 2 + J 3 * J 3)
    (hI1b : ∀ J, K.Get_I1b J = K.Get_I1 J / (mat2 J).det)
    (hdet : 0 < (mat2 Jpt).det) (hs : s ≠ 0) :
    EvalW_002 K Jpt = 0.5 * K.Get_I1 Jpt / (mat2 Jpt).det - 1 ∧
    0 ≤ EvalW_002 K Jpt ∧
    (EvalW_002 K Jpt = 0 ↔
      mat2 Jpt 0 0 = mat2 Jpt 1 1 ∧ mat2 Jpt 0 1 = -mat2 Jpt 1 0) ∧
    EvalW_002 K (fun k => s * Jpt k) = EvalW_002 K Jpt := by
  have hd := mat2_det Jpt
  have hpos : 0 < Jpt 0 * Jpt 3 - Jpt 2 * Jpt 1 := hd ▸ hdet
  have hform : EvalW_002 K Jpt =
      ((Jpt 0 - Jpt 3) ^ 2 + (Jpt 2 + Jpt 1) ^ 2) / (2 * (Jpt 0 * Jpt 3 - Jpt 2 * Jpt 1)) := by
    simp only [EvalW_002, hI1b, hI1, hd]
    field_simp
    ring
  refine ⟨?_, ?_, ?_, ?_⟩
  · simp only [EvalW_002, hI1b]
    norm_num
    ring
  · rw [hform]
    positivity
  · rw [hform, div_eq_zero_iff]
    have hm : mat2 Jpt 0 0 = Jpt 0 ∧ mat2 Jpt 1 1 = Jpt 3 ∧ mat2 Jpt 0 1 = Jpt 2 ∧
        mat2 Jpt 1 0 = Jpt 1 := by
      simp [mat2]
    rw [hm.1, hm.2.1, hm.2.2.1, hm.2.2.2]
    constructor
    · rintro (h | h)
      · have n1 := sq_nonneg (Jpt 0 - Jpt 3)
        have n2 := sq_nonneg (Jpt 2 + Jpt 1)
        have h1 : (Jpt 0 - Jpt 3) ^ 2 = 0 := by linarith
        have h2 : (Jpt 2 + Jpt 1) ^ 2 = 0 := by linarith
        exact ⟨sub_eq_zero.mp (pow_eq_zero_iff (by decide) |>.mp h1),
          eq_neg_of_add_eq_zero_left (pow_eq_zero_iff (by decide) |>.mp h2)⟩
      · exact absurd h (mul_ne_zero two_ne_zero (ne_of_gt hpos))
    · rintro ⟨h1, h2⟩
      left
      rw [h1, h2]
      ring
  · have hds : (mat2 (fun k => s * Jpt k)).det = s * s * (mat2 Jpt).det := by
      rw [mat2_det, mat2_det]
      ring
    simp only [EvalW_002, hI1b, hI1, hds]
    field_simp
    ring

/-- C30 over the rationals with the modelled invariants, at `Jpt = [[2, 1], [0, 1]]` and
`s = -3`. -/
theorem EvalW_002_shape_metric_witness :
    EvalW_002 (tmopKernels : TmopKernels ℚ) (fun i => if i = 1 then 0 else if i = 0 then 2 else 1) =
      0.5 * (tmopKernels : TmopKernels ℚ).Get_I1
          (fun i => if i = 1 then 0 else if i = 0 then 2 else 1) /
        (mat2 (fun i => if i = 1 then 0 else if i = 0 then 2 else 1 : Buf ℚ)).det - 1 ∧
    0 ≤ EvalW_002 (tmopKernels : TmopKernels ℚ)
      (fun i => if i = 1 then 0 else if i = 0 then 2 else 1) ∧
    (EvalW_002 (tmopKernels : TmopKernels ℚ)
        (fun i => if i = 1 then 0 else if i = 0 then 2 else 1) = 0 ↔
      mat2 (fun i => if i = 1 then 0 else if i = 0 then 2 else 1 : Buf ℚ) 0 0 =
          mat2 (fun i => if i = 1 then 0 else if i = 0 then 2 else 1 : Buf ℚ) 1 1 ∧
        mat2 (fun i => if i = 1 then 0 else if i = 0 then 2 else 1 : Buf ℚ) 0 1 =
          -mat2 (fun i => if i = 1 then 0 else if i = 0 then 2 else 1 : Buf ℚ) 1 0) ∧
    EvalW_002 (tmopKernels : TmopKernels ℚ)
        (fun k => (-3) * (fun i => if i = 1 then 0 else if i = 0 then 2 else 1 : Buf ℚ) k) =
      EvalW_002 (tmopKernels : TmopKernels ℚ)
        (fun i => if i = 1 then 0 else if i = 0 then 2 else 1) :=
  EvalW_002_shape_metric (tmopKernels : TmopKernels ℚ)
    (fun i => if i = 1 then 0 else if i = 0 then 2 else 1) (-3)
    tmopKernels_exact.get_I1
    (fun J => by rw [tmopKernels_exact.get_I1b, tmopKernels_exact.get_I2b])
    (by simp [mat2, Matrix.det_fin_two]) (by norm_num)

end TmopOrderedClaims

/-! ## The dispatch key of the energy kernel and the element types -/

section KeyClaims

theorem int32_inj {p q : Nat} (hp : p < 2 ^ 32) (hq : q < 2 ^ 32) (h : int32 p = int32 q) :
    p = q := by
  unfold int32 at h
  rw [Nat.mod_eq_of_lt hp, Nat.mod_eq_of_lt hq] at h
  norm_num at hp hq
  split_ifs at h <;> omega

theorem shiftLeft_four_or {D1D Q1D : Nat} (hQ : Q1D < 16) :
    D1D <<< 4 ||| Q1D = 16 * D1D + Q1D := by
  have h := Nat.mul_add_lt_is_or (i := 4) (b := Q1D) (by norm_num; exact hQ) D1D
  rw [Nat.shiftLeft_eq, Nat.mul_comm]
  norm_num at h ⊢
  exact h.symm

/-- On integers without a width the key `(D1D << 4) | Q1D` identifies the pair, for
`Q1D < 16`. -/
theorem shiftOrKey_inj {D1D D1D2 Q1D Q1D2 : Nat} (hQ : Q1D < 16) (hQ2 : Q1D2 < 16)
    (h : shiftOrKey D1D Q1D = shiftOrKey D1D2 Q1D2) : D1D = D1D2 ∧ Q1D = Q1D2 := by
  unfold shiftOrKey at h
  rw [shiftLeft_four_or hQ, shiftLeft_four_or hQ2] at h
  omega

theorem GetLocalStateEnergyPA_2D_id_eq {D1D Q1D : Nat} (hD : D1D < 2 ^ 28) (hQ : Q1D < 16) :
    GetLocalStateEnergyPA_2D_id D1D Q1D = int32 (16 * D1D + Q1D) := by
  unfold GetLocalStateEnergyPA_2D_id
  have h1 : D1D <<< 4 < 2 ^ 32 := by
    rw [Nat.shiftLeft_eq]
    norm_num at hD ⊢
    omega
  rw [Nat.mod_eq_of_lt h1, shiftLeft_four_or hQ]

/-- C33, amended: for `int`s `0 <= D1D, D1D' < 2^28` (no bit of `D1D` is shifted out of the 32
bits) and `0 <= Q1D, Q1D' < 16`, equal keys `(D1D << 4) | Q1D = (D1D' << 4) | Q1D'` imply
`D1D = D1D'` and `Q1D = Q1D'`. -/
theorem GetLocalStateEnergyPA_2D_id_injective (D1D D1D2 Q1D Q1D2 : Nat)
    (hD : D1D < 2 ^ 28) (hD2 : D1D2 < 2 ^ 28) (hQ : Q1D < 16) (hQ2 : Q1D2 < 16)
    (h : GetLocalStateEnergyPA_2D_id D1D Q1D = GetLocalStateEnergyPA_2D_id D1D2 Q1D2) :
    D1D = D1D2 ∧ Q1D = Q1D2 := by
  rw [GetLocalStateEnergyPA_2D_id_eq hD hQ, GetLocalStateEnergyPA_2D_id_eq hD2 hQ2] at h
  have hp : 16 * D1D + Q1D < 2 ^ 32 := by
    norm_num at hD ⊢
    omega
  have hq : 16 * D1D2 + Q1D2 < 2 ^ 32 := by
    norm_num at hD2 ⊢
    omega
  have := int32_inj hp hq h
  omega

/-- C33, amended, at the pairs `(3, 4)` and `(3, 4)`, whose key is `0x34 = 52`. -/
theorem GetLocalStateEnergyPA_2D_id_injective_witness :
    GetLocalStateEnergyPA_2D_id 3 4 = 52 ∧ (3 : Nat) = 3 ∧ (4 : Nat) = 4 :=
  ⟨by decide, GetLocalStateEnergyPA_2D_id_injective 3 3 4 4 (by norm_num) (by norm_num)
    (by norm_num) (by norm_num) rfl⟩

/-- C33 as stated fails on the 32-bit `int` of the code: `D1D = 2^28 = 268435456` and `D1D = 0`
with `Q1D = 0` have the same key `0`, because `2^28 << 4 = 2^32` has no bit left in 32 bits. -/
theorem GetLocalStateEnergyPA_2D_id_counterexample :
    GetLocalStateEnergyPA_2D_id 268435456 0 = 0 ∧ GetLocalStateEnergyPA_2D_id 0 0 = 0 ∧
    GetLocalStateEnergyPA_2D_id 268435456 0 = GetLocalStateEnergyPA_2D_id 0 0 ∧
    (0 : Nat) < 16 ∧ (268435456 : Nat) ≠ 0 := by
  refine ⟨?_, ?_, ?_, ?_, ?_⟩ <;> decide

/-- C34: `Element::TypeFromGeometry` returns `POINT`, `SEGMENT`, `TRIANGLE`, `QUADRILATERAL`,
`TETRAHEDRON`, `HEXAHEDRON`, `WEDGE`, `PYRAMID` for the geometries `POINT`, `SEGMENT`,
`TRIANGLE`, `SQUARE`, `TETRAHEDRON`, `CUBE`, `PRISM`, `PYRAMID`; two geometries for which it
returns the same element type are equal; and for every geometry value that is none of the eight
it ends in the fatal error `"Unknown geometry type."` and returns no type. -/
theorem Element_TypeFromGeometry_injective :
    (Element_TypeFromGeometry Geometry_Type.POINT = Except.ok Element_Type.POINT ∧
      Element_TypeFromGeometry Geometry_Type.SEGMENT = Except.ok Element_Type.SEGMENT ∧
      Element_TypeFromGeometry Geometry_Type.TRIANGLE = Except.ok Element_Type.TRIANGLE ∧
      Element_TypeFromGeometry Geometry_Type.SQUARE = Except.ok Element_Type.QUADRILATERAL ∧
      Element_TypeFromGeometry Geometry_Type.TETRAHEDRON = Except.ok Element_Type.TETRAHEDRON ∧
      Element_TypeFromGeometry Geometry_Type.CUBE = Except.ok Element_Type.HEXAHEDRON ∧
      Element_TypeFromGeometry Geometry_Type.PRISM = Except.ok Element_Type.WEDGE ∧
      Element_TypeFromGeometry Geometry_Type.PYRAMID = Except.ok Element_Type.PYRAMID) ∧
    (∀ g1 g2 t, Element_TypeFromGeometry g1 = Except.ok t →
      Element_TypeFromGeometry g2 = Except.ok t → g1 = g2) ∧
    (∀ g, g ≠ Geometry_Type.POINT → g ≠ Geometry_Type.SEGMENT → g ≠ Geometry_Type.TRIANGLE →
      g ≠ Geometry_Type.SQUARE → g ≠ Geometry_Type.TETRAHEDRON → g ≠ Geometry_Type.CUBE →
      g ≠ Geometry_Type.PRISM → g ≠ Geometry_Type.PYRAMID →
      Element_TypeFromGeometry g = Except.error "Unknown geometry type.") ∧
    (∀ g t, Element_TypeFromGeometry g = Except.ok t → g ≠ Geometry_Type.other) := by
  refine ⟨⟨rfl, rfl, rfl, rfl, rfl, rfl, rfl, rfl⟩, ?_, ?_, ?_⟩
  · intro g1 g2 t h1 h2
    have h := h1.trans h2.symm
    cases g1 <;> cases g2 <;>
      first
        | rfl
        | (exfalso
           simp [Element_TypeFromGeometry] at h)
  · intro g h1 h2 h3 h4 h5 h6 h7 h8
    cases g <;> simp_all [Element_TypeFromGeometry]
  · intro g t h hg
    subst hg
    simp [Element_TypeFromGeometry] at h

end KeyClaims

end Mfem
